import Mathlib

/-!
# Rx filter calibration of the LMS7002M driver

A shallow embedding of `src/LMS7002M_rx_filter_cal.c` and a verification of
its behaviour.

Conventions of the embedding.

* The C `int` values are `Int`, without wrap-around: the model is that of the
  code where no `int` operation overflows.  The operations that can overflow
  are the sum `reg_max + 1` of `rx_cal_loop_inner`, at `reg_max = INT_MAX`
  (see `int32`), and the casts and the product `2*cfb_tia_rfe` of
  `rx_cal_tia_rfe`, at bandwidths below 6 Hz (see `caps_of_tier`).  C integer
  division truncates toward zero: `Int.tdiv`.
* The C `double` values are the rationals `x` with `toDouble x = x`.  The
  `double` operations whose result is cast to `int` (the seeds and the search
  targets) are rounded with `toDouble`, and the cast `(int)x` is truncation
  toward zero (`ftoi`).  Comparisons and the halving `rfbw / 2` are exact in
  binary floating point.  The quotient `bw/10e6 - 3` of the high-band range
  code and the frequencies handed to the functions of the chip are taken
  exactly.
* The device structure `LMS7002M_t` carries the two per-channel copies of
  the register map (`_regs`), the index of the copy that `LMS7002M_regs(self)`
  designates (`regs`), the clock fields the file reads, and an arbitrary
  `chip` component that stands for everything else (the remaining fields
  and the hardware behind the bus).
* The functions that the file calls but does not define are collected in the
  structure `Ext`; they are arbitrary functions of the device structure.
* Every call of such a function is recorded, in program order, in the
  `trace` of the run state `Run`; the functions of `Ext` cannot touch the
  trace.
-/

namespace LMS7002M

/-! ## Data model -/

/-- The channel selector `LMS7002M_chan_t`. -/
inductive LMS7002M_chan_t where
  | LMS_CHA
  | LMS_CHB
  deriving DecidableEq, Repr

/-- The direction selector `LMS7002M_dir_t`. -/
inductive LMS7002M_dir_t where
  | LMS_TX
  | LMS_RX
  deriving DecidableEq, Repr

/-- The two receive baseband filter paths the dispatcher chooses from. -/
inductive LMS7002M_path_t where
  | LMS7002M_RBB_LBF
  | LMS7002M_RBB_HBF
  deriving DecidableEq, Repr

/-- The logger levels used by the file. -/
inductive LMS7_log_level_t where
  | LMS7_FATAL
  | LMS7_ERROR
  | LMS7_DEBUG
  deriving DecidableEq, Repr

/-- The result of one search, `cal_result_t`. -/
inductive cal_result_t where
  | CAL_OK
  | CAL_LOW
  | CAL_HIGH
  deriving DecidableEq, Repr

/-- The fields of the register map `LMS7002M_regs_t`: the ones the file names,
and `other` for every field it does not name. -/
inductive Field where
  | reg_0x0084_rp_calib_bias
  | reg_0x0100_en_nexttx_trf
  | reg_0x0101_l_loopb_txpad_trf
  | reg_0x0101_en_loopb_txpad_trf
  | reg_0x0103_sel_band1_trf
  | reg_0x0103_sel_band2_trf
  | reg_0x0108_cg_iamp_tbb
  | reg_0x0108_ict_iamp_frp_tbb
  | reg_0x0108_ict_iamp_gg_frp_tbb
  | reg_0x010c_pd_rloopb_2_rfe
  | reg_0x010c_pd_mxlobuf_rfe
  | reg_0x010c_pd_qgen_rfe
  | reg_0x010d_sel_path_rfe
  | reg_0x010d_en_inshsw_lb2_rfe
  | reg_0x010d_en_inshsw_lb1_rfe
  | reg_0x010d_en_inshsw_l_rfe
  | reg_0x010d_en_inshsw_w_rfe
  | reg_0x010d_en_nextrx_rfe
  | reg_0x010f_ict_tiamain_rfe
  | reg_0x010f_ict_tiaout_rfe
  | reg_0x0112_cfb_tia_rfe
  | reg_0x0112_ccomp_tia_rfe
  | reg_0x0113_g_tia_rfe
  | reg_0x0113_g_rxloopb_rfe
  | reg_0x0114_rcomp_tia_rfe
  | reg_0x0114_rfb_tia_rfe
  | reg_0x0115_pd_lpfl_rbb
  | reg_0x0115_pd_lpfh_rbb
  | reg_0x0116_r_ctl_lpf_rbb
  | reg_0x0116_rcc_ctl_lpfh_rbb
  | reg_0x0116_c_ctl_lpfh_rbb
  | reg_0x0117_rcc_ctl_lpfl_rbb
  | reg_0x0117_c_ctl_lpfl_rbb
  | reg_0x0118_input_ctl_pga_rbb
  | reg_0x0119_ict_pga_out_rbb
  | reg_0x0119_ict_pga_in_rbb
  | reg_0x011a_c_ctl_pga_rbb
  | reg_0x0200_tsgmode
  | reg_0x0200_insel
  | reg_0x0208_cmix_byp
  | reg_0x0208_gfir3_byp
  | reg_0x0208_gfir2_byp
  | reg_0x0208_gfir1_byp
  | reg_0x040a_agc_mode
  | reg_0x040a_agc_avg
  | reg_0x040c_gfir3_byp
  | reg_0x040c_gfir2_byp
  | reg_0x040c_gfir1_byp
  | reg_0x040c_cmix_gain
  | other (addr : Nat) (index : Nat)
  deriving DecidableEq, Repr

/-- One copy of the register map: a value for every field. -/
abbrev LMS7002M_regs_t := Field → Int

/-- The device structure `LMS7002M_t`, as far as the file reads or writes it;
`chip` is the rest of the structure together with the hardware. -/
structure LMS7002M_t (σ : Type) where
  _regs : Fin 2 → LMS7002M_regs_t
  regs : Fin 2
  cgen_fref : ℚ
  sxr_fref : ℚ
  sxt_fref : ℚ
  cgen_freq : ℚ
  sxt_freq : ℚ
  chip : σ

/-- The functions the file calls and does not define. -/
structure Ext (σ : Type) where
  set_mac_ch : LMS7002M_t σ → LMS7002M_chan_t → LMS7002M_t σ
  regs_spi_write : LMS7002M_t σ → Nat → LMS7002M_t σ
  regs_to_rfic : LMS7002M_t σ → LMS7002M_t σ
  cal_read_rssi : LMS7002M_t σ → LMS7002M_chan_t → Int × LMS7002M_t σ
  cal_gain_selection : LMS7002M_t σ → LMS7002M_chan_t → Int → Int × LMS7002M_t σ
  cal_setup_cgen : LMS7002M_t σ → ℚ → Int × LMS7002M_t σ
  set_lo_freq : LMS7002M_t σ → LMS7002M_dir_t → ℚ → ℚ → Int × LMS7002M_t σ
  sxx_enable : LMS7002M_t σ → LMS7002M_dir_t → Bool → LMS7002M_t σ
  sxt_to_sxr : LMS7002M_t σ → Bool → LMS7002M_t σ
  rxtsp_set_freq : LMS7002M_t σ → LMS7002M_chan_t → ℚ → LMS7002M_t σ
  txtsp_tsg_const : LMS7002M_t σ → LMS7002M_chan_t → Int → Int → LMS7002M_t σ
  afe_enable : LMS7002M_t σ → LMS7002M_dir_t → LMS7002M_chan_t → Bool → LMS7002M_t σ
  set_addrs_to_default : LMS7002M_t σ → LMS7002M_chan_t → Nat → Nat → LMS7002M_t σ
  rbb_set_path : LMS7002M_t σ → LMS7002M_chan_t → LMS7002M_path_t → LMS7002M_t σ

/-- The messages the file hands to the logger, one per call site. -/
inductive LogMsg where
  /-- Format `"LMS7002M_set_lo_freq(LMS_RX, %f MHz)"`. -/
  | set_lo_freq_rx
  /-- Format `"RSSI: [%c] %d -- %d (range %d) (val: %d)"`. -/
  | rssi_step
  /-- Format `"RSSI: %d -- %d [%d %d] <= %d"`. -/
  | rssi_done
  /-- Format `"%s = %d"`. -/
  | reg_value
  /-- Format `"%s R: %d"`. -/
  | r_value
  /-- Format `"LMS7002M_set_lo_freq(LMS_TX, %f MHz)"`. -/
  | set_lo_freq_tx
  /-- Format `"g_tia_rfe must be [1, 2, or 3], got %d"`. -/
  | g_tia_rfe_invalid
  /-- Format `"LPFH bandwidth not in range[20 to 130 MHz]"`. -/
  | lpfh_not_in_range
  /-- Format `"LPFH ini %d C=%d"`. -/
  | lpfh_ini
  /-- Format `"cgen_fref not initialized"`. -/
  | cgen_fref_missing
  /-- Format `"sxr_fref not initialized"`. -/
  | sxr_fref_missing
  /-- Format `"sxt_fref not initialized"`. -/
  | sxt_fref_missing
  /-- Format `"cal_setup_cgen() faled"`. -/
  | cal_setup_cgen_failed
  /-- Format `"rx_cal_init() failed"`. -/
  | rx_cal_init_failed
  /-- Format `"rx_cal_tia_rfe() failed"`. -/
  | rx_cal_tia_rfe_failed
  /-- Format `"rx_cal_rbb_lpf() failed"`. -/
  | rx_cal_rbb_lpf_failed
  deriving DecidableEq, Repr

/-- One call of a function of `Ext` or of the logger, with the arguments that
identify it; `regs_spi_write` records the device structure it was handed, so
the value it put on the bus can be read off. -/
inductive Event (σ : Type) where
  | set_mac_ch (channel : LMS7002M_chan_t)
  | regs_spi_write (self : LMS7002M_t σ) (addr : Nat)
  | regs_to_rfic (self : LMS7002M_t σ)
  | cal_read_rssi (channel : LMS7002M_chan_t) (rssi : Int)
  | cal_gain_selection (channel : LMS7002M_chan_t) (level : Int) (rssi : Int)
  | cal_setup_cgen (bw : ℚ) (status : Int)
  | set_lo_freq (dir : LMS7002M_dir_t) (fref : ℚ) (freq : ℚ) (status : Int)
  | sxx_enable (dir : LMS7002M_dir_t) (enable : Bool)
  | sxt_to_sxr (enable : Bool)
  | rxtsp_set_freq (channel : LMS7002M_chan_t) (freqRel : ℚ)
  | txtsp_tsg_const (channel : LMS7002M_chan_t) (valI : Int) (valQ : Int)
  | afe_enable (dir : LMS7002M_dir_t) (channel : LMS7002M_chan_t) (enable : Bool)
  | set_addrs_to_default (channel : LMS7002M_chan_t) (start : Nat) (stop : Nat)
  | rbb_set_path (channel : LMS7002M_chan_t) (path : LMS7002M_path_t)
  | logf (level : LMS7_log_level_t) (msg : LogMsg) (args : List Int)

/-- The state of a run: the device structure and the calls made so far. -/
structure Run (σ : Type) where
  self : LMS7002M_t σ
  trace : List (Event σ)

/-- A pointer to one field of one copy of the register map, such as
`&LMS7002M_regs(self)->reg_0x0112_cfb_tia_rfe`. -/
structure RegPtr where
  copy : Fin 2
  field : Field
  deriving DecidableEq

variable {σ : Type}

/-! ## Register access -/

/-- `LMS7002M_regs(self)`: the copy of the register map currently selected. -/
def LMS7002M_regs (self : LMS7002M_t σ) : LMS7002M_regs_t :=
  self._regs self.regs

/-- Reading `*p` in the device structure. -/
def LMS7002M_t.load (self : LMS7002M_t σ) (p : RegPtr) : Int :=
  self._regs p.copy p.field

/-- Writing `*p = v` in the device structure. -/
def LMS7002M_t.store (self : LMS7002M_t σ) (p : RegPtr) (v : Int) : LMS7002M_t σ :=
  { self with
    _regs := Function.update self._regs p.copy (Function.update (self._regs p.copy) p.field v) }

/-- `&LMS7002M_regs(self)->f`. -/
def Run.addr (s : Run σ) (f : Field) : RegPtr :=
  ⟨s.self.regs, f⟩

/-- Reading `*p`. -/
def Run.load (s : Run σ) (p : RegPtr) : Int :=
  s.self.load p

/-- Writing `*p = v`. -/
def Run.store (s : Run σ) (p : RegPtr) (v : Int) : Run σ :=
  { s with self := s.self.store p v }

/-- Reading `LMS7002M_regs(self)->f`. -/
def Run.get (s : Run σ) (f : Field) : Int :=
  LMS7002M_regs s.self f

/-- Writing `LMS7002M_regs(self)->f = v`. -/
def Run.set (s : Run σ) (f : Field) (v : Int) : Run σ :=
  s.store (s.addr f) v

/-- The cast `(int)x` of a `double`: truncation toward zero.  The C cast is
defined when the truncated value fits the `int`; the model leaves the result
unbounded. -/
def ftoi (x : ℚ) : Int :=
  Int.tdiv x.num x.den

/-- Rounding to the nearest integer, ties to the even one. -/
def roundEven (x : ℚ) : Int :=
  if x - ⌊x⌋ < 1 / 2 then ⌊x⌋
  else if 1 / 2 < x - ⌊x⌋ then ⌊x⌋ + 1
  else if ⌊x⌋ % 2 = 0 then ⌊x⌋ else ⌊x⌋ + 1

/-- The `double` that an arithmetic operation or a literal with the exact value
`x` yields (IEEE 754 binary64, rounding to nearest, ties to even): `x` rounded
to 53 significant bits.  The exponent is not bounded, so that overflow and
subnormal numbers are not modelled; neither occurs for the values of this
file.  A `double` is a rational `x` with `toDouble x = x`: the results of
`/`, `-` and `*` on `double`s are `toDouble` of the exact results, and the
decimal literals `0.7071` and `1.26` are `toDouble (7071 / 10000)` and
`toDouble (126 / 100)`. -/
def toDouble (x : ℚ) : ℚ :=
  if x = 0 then 0
  else roundEven (x / 2 ^ (Int.log 2 |x| - 52)) * 2 ^ (Int.log 2 |x| - 52)

/-- The value of an `int` expression with the exact value `x` on a machine
whose `int` has 32 bits and wraps around (two's complement). -/
def int32 (x : Int) : Int :=
  (x + 2 ^ 31) % 2 ^ 32 - 2 ^ 31

/-! ## Calls of the functions the file does not define -/

def LMS7002M_set_mac_ch (E : Ext σ) (s : Run σ) (channel : LMS7002M_chan_t) : Run σ :=
  { self := E.set_mac_ch s.self channel, trace := s.trace ++ [Event.set_mac_ch channel] }

def LMS7002M_regs_spi_write (E : Ext σ) (s : Run σ) (addr : Nat) : Run σ :=
  { self := E.regs_spi_write s.self addr,
    trace := s.trace ++ [Event.regs_spi_write s.self addr] }

def LMS7002M_regs_to_rfic (E : Ext σ) (s : Run σ) : Run σ :=
  { self := E.regs_to_rfic s.self, trace := s.trace ++ [Event.regs_to_rfic s.self] }

def cal_read_rssi (E : Ext σ) (s : Run σ) (channel : LMS7002M_chan_t) : Int × Run σ :=
  ((E.cal_read_rssi s.self channel).1,
   { self := (E.cal_read_rssi s.self channel).2,
     trace := s.trace ++ [Event.cal_read_rssi channel (E.cal_read_rssi s.self channel).1] })

def cal_gain_selection (E : Ext σ) (s : Run σ) (channel : LMS7002M_chan_t) (level : Int) :
    Int × Run σ :=
  ((E.cal_gain_selection s.self channel level).1,
   { self := (E.cal_gain_selection s.self channel level).2,
     trace := s.trace ++
       [Event.cal_gain_selection channel level (E.cal_gain_selection s.self channel level).1] })

def cal_setup_cgen (E : Ext σ) (s : Run σ) (bw : ℚ) : Int × Run σ :=
  ((E.cal_setup_cgen s.self bw).1,
   { self := (E.cal_setup_cgen s.self bw).2,
     trace := s.trace ++ [Event.cal_setup_cgen bw (E.cal_setup_cgen s.self bw).1] })

/-- The call `LMS7002M_set_lo_freq(self, dir, fref, fout, factual)`; the file
never reads what is stored through `factual`, so it is left out. -/
def LMS7002M_set_lo_freq (E : Ext σ) (s : Run σ) (dir : LMS7002M_dir_t) (fref fout : ℚ) :
    Int × Run σ :=
  ((E.set_lo_freq s.self dir fref fout).1,
   { self := (E.set_lo_freq s.self dir fref fout).2,
     trace := s.trace ++
       [Event.set_lo_freq dir fref fout (E.set_lo_freq s.self dir fref fout).1] })

def LMS7002M_sxx_enable (E : Ext σ) (s : Run σ) (dir : LMS7002M_dir_t) (enable : Bool) :
    Run σ :=
  { self := E.sxx_enable s.self dir enable, trace := s.trace ++ [Event.sxx_enable dir enable] }

def LMS7002M_sxt_to_sxr (E : Ext σ) (s : Run σ) (enable : Bool) : Run σ :=
  { self := E.sxt_to_sxr s.self enable, trace := s.trace ++ [Event.sxt_to_sxr enable] }

def LMS7002M_rxtsp_set_freq (E : Ext σ) (s : Run σ) (channel : LMS7002M_chan_t)
    (freqRel : ℚ) : Run σ :=
  { self := E.rxtsp_set_freq s.self channel freqRel,
    trace := s.trace ++ [Event.rxtsp_set_freq channel freqRel] }

def LMS7002M_txtsp_tsg_const (E : Ext σ) (s : Run σ) (channel : LMS7002M_chan_t)
    (valI valQ : Int) : Run σ :=
  { self := E.txtsp_tsg_const s.self channel valI valQ,
    trace := s.trace ++ [Event.txtsp_tsg_const channel valI valQ] }

def LMS7002M_afe_enable (E : Ext σ) (s : Run σ) (dir : LMS7002M_dir_t)
    (channel : LMS7002M_chan_t) (enable : Bool) : Run σ :=
  { self := E.afe_enable s.self dir channel enable,
    trace := s.trace ++ [Event.afe_enable dir channel enable] }

def set_addrs_to_default (E : Ext σ) (s : Run σ) (channel : LMS7002M_chan_t)
    (start stop : Nat) : Run σ :=
  { self := E.set_addrs_to_default s.self channel start stop,
    trace := s.trace ++ [Event.set_addrs_to_default channel start stop] }

def LMS7002M_rbb_set_path (E : Ext σ) (s : Run σ) (channel : LMS7002M_chan_t)
    (path : LMS7002M_path_t) : Run σ :=
  { self := E.rbb_set_path s.self channel path,
    trace := s.trace ++ [Event.rbb_set_path channel path] }

/-- The logger: it records the message and changes nothing else. -/
def LMS7_logf (s : Run σ) (level : LMS7_log_level_t) (msg : LogMsg) (args : List Int) :
    Run σ :=
  { s with trace := s.trace ++ [Event.logf level msg args] }

/-! ## The search engine -/

/-- The tone set-up `setup_rx_cal_tone`. -/
def setup_rx_cal_tone (E : Ext σ) (s : Run σ) (channel : LMS7002M_chan_t)
    (bw sxr_extra_off : ℚ) : Int × Run σ :=
  let s := LMS7002M_sxx_enable E s LMS7002M_dir_t.LMS_RX true
  let s := LMS7002M_sxt_to_sxr E s false
  let s := LMS7002M_set_mac_ch E s channel
  let sxr_freq := s.self.sxt_freq - bw - sxr_extra_off
  let r := LMS7002M_set_lo_freq E s LMS7002M_dir_t.LMS_RX s.self.sxr_fref sxr_freq
  let s := LMS7002M_set_mac_ch E r.2 channel
  if r.1 ≠ 0 then
    (r.1, LMS7_logf s LMS7_log_level_t.LMS7_ERROR LogMsg.set_lo_freq_rx [])
  else
    let rxtsp_rate := s.self.cgen_freq / 4
    let rx_nco_freq := bw
    (r.1, LMS7002M_rxtsp_set_freq E s channel (rx_nco_freq / rxtsp_rate))

/-- The variables that one pass of the `do ... while` of `rx_cal_loop_inner`
reads and writes. -/
structure SearchVars (σ : Type) where
  s : Run σ
  rssi_value : Int
  best_lo : Int
  best_hi : Int
  range : Int

/-- One pass through the body of the `do ... while` of `rx_cal_loop_inner`
(lines 69 to 93). -/
def rx_cal_loop_inner.body (E : Ext σ) (channel : LMS7002M_chan_t) (reg_ptr : RegPtr)
    (reg_addr : Nat) (reg_max : Int) (desired_rssi_value : Int) (v : SearchVars σ) :
    SearchVars σ :=
  let s := LMS7002M_regs_spi_write E v.s reg_addr
  let r := cal_read_rssi E s channel
  let rssi_value := r.1
  let s := LMS7_logf r.2 LMS7_log_level_t.LMS7_FATAL LogMsg.rssi_step
    [desired_rssi_value, rssi_value, v.range, r.2.load reg_ptr]
  let best_lo := if rssi_value < desired_rssi_value then s.load reg_ptr else v.best_lo
  let best_hi := if rssi_value < desired_rssi_value then v.best_hi else s.load reg_ptr
  let s :=
    if rssi_value < desired_rssi_value then
      s.store reg_ptr (s.load reg_ptr - Int.tdiv v.range 2)
    else
      s.store reg_ptr (s.load reg_ptr + Int.tdiv v.range 2)
  let s :=
    if s.load reg_ptr < 0 then s.store reg_ptr 0
    else if s.load reg_ptr > reg_max then s.store reg_ptr reg_max
    else s
  { s := s, rssi_value := rssi_value, best_lo := best_lo, best_hi := best_hi,
    range := Int.tdiv v.range 2 }

/-- The `do ... while (range != 0)` of `rx_cal_loop_inner`. -/
def rx_cal_loop_inner.do_while (E : Ext σ) (channel : LMS7002M_chan_t) (reg_ptr : RegPtr)
    (reg_addr : Nat) (reg_max : Int) (desired_rssi_value : Int) (v : SearchVars σ) :
    SearchVars σ :=
  if Int.tdiv v.range 2 ≠ 0 then
    rx_cal_loop_inner.do_while E channel reg_ptr reg_addr reg_max desired_rssi_value
      (rx_cal_loop_inner.body E channel reg_ptr reg_addr reg_max desired_rssi_value v)
  else
    rx_cal_loop_inner.body E channel reg_ptr reg_addr reg_max desired_rssi_value v
termination_by v.range.natAbs
decreasing_by
  show (Int.tdiv v.range 2).natAbs < v.range.natAbs
  rw [Int.natAbs_tdiv]
  have h0 : v.range ≠ 0 := by
    intro h
    simp_all
  have h1 : 0 < v.range.natAbs := Int.natAbs_pos.mpr h0
  exact Nat.div_lt_self h1 (by decide)

set_option linter.unusedVariables false in
/-- The search engine `rx_cal_loop_inner`.  The C local `rssi_value` is not
initialised before the loop, whose first pass assigns it; `reg_name` is only
handed to the logger and is given as the field whose name the C string
spells.  The sum `reg_max + 1` of line 64 is an `int` sum in C: it is the sum
of the model for `reg_max < INT_MAX` (see `int32_succ`) and overflows at
`reg_max = INT_MAX`. -/
def rx_cal_loop_inner (E : Ext σ) (s : Run σ) (channel : LMS7002M_chan_t) (reg_ptr : RegPtr)
    (reg_addr : Nat) (reg_max : Int) (reg_name : Field) (desired_rssi_value : Int) :
    cal_result_t × Run σ :=
  let range := Int.tdiv (reg_max + 1) 2
  let initial := s.load reg_ptr
  let s := s.store reg_ptr range
  let v := rx_cal_loop_inner.do_while E channel reg_ptr reg_addr reg_max desired_rssi_value
    { s := s, rssi_value := 0, best_lo := -1, best_hi := -1, range := range }
  let s := LMS7_logf v.s LMS7_log_level_t.LMS7_FATAL LogMsg.rssi_done
    [desired_rssi_value, v.rssi_value, v.best_lo, v.best_hi, initial]
  let s := LMS7_logf s LMS7_log_level_t.LMS7_DEBUG LogMsg.reg_value [s.load reg_ptr]
  if v.best_lo = -1 then (cal_result_t.CAL_LOW, s)
  else if v.best_hi = -1 then (cal_result_t.CAL_HIGH, s)
  else (cal_result_t.CAL_OK, s)

/-- The end of a retry of `rx_cal_loop` (lines 141 to 151), after the
coupled resistor trim has been adjusted: clamp it, write it, log it. -/
def rx_cal_loop.commit (E : Ext σ) (s : Run σ) : Run σ :=
  let s :=
    if s.get Field.reg_0x0116_r_ctl_lpf_rbb < 0 then s.set Field.reg_0x0116_r_ctl_lpf_rbb 0
    else if s.get Field.reg_0x0116_r_ctl_lpf_rbb > 31 then
      s.set Field.reg_0x0116_r_ctl_lpf_rbb 31
    else s
  let s := LMS7002M_regs_spi_write E s 0x0116
  LMS7_logf s LMS7_log_level_t.LMS7_ERROR LogMsg.r_value [s.get Field.reg_0x0116_r_ctl_lpf_rbb]

set_option linter.unusedVariables false in
/-- The `for (;;)` of `rx_cal_loop` (lines 122 to 152); `r_range` is the C
`unsigned`.  The last `else` of the C text answers a result that is none of
the three enumerators, which `cal_result_t` does not have. -/
def rx_cal_loop.for_ever (E : Ext σ) (channel : LMS7002M_chan_t) (reg_ptr : RegPtr)
    (reg_addr : Nat) (reg_max : Int) (reg_name : Field) (desired_rssi_value : Int)
    (s : Run σ) (r_range : Nat) : Int × Run σ :=
  let r := rx_cal_loop_inner E s channel reg_ptr reg_addr reg_max reg_name desired_rssi_value
  match r.1 with
  | cal_result_t.CAL_OK => (0, r.2)
  | cal_result_t.CAL_LOW =>
    if h : r.2.get Field.reg_0x0116_r_ctl_lpf_rbb = 0 ∨ r_range = 0 then (-1, r.2)
    else
      rx_cal_loop.for_ever E channel reg_ptr reg_addr reg_max reg_name desired_rssi_value
        (rx_cal_loop.commit E (r.2.set Field.reg_0x0116_r_ctl_lpf_rbb
          (r.2.get Field.reg_0x0116_r_ctl_lpf_rbb - r_range)))
        (r_range / 2)
  | cal_result_t.CAL_HIGH =>
    if h : r.2.get Field.reg_0x0116_r_ctl_lpf_rbb = 31 ∨ r_range = 0 then (-1, r.2)
    else
      rx_cal_loop.for_ever E channel reg_ptr reg_addr reg_max reg_name desired_rssi_value
        (rx_cal_loop.commit E (r.2.set Field.reg_0x0116_r_ctl_lpf_rbb
          (r.2.get Field.reg_0x0116_r_ctl_lpf_rbb + r_range)))
        (r_range / 2)
termination_by r_range
decreasing_by
  all_goals exact Nat.div_lt_self (Nat.pos_of_ne_zero (fun h0 => h (Or.inr h0))) (by decide)

/-- The outer loop `rx_cal_loop`. -/
def rx_cal_loop (E : Ext σ) (s : Run σ) (channel : LMS7002M_chan_t) (bw : ℚ)
    (reg_ptr : RegPtr) (reg_addr : Nat) (reg_max : Int) (reg_name : Field)
    (desired_rssi_value : Int) : Int × Run σ :=
  let s := LMS7002M_set_mac_ch E s channel
  let r := setup_rx_cal_tone E s channel bw 50000
  if r.1 ≠ 0 then (-1, r.2)
  else
    rx_cal_loop.for_ever E channel reg_ptr reg_addr reg_max reg_name desired_rssi_value r.2 8

/-! ## The stage initialiser and the stage calibrators -/

/-- The logger entry `LMS7_log`, for a message without arguments. -/
def LMS7_log (s : Run σ) (level : LMS7_log_level_t) (msg : LogMsg) : Run σ :=
  LMS7_logf s level msg []

/-- The stage initialiser `rx_cal_init`. -/
def rx_cal_init (E : Ext σ) (s : Run σ) (channel : LMS7002M_chan_t) : Int × Run σ :=
  let s := LMS7002M_set_mac_ch E s channel
  let g_tia_rfe_user := s.get Field.reg_0x0113_g_tia_rfe
  -- rfe
  let s := set_addrs_to_default E s channel 0x010C 0x0114
  let s := s.set Field.reg_0x010d_sel_path_rfe 2
  let s := s.set Field.reg_0x0113_g_rxloopb_rfe 8
  let s := s.set Field.reg_0x010c_pd_rloopb_2_rfe 0
  let s := s.set Field.reg_0x010d_en_inshsw_lb2_rfe 0
  let s := s.set Field.reg_0x010d_en_inshsw_lb1_rfe 1
  let s := s.set Field.reg_0x010d_en_inshsw_l_rfe 1
  let s := s.set Field.reg_0x010d_en_inshsw_w_rfe 1
  let s := s.set Field.reg_0x010c_pd_mxlobuf_rfe 0
  let s := s.set Field.reg_0x010c_pd_qgen_rfe 0
  let s := s.set Field.reg_0x010f_ict_tiamain_rfe 2
  let s := s.set Field.reg_0x010f_ict_tiaout_rfe 2
  let s := s.set Field.reg_0x0114_rfb_tia_rfe 16
  let s := s.set Field.reg_0x0113_g_tia_rfe g_tia_rfe_user
  let s := LMS7002M_regs_spi_write E s 0x0113
  let s := LMS7002M_regs_spi_write E s 0x0114
  let s := LMS7002M_regs_spi_write E s 0x010c
  let s := LMS7002M_regs_spi_write E s 0x010d
  let s := LMS7002M_regs_spi_write E s 0x010f
  -- rbb
  let s := set_addrs_to_default E s channel 0x0115 0x011B
  let s := s.set Field.reg_0x0119_ict_pga_out_rbb 20
  let s := s.set Field.reg_0x0119_ict_pga_in_rbb 20
  let s := s.set Field.reg_0x011a_c_ctl_pga_rbb 3
  let s := LMS7002M_regs_spi_write E s 0x0119
  let s := LMS7002M_regs_spi_write E s 0x011a
  -- trf
  let s := set_addrs_to_default E s channel 0x0100 0x0104
  let s := s.set Field.reg_0x0101_l_loopb_txpad_trf 0
  let s := s.set Field.reg_0x0101_en_loopb_txpad_trf 1
  let s := s.set Field.reg_0x0103_sel_band1_trf 0
  let s := s.set Field.reg_0x0103_sel_band2_trf 1
  let s := LMS7002M_regs_spi_write E s 0x0100
  let s := LMS7002M_regs_spi_write E s 0x0101
  let s := LMS7002M_regs_spi_write E s 0x0103
  -- tbb
  let s := set_addrs_to_default E s channel 0x0105 0x010B
  let s := s.set Field.reg_0x0108_cg_iamp_tbb 1
  let s := s.set Field.reg_0x0108_ict_iamp_frp_tbb 1
  let s := s.set Field.reg_0x0108_ict_iamp_gg_frp_tbb 6
  let s := LMS7002M_regs_spi_write E s 0x0108
  -- rfe and trf nextrx: must write to chA
  let s := LMS7002M_set_mac_ch E s LMS7002M_chan_t.LMS_CHA
  let s := s.set Field.reg_0x010d_en_nextrx_rfe
    (if channel = LMS7002M_chan_t.LMS_CHA then 0 else 1)
  let s := s.set Field.reg_0x0100_en_nexttx_trf
    (if channel = LMS7002M_chan_t.LMS_CHA then 0 else 1)
  let s := LMS7002M_regs_spi_write E s 0x010d
  let s := LMS7002M_regs_spi_write E s 0x0100
  let s := LMS7002M_set_mac_ch E s channel
  -- afe
  let s := LMS7002M_afe_enable E s LMS7002M_dir_t.LMS_RX channel true
  let s := LMS7002M_afe_enable E s LMS7002M_dir_t.LMS_TX channel true
  let s := LMS7002M_set_mac_ch E s channel
  -- bias: must write to chA
  let s := LMS7002M_set_mac_ch E s LMS7002M_chan_t.LMS_CHA
  let rp_calib_bias := s.get Field.reg_0x0084_rp_calib_bias
  let s := set_addrs_to_default E s channel 0x0083 0x0084
  let s := s.set Field.reg_0x0084_rp_calib_bias rp_calib_bias
  let s := LMS7002M_set_mac_ch E s channel
  -- sxt
  let sxt_freq : ℚ := 550000000
  let r := LMS7002M_set_lo_freq E s LMS7002M_dir_t.LMS_TX s.self.sxt_fref sxt_freq
  let s := LMS7002M_set_mac_ch E r.2 channel
  if r.1 ≠ 0 then
    (r.1, LMS7_logf s LMS7_log_level_t.LMS7_ERROR LogMsg.set_lo_freq_tx [])
  else
    -- TxTSP
    let s := set_addrs_to_default E s channel 0x0200 0x020c
    let s := s.set Field.reg_0x0200_tsgmode 1
    let s := s.set Field.reg_0x0200_insel 1
    let s := s.set Field.reg_0x0208_cmix_byp 1
    let s := s.set Field.reg_0x0208_gfir3_byp 1
    let s := s.set Field.reg_0x0208_gfir2_byp 1
    let s := s.set Field.reg_0x0208_gfir1_byp 1
    let s := LMS7002M_regs_spi_write E s 0x0200
    let s := LMS7002M_regs_spi_write E s 0x0208
    let s := LMS7002M_txtsp_tsg_const E s channel 0x7fff 0x8000
    -- RxTSP
    let s := set_addrs_to_default E s channel 0x0400 0x040f
    let s := s.set Field.reg_0x040a_agc_mode 1
    let s := s.set Field.reg_0x040c_gfir3_byp 1
    let s := s.set Field.reg_0x040c_gfir2_byp 1
    let s := s.set Field.reg_0x040c_gfir1_byp 1
    let s := s.set Field.reg_0x040a_agc_avg 12
    let s := s.set Field.reg_0x040c_cmix_gain 1
    let s := LMS7002M_regs_spi_write E s 0x040a
    let s := LMS7002M_regs_spi_write E s 0x040c
    (r.1, s)

/-- The part of `rx_cal_tia_rfe` after the seeds `cfb_tia_rfe` and
`ccomp_tia_rfe` have been computed (lines 305 to 344).  The product
`2*cfb_tia_rfe` of line 311 is an `int` product in C: it is the product of the
model while `2 * cfb_tia_rfe` fits the `int`. -/
def rx_cal_tia_rfe.tune (E : Ext σ) (s : Run σ) (channel : LMS7002M_chan_t) (bw : ℚ)
    (rssi_value_50k : Int) (cfb_tia_rfe ccomp_tia_rfe : Int) : Int × Run σ :=
  let ccomp_tia_rfe := if ccomp_tia_rfe > 15 then 15 else ccomp_tia_rfe
  let s := s.set Field.reg_0x0112_cfb_tia_rfe cfb_tia_rfe
  let s := s.set Field.reg_0x0112_ccomp_tia_rfe ccomp_tia_rfe
  let s := LMS7002M_regs_spi_write E s 0x0112
  -- rcomp_tia_rfe
  let rcomp_tia_rfe := 15 - Int.tdiv (2 * cfb_tia_rfe) 100
  let rcomp_tia_rfe := if rcomp_tia_rfe < 0 then 0 else rcomp_tia_rfe
  let s := s.set Field.reg_0x0114_rcomp_tia_rfe rcomp_tia_rfe
  let s := LMS7002M_regs_spi_write E s 0x0114
  -- rbb path
  let s := s.set Field.reg_0x0118_input_ctl_pga_rbb 2
  let s := s.set Field.reg_0x0115_pd_lpfl_rbb 1
  let s := s.set Field.reg_0x0115_pd_lpfh_rbb 1
  let s := LMS7002M_regs_spi_write E s 0x0118
  let s := LMS7002M_regs_spi_write E s 0x0115
  if bw ≤ 500000 then
    let s := s.set Field.reg_0x0112_cfb_tia_rfe 4095
    let s := LMS7002M_regs_spi_write E s 0x0112
    (0, s)
  else if bw > 54000000 then
    let s := s.set Field.reg_0x0112_ccomp_tia_rfe 0
    let s := s.set Field.reg_0x0112_cfb_tia_rfe 0
    let s := LMS7002M_regs_spi_write E s 0x0112
    (0, s)
  else
    let r := setup_rx_cal_tone E s channel bw 50000
    if r.1 ≠ 0 then (-1, r.2)
    else
      -- calibration
      let c := rx_cal_loop_inner E r.2 channel (r.2.addr Field.reg_0x0112_cfb_tia_rfe)
        0x0112 4095 Field.reg_0x0112_cfb_tia_rfe
          (ftoi (toDouble (rssi_value_50k * toDouble (7071 / 10000))))
      (r.1, c.2)

/-- The TIA stage calibrator `rx_cal_tia_rfe`.  The casts of lines 290 and 295
are defined in C while the `double` fits the `int`, which it does for
`bw ≥ 6` (see `caps_of_tier`); below, the model keeps the exact integer. -/
def rx_cal_tia_rfe (E : Ext σ) (s : Run σ) (channel : LMS7002M_chan_t) (bw : ℚ)
    (rssi_value_50k : Int) : Int × Run σ :=
  let s := LMS7002M_set_mac_ch E s channel
  let g_tia_rfe_user := s.get Field.reg_0x0113_g_tia_rfe
  -- cfb_tia_rfe, ccomp_tia_rfe
  if g_tia_rfe_user = 3 ∨ g_tia_rfe_user = 2 then
    let cfb_tia_rfe := ftoi (toDouble (toDouble (1680000000 / bw) - 10))
    let ccomp_tia_rfe := Int.tdiv cfb_tia_rfe 100
    rx_cal_tia_rfe.tune E s channel bw rssi_value_50k cfb_tia_rfe ccomp_tia_rfe
  else if g_tia_rfe_user = 1 then
    let cfb_tia_rfe := ftoi (toDouble (toDouble (5400000000 / bw) - 10))
    let ccomp_tia_rfe := Int.tdiv cfb_tia_rfe 100 + 1
    rx_cal_tia_rfe.tune E s channel bw rssi_value_50k cfb_tia_rfe ccomp_tia_rfe
  else
    (-1, LMS7_logf s LMS7_log_level_t.LMS7_ERROR LogMsg.g_tia_rfe_invalid [g_tia_rfe_user])

/-- The low-band stage calibrator `rx_cal_rbb_lpfl`. -/
def rx_cal_rbb_lpfl (E : Ext σ) (s : Run σ) (channel : LMS7002M_chan_t) (bw : ℚ)
    (rssi_value_50k : Int) : Int × Run σ :=
  let s := LMS7002M_set_mac_ch E s channel
  -- c_ctl_lpfl_rbb, rcc_ctl_lpfl_rbb
  let s := s.set Field.reg_0x0117_c_ctl_lpfl_rbb
    (ftoi (toDouble (toDouble (2160000000 / bw) - 103)))
  let rcc_ctl_lpfl_rbb : Int :=
    if bw > 15000000 then 5
    else if bw > 10000000 then 4
    else if bw > 5000000 then 3
    else if bw > 3000000 then 2
    else if bw > 1400000 then 1
    else 0
  let s := s.set Field.reg_0x0115_pd_lpfh_rbb 1
  let s := s.set Field.reg_0x0115_pd_lpfl_rbb 0
  let s := s.set Field.reg_0x0116_r_ctl_lpf_rbb 16
  let s := s.set Field.reg_0x0117_rcc_ctl_lpfl_rbb rcc_ctl_lpfl_rbb
  let s := s.set Field.reg_0x0118_input_ctl_pga_rbb 0
  let s := LMS7002M_regs_spi_write E s 0x0115
  let s := LMS7002M_regs_spi_write E s 0x0116
  let s := LMS7002M_regs_spi_write E s 0x0117
  let s := LMS7002M_regs_spi_write E s 0x0118
  if bw ≤ 500000 then
    -- no need to tune: set the best possible filtration
    let s := s.set Field.reg_0x0116_r_ctl_lpf_rbb 0
    let s := s.set Field.reg_0x0117_c_ctl_lpfl_rbb 2047
    let s := LMS7002M_regs_spi_write E s 0x0116
    let s := LMS7002M_regs_spi_write E s 0x0117
    (0, s)
  else
    rx_cal_loop E s channel bw (s.addr Field.reg_0x0117_c_ctl_lpfl_rbb)
      0x0117 2047 Field.reg_0x0117_c_ctl_lpfl_rbb
        (ftoi (toDouble (rssi_value_50k * toDouble (7071 / 10000))))

set_option linter.unusedVariables false in
/-- The high-band stage calibrator `rx_cal_rbb_lpfh`; the name it hands to
`rx_cal_loop` spells `c_ctl_lpfl_rbb`, as in the C text.  The quotient
`bw/10e6 - 3` of the range code is taken exactly. -/
def rx_cal_rbb_lpfh (E : Ext σ) (s : Run σ) (channel : LMS7002M_chan_t) (bw : ℚ)
    (rssi_value_50k : Int) : Int × Run σ :=
  let s := LMS7002M_set_mac_ch E s channel
  -- check filter bounds
  if bw < 20000000 ∨ bw > 130000000 then
    (-1, LMS7_logf s LMS7_log_level_t.LMS7_ERROR LogMsg.lpfh_not_in_range [])
  else
    let s := s.set Field.reg_0x0116_c_ctl_lpfh_rbb
      (ftoi (toDouble (toDouble (6000000000 / bw) - 50)))
    let rcc_ctl_lpfh_rbb := ftoi (bw / 10000000 - 3)
    let rcc_ctl_lpfh_rbb := if rcc_ctl_lpfh_rbb < 0 then 0 else rcc_ctl_lpfh_rbb
    let s := s.set Field.reg_0x0116_rcc_ctl_lpfh_rbb rcc_ctl_lpfh_rbb
    let s := LMS7002M_regs_spi_write E s 0x0116
    -- tia rfe registers and rbb
    let s := s.set Field.reg_0x0115_pd_lpfh_rbb 0
    let s := s.set Field.reg_0x0115_pd_lpfl_rbb 1
    let s := s.set Field.reg_0x0118_input_ctl_pga_rbb 1
    let s := LMS7002M_regs_spi_write E s 0x0115
    let s := LMS7002M_regs_spi_write E s 0x0118
    let s := s.set Field.reg_0x0116_r_ctl_lpf_rbb 16
    let s := LMS7002M_regs_spi_write E s 0x0116
    let r := setup_rx_cal_tone E s channel 400000 100000
    if r.1 ≠ 0 then (r.1, r.2)
    else
      let g := cal_gain_selection E r.2 channel 0x05000
      let rssi_value_50k := g.1
      let s := LMS7_logf g.2 LMS7_log_level_t.LMS7_ERROR LogMsg.lpfh_ini
        [rssi_value_50k, g.2.get Field.reg_0x0116_c_ctl_lpfh_rbb]
      -- calibration
      rx_cal_loop E s channel bw (s.addr Field.reg_0x0116_c_ctl_lpfh_rbb)
        0x0116 255 Field.reg_0x0117_c_ctl_lpfl_rbb
          (ftoi (toDouble (rssi_value_50k * toDouble (7071 / 10000))))

/-! ## The dispatcher -/

/-- The default bypass configuration that `LMS7002M_rbb_set_filter_bw` forces
on the TIA and PGA fields before it measures (lines 518 to 526). -/
def LMS7002M_rbb_set_filter_bw.bypass (E : Ext σ) (s : Run σ) : Run σ :=
  let s := s.set Field.reg_0x0112_cfb_tia_rfe 1
  let s := s.set Field.reg_0x0112_ccomp_tia_rfe 0
  let s := s.set Field.reg_0x0114_rcomp_tia_rfe 15
  let s := s.set Field.reg_0x0113_g_tia_rfe 1
  let s := s.set Field.reg_0x0118_input_ctl_pga_rbb 2
  let s := LMS7002M_regs_spi_write E s 0x0112
  let s := LMS7002M_regs_spi_write E s 0x0113
  let s := LMS7002M_regs_spi_write E s 0x0114
  LMS7002M_regs_spi_write E s 0x0118

/-- The part of `LMS7002M_rbb_set_filter_bw` between the snapshot and the
label `done` (lines 496 to 556); every `goto done` is a return from it. -/
def LMS7002M_rbb_set_filter_bw.stages (E : Ext σ) (s : Run σ) (channel : LMS7002M_chan_t)
    (bw : ℚ) (path : LMS7002M_path_t) : Int × Run σ :=
  let saturation_level : Int := 0x05000
  let c := if bw > 500000 then cal_setup_cgen E s bw else (0, s)
  if c.1 ≠ 0 then
    (c.1, LMS7_log c.2 LMS7_log_level_t.LMS7_ERROR LogMsg.cal_setup_cgen_failed)
  else
    -- load initial calibration state
    let i := if bw > 500000 then rx_cal_init E c.2 channel else (c.1, c.2)
    if i.1 ≠ 0 then
      (i.1, LMS7_log i.2 LMS7_log_level_t.LMS7_ERROR LogMsg.rx_cal_init_failed)
    else
      let s := LMS7002M_rbb_set_filter_bw.bypass E i.2
      -- find unfiltered RSSI
      let t := if bw > 500000 then setup_rx_cal_tone E s channel 400000 100000 else (i.1, s)
      if t.1 ≠ 0 then (t.1, t.2)
      else
        let g := if bw > 500000 then cal_gain_selection E t.2 channel saturation_level
          else (saturation_level, t.2)
        let rssi_value_50k := g.1
        -- RFE TIA calibration
        let a := rx_cal_tia_rfe E g.2 channel bw
          (ftoi (toDouble (rssi_value_50k * toDouble (126 / 100))))
        let s := if a.1 ≠ 0 then
            LMS7_log a.2 LMS7_log_level_t.LMS7_ERROR LogMsg.rx_cal_tia_rfe_failed
          else a.2
        -- RBB LPF calibration
        let b := if path = LMS7002M_path_t.LMS7002M_RBB_LBF then
            rx_cal_rbb_lpfl E s channel bw rssi_value_50k
          else (a.1, s)
        let b := if path = LMS7002M_path_t.LMS7002M_RBB_HBF then
            rx_cal_rbb_lpfh E b.2 channel bw rssi_value_50k
          else b
        if b.1 ≠ 0 then
          (b.1, LMS7_log b.2 LMS7_log_level_t.LMS7_ERROR LogMsg.rx_cal_rbb_lpf_failed)
        else (b.1, b.2)

/-- The part of `LMS7002M_rbb_set_filter_bw` from the label `done` to the
call of `LMS7002M_rbb_set_path` (lines 558 to 611): stash the trims, restore
the snapshot `saved_map`, apply the trims, select the filter path. -/
def LMS7002M_rbb_set_filter_bw.done (E : Ext σ) (s : Run σ) (channel : LMS7002M_chan_t)
    (saved_map : Fin 2 → LMS7002M_regs_t) (path : LMS7002M_path_t) : Run σ :=
  -- stash tia + rbb calibration results
  let s := LMS7002M_set_mac_ch E s channel
  let cfb_tia_rfe := s.get Field.reg_0x0112_cfb_tia_rfe
  let ccomp_tia_rfe := s.get Field.reg_0x0112_ccomp_tia_rfe
  let rcomp_tia_rfe := s.get Field.reg_0x0114_rcomp_tia_rfe
  let rcc_ctl_lpfl_rbb := s.get Field.reg_0x0117_rcc_ctl_lpfl_rbb
  let c_ctl_lpfl_rbb := s.get Field.reg_0x0117_c_ctl_lpfl_rbb
  let rcc_ctl_lpfh_rbb := s.get Field.reg_0x0116_rcc_ctl_lpfh_rbb
  let c_ctl_lpfh_rbb := s.get Field.reg_0x0116_c_ctl_lpfh_rbb
  let r_ctl_lpf_rbb := s.get Field.reg_0x0116_r_ctl_lpf_rbb
  -- restore original register values
  let s : Run σ := { s with self := { s.self with _regs := saved_map } }
  let s := LMS7002M_regs_to_rfic E s
  let s := LMS7002M_set_mac_ch E s channel
  -- apply tia calibration results
  let s := LMS7002M_set_mac_ch E s channel
  let s := s.set Field.reg_0x010f_ict_tiamain_rfe 2
  let s := s.set Field.reg_0x010f_ict_tiaout_rfe 2
  let s := s.set Field.reg_0x0114_rfb_tia_rfe 16
  let s := s.set Field.reg_0x0112_cfb_tia_rfe cfb_tia_rfe
  let s := s.set Field.reg_0x0112_ccomp_tia_rfe ccomp_tia_rfe
  let s := s.set Field.reg_0x0114_rcomp_tia_rfe rcomp_tia_rfe
  let s := LMS7002M_regs_spi_write E s 0x010f
  let s := LMS7002M_regs_spi_write E s 0x0114
  let s := LMS7002M_regs_spi_write E s 0x0112
  -- apply rbb calibration results
  let s := s.set Field.reg_0x0117_rcc_ctl_lpfl_rbb rcc_ctl_lpfl_rbb
  let s := s.set Field.reg_0x0117_c_ctl_lpfl_rbb c_ctl_lpfl_rbb
  let s := s.set Field.reg_0x0116_rcc_ctl_lpfh_rbb rcc_ctl_lpfh_rbb
  let s := s.set Field.reg_0x0116_c_ctl_lpfh_rbb c_ctl_lpfh_rbb
  let s := s.set Field.reg_0x0116_r_ctl_lpf_rbb r_ctl_lpf_rbb
  let s := s.set Field.reg_0x0119_ict_pga_out_rbb 20
  let s := s.set Field.reg_0x0119_ict_pga_in_rbb 20
  let s := LMS7002M_regs_spi_write E s 0x0117
  let s := LMS7002M_regs_spi_write E s 0x0119
  let s := LMS7002M_regs_spi_write E s 0x0116
  -- set the filter selection
  LMS7002M_rbb_set_path E s channel path

/-- The effective bandwidth `bw` of `LMS7002M_rbb_set_filter_bw` (lines 465
and 466). -/
def LMS7002M_rbb_set_filter_bw.bw (rfbw : ℚ) : ℚ :=
  let bw := rfbw / 2
  if bw < 1 / 2 then 1 / 2 else bw

/-- The dispatcher `LMS7002M_rbb_set_filter_bw`.  The pointer `bwactual` is
`none` when it is `NULL` and `some x` when it points to a `double` that
holds `x`; the third component of the result is what it points to
afterwards. -/
def LMS7002M_rbb_set_filter_bw (E : Ext σ) (s : Run σ) (channel : LMS7002M_chan_t)
    (rfbw : ℚ) (bwactual : Option ℚ) : Int × Run σ × Option ℚ :=
  let s := LMS7002M_set_mac_ch E s channel
  let bw := LMS7002M_rbb_set_filter_bw.bw rfbw
  let path :=
    if bw < 20000000 then LMS7002M_path_t.LMS7002M_RBB_LBF
    else LMS7002M_path_t.LMS7002M_RBB_HBF
  -- check for initialized reference frequencies
  if s.self.cgen_fref = 0 then
    (-1, LMS7_log s LMS7_log_level_t.LMS7_ERROR LogMsg.cgen_fref_missing, bwactual)
  else if s.self.sxr_fref = 0 then
    (-1, LMS7_log s LMS7_log_level_t.LMS7_ERROR LogMsg.sxr_fref_missing, bwactual)
  else if s.self.sxt_fref = 0 then
    (-1, LMS7_log s LMS7_log_level_t.LMS7_ERROR LogMsg.sxt_fref_missing, bwactual)
  else
    -- save register map
    let saved_map := s.self._regs
    let r := LMS7002M_rbb_set_filter_bw.stages E s channel bw path
    let s := LMS7002M_rbb_set_filter_bw.done E r.2 channel saved_map path
    (r.1, s, if bwactual.isSome then some bw else bwactual)

/-! ## Reading the trace -/

/-- The calls made between the state `s` and a later state `s'` of a run. -/
def Run.calls (s' s : Run σ) : List (Event σ) :=
  s'.trace.drop s.trace.length

/-- The two bus operations of the search: a register write and a power
sample. -/
inductive BusOp where
  | write
  | sample
  deriving DecidableEq, Repr

/-- The bus operation an event stands for, if any. -/
def Event.busOp : Event σ → Option BusOp
  | Event.regs_spi_write _ _ => some BusOp.write
  | Event.cal_read_rssi _ _ => some BusOp.sample
  | _ => none

/-- The bus operations of a list of calls, in order. -/
def busOps (l : List (Event σ)) : List BusOp :=
  l.filterMap Event.busOp

/-- The power reading an event returned, if it is a call of the reader. -/
def Event.sample : Event σ → Option Int
  | Event.cal_read_rssi _ rssi => some rssi
  | _ => none

/-- The power readings of a list of calls, in order. -/
def samples (l : List (Event σ)) : List Int :=
  l.filterMap Event.sample

/-- The device structures handed to `LMS7002M_regs_spi_write` in a list of
calls, in order. -/
def Event.written : Event σ → Option (LMS7002M_t σ)
  | Event.regs_spi_write self _ => some self
  | _ => none

/-- The device structures handed to `LMS7002M_regs_spi_write`, in order. -/
def writes (l : List (Event σ)) : List (LMS7002M_t σ) :=
  l.filterMap Event.written

/-- The number of times the message `msg` was logged in a list of calls. -/
def logged (msg : LogMsg) (l : List (Event σ)) : Nat :=
  l.countP (fun e => match e with
    | Event.logf _ m _ => decide (m = msg)
    | _ => false)

/-- Between the states `s` and `s'` of a run no power sample was taken and no
run of the search ended (each run logs `reg_value` when it ends). -/
def Quiet (s s' : Run σ) : Prop :=
  ∃ l, s'.trace = s.trace ++ l ∧ samples l = [] ∧ logged LogMsg.reg_value l = 0

/-- The bus write and the power reader leave the register field behind the
pointer `p` as it is. -/
def Ext.KeepsCell (E : Ext σ) (p : RegPtr) : Prop :=
  (∀ d a, (E.regs_spi_write d a).load p = d.load p) ∧
  (∀ d ch, (E.cal_read_rssi d ch).2.load p = d.load p)

/-! ## A simulated chip

A concrete instance of `Ext`, used to run the embedding on concrete
inputs. -/

/-- The copy of the register map that the simulated channel selection
designates for a channel. -/
def simSel : LMS7002M_chan_t → Fin 2
  | LMS7002M_chan_t.LMS_CHA => 0
  | LMS7002M_chan_t.LMS_CHB => 1

/-- A simulated chip.  Channel selection designates the copy of the channel;
the bus functions and the set-up functions leave the device structure as it
is and succeed; the power reader returns `reading c` for the code `c` that
the register behind `p` holds; the gain scan returns `baseline`. -/
def simExt (reading : Int → Int) (p : RegPtr) (baseline : Int) : Ext Unit where
  set_mac_ch := fun d ch => { d with regs := simSel ch }
  regs_spi_write := fun d _ => d
  regs_to_rfic := fun d => d
  cal_read_rssi := fun d _ => (reading (d.load p), d)
  cal_gain_selection := fun d _ _ => (baseline, d)
  cal_setup_cgen := fun d _ => (0, d)
  set_lo_freq := fun d _ _ _ => (0, d)
  sxx_enable := fun d _ _ => d
  sxt_to_sxr := fun d _ => d
  rxtsp_set_freq := fun d _ _ => d
  txtsp_tsg_const := fun d _ _ _ => d
  afe_enable := fun d _ _ _ => d
  set_addrs_to_default := fun d _ _ _ => d
  rbb_set_path := fun d _ _ => d

/-- A device structure whose register fields all hold `v`, with the clock
`cgen_fref` as given and the other clocks set. -/
def simDev (v : Int) (cgen_fref : ℚ) : LMS7002M_t Unit :=
  { _regs := fun _ _ => v, regs := 0, cgen_fref := cgen_fref, sxr_fref := 26000000,
    sxt_fref := 26000000, cgen_freq := 80000000, sxt_freq := 550000000, chip := () }

/-- A run that starts on the simulated device, with the clocks set. -/
def simRun (v : Int) : Run Unit :=
  { self := simDev v 26000000, trace := [] }

/-- The trim register `cfb_tia_rfe` of channel A. -/
def simPtr : RegPtr :=
  ⟨0, Field.reg_0x0112_cfb_tia_rfe⟩

/-! ## What is assumed of the bus-level functions -/

/-- The functions that move data between the register map and the chip
(channel selection, the bus write of one register, the bus write of the
whole map, the filter-path selection) leave the field `f` of the copy `i` of
the register map as it is. -/
def Ext.Keeps (E : Ext σ) (i : Fin 2) (f : Field) : Prop :=
  (∀ d ch, (E.set_mac_ch d ch)._regs i f = d._regs i f) ∧
  (∀ d a, (E.regs_spi_write d a)._regs i f = d._regs i f) ∧
  (∀ d, (E.regs_to_rfic d)._regs i f = d._regs i f) ∧
  (∀ d ch p, (E.rbb_set_path d ch p)._regs i f = d._regs i f)

/-- Selecting `channel` designates the copy `j` of the register map, and the
two bus writes do not change which copy is designated. -/
def Ext.Selects (E : Ext σ) (channel : LMS7002M_chan_t) (j : Fin 2) : Prop :=
  (∀ d, (E.set_mac_ch d channel).regs = j) ∧
  (∀ d a, (E.regs_spi_write d a).regs = d.regs) ∧
  (∀ d, (E.regs_to_rfic d).regs = d.regs)

/-- Channel selection leaves the three reference-clock fields of the
device structure as they are. -/
def Ext.KeepsClocks (E : Ext σ) : Prop :=
  ∀ d ch, (E.set_mac_ch d ch).cgen_fref = d.cgen_fref ∧
    (E.set_mac_ch d ch).sxr_fref = d.sxr_fref ∧ (E.set_mac_ch d ch).sxt_fref = d.sxt_fref

/-- The filter-trim fields, which the dispatcher carries over the restore. -/
def trimFields : List Field :=
  [Field.reg_0x0112_cfb_tia_rfe, Field.reg_0x0112_ccomp_tia_rfe,
   Field.reg_0x0114_rcomp_tia_rfe, Field.reg_0x0117_rcc_ctl_lpfl_rbb,
   Field.reg_0x0117_c_ctl_lpfl_rbb, Field.reg_0x0116_rcc_ctl_lpfh_rbb,
   Field.reg_0x0116_c_ctl_lpfh_rbb, Field.reg_0x0116_r_ctl_lpf_rbb]

/-- The fields the dispatcher sets to fixed values after the restore. -/
def companionFields : List Field :=
  [Field.reg_0x010f_ict_tiamain_rfe, Field.reg_0x010f_ict_tiaout_rfe,
   Field.reg_0x0114_rfb_tia_rfe, Field.reg_0x0119_ict_pga_out_rbb,
   Field.reg_0x0119_ict_pga_in_rbb]

/-! ## The seeds of the stage calibrators

The blocks of the stage calibrators that compute the closed-form seeds and
store them, under names of their own. -/

/-- The closed-form seeds `cfb_tia_rfe` and `ccomp_tia_rfe` that
`rx_cal_tia_rfe` computes for the gain tier `g_tia_rfe_user` (lines 287 to
303); `none` for a tier that is none of 1, 2, 3.  The casts are defined in C
while the `double` fits the `int` (`bw ≥ 6`, see `caps_of_tier`). -/
def rx_cal_tia_rfe.caps (g_tia_rfe_user : Int) (bw : ℚ) : Option (Int × Int) :=
  if g_tia_rfe_user = 3 ∨ g_tia_rfe_user = 2 then
    let cfb_tia_rfe := ftoi (toDouble (toDouble (1680000000 / bw) - 10))
    let ccomp_tia_rfe := Int.tdiv cfb_tia_rfe 100
    some (cfb_tia_rfe, ccomp_tia_rfe)
  else if g_tia_rfe_user = 1 then
    let cfb_tia_rfe := ftoi (toDouble (toDouble (5400000000 / bw) - 10))
    let ccomp_tia_rfe := Int.tdiv cfb_tia_rfe 100 + 1
    some (cfb_tia_rfe, ccomp_tia_rfe)
  else none

/-- The part of `rx_cal_tia_rfe` that stores the seeds and bypasses the filter
blocks (lines 305 to 321), before the bandwidth is looked at.  The product
`2*cfb_tia_rfe` is that of the model while it fits the `int`. -/
def rx_cal_tia_rfe.seed (E : Ext σ) (s : Run σ) (cfb_tia_rfe ccomp_tia_rfe : Int) : Run σ :=
  let ccomp_tia_rfe := if ccomp_tia_rfe > 15 then 15 else ccomp_tia_rfe
  let s := s.set Field.reg_0x0112_cfb_tia_rfe cfb_tia_rfe
  let s := s.set Field.reg_0x0112_ccomp_tia_rfe ccomp_tia_rfe
  let s := LMS7002M_regs_spi_write E s 0x0112
  -- rcomp_tia_rfe
  let rcomp_tia_rfe := 15 - Int.tdiv (2 * cfb_tia_rfe) 100
  let rcomp_tia_rfe := if rcomp_tia_rfe < 0 then 0 else rcomp_tia_rfe
  let s := s.set Field.reg_0x0114_rcomp_tia_rfe rcomp_tia_rfe
  let s := LMS7002M_regs_spi_write E s 0x0114
  -- rbb path
  let s := s.set Field.reg_0x0118_input_ctl_pga_rbb 2
  let s := s.set Field.reg_0x0115_pd_lpfl_rbb 1
  let s := s.set Field.reg_0x0115_pd_lpfh_rbb 1
  let s := LMS7002M_regs_spi_write E s 0x0118
  LMS7002M_regs_spi_write E s 0x0115

/-- The part of `rx_cal_rbb_lpfl` that stores the seeds and writes them to the
chip (lines 354 to 373), before the bandwidth is looked at. -/
def rx_cal_rbb_lpfl.seed (E : Ext σ) (s : Run σ) (channel : LMS7002M_chan_t) (bw : ℚ) :
    Run σ :=
  let s := LMS7002M_set_mac_ch E s channel
  -- c_ctl_lpfl_rbb, rcc_ctl_lpfl_rbb
  let s := s.set Field.reg_0x0117_c_ctl_lpfl_rbb
    (ftoi (toDouble (toDouble (2160000000 / bw) - 103)))
  let rcc_ctl_lpfl_rbb : Int :=
    if bw > 15000000 then 5
    else if bw > 10000000 then 4
    else if bw > 5000000 then 3
    else if bw > 3000000 then 2
    else if bw > 1400000 then 1
    else 0
  let s := s.set Field.reg_0x0115_pd_lpfh_rbb 1
  let s := s.set Field.reg_0x0115_pd_lpfl_rbb 0
  let s := s.set Field.reg_0x0116_r_ctl_lpf_rbb 16
  let s := s.set Field.reg_0x0117_rcc_ctl_lpfl_rbb rcc_ctl_lpfl_rbb
  let s := s.set Field.reg_0x0118_input_ctl_pga_rbb 0
  let s := LMS7002M_regs_spi_write E s 0x0115
  let s := LMS7002M_regs_spi_write E s 0x0116
  let s := LMS7002M_regs_spi_write E s 0x0117
  LMS7002M_regs_spi_write E s 0x0118

/-- The part of `rx_cal_rbb_lpfh` that stores the seeds and writes them to the
chip (lines 415 to 441), after the check of the filter bounds.  The quotient
`bw/10e6 - 3` of the range code is taken exactly. -/
def rx_cal_rbb_lpfh.seed (E : Ext σ) (s : Run σ) (bw : ℚ) : Run σ :=
  let s := s.set Field.reg_0x0116_c_ctl_lpfh_rbb (ftoi (toDouble (toDouble (6000000000 / bw) - 50)))
  let rcc_ctl_lpfh_rbb := ftoi (bw / 10000000 - 3)
  let rcc_ctl_lpfh_rbb := if rcc_ctl_lpfh_rbb < 0 then 0 else rcc_ctl_lpfh_rbb
  let s := s.set Field.reg_0x0116_rcc_ctl_lpfh_rbb rcc_ctl_lpfh_rbb
  let s := LMS7002M_regs_spi_write E s 0x0116
  -- tia rfe registers and rbb
  let s := s.set Field.reg_0x0115_pd_lpfh_rbb 0
  let s := s.set Field.reg_0x0115_pd_lpfl_rbb 1
  let s := s.set Field.reg_0x0118_input_ctl_pga_rbb 1
  let s := LMS7002M_regs_spi_write E s 0x0115
  let s := LMS7002M_regs_spi_write E s 0x0118
  let s := s.set Field.reg_0x0116_r_ctl_lpf_rbb 16
  LMS7002M_regs_spi_write E s 0x0116

/-- The coupling-resistor range code of the low band as the specification
words it: breakpoints on the bandwidth in MHz, `> 15` gives 5, `> 10` gives 4,
`> 5` gives 3, `> 3` gives 2, `> 1.4` gives 1, else 0. -/
def specRangeCode (bwMHz : ℚ) : Int :=
  if bwMHz > 15 then 5
  else if bwMHz > 10 then 4
  else if bwMHz > 5 then 3
  else if bwMHz > 3 then 2
  else if bwMHz > 14 / 10 then 1
  else 0

/-! ## Reading the retries of the outer loop off the trace -/

/-- The value of the coupled resistor trim that an event reports, if it is the
log line `r_value` that ends a retry of `rx_cal_loop`. -/
def Event.rValue : Event σ → Option Int
  | Event.logf _ LogMsg.r_value [r] => some r
  | _ => none

/-- The values of the coupled resistor trim after the retries of a list of
calls, in order. -/
def rValues (l : List (Event σ)) : List Int :=
  l.filterMap Event.rValue

/-- The result of the run of the search that an event reports, if it is the
log line `rssi_done` that ends a run: the line carries the two brackets, from
which `rx_cal_loop_inner` decides its result. -/
def Event.outcome : Event σ → Option cal_result_t
  | Event.logf _ LogMsg.rssi_done [_, _, best_lo, best_hi, _] =>
    some (if best_lo = -1 then cal_result_t.CAL_LOW
      else if best_hi = -1 then cal_result_t.CAL_HIGH else cal_result_t.CAL_OK)
  | _ => none

/-- The results of the runs of the search in a list of calls, in order. -/
def outcomes (l : List (Event σ)) : List cal_result_t :=
  l.filterMap Event.outcome

/-- The retries of the outer loop as the specification words them: started
with the resistor trim at `r` and the step `r_range`, every retry follows a
run of the search that returned `CAL_LOW` or `CAL_HIGH` and is made with a
step that is not `0`, a `CAL_LOW` replaces `r` by `max 0 (r - r_range)` and a
`CAL_HIGH` by `min 31 (r + r_range)`, and the step is halved after every
retry.  `results` are the results of the runs and `values` the values of the
resistor trim after the retries. -/
def retryChain : Int → Nat → List cal_result_t → List Int → Prop
  | _, _, _, [] => True
  | _, _, [], _ :: _ => False
  | r, r_range, o :: results, x :: values =>
    0 < r_range ∧
    ((o = cal_result_t.CAL_LOW ∧ x = max 0 (r - r_range)) ∨
      (o = cal_result_t.CAL_HIGH ∧ x = min 31 (r + r_range))) ∧
    retryChain x (r_range / 2) results values

/-! ## What is assumed of the functions of a measurement -/

/-- The functions that set up the tone and take a reading leave the field `f`
of the copy `i` of the register map as it is, and the power reader and the
tone frequency setting do not change which copy is designated. -/
def Ext.MeasureKeeps (E : Ext σ) (i : Fin 2) (f : Field) : Prop :=
  (∀ d ch, (E.cal_read_rssi d ch).2.regs = d.regs ∧
    (E.cal_read_rssi d ch).2._regs i f = d._regs i f) ∧
  (∀ d ch x, (E.rxtsp_set_freq d ch x).regs = d.regs ∧
    (E.rxtsp_set_freq d ch x)._regs i f = d._regs i f) ∧
  (∀ d dir en, (E.sxx_enable d dir en)._regs i f = d._regs i f) ∧
  (∀ d en, (E.sxt_to_sxr d en)._regs i f = d._regs i f) ∧
  (∀ d dir fref fout, (E.set_lo_freq d dir fref fout).2._regs i f = d._regs i f)

/-! ## The register resets of the stage initialiser -/

/-- The address of the register that holds a field, as the name of the field
spells it. -/
def Field.addr : Field → Nat
  | Field.reg_0x0084_rp_calib_bias => 0x0084
  | Field.reg_0x0100_en_nexttx_trf => 0x0100
  | Field.reg_0x0101_l_loopb_txpad_trf => 0x0101
  | Field.reg_0x0101_en_loopb_txpad_trf => 0x0101
  | Field.reg_0x0103_sel_band1_trf => 0x0103
  | Field.reg_0x0103_sel_band2_trf => 0x0103
  | Field.reg_0x0108_cg_iamp_tbb => 0x0108
  | Field.reg_0x0108_ict_iamp_frp_tbb => 0x0108
  | Field.reg_0x0108_ict_iamp_gg_frp_tbb => 0x0108
  | Field.reg_0x010c_pd_rloopb_2_rfe => 0x010c
  | Field.reg_0x010c_pd_mxlobuf_rfe => 0x010c
  | Field.reg_0x010c_pd_qgen_rfe => 0x010c
  | Field.reg_0x010d_sel_path_rfe => 0x010d
  | Field.reg_0x010d_en_inshsw_lb2_rfe => 0x010d
  | Field.reg_0x010d_en_inshsw_lb1_rfe => 0x010d
  | Field.reg_0x010d_en_inshsw_l_rfe => 0x010d
  | Field.reg_0x010d_en_inshsw_w_rfe => 0x010d
  | Field.reg_0x010d_en_nextrx_rfe => 0x010d
  | Field.reg_0x010f_ict_tiamain_rfe => 0x010f
  | Field.reg_0x010f_ict_tiaout_rfe => 0x010f
  | Field.reg_0x0112_cfb_tia_rfe => 0x0112
  | Field.reg_0x0112_ccomp_tia_rfe => 0x0112
  | Field.reg_0x0113_g_tia_rfe => 0x0113
  | Field.reg_0x0113_g_rxloopb_rfe => 0x0113
  | Field.reg_0x0114_rcomp_tia_rfe => 0x0114
  | Field.reg_0x0114_rfb_tia_rfe => 0x0114
  | Field.reg_0x0115_pd_lpfl_rbb => 0x0115
  | Field.reg_0x0115_pd_lpfh_rbb => 0x0115
  | Field.reg_0x0116_r_ctl_lpf_rbb => 0x0116
  | Field.reg_0x0116_rcc_ctl_lpfh_rbb => 0x0116
  | Field.reg_0x0116_c_ctl_lpfh_rbb => 0x0116
  | Field.reg_0x0117_rcc_ctl_lpfl_rbb => 0x0117
  | Field.reg_0x0117_c_ctl_lpfl_rbb => 0x0117
  | Field.reg_0x0118_input_ctl_pga_rbb => 0x0118
  | Field.reg_0x0119_ict_pga_out_rbb => 0x0119
  | Field.reg_0x0119_ict_pga_in_rbb => 0x0119
  | Field.reg_0x011a_c_ctl_pga_rbb => 0x011a
  | Field.reg_0x0200_tsgmode => 0x0200
  | Field.reg_0x0200_insel => 0x0200
  | Field.reg_0x0208_cmix_byp => 0x0208
  | Field.reg_0x0208_gfir3_byp => 0x0208
  | Field.reg_0x0208_gfir2_byp => 0x0208
  | Field.reg_0x0208_gfir1_byp => 0x0208
  | Field.reg_0x040a_agc_mode => 0x040a
  | Field.reg_0x040a_agc_avg => 0x040a
  | Field.reg_0x040c_gfir3_byp => 0x040c
  | Field.reg_0x040c_gfir2_byp => 0x040c
  | Field.reg_0x040c_gfir1_byp => 0x040c
  | Field.reg_0x040c_cmix_gain => 0x040c
  | Field.other addr _ => addr

/-- A simulated chip on which the transmit oscillator does not lock and
`set_addrs_to_default` does what its name says: it puts the value `dflt` in
every field of the channel's copy of the register map whose register address
lies between `start` and `stop`.  The other functions are those of `simExt`. -/
def simResetExt (dflt : Int) : Ext Unit where
  set_mac_ch := fun d ch => { d with regs := simSel ch }
  regs_spi_write := fun d _ => d
  regs_to_rfic := fun d => d
  cal_read_rssi := fun d _ => (0, d)
  cal_gain_selection := fun d _ _ => (20480, d)
  cal_setup_cgen := fun d _ => (0, d)
  set_lo_freq := fun d dir _ _ => (if dir = LMS7002M_dir_t.LMS_TX then -1 else 0, d)
  sxx_enable := fun d _ _ => d
  sxt_to_sxr := fun d _ => d
  rxtsp_set_freq := fun d _ _ => d
  txtsp_tsg_const := fun d _ _ _ => d
  afe_enable := fun d _ _ _ => d
  set_addrs_to_default := fun d ch start stop =>
    { d with _regs := fun i f =>
        if i = simSel ch ∧ start ≤ f.addr ∧ f.addr ≤ stop then dflt else d._regs i f }
  rbb_set_path := fun d _ _ => d

/-- The functions that the clock set-up and the stage initialiser call, other
than the bus-level ones, leave the field `f` of the copy `i` of the register
map as it is. -/
def Ext.InitKeeps (E : Ext σ) (i : Fin 2) (f : Field) : Prop :=
  (∀ d b, (E.cal_setup_cgen d b).2._regs i f = d._regs i f) ∧
  (∀ d ch a b, (E.set_addrs_to_default d ch a b)._regs i f = d._regs i f) ∧
  (∀ d dir ch en, (E.afe_enable d dir ch en)._regs i f = d._regs i f) ∧
  (∀ d dir f1 f2, (E.set_lo_freq d dir f1 f2).2._regs i f = d._regs i f) ∧
  (∀ d ch a b, (E.txtsp_tsg_const d ch a b)._regs i f = d._regs i f)

/-- The fields that `rx_cal_init` assigns (lines 165 to 269). -/
def initFields : List Field :=
  [Field.reg_0x010d_sel_path_rfe, Field.reg_0x0113_g_rxloopb_rfe,
   Field.reg_0x010c_pd_rloopb_2_rfe, Field.reg_0x010d_en_inshsw_lb2_rfe,
   Field.reg_0x010d_en_inshsw_lb1_rfe, Field.reg_0x010d_en_inshsw_l_rfe,
   Field.reg_0x010d_en_inshsw_w_rfe, Field.reg_0x010c_pd_mxlobuf_rfe,
   Field.reg_0x010c_pd_qgen_rfe, Field.reg_0x010f_ict_tiamain_rfe,
   Field.reg_0x010f_ict_tiaout_rfe, Field.reg_0x0114_rfb_tia_rfe,
   Field.reg_0x0113_g_tia_rfe, Field.reg_0x0119_ict_pga_out_rbb,
   Field.reg_0x0119_ict_pga_in_rbb, Field.reg_0x011a_c_ctl_pga_rbb,
   Field.reg_0x0101_l_loopb_txpad_trf, Field.reg_0x0101_en_loopb_txpad_trf,
   Field.reg_0x0103_sel_band1_trf, Field.reg_0x0103_sel_band2_trf,
   Field.reg_0x0108_cg_iamp_tbb, Field.reg_0x0108_ict_iamp_frp_tbb,
   Field.reg_0x0108_ict_iamp_gg_frp_tbb, Field.reg_0x010d_en_nextrx_rfe,
   Field.reg_0x0100_en_nexttx_trf, Field.reg_0x0084_rp_calib_bias,
   Field.reg_0x0200_tsgmode, Field.reg_0x0200_insel, Field.reg_0x0208_cmix_byp,
   Field.reg_0x0208_gfir3_byp, Field.reg_0x0208_gfir2_byp, Field.reg_0x0208_gfir1_byp,
   Field.reg_0x040a_agc_mode, Field.reg_0x040c_gfir3_byp, Field.reg_0x040c_gfir2_byp,
   Field.reg_0x040c_gfir1_byp, Field.reg_0x040a_agc_avg, Field.reg_0x040c_cmix_gain]

/-! ## The passes of the search and the stages of a session, block by block -/

/-- One pass through the body of the `do ... while` of `rx_cal_loop_inner`
without the clamp at its end (lines 69 to 83, and the halving of line 91). -/
def rx_cal_loop_inner.adjust (E : Ext σ) (channel : LMS7002M_chan_t) (reg_ptr : RegPtr)
    (reg_addr : Nat) (desired_rssi_value : Int) (v : SearchVars σ) : SearchVars σ :=
  let s := LMS7002M_regs_spi_write E v.s reg_addr
  let r := cal_read_rssi E s channel
  let rssi_value := r.1
  let s := LMS7_logf r.2 LMS7_log_level_t.LMS7_FATAL LogMsg.rssi_step
    [desired_rssi_value, rssi_value, v.range, r.2.load reg_ptr]
  let best_lo := if rssi_value < desired_rssi_value then s.load reg_ptr else v.best_lo
  let best_hi := if rssi_value < desired_rssi_value then v.best_hi else s.load reg_ptr
  let s :=
    if rssi_value < desired_rssi_value then
      s.store reg_ptr (s.load reg_ptr - Int.tdiv v.range 2)
    else
      s.store reg_ptr (s.load reg_ptr + Int.tdiv v.range 2)
  { s := s, rssi_value := rssi_value, best_lo := best_lo, best_hi := best_hi,
    range := Int.tdiv v.range 2 }

/-- The states in which the passes of the `do ... while` of
`rx_cal_loop_inner` begin, for a loop entered in the state `v₀`: `v₀` itself,
and the state a pass leaves when the loop goes on after it. -/
inductive rx_cal_loop_inner.Pass (E : Ext σ) (channel : LMS7002M_chan_t) (reg_ptr : RegPtr)
    (reg_addr : Nat) (reg_max desired_rssi_value : Int) (v₀ : SearchVars σ) :
    SearchVars σ → Prop where
  | first : rx_cal_loop_inner.Pass E channel reg_ptr reg_addr reg_max desired_rssi_value v₀ v₀
  | next (v : SearchVars σ) :
    rx_cal_loop_inner.Pass E channel reg_ptr reg_addr reg_max desired_rssi_value v₀ v →
    Int.tdiv v.range 2 ≠ 0 →
    rx_cal_loop_inner.Pass E channel reg_ptr reg_addr reg_max desired_rssi_value v₀
      (rx_cal_loop_inner.body E channel reg_ptr reg_addr reg_max desired_rssi_value v)

/-- The retries of the outer loop when no clamp takes effect: as `retryChain`,
with every retry moving the resistor trim by exactly the step, to a value
within `[0, 31]`. -/
def exactChain : Int → Nat → List cal_result_t → List Int → Prop
  | _, _, _, [] => True
  | _, _, [], _ :: _ => False
  | r, r_range, o :: results, x :: values =>
    0 < r_range ∧
    ((o = cal_result_t.CAL_LOW ∧ x = r - r_range) ∨
      (o = cal_result_t.CAL_HIGH ∧ x = r + r_range)) ∧
    0 ≤ x ∧ x ≤ 31 ∧
    exactChain x (r_range / 2) results values

/-- The part of `LMS7002M_rbb_set_filter_bw` between the snapshot and the TIA
stage (lines 496 to 538): the clock set-up, the stage initialiser, the bypass
configuration and the unfiltered baseline.  A `goto done` is `Except.error`
with the status and the state it is taken in; otherwise the result is the
state and `rssi_value_50k`. -/
def LMS7002M_rbb_set_filter_bw.prepare (E : Ext σ) (s : Run σ) (channel : LMS7002M_chan_t)
    (bw : ℚ) : Except (Int × Run σ) (Run σ × Int) :=
  let saturation_level : Int := 0x05000
  let c := if bw > 500000 then cal_setup_cgen E s bw else (0, s)
  if c.1 ≠ 0 then
    Except.error
      (c.1, LMS7_log c.2 LMS7_log_level_t.LMS7_ERROR LogMsg.cal_setup_cgen_failed)
  else
    -- load initial calibration state
    let i := if bw > 500000 then rx_cal_init E c.2 channel else (c.1, c.2)
    if i.1 ≠ 0 then
      Except.error (i.1, LMS7_log i.2 LMS7_log_level_t.LMS7_ERROR LogMsg.rx_cal_init_failed)
    else
      let s := LMS7002M_rbb_set_filter_bw.bypass E i.2
      -- find unfiltered RSSI
      let t := if bw > 500000 then setup_rx_cal_tone E s channel 400000 100000 else (i.1, s)
      if t.1 ≠ 0 then Except.error (t.1, t.2)
      else
        let g := if bw > 500000 then cal_gain_selection E t.2 channel saturation_level
          else (saturation_level, t.2)
        Except.ok (g.2, g.1)

/-- The TIA stage and the band stage of `LMS7002M_rbb_set_filter_bw` (lines
541 to 556). -/
def LMS7002M_rbb_set_filter_bw.calibrate (E : Ext σ) (s : Run σ) (channel : LMS7002M_chan_t)
    (bw : ℚ) (path : LMS7002M_path_t) (rssi_value_50k : Int) : Int × Run σ :=
  -- RFE TIA calibration
  let a := rx_cal_tia_rfe E s channel bw (ftoi (toDouble (rssi_value_50k * toDouble (126 / 100))))
  let s := if a.1 ≠ 0 then
      LMS7_log a.2 LMS7_log_level_t.LMS7_ERROR LogMsg.rx_cal_tia_rfe_failed
    else a.2
  -- RBB LPF calibration
  let b := if path = LMS7002M_path_t.LMS7002M_RBB_LBF then
      rx_cal_rbb_lpfl E s channel bw rssi_value_50k
    else (a.1, s)
  let b := if path = LMS7002M_path_t.LMS7002M_RBB_HBF then
      rx_cal_rbb_lpfh E b.2 channel bw rssi_value_50k
    else b
  if b.1 ≠ 0 then
    (b.1, LMS7_log b.2 LMS7_log_level_t.LMS7_ERROR LogMsg.rx_cal_rbb_lpf_failed)
  else (b.1, b.2)

/-- A simulated chip whose gain scan leaves the unsupported gain tier `0` in
the field `g_tia_rfe` of the channel's copy of the register map, and whose
readings depend on `c_ctl_lpfl_rbb` of channel A: `20000` up to the code 1500
and `0` above it.  The other functions are those of `simExt`. -/
def simTierExt : Ext Unit where
  set_mac_ch := fun d ch => { d with regs := simSel ch }
  regs_spi_write := fun d _ => d
  regs_to_rfic := fun d => d
  cal_read_rssi := fun d _ =>
    (if d.load ⟨0, Field.reg_0x0117_c_ctl_lpfl_rbb⟩ ≤ 1500 then 20000 else 0, d)
  cal_gain_selection := fun d ch _ =>
    (20480, d.store ⟨simSel ch, Field.reg_0x0113_g_tia_rfe⟩ 0)
  cal_setup_cgen := fun d _ => (0, d)
  set_lo_freq := fun d _ _ _ => (0, d)
  sxx_enable := fun d _ _ => d
  sxt_to_sxr := fun d _ => d
  rxtsp_set_freq := fun d _ _ => d
  txtsp_tsg_const := fun d _ _ _ => d
  afe_enable := fun d _ _ _ => d
  set_addrs_to_default := fun d _ _ _ => d
  rbb_set_path := fun d _ _ => d

/-! ## Rounding to `double` -/

theorem roundEven_intCast (n : Int) : roundEven (n : ℚ) = n := by
  simp [roundEven]

theorem roundEven_ge (x : ℚ) (n : Int) (h : (n : ℚ) ≤ x) : n ≤ roundEven x := by
  have h1 : n ≤ ⌊x⌋ := Int.le_floor.mpr h
  simp only [roundEven]
  split_ifs <;> omega

theorem roundEven_le (x : ℚ) (n : Int) (h : x ≤ (n : ℚ)) : roundEven x ≤ n := by
  have h1 : ⌊x⌋ ≤ n := Int.floor_le_floor h |>.trans (by simp)
  have h2 : (⌊x⌋ : ℚ) ≤ x := Int.floor_le x
  simp only [roundEven]
  split_ifs with a b c
  · exact h1
  · have h3 : ⌊x⌋ < n := by
      by_contra hc
      have h4 : ⌊x⌋ = n := by omega
      rw [h4] at b
      linarith
    omega
  · exact h1
  · have h3 : ⌊x⌋ < n := by
      by_contra hc
      have h4 : ⌊x⌋ = n := by omega
      rw [h4] at a
      linarith
    omega

/-- The exponent of a non-zero number decides the grid it is rounded on. -/
theorem toDouble_of_exp (x : ℚ) (e : Int) (h1 : (2 : ℚ) ^ e ≤ |x|) (h2 : |x| < 2 ^ (e + 1)) :
    toDouble x = roundEven (x / 2 ^ (e - 52)) * 2 ^ (e - 52) := by
  have hpos : 0 < |x| := lt_of_lt_of_le (by positivity) h1
  have hx : x ≠ 0 := abs_pos.mp hpos
  have hlog : Int.log 2 |x| = e := by
    apply le_antisymm
    · have := (Int.lt_zpow_iff_log_lt (b := 2) (by norm_num) hpos).mp (by exact_mod_cast h2)
      omega
    · exact (Int.zpow_le_iff_le_log (b := 2) (by norm_num) hpos).mp (by exact_mod_cast h1)
  simp only [toDouble, if_neg hx, hlog]

/-- A number below `2 ^ (52 - j)` in absolute value is rounded on a grid that
contains the multiples of `2 ^ (-j)`, so that rounding does not cross them. -/
theorem toDouble_le (x : ℚ) (k : Int) (j : Nat) (hj : j ≤ 52) (hx : |x| < 2 ^ (52 - j))
    (h : x ≤ k / 2 ^ j) : toDouble x ≤ k / 2 ^ j := by
  by_cases h0 : x = 0
  · rw [h0] at h ⊢
    simpa [toDouble] using h
  have hpos : 0 < |x| := abs_pos.mpr h0
  have hle : Int.log 2 |x| < 52 - (j : Int) := by
    apply (Int.lt_zpow_iff_log_lt (b := 2) (by norm_num) hpos).mp
    have : ((2 : ℚ) ^ (52 - j : Nat)) = (2 : ℚ) ^ ((52 : Int) - (j : Int)) := by
      rw [← zpow_natCast]
      congr 1
      omega
    push_cast
    rw [← this]
    exact hx
  simp only [toDouble, if_neg h0]
  obtain ⟨m, hm⟩ : ∃ m : Nat, Int.log 2 |x| - 52 = -((j : Int) + m) := by
    refine ⟨(52 - (j : Int) - Int.log 2 |x|).toNat, ?_⟩
    omega
  rw [hm]
  have hu : (2 : ℚ) ^ (-((j : Int) + m)) = 1 / (2 ^ j * 2 ^ m) := by
    rw [zpow_neg, ← Nat.cast_add, zpow_natCast, pow_add, one_div]
  rw [hu]
  have hr : roundEven (x / (1 / (2 ^ j * 2 ^ m))) ≤ k * 2 ^ m := by
    apply roundEven_le
    have hp : (0 : ℚ) < 2 ^ j := by positivity
    have hq : (0 : ℚ) < 2 ^ m := by positivity
    rw [div_div_eq_mul_div, div_one]
    push_cast
    rw [le_div_iff₀ hp] at h
    nlinarith
  have hp : (0 : ℚ) < 2 ^ j * 2 ^ m := by positivity
  rw [mul_one_div, div_le_div_iff₀ hp (by positivity)]
  have : ((roundEven (x / (1 / (2 ^ j * 2 ^ m))) : Int) : ℚ) ≤ ((k * 2 ^ m : Int) : ℚ) := by
    exact_mod_cast hr
  push_cast at this
  nlinarith [this, (show (0 : ℚ) < 2 ^ j by positivity)]

theorem toDouble_ge (x : ℚ) (k : Int) (j : Nat) (hj : j ≤ 52) (hx : |x| < 2 ^ (52 - j))
    (h : (k : ℚ) / 2 ^ j ≤ x) : (k : ℚ) / 2 ^ j ≤ toDouble x := by
  by_cases h0 : x = 0
  · rw [h0] at h ⊢
    simpa [toDouble] using h
  have hpos : 0 < |x| := abs_pos.mpr h0
  have hle : Int.log 2 |x| < 52 - (j : Int) := by
    apply (Int.lt_zpow_iff_log_lt (b := 2) (by norm_num) hpos).mp
    have : ((2 : ℚ) ^ (52 - j : Nat)) = (2 : ℚ) ^ ((52 : Int) - (j : Int)) := by
      rw [← zpow_natCast]
      congr 1
      omega
    push_cast
    rw [← this]
    exact hx
  simp only [toDouble, if_neg h0]
  obtain ⟨m, hm⟩ : ∃ m : Nat, Int.log 2 |x| - 52 = -((j : Int) + m) := by
    refine ⟨(52 - (j : Int) - Int.log 2 |x|).toNat, ?_⟩
    omega
  rw [hm]
  have hu : (2 : ℚ) ^ (-((j : Int) + m)) = 1 / (2 ^ j * 2 ^ m) := by
    rw [zpow_neg, ← Nat.cast_add, zpow_natCast, pow_add, one_div]
  rw [hu]
  have hr : k * 2 ^ m ≤ roundEven (x / (1 / (2 ^ j * 2 ^ m))) := by
    apply roundEven_ge
    have hp : (0 : ℚ) < 2 ^ j := by positivity
    have hq : (0 : ℚ) < 2 ^ m := by positivity
    rw [div_div_eq_mul_div, div_one]
    push_cast
    rw [div_le_iff₀ hp] at h
    nlinarith
  have hp : (0 : ℚ) < 2 ^ j * 2 ^ m := by positivity
  rw [mul_one_div, div_le_div_iff₀ (by positivity) hp]
  have : ((k * 2 ^ m : Int) : ℚ) ≤ ((roundEven (x / (1 / (2 ^ j * 2 ^ m))) : Int) : ℚ) := by
    exact_mod_cast hr
  push_cast at this
  nlinarith [this, (show (0 : ℚ) < 2 ^ j by positivity)]

/-- Rounding does not cross an integer: version of `toDouble_le` for `j = 0`. -/
theorem toDouble_le_int (x : ℚ) (n : Int) (hx : |x| < 2 ^ 52) (h : x ≤ n) :
    toDouble x ≤ n := by
  have := toDouble_le x n 0 (by decide) (by simpa using hx) (by simpa using h)
  simpa using this

theorem toDouble_ge_int (x : ℚ) (n : Int) (hx : |x| < 2 ^ 52) (h : (n : ℚ) ≤ x) :
    (n : ℚ) ≤ toDouble x := by
  have := toDouble_ge x n 0 (by decide) (by simpa using hx) (by simpa using h)
  simpa using this

/-- An integer below `2 ^ 52` in absolute value is a `double`. -/
theorem toDouble_intCast (n : Int) (hn : |(n : ℚ)| < 2 ^ 52) : toDouble n = n :=
  le_antisymm (toDouble_le_int _ n hn le_rfl) (toDouble_ge_int _ n hn le_rfl)

/-! ## The search engine: proofs -/

@[simp] theorem Run.load_store (s : Run σ) (p : RegPtr) (v : Int) :
    (s.store p v).load p = v := by
  simp [Run.load, Run.store, LMS7002M_t.load, LMS7002M_t.store]

@[simp] theorem Run.store_trace (s : Run σ) (p : RegPtr) (v : Int) :
    (s.store p v).trace = s.trace := rfl

@[simp] theorem LMS7_logf_trace (s : Run σ) (lv : LMS7_log_level_t) (m : LogMsg)
    (a : List Int) : (LMS7_logf s lv m a).trace = s.trace ++ [Event.logf lv m a] := rfl

@[simp] theorem LMS7_logf_self (s : Run σ) (lv : LMS7_log_level_t) (m : LogMsg)
    (a : List Int) : (LMS7_logf s lv m a).self = s.self := rfl

@[simp] theorem LMS7_logf_load (s : Run σ) (lv : LMS7_log_level_t) (m : LogMsg)
    (a : List Int) (p : RegPtr) : (LMS7_logf s lv m a).load p = s.load p := rfl

theorem Run.calls_of_eq {s' s : Run σ} {l : List (Event σ)} (h : s'.trace = s.trace ++ l) :
    s'.calls s = l := by
  simp [Run.calls, h]

theorem rx_cal_loop_inner.do_while_last (E : Ext σ) (channel : LMS7002M_chan_t)
    (reg_ptr : RegPtr) (reg_addr : Nat) (reg_max desired : Int) (v : SearchVars σ)
    (h : Int.tdiv v.range 2 = 0) :
    rx_cal_loop_inner.do_while E channel reg_ptr reg_addr reg_max desired v
      = rx_cal_loop_inner.body E channel reg_ptr reg_addr reg_max desired v := by
  rw [rx_cal_loop_inner.do_while]
  simp [h]

theorem rx_cal_loop_inner.do_while_next (E : Ext σ) (channel : LMS7002M_chan_t)
    (reg_ptr : RegPtr) (reg_addr : Nat) (reg_max desired : Int) (v : SearchVars σ)
    (h : Int.tdiv v.range 2 ≠ 0) :
    rx_cal_loop_inner.do_while E channel reg_ptr reg_addr reg_max desired v
      = rx_cal_loop_inner.do_while E channel reg_ptr reg_addr reg_max desired
          (rx_cal_loop_inner.body E channel reg_ptr reg_addr reg_max desired v) := by
  rw [rx_cal_loop_inner.do_while]
  simp [h]

/-- The proof rule of the `do ... while`: `P` holds on entry to every pass,
`Q` after the last one. -/
theorem rx_cal_loop_inner.do_while_rule (E : Ext σ) (channel : LMS7002M_chan_t)
    (reg_ptr : RegPtr) (reg_addr : Nat) (reg_max desired : Int)
    (P Q : SearchVars σ → Prop)
    (hnext : ∀ v, P v → Int.tdiv v.range 2 ≠ 0 →
      P (rx_cal_loop_inner.body E channel reg_ptr reg_addr reg_max desired v))
    (hlast : ∀ v, P v → Int.tdiv v.range 2 = 0 →
      Q (rx_cal_loop_inner.body E channel reg_ptr reg_addr reg_max desired v)) :
    ∀ v, P v → Q (rx_cal_loop_inner.do_while E channel reg_ptr reg_addr reg_max desired v) := by
  intro v
  generalize h : v.range.natAbs = n
  induction n using Nat.strong_induction_on generalizing v with
  | _ n ih =>
    intro hP
    by_cases h2 : Int.tdiv v.range 2 = 0
    · rw [rx_cal_loop_inner.do_while_last E channel reg_ptr reg_addr reg_max desired v h2]
      exact hlast v hP h2
    · rw [rx_cal_loop_inner.do_while_next E channel reg_ptr reg_addr reg_max desired v h2]
      refine ih _ ?_ _ rfl (hnext v hP h2)
      show (Int.tdiv v.range 2).natAbs < n
      rw [Int.natAbs_tdiv, ← h]
      have h0 : v.range ≠ 0 := by
        intro h0
        simp [h0] at h2
      exact Nat.div_lt_self (Int.natAbs_pos.mpr h0) (by decide)

theorem rx_cal_loop_inner.body_trace (E : Ext σ) (channel : LMS7002M_chan_t)
    (reg_ptr : RegPtr) (reg_addr : Nat) (reg_max desired : Int) (v : SearchVars σ) :
    (rx_cal_loop_inner.body E channel reg_ptr reg_addr reg_max desired v).s.trace
      = v.s.trace ++
        [Event.regs_spi_write v.s.self reg_addr,
         Event.cal_read_rssi channel
           (E.cal_read_rssi (E.regs_spi_write v.s.self reg_addr) channel).1,
         Event.logf LMS7_log_level_t.LMS7_FATAL LogMsg.rssi_step
           [desired, (E.cal_read_rssi (E.regs_spi_write v.s.self reg_addr) channel).1, v.range,
            (E.cal_read_rssi (E.regs_spi_write v.s.self reg_addr) channel).2.load reg_ptr]] := by
  simp only [rx_cal_loop_inner.body]
  split_ifs <;>
    simp [LMS7002M_regs_spi_write, cal_read_rssi, Run.load]

theorem rx_cal_loop_inner.body_load_range (E : Ext σ) (channel : LMS7002M_chan_t)
    (reg_ptr : RegPtr) (reg_addr : Nat) (reg_max desired : Int) (v : SearchVars σ)
    (hmax : 0 ≤ reg_max) :
    0 ≤ (rx_cal_loop_inner.body E channel reg_ptr reg_addr reg_max desired v).s.load reg_ptr ∧
    (rx_cal_loop_inner.body E channel reg_ptr reg_addr reg_max desired v).s.load reg_ptr
      ≤ reg_max := by
  simp only [rx_cal_loop_inner.body]
  split_ifs <;> simp_all

theorem rx_cal_loop_inner.start_range (reg_max : Int) (hmax : 0 ≤ reg_max) :
    0 ≤ Int.tdiv (reg_max + 1) 2 ∧ Int.tdiv (reg_max + 1) 2 ≤ reg_max := by
  rw [Int.tdiv_eq_ediv (by omega) (by decide)]
  omega

/-- What the search leaves behind: its result is decided by the two
brackets, its calls are those of the loop followed by two log lines, and
the trim register holds what the loop left in it. -/
theorem rx_cal_loop_inner.unfold (E : Ext σ) (s : Run σ) (channel : LMS7002M_chan_t)
    (reg_ptr : RegPtr) (reg_addr : Nat) (reg_max : Int) (reg_name : Field) (desired : Int) :
    ∃ v : SearchVars σ,
      v = rx_cal_loop_inner.do_while E channel reg_ptr reg_addr reg_max desired
        { s := s.store reg_ptr (Int.tdiv (reg_max + 1) 2), rssi_value := 0, best_lo := -1,
          best_hi := -1, range := Int.tdiv (reg_max + 1) 2 } ∧
      (rx_cal_loop_inner E s channel reg_ptr reg_addr reg_max reg_name desired).2.self
        = v.s.self ∧
      (rx_cal_loop_inner E s channel reg_ptr reg_addr reg_max reg_name desired).2.trace
        = v.s.trace ++
          [Event.logf LMS7_log_level_t.LMS7_FATAL LogMsg.rssi_done
             [desired, v.rssi_value, v.best_lo, v.best_hi, s.load reg_ptr],
           Event.logf LMS7_log_level_t.LMS7_DEBUG LogMsg.reg_value [v.s.load reg_ptr]] ∧
      (rx_cal_loop_inner E s channel reg_ptr reg_addr reg_max reg_name desired).1
        = (if v.best_lo = -1 then cal_result_t.CAL_LOW
           else if v.best_hi = -1 then cal_result_t.CAL_HIGH else cal_result_t.CAL_OK) := by
  refine ⟨_, rfl, ?_, ?_, ?_⟩
  · simp only [rx_cal_loop_inner]
    split_ifs <;> rfl
  · simp only [rx_cal_loop_inner]
    split_ifs <;> simp
  · simp only [rx_cal_loop_inner]
    split_ifs <;> rfl

theorem writes_append (l₁ l₂ : List (Event σ)) : writes (l₁ ++ l₂) = writes l₁ ++ writes l₂ := by
  simp [writes, List.filterMap_append]

theorem samples_append (l₁ l₂ : List (Event σ)) :
    samples (l₁ ++ l₂) = samples l₁ ++ samples l₂ := by
  simp [samples, List.filterMap_append]

theorem busOps_append (l₁ l₂ : List (Event σ)) :
    busOps (l₁ ++ l₂) = busOps l₁ ++ busOps l₂ := by
  simp [busOps, List.filterMap_append]

theorem logged_append (m : LogMsg) (l₁ l₂ : List (Event σ)) :
    logged m (l₁ ++ l₂) = logged m l₁ + logged m l₂ := by
  simp [logged, List.countP_append]

/-- Every candidate the search writes and the code it leaves are within
`[0, reg_max]`. -/
theorem rx_cal_loop_inner.in_range (E : Ext σ) (s : Run σ) (channel : LMS7002M_chan_t)
    (reg_ptr : RegPtr) (reg_addr : Nat) (reg_max : Int) (reg_name : Field) (desired : Int)
    (hmax : 0 ≤ reg_max) :
    (∀ d ∈ writes ((rx_cal_loop_inner E s channel reg_ptr reg_addr reg_max reg_name
        desired).2.calls s), 0 ≤ d.load reg_ptr ∧ d.load reg_ptr ≤ reg_max) ∧
    0 ≤ (rx_cal_loop_inner E s channel reg_ptr reg_addr reg_max reg_name desired).2.load
      reg_ptr ∧
    (rx_cal_loop_inner E s channel reg_ptr reg_addr reg_max reg_name desired).2.load reg_ptr
      ≤ reg_max := by
  obtain ⟨v, hv, hself, htrace, -⟩ :=
    rx_cal_loop_inner.unfold E s channel reg_ptr reg_addr reg_max reg_name desired
  have key : (∃ l, v.s.trace = s.trace ++ l ∧
        ∀ d ∈ writes l, 0 ≤ d.load reg_ptr ∧ d.load reg_ptr ≤ reg_max) ∧
      0 ≤ v.s.load reg_ptr ∧ v.s.load reg_ptr ≤ reg_max := by
    rw [hv]
    refine rx_cal_loop_inner.do_while_rule E channel reg_ptr reg_addr reg_max desired
      (fun v => (∃ l, v.s.trace = s.trace ++ l ∧
        ∀ d ∈ writes l, 0 ≤ d.load reg_ptr ∧ d.load reg_ptr ≤ reg_max) ∧
        0 ≤ v.s.load reg_ptr ∧ v.s.load reg_ptr ≤ reg_max)
      (fun v => (∃ l, v.s.trace = s.trace ++ l ∧
        ∀ d ∈ writes l, 0 ≤ d.load reg_ptr ∧ d.load reg_ptr ≤ reg_max) ∧
        0 ≤ v.s.load reg_ptr ∧ v.s.load reg_ptr ≤ reg_max) ?_ ?_ _ ?_
    · rintro w ⟨⟨l, hl, hw⟩, hload⟩ -
      have ht := rx_cal_loop_inner.body_trace E channel reg_ptr reg_addr reg_max desired w
      rw [hl, List.append_assoc] at ht
      refine ⟨⟨_, ht, ?_⟩,
        rx_cal_loop_inner.body_load_range E channel reg_ptr reg_addr reg_max desired w hmax⟩
      intro d hd
      rw [writes_append] at hd
      rcases List.mem_append.mp hd with hd | hd
      · exact hw d hd
      · simp [writes, Event.written] at hd
        subst hd
        exact hload
    · rintro w ⟨⟨l, hl, hw⟩, hload⟩ -
      have ht := rx_cal_loop_inner.body_trace E channel reg_ptr reg_addr reg_max desired w
      rw [hl, List.append_assoc] at ht
      refine ⟨⟨_, ht, ?_⟩,
        rx_cal_loop_inner.body_load_range E channel reg_ptr reg_addr reg_max desired w hmax⟩
      intro d hd
      rw [writes_append] at hd
      rcases List.mem_append.mp hd with hd | hd
      · exact hw d hd
      · simp [writes, Event.written] at hd
        subst hd
        exact hload
    · refine ⟨⟨[], by simp, by simp [writes]⟩, ?_⟩
      simpa using rx_cal_loop_inner.start_range reg_max hmax
  obtain ⟨⟨l, hl, hw⟩, hload⟩ := key
  refine ⟨?_, ?_⟩
  · rw [hl, List.append_assoc] at htrace
    rw [Run.calls_of_eq htrace, writes_append]
    intro d hd
    rcases List.mem_append.mp hd with hd | hd
    · exact hw d hd
    · simp [writes, Event.written] at hd
  · have : (rx_cal_loop_inner E s channel reg_ptr reg_addr reg_max reg_name desired).2.load
        reg_ptr = v.s.load reg_ptr := by
      simp [Run.load, hself]
    rw [this]
    exact hload

/-- The reading of the pass of the search that starts in `v`. -/
theorem rx_cal_loop_inner.body_rssi (E : Ext σ) (channel : LMS7002M_chan_t)
    (reg_ptr : RegPtr) (reg_addr : Nat) (reg_max desired : Int) (v : SearchVars σ) :
    (rx_cal_loop_inner.body E channel reg_ptr reg_addr reg_max desired v).rssi_value
      = (E.cal_read_rssi (E.regs_spi_write v.s.self reg_addr) channel).1 := rfl

theorem rx_cal_loop_inner.body_range (E : Ext σ) (channel : LMS7002M_chan_t)
    (reg_ptr : RegPtr) (reg_addr : Nat) (reg_max desired : Int) (v : SearchVars σ) :
    (rx_cal_loop_inner.body E channel reg_ptr reg_addr reg_max desired v).range
      = Int.tdiv v.range 2 := rfl

theorem pass_load {E : Ext σ} {p : RegPtr} (hE : E.KeepsCell p) (s : Run σ)
    (a : Nat) (ch : LMS7002M_chan_t) :
    (cal_read_rssi E (LMS7002M_regs_spi_write E s a) ch).2.load p = s.load p := by
  show (E.cal_read_rssi (E.regs_spi_write s.self a) ch).2.load p = s.self.load p
  rw [hE.2, hE.1]

theorem cal_read_rssi_fst (E : Ext σ) (s : Run σ) (a : Nat) (ch : LMS7002M_chan_t) :
    (cal_read_rssi E (LMS7002M_regs_spi_write E s a) ch).1
      = (E.cal_read_rssi (E.regs_spi_write s.self a) ch).1 := rfl

theorem rx_cal_loop_inner.body_best_lo (E : Ext σ) (channel : LMS7002M_chan_t)
    (reg_ptr : RegPtr) (reg_addr : Nat) (reg_max desired : Int) (v : SearchVars σ)
    (hE : E.KeepsCell reg_ptr) :
    (rx_cal_loop_inner.body E channel reg_ptr reg_addr reg_max desired v).best_lo
      = if (E.cal_read_rssi (E.regs_spi_write v.s.self reg_addr) channel).1 < desired
        then v.s.load reg_ptr else v.best_lo := by
  simp only [rx_cal_loop_inner.body, LMS7_logf_load, pass_load hE, cal_read_rssi_fst]

theorem rx_cal_loop_inner.body_best_hi (E : Ext σ) (channel : LMS7002M_chan_t)
    (reg_ptr : RegPtr) (reg_addr : Nat) (reg_max desired : Int) (v : SearchVars σ)
    (hE : E.KeepsCell reg_ptr) :
    (rx_cal_loop_inner.body E channel reg_ptr reg_addr reg_max desired v).best_hi
      = if (E.cal_read_rssi (E.regs_spi_write v.s.self reg_addr) channel).1 < desired
        then v.best_hi else v.s.load reg_ptr := by
  simp only [rx_cal_loop_inner.body, LMS7_logf_load, pass_load hE, cal_read_rssi_fst]

/-- The code the pass that starts in `v` leaves in the trim register, when the
bus write and the reader leave the register alone. -/
theorem rx_cal_loop_inner.body_load (E : Ext σ) (channel : LMS7002M_chan_t)
    (reg_ptr : RegPtr) (reg_addr : Nat) (reg_max desired : Int) (v : SearchVars σ)
    (hE : E.KeepsCell reg_ptr) :
    (rx_cal_loop_inner.body E channel reg_ptr reg_addr reg_max desired v).s.load reg_ptr
      = (let c := if (E.cal_read_rssi (E.regs_spi_write v.s.self reg_addr) channel).1 < desired
          then v.s.load reg_ptr - Int.tdiv v.range 2 else v.s.load reg_ptr + Int.tdiv v.range 2
         if c < 0 then 0 else if c > reg_max then reg_max else c) := by
  simp only [rx_cal_loop_inner.body, LMS7_logf_load, pass_load hE, cal_read_rssi_fst]
  split_ifs <;> simp_all

/-- The two brackets of the search record which kinds of reading were seen. -/
theorem rx_cal_loop_inner.brackets (E : Ext σ) (s : Run σ) (channel : LMS7002M_chan_t)
    (reg_ptr : RegPtr) (reg_addr : Nat) (reg_max desired : Int)
    (hmax : 0 ≤ reg_max) (hE : E.KeepsCell reg_ptr) :
    ∃ l, (rx_cal_loop_inner.do_while E channel reg_ptr reg_addr reg_max desired
        { s := s.store reg_ptr (Int.tdiv (reg_max + 1) 2), rssi_value := 0, best_lo := -1,
          best_hi := -1, range := Int.tdiv (reg_max + 1) 2 }).s.trace = s.trace ++ l ∧
      ((rx_cal_loop_inner.do_while E channel reg_ptr reg_addr reg_max desired
        { s := s.store reg_ptr (Int.tdiv (reg_max + 1) 2), rssi_value := 0, best_lo := -1,
          best_hi := -1, range := Int.tdiv (reg_max + 1) 2 }).best_lo = -1
        ↔ ∀ x ∈ samples l, ¬ x < desired) ∧
      ((rx_cal_loop_inner.do_while E channel reg_ptr reg_addr reg_max desired
        { s := s.store reg_ptr (Int.tdiv (reg_max + 1) 2), rssi_value := 0, best_lo := -1,
          best_hi := -1, range := Int.tdiv (reg_max + 1) 2 }).best_hi = -1
        ↔ ∀ x ∈ samples l, x < desired) ∧
      samples l ≠ [] := by
  have step : ∀ w : SearchVars σ,
      ((∃ l, w.s.trace = s.trace ++ l ∧ (w.best_lo = -1 ↔ ∀ x ∈ samples l, ¬ x < desired) ∧
        (w.best_hi = -1 ↔ ∀ x ∈ samples l, x < desired)) ∧ 0 ≤ w.s.load reg_ptr) →
      ((∃ l, (rx_cal_loop_inner.body E channel reg_ptr reg_addr reg_max desired w).s.trace
          = s.trace ++ l ∧
        ((rx_cal_loop_inner.body E channel reg_ptr reg_addr reg_max desired w).best_lo = -1
          ↔ ∀ x ∈ samples l, ¬ x < desired) ∧
        ((rx_cal_loop_inner.body E channel reg_ptr reg_addr reg_max desired w).best_hi = -1
          ↔ ∀ x ∈ samples l, x < desired) ∧ samples l ≠ []) ∧
        0 ≤ (rx_cal_loop_inner.body E channel reg_ptr reg_addr reg_max desired w).s.load
          reg_ptr) := by
    rintro w ⟨⟨l, hl, hlo, hhi⟩, hload⟩
    have ht := rx_cal_loop_inner.body_trace E channel reg_ptr reg_addr reg_max desired w
    rw [hl, List.append_assoc] at ht
    refine ⟨⟨_, ht, ?_, ?_, ?_⟩,
      (rx_cal_loop_inner.body_load_range E channel reg_ptr reg_addr reg_max desired w hmax).1⟩
    · rw [rx_cal_loop_inner.body_best_lo E channel reg_ptr reg_addr reg_max desired w hE,
        samples_append]
      by_cases hr : (E.cal_read_rssi (E.regs_spi_write w.s.self reg_addr) channel).1 < desired
      · simp only [hr, if_true]
        constructor
        · intro h
          omega
        · intro h
          exact absurd hr (h _ (by simp [samples, Event.sample]))
      · simp only [hr, if_false, hlo]
        constructor
        · intro h x hx
          rcases List.mem_append.mp hx with hx | hx
          · exact h x hx
          · simp [samples, Event.sample] at hx
            subst hx
            exact hr
        · intro h x hx
          exact h x (List.mem_append.mpr (Or.inl hx))
    · rw [rx_cal_loop_inner.body_best_hi E channel reg_ptr reg_addr reg_max desired w hE,
        samples_append]
      by_cases hr : (E.cal_read_rssi (E.regs_spi_write w.s.self reg_addr) channel).1 < desired
      · simp only [hr, if_true, hhi]
        constructor
        · intro h x hx
          rcases List.mem_append.mp hx with hx | hx
          · exact h x hx
          · simp [samples, Event.sample] at hx
            subst hx
            exact hr
        · intro h x hx
          exact h x (List.mem_append.mpr (Or.inl hx))
      · simp only [hr, if_false]
        constructor
        · intro h
          omega
        · intro h
          exact absurd (h _ (by simp [samples, Event.sample])) hr
    · simp [samples_append, samples, Event.sample]
  have key := rx_cal_loop_inner.do_while_rule E channel reg_ptr reg_addr reg_max desired
    (fun w => (∃ l, w.s.trace = s.trace ++ l ∧
        (w.best_lo = -1 ↔ ∀ x ∈ samples l, ¬ x < desired) ∧
        (w.best_hi = -1 ↔ ∀ x ∈ samples l, x < desired)) ∧ 0 ≤ w.s.load reg_ptr)
    (fun w => ∃ l, w.s.trace = s.trace ++ l ∧
        (w.best_lo = -1 ↔ ∀ x ∈ samples l, ¬ x < desired) ∧
        (w.best_hi = -1 ↔ ∀ x ∈ samples l, x < desired) ∧ samples l ≠ [])
    (fun w hw _ => by
      obtain ⟨⟨l, h1, h2, h3, -⟩, h5⟩ := step w hw
      exact ⟨⟨l, h1, h2, h3⟩, h5⟩)
    (fun w hw _ => (step w hw).1)
    { s := s.store reg_ptr (Int.tdiv (reg_max + 1) 2), rssi_value := 0, best_lo := -1,
      best_hi := -1, range := Int.tdiv (reg_max + 1) 2 }
    ⟨⟨[], by simp, by simp [samples], by simp [samples]⟩, by
      simpa using (rx_cal_loop_inner.start_range reg_max hmax).1⟩
  exact key

/-- The result of the search in terms of the readings it took. -/
theorem rx_cal_loop_inner.result_iff (E : Ext σ) (s : Run σ) (channel : LMS7002M_chan_t)
    (reg_ptr : RegPtr) (reg_addr : Nat) (reg_max : Int) (reg_name : Field) (desired : Int)
    (hmax : 0 ≤ reg_max) (hE : E.KeepsCell reg_ptr) :
    ((rx_cal_loop_inner E s channel reg_ptr reg_addr reg_max reg_name desired).1
        = cal_result_t.CAL_OK ↔
      (∃ x ∈ samples ((rx_cal_loop_inner E s channel reg_ptr reg_addr reg_max reg_name
          desired).2.calls s), x < desired) ∧
      (∃ x ∈ samples ((rx_cal_loop_inner E s channel reg_ptr reg_addr reg_max reg_name
          desired).2.calls s), desired ≤ x)) ∧
    ((rx_cal_loop_inner E s channel reg_ptr reg_addr reg_max reg_name desired).1
        = cal_result_t.CAL_LOW ↔
      ∀ x ∈ samples ((rx_cal_loop_inner E s channel reg_ptr reg_addr reg_max reg_name
          desired).2.calls s), ¬ x < desired) ∧
    ((rx_cal_loop_inner E s channel reg_ptr reg_addr reg_max reg_name desired).1
        = cal_result_t.CAL_HIGH ↔
      ∀ x ∈ samples ((rx_cal_loop_inner E s channel reg_ptr reg_addr reg_max reg_name
          desired).2.calls s), x < desired) := by
  obtain ⟨v, hv, -, htrace, hres⟩ :=
    rx_cal_loop_inner.unfold E s channel reg_ptr reg_addr reg_max reg_name desired
  obtain ⟨l, hl, hlo, hhi, hne⟩ :=
    rx_cal_loop_inner.brackets E s channel reg_ptr reg_addr reg_max desired hmax hE
  rw [← hv] at hl hlo hhi
  rw [hl, List.append_assoc] at htrace
  have hs : samples ((rx_cal_loop_inner E s channel reg_ptr reg_addr reg_max reg_name
      desired).2.calls s) = samples l := by
    rw [Run.calls_of_eq htrace, samples_append]
    simp [samples, Event.sample]
  rw [hs, hres]
  obtain ⟨x0, hx0⟩ := List.exists_mem_of_ne_nil _ hne
  by_cases h1 : v.best_lo = -1
  · have a := hlo.mp h1
    simp only [h1, if_true]
    refine ⟨?_, ?_, ?_⟩
    · simp only [false_iff, reduceCtorEq]
      rintro ⟨⟨x, hx, hlt⟩, -⟩
      exact a x hx hlt
    · simp only [true_iff]
      exact a
    · simp only [false_iff, reduceCtorEq]
      intro h
      exact a x0 hx0 (h x0 hx0)
  · have a : ¬ ∀ x ∈ samples l, ¬ x < desired := fun h => h1 (hlo.mpr h)
    by_cases h2 : v.best_hi = -1
    · have b := hhi.mp h2
      simp only [h1, h2, if_true, if_false]
      refine ⟨?_, ?_, ?_⟩
      · simp only [false_iff, reduceCtorEq]
        rintro ⟨-, x, hx, hge⟩
        have := b x hx
        omega
      · simp only [false_iff, reduceCtorEq]
        exact a
      · simp only [true_iff]
        exact b
    · have b : ¬ ∀ x ∈ samples l, x < desired := fun h => h2 (hhi.mpr h)
      simp only [h1, h2, if_false]
      refine ⟨?_, ?_, ?_⟩
      · simp only [true_iff]
        push_neg at a b
        exact ⟨a, b⟩
      · simp only [false_iff, reduceCtorEq]
        exact a
      · simp only [false_iff, reduceCtorEq]
        exact b

theorem tdiv_two_pow_succ (m : Nat) : Int.tdiv ((2 : Int) ^ (m + 1)) 2 = 2 ^ m := by
  rw [Int.tdiv_eq_ediv (by positivity) (by decide), pow_succ]
  omega

theorem two_pow_pos_int (m : Nat) : (0 : Int) < 2 ^ m := by positivity

/-- Started with the range `2 ^ m`, the `do ... while` makes `m + 1` passes,
each one register write followed by one power sample. -/
theorem rx_cal_loop_inner.do_while_passes (E : Ext σ) (channel : LMS7002M_chan_t)
    (reg_ptr : RegPtr) (reg_addr : Nat) (reg_max desired : Int) :
    ∀ (m : Nat) (v : SearchVars σ), v.range = 2 ^ m →
      ∃ l, (rx_cal_loop_inner.do_while E channel reg_ptr reg_addr reg_max desired v).s.trace
          = v.s.trace ++ l ∧
        busOps l = (List.replicate (m + 1) [BusOp.write, BusOp.sample]).flatten := by
  intro m
  induction m with
  | zero =>
    intro v hv
    have h2 : Int.tdiv v.range 2 = 0 := by
      rw [hv]
      decide
    rw [rx_cal_loop_inner.do_while_last E channel reg_ptr reg_addr reg_max desired v h2]
    exact ⟨_, rx_cal_loop_inner.body_trace E channel reg_ptr reg_addr reg_max desired v, by
      simp [busOps, Event.busOp]⟩
  | succ m ih =>
    intro v hv
    have h2 : Int.tdiv v.range 2 = 2 ^ m := by
      rw [hv, tdiv_two_pow_succ]
    have h3 : Int.tdiv v.range 2 ≠ 0 := by
      rw [h2]
      exact (two_pow_pos_int m).ne'
    rw [rx_cal_loop_inner.do_while_next E channel reg_ptr reg_addr reg_max desired v h3]
    obtain ⟨l, hl, hb⟩ :=
      ih (rx_cal_loop_inner.body E channel reg_ptr reg_addr reg_max desired v) h2
    rw [rx_cal_loop_inner.body_trace, List.append_assoc] at hl
    refine ⟨_, hl, ?_⟩
    rw [busOps_append, hb, List.replicate_succ (n := m + 1)]
    simp [busOps, Event.busOp]

/-- With `reg_max = 2 ^ k - 1` the search makes `k` passes. -/
theorem rx_cal_loop_inner.passes (E : Ext σ) (s : Run σ) (channel : LMS7002M_chan_t)
    (reg_ptr : RegPtr) (reg_addr : Nat) (reg_name : Field) (desired : Int) (k : Nat)
    (hk : 1 ≤ k) :
    busOps ((rx_cal_loop_inner E s channel reg_ptr reg_addr (2 ^ k - 1) reg_name
        desired).2.calls s)
      = (List.replicate k [BusOp.write, BusOp.sample]).flatten := by
  obtain ⟨v, hv, -, htrace, -⟩ :=
    rx_cal_loop_inner.unfold E s channel reg_ptr reg_addr (2 ^ k - 1) reg_name desired
  obtain ⟨m, rfl⟩ : ∃ m, k = m + 1 := ⟨k - 1, by omega⟩
  have hr : Int.tdiv ((2 : Int) ^ (m + 1) - 1 + 1) 2 = 2 ^ m := by
    rw [sub_add_cancel, tdiv_two_pow_succ]
  obtain ⟨l, hl, hb⟩ := rx_cal_loop_inner.do_while_passes E channel reg_ptr reg_addr
    (2 ^ (m + 1) - 1) desired m
    { s := s.store reg_ptr (Int.tdiv ((2 : Int) ^ (m + 1) - 1 + 1) 2), rssi_value := 0,
      best_lo := -1, best_hi := -1, range := Int.tdiv ((2 : Int) ^ (m + 1) - 1 + 1) 2 } hr
  rw [← hv] at hl
  rw [hl] at htrace
  simp only [Run.store_trace, List.append_assoc] at htrace
  rw [Run.calls_of_eq htrace, busOps_append, hb]
  simp [busOps, Event.busOp]

/-- With `reg_max = 2 ^ k - 1` and a reader whose readings cross the target
at the code `X`, the search stops on `X` or on `X + 1`. -/
theorem rx_cal_loop_inner.converges (E : Ext σ) (s : Run σ) (channel : LMS7002M_chan_t)
    (reg_ptr : RegPtr) (reg_addr : Nat) (reg_name : Field) (desired : Int) (k : Nat) (X : Int)
    (hk : 1 ≤ k) (hX0 : 0 ≤ X) (hX1 : X ≤ 2 ^ k - 1) (hE : E.KeepsCell reg_ptr)
    (hmono : ∀ d ch, 0 ≤ d.load reg_ptr → d.load reg_ptr ≤ 2 ^ k - 1 →
      (desired ≤ (E.cal_read_rssi d ch).1 ↔ d.load reg_ptr ≤ X)) :
    (rx_cal_loop_inner E s channel reg_ptr reg_addr (2 ^ k - 1) reg_name desired).2.load
        reg_ptr - 1 ≤ X ∧
    X ≤ (rx_cal_loop_inner E s channel reg_ptr reg_addr (2 ^ k - 1) reg_name desired).2.load
        reg_ptr := by
  obtain ⟨v, hv, hself, -, -⟩ :=
    rx_cal_loop_inner.unfold E s channel reg_ptr reg_addr (2 ^ k - 1) reg_name desired
  have hload : (rx_cal_loop_inner E s channel reg_ptr reg_addr (2 ^ k - 1) reg_name
      desired).2.load reg_ptr = v.s.load reg_ptr := by
    simp [Run.load, hself]
  rw [hload, hv]
  obtain ⟨n, rfl⟩ : ∃ n, k = n + 1 := ⟨k - 1, by omega⟩
  have hr : Int.tdiv ((2 : Int) ^ (n + 1) - 1 + 1) 2 = 2 ^ n := by
    rw [sub_add_cancel, tdiv_two_pow_succ]
  rw [hr]
  -- the reading of a pass, in terms of the code the pass starts with
  have hread : ∀ w : SearchVars σ, 0 ≤ w.s.load reg_ptr →
      w.s.load reg_ptr ≤ 2 ^ (n + 1) - 1 →
      ((E.cal_read_rssi (E.regs_spi_write w.s.self reg_addr) channel).1 < desired
        ↔ X < w.s.load reg_ptr) := by
    intro w h0 h1
    have := hmono (E.regs_spi_write w.s.self reg_addr) channel
      (by rw [hE.1]; exact h0) (by rw [hE.1]; exact h1)
    rw [hE.1] at this
    constructor
    · intro h
      by_contra hc
      have := this.mpr (by simpa using not_lt.mp hc)
      omega
    · intro h
      by_contra hc
      have := this.mp (not_lt.mp hc)
      have : w.s.load reg_ptr ≤ X := this
      omega
  refine rx_cal_loop_inner.do_while_rule E channel reg_ptr reg_addr (2 ^ (n + 1) - 1) desired
    (fun w => ∃ m : Nat, w.range = 2 ^ m ∧ (2 : Int) ^ m ≤ w.s.load reg_ptr ∧
      w.s.load reg_ptr ≤ 2 ^ (n + 1) - 2 ^ m ∧ w.s.load reg_ptr - 2 ^ m ≤ X ∧
      X ≤ w.s.load reg_ptr + 2 ^ m - 1)
    (fun w => w.s.load reg_ptr - 1 ≤ X ∧ X ≤ w.s.load reg_ptr) ?_ ?_ _ ?_
  · rintro w ⟨m, hm, h1, h2, h3, h4⟩ hne
    have hp := two_pow_pos_int m
    obtain ⟨j, rfl⟩ : ∃ j, m = j + 1 := by
      cases m with
      | zero =>
        rw [hm] at hne
        exact absurd (by decide) hne
      | succ j => exact ⟨j, rfl⟩
    have ht : Int.tdiv w.range 2 = 2 ^ j := by rw [hm, tdiv_two_pow_succ]
    have hj := two_pow_pos_int j
    have hjj : (2 : Int) ^ (j + 1) = 2 * 2 ^ j := by rw [pow_succ]; ring
    refine ⟨j, ht, ?_⟩
    rw [rx_cal_loop_inner.body_load E channel reg_ptr reg_addr _ desired w hE, ht]
    have hrd := hread w (by omega) (by omega)
    rw [hjj] at h1 h2 h3 h4
    clear hjj hp hm hr hread hmono hv hself hload
    dsimp only
    generalize (2 : Int) ^ j = a at *
    generalize (2 : Int) ^ (n + 1) = K at *
    generalize w.s.load reg_ptr = c at *
    by_cases hlt : (E.cal_read_rssi (E.regs_spi_write w.s.self reg_addr) channel).1 < desired
    · have := hrd.mp hlt
      simp only [hlt, if_true]
      split_ifs <;> omega
    · have : ¬ X < c := fun h => hlt (hrd.mpr h)
      simp only [hlt, if_false]
      split_ifs <;> omega
  · rintro w ⟨m, hm, h1, h2, h3, h4⟩ hz
    obtain rfl : m = 0 := by
      cases m with
      | zero => rfl
      | succ j =>
        rw [hm, tdiv_two_pow_succ] at hz
        exact absurd hz (two_pow_pos_int j).ne'
    rw [rx_cal_loop_inner.body_load E channel reg_ptr reg_addr _ desired w hE, hz]
    have hK := two_pow_pos_int (n + 1)
    simp only [pow_zero] at h1 h2 h3 h4
    clear hr hread hmono hv hself hload hm
    dsimp only
    generalize (2 : Int) ^ (n + 1) = K at *
    generalize w.s.load reg_ptr = c at *
    simp only [sub_zero, add_zero, ite_self]
    split_ifs <;> omega
  · refine ⟨n, rfl, ?_⟩
    have hn := two_pow_pos_int n
    have hnn : (2 : Int) ^ (n + 1) = 2 * 2 ^ n := by rw [pow_succ]; ring
    simp only [Run.load_store]
    rw [hnn] at hX1 ⊢
    generalize (2 : Int) ^ n = a at *
    omega

/-! ## The search engine: the claims -/

/-- C1: for a trim register with `reg_max = 2 ^ k - 1`, `k ≥ 1`, every target
and every power reader that is monotonic in the trim code in the polarity the
engine assumes (the reading is at or above the target exactly when the code is
at most the crossing code `X`, with `X` in `[0, reg_max]`), `rx_cal_loop_inner`
leaves the trim register at a code `c` with `|c - X| ≤ 1`.  The bus write and
the power reader are taken to leave the trim register's field of the register
map as it is. -/
theorem C1_search_converges (E : Ext σ) (s : Run σ) (channel : LMS7002M_chan_t)
    (reg_ptr : RegPtr) (reg_addr : Nat) (reg_name : Field) (desired : Int) (k : Nat) (X : Int)
    (hk : 1 ≤ k) (hX0 : 0 ≤ X) (hX1 : X ≤ 2 ^ k - 1) (hE : E.KeepsCell reg_ptr)
    (hmono : ∀ d ch, 0 ≤ d.load reg_ptr → d.load reg_ptr ≤ 2 ^ k - 1 →
      (desired ≤ (E.cal_read_rssi d ch).1 ↔ d.load reg_ptr ≤ X)) :
    |(rx_cal_loop_inner E s channel reg_ptr reg_addr (2 ^ k - 1) reg_name desired).2.load
        reg_ptr - X| ≤ 1 := by
  have h := rx_cal_loop_inner.converges E s channel reg_ptr reg_addr reg_name desired k X
    hk hX0 hX1 hE hmono
  rw [abs_le]
  constructor <;> omega

/-- C1 on the simulated chip: the 12-bit register `cfb_tia_rfe`, readings that
cross the target `1` at the code `1000`. -/
theorem C1_search_converges_witness :
    |(rx_cal_loop_inner (simExt (fun c => if c ≤ 1000 then 1 else 0) simPtr 0) (simRun 0)
        LMS7002M_chan_t.LMS_CHA simPtr 0x0112 (2 ^ 12 - 1) Field.reg_0x0112_cfb_tia_rfe
        1).2.load simPtr - 1000| ≤ 1 :=
  C1_search_converges (simExt (fun c => if c ≤ 1000 then 1 else 0) simPtr 0) (simRun 0)
    LMS7002M_chan_t.LMS_CHA simPtr 0x0112 Field.reg_0x0112_cfb_tia_rfe 1 12 1000
    (by decide) (by decide) (by norm_num) ⟨fun _ _ => rfl, fun _ _ => rfl⟩
    (by
      intro d ch _ _
      show (1 : Int) ≤ (if d.load simPtr ≤ 1000 then 1 else 0) ↔ d.load simPtr ≤ 1000
      split_ifs with h <;> simp [h])

/-- Below `INT_MAX`, the `int` sum `reg_max + 1` of line 64 does not wrap: the
initial range of the model is the one 32-bit arithmetic computes. -/
theorem int32_succ (reg_max : Int) (h0 : 0 ≤ reg_max) (h1 : reg_max < 2 ^ 31 - 1) :
    int32 (reg_max + 1) = reg_max + 1 := by
  simp only [int32]
  omega

/-- C2, as the code has it: for every `reg_max` with `0 ≤ reg_max < INT_MAX`
(`INT_MAX = 2 ^ 31 - 1`, where the `int` sum `reg_max + 1` of line 64 would
overflow), every initial register value, every target and every power reader,
the initial range is computed without overflow, and every candidate that
`rx_cal_loop_inner` hands to the bus write and the value it leaves in the trim
register lie in `[0, reg_max]`. -/
theorem C2_search_within_bounds (E : Ext σ) (s : Run σ) (channel : LMS7002M_chan_t)
    (reg_ptr : RegPtr) (reg_addr : Nat) (reg_max : Int) (reg_name : Field) (desired : Int)
    (hmax : 0 ≤ reg_max) (hint : reg_max < 2 ^ 31 - 1) :
    Int.tdiv (int32 (reg_max + 1)) 2 = Int.tdiv (reg_max + 1) 2 ∧
    (∀ d ∈ writes ((rx_cal_loop_inner E s channel reg_ptr reg_addr reg_max reg_name
        desired).2.calls s), 0 ≤ d.load reg_ptr ∧ d.load reg_ptr ≤ reg_max) ∧
    0 ≤ (rx_cal_loop_inner E s channel reg_ptr reg_addr reg_max reg_name desired).2.load
      reg_ptr ∧
    (rx_cal_loop_inner E s channel reg_ptr reg_addr reg_max reg_name desired).2.load reg_ptr
      ≤ reg_max :=
  ⟨by rw [int32_succ reg_max hmax hint],
    rx_cal_loop_inner.in_range E s channel reg_ptr reg_addr reg_max reg_name desired hmax⟩

/-- C2 on the simulated chip, for a register with `reg_max = 6`. -/
theorem C2_search_within_bounds_witness :
    Int.tdiv (int32 (6 + 1)) 2 = Int.tdiv (6 + 1) 2 ∧
    (∀ d ∈ writes ((rx_cal_loop_inner (simExt (fun c => c) simPtr 0) (simRun 9)
        LMS7002M_chan_t.LMS_CHA simPtr 0x0112 6 Field.reg_0x0112_cfb_tia_rfe 3).2.calls
        (simRun 9)), 0 ≤ d.load simPtr ∧ d.load simPtr ≤ 6) ∧
    0 ≤ (rx_cal_loop_inner (simExt (fun c => c) simPtr 0) (simRun 9)
        LMS7002M_chan_t.LMS_CHA simPtr 0x0112 6 Field.reg_0x0112_cfb_tia_rfe 3).2.load
        simPtr ∧
    (rx_cal_loop_inner (simExt (fun c => c) simPtr 0) (simRun 9)
        LMS7002M_chan_t.LMS_CHA simPtr 0x0112 6 Field.reg_0x0112_cfb_tia_rfe 3).2.load
        simPtr ≤ 6 :=
  C2_search_within_bounds (simExt (fun c => c) simPtr 0) (simRun 9)
    LMS7002M_chan_t.LMS_CHA simPtr 0x0112 6 Field.reg_0x0112_cfb_tia_rfe 3 (by decide)
    (by decide)

/-- C3: for every run of `rx_cal_loop_inner` on a trim register (`reg_max ≥ 0`,
the bus write and the power reader leaving the register's field of the map as
it is): it returns `CAL_OK` if and only if at least one sample read below the
target and at least one read at or above it; it returns `CAL_LOW` if and only
if no sample read below the target; it returns `CAL_HIGH` if and only if every
sample read below the target. -/
theorem C3_search_result (E : Ext σ) (s : Run σ) (channel : LMS7002M_chan_t)
    (reg_ptr : RegPtr) (reg_addr : Nat) (reg_max : Int) (reg_name : Field) (desired : Int)
    (hmax : 0 ≤ reg_max) (hE : E.KeepsCell reg_ptr) :
    ((rx_cal_loop_inner E s channel reg_ptr reg_addr reg_max reg_name desired).1
        = cal_result_t.CAL_OK ↔
      (∃ x ∈ samples ((rx_cal_loop_inner E s channel reg_ptr reg_addr reg_max reg_name
          desired).2.calls s), x < desired) ∧
      (∃ x ∈ samples ((rx_cal_loop_inner E s channel reg_ptr reg_addr reg_max reg_name
          desired).2.calls s), desired ≤ x)) ∧
    ((rx_cal_loop_inner E s channel reg_ptr reg_addr reg_max reg_name desired).1
        = cal_result_t.CAL_LOW ↔
      ∀ x ∈ samples ((rx_cal_loop_inner E s channel reg_ptr reg_addr reg_max reg_name
          desired).2.calls s), ¬ x < desired) ∧
    ((rx_cal_loop_inner E s channel reg_ptr reg_addr reg_max reg_name desired).1
        = cal_result_t.CAL_HIGH ↔
      ∀ x ∈ samples ((rx_cal_loop_inner E s channel reg_ptr reg_addr reg_max reg_name
          desired).2.calls s), x < desired) :=
  rx_cal_loop_inner.result_iff E s channel reg_ptr reg_addr reg_max reg_name desired hmax hE

/-- C3 on the simulated chip: the 8-bit register, readings equal to the code,
target `100`. -/
theorem C3_search_result_witness :
    ((rx_cal_loop_inner (simExt (fun c => c) simPtr 0) (simRun 0) LMS7002M_chan_t.LMS_CHA
        simPtr 0x0112 255 Field.reg_0x0112_cfb_tia_rfe 100).1 = cal_result_t.CAL_OK ↔
      (∃ x ∈ samples ((rx_cal_loop_inner (simExt (fun c => c) simPtr 0) (simRun 0)
          LMS7002M_chan_t.LMS_CHA simPtr 0x0112 255 Field.reg_0x0112_cfb_tia_rfe
          100).2.calls (simRun 0)), x < 100) ∧
      (∃ x ∈ samples ((rx_cal_loop_inner (simExt (fun c => c) simPtr 0) (simRun 0)
          LMS7002M_chan_t.LMS_CHA simPtr 0x0112 255 Field.reg_0x0112_cfb_tia_rfe
          100).2.calls (simRun 0)), 100 ≤ x)) ∧
    ((rx_cal_loop_inner (simExt (fun c => c) simPtr 0) (simRun 0) LMS7002M_chan_t.LMS_CHA
        simPtr 0x0112 255 Field.reg_0x0112_cfb_tia_rfe 100).1 = cal_result_t.CAL_LOW ↔
      ∀ x ∈ samples ((rx_cal_loop_inner (simExt (fun c => c) simPtr 0) (simRun 0)
          LMS7002M_chan_t.LMS_CHA simPtr 0x0112 255 Field.reg_0x0112_cfb_tia_rfe
          100).2.calls (simRun 0)), ¬ x < 100) ∧
    ((rx_cal_loop_inner (simExt (fun c => c) simPtr 0) (simRun 0) LMS7002M_chan_t.LMS_CHA
        simPtr 0x0112 255 Field.reg_0x0112_cfb_tia_rfe 100).1 = cal_result_t.CAL_HIGH ↔
      ∀ x ∈ samples ((rx_cal_loop_inner (simExt (fun c => c) simPtr 0) (simRun 0)
          LMS7002M_chan_t.LMS_CHA simPtr 0x0112 255 Field.reg_0x0112_cfb_tia_rfe
          100).2.calls (simRun 0)), x < 100) :=
  C3_search_result (simExt (fun c => c) simPtr 0) (simRun 0) LMS7002M_chan_t.LMS_CHA
    simPtr 0x0112 255 Field.reg_0x0112_cfb_tia_rfe 100 (by decide)
    ⟨fun _ _ => rfl, fun _ _ => rfl⟩

/-- C4: for every trim register (`reg_max` one of 31, 255, 2047, 4095), every
target and every power reader, `rx_cal_loop_inner` makes exactly
`ceil(log2(reg_max + 1))` passes (5, 8, 11, 12 respectively), each one
register write followed by one power sample, whatever the readings are. -/
theorem C4_search_passes (E : Ext σ) (s : Run σ) (channel : LMS7002M_chan_t)
    (reg_ptr : RegPtr) (reg_addr : Nat) (reg_max : Int) (reg_name : Field) (desired : Int)
    (hmax : reg_max = 31 ∨ reg_max = 255 ∨ reg_max = 2047 ∨ reg_max = 4095) :
    busOps ((rx_cal_loop_inner E s channel reg_ptr reg_addr reg_max reg_name
        desired).2.calls s)
      = (List.replicate (Nat.clog 2 (reg_max + 1).toNat)
          [BusOp.write, BusOp.sample]).flatten ∧
    (reg_max = 31 → Nat.clog 2 (reg_max + 1).toNat = 5) ∧
    (reg_max = 255 → Nat.clog 2 (reg_max + 1).toNat = 8) ∧
    (reg_max = 2047 → Nat.clog 2 (reg_max + 1).toNat = 11) ∧
    (reg_max = 4095 → Nat.clog 2 (reg_max + 1).toNat = 12) := by
  have c5 : Nat.clog 2 ((31 : Int) + 1).toNat = 5 := Nat.clog_pow 2 5 (by decide)
  have c8 : Nat.clog 2 ((255 : Int) + 1).toNat = 8 := Nat.clog_pow 2 8 (by decide)
  have c11 : Nat.clog 2 ((2047 : Int) + 1).toNat = 11 := Nat.clog_pow 2 11 (by decide)
  have c12 : Nat.clog 2 ((4095 : Int) + 1).toNat = 12 := Nat.clog_pow 2 12 (by decide)
  have p5 := rx_cal_loop_inner.passes E s channel reg_ptr reg_addr reg_name desired 5
    (by decide)
  have p8 := rx_cal_loop_inner.passes E s channel reg_ptr reg_addr reg_name desired 8
    (by decide)
  have p11 := rx_cal_loop_inner.passes E s channel reg_ptr reg_addr reg_name desired 11
    (by decide)
  have p12 := rx_cal_loop_inner.passes E s channel reg_ptr reg_addr reg_name desired 12
    (by decide)
  norm_num at p5 p8 p11 p12
  rcases hmax with h | h | h | h <;> subst h
  · exact ⟨by rw [c5]; exact p5, fun _ => c5, by norm_num, by norm_num, by norm_num⟩
  · exact ⟨by rw [c8]; exact p8, by norm_num, fun _ => c8, by norm_num, by norm_num⟩
  · exact ⟨by rw [c11]; exact p11, by norm_num, by norm_num, fun _ => c11, by norm_num⟩
  · exact ⟨by rw [c12]; exact p12, by norm_num, by norm_num, by norm_num, fun _ => c12⟩

/-- C4 on the simulated chip, for the 5-bit register. -/
theorem C4_search_passes_witness :
    busOps ((rx_cal_loop_inner (simExt (fun c => c) simPtr 0) (simRun 0)
        LMS7002M_chan_t.LMS_CHA simPtr 0x0116 31 Field.reg_0x0116_r_ctl_lpf_rbb 7).2.calls
        (simRun 0))
      = (List.replicate (Nat.clog 2 ((31 : Int) + 1).toNat)
          [BusOp.write, BusOp.sample]).flatten ∧
    ((31 : Int) = 31 → Nat.clog 2 ((31 : Int) + 1).toNat = 5) ∧
    ((31 : Int) = 255 → Nat.clog 2 ((31 : Int) + 1).toNat = 8) ∧
    ((31 : Int) = 2047 → Nat.clog 2 ((31 : Int) + 1).toNat = 11) ∧
    ((31 : Int) = 4095 → Nat.clog 2 ((31 : Int) + 1).toNat = 12) :=
  C4_search_passes (simExt (fun c => c) simPtr 0) (simRun 0) LMS7002M_chan_t.LMS_CHA simPtr
    0x0116 31 Field.reg_0x0116_r_ctl_lpf_rbb 7 (Or.inl rfl)

/-! ## The outer loop: proofs -/

/-- One run of the search logs its final register value (`reg_value`) once and
logs no resistor adjustment (`r_value`). -/
theorem rx_cal_loop_inner.log_count (E : Ext σ) (s : Run σ) (channel : LMS7002M_chan_t)
    (reg_ptr : RegPtr) (reg_addr : Nat) (reg_max : Int) (reg_name : Field) (desired : Int) :
    ∃ l, (rx_cal_loop_inner E s channel reg_ptr reg_addr reg_max reg_name desired).2.trace
        = s.trace ++ l ∧
      logged LogMsg.reg_value l = 1 ∧ logged LogMsg.r_value l = 0 := by
  obtain ⟨v, hv, -, htrace, -⟩ :=
    rx_cal_loop_inner.unfold E s channel reg_ptr reg_addr reg_max reg_name desired
  have key : ∃ l, v.s.trace = s.trace ++ l ∧
      logged LogMsg.reg_value l = 0 ∧ logged LogMsg.r_value l = 0 := by
    have step : ∀ w : SearchVars σ,
        (∃ l, w.s.trace = s.trace ++ l ∧
          logged LogMsg.reg_value l = 0 ∧ logged LogMsg.r_value l = 0) →
        ∃ l, (rx_cal_loop_inner.body E channel reg_ptr reg_addr reg_max desired w).s.trace
            = s.trace ++ l ∧
          logged LogMsg.reg_value l = 0 ∧ logged LogMsg.r_value l = 0 := by
      rintro w ⟨l, hl, h1, h2⟩
      have ht := rx_cal_loop_inner.body_trace E channel reg_ptr reg_addr reg_max desired w
      rw [hl, List.append_assoc] at ht
      refine ⟨_, ht, ?_, ?_⟩
      · rw [logged_append, h1]
        simp [logged]
      · rw [logged_append, h2]
        simp [logged]
    rw [hv]
    exact rx_cal_loop_inner.do_while_rule E channel reg_ptr reg_addr reg_max desired
      (fun w => ∃ l, w.s.trace = s.trace ++ l ∧
        logged LogMsg.reg_value l = 0 ∧ logged LogMsg.r_value l = 0)
      (fun w => ∃ l, w.s.trace = s.trace ++ l ∧
        logged LogMsg.reg_value l = 0 ∧ logged LogMsg.r_value l = 0)
      (fun w hw _ => step w hw) (fun w hw _ => step w hw) _
      ⟨[], by simp, by simp [logged], by simp [logged]⟩
  obtain ⟨l, hl, h1, h2⟩ := key
  rw [hl, List.append_assoc] at htrace
  refine ⟨_, htrace, ?_, ?_⟩
  · rw [logged_append, h1]
    simp [logged]
  · rw [logged_append, h2]
    simp [logged]

theorem rx_cal_loop.commit_trace (E : Ext σ) (s : Run σ) :
    ∃ l, (rx_cal_loop.commit E s).trace = s.trace ++ l ∧
      logged LogMsg.reg_value l = 0 ∧ logged LogMsg.r_value l = 1 := by
  simp only [rx_cal_loop.commit]
  split_ifs <;>
    exact ⟨_, by simp [LMS7002M_regs_spi_write, Run.set]; rfl, by simp [logged],
      by simp [logged]⟩

@[simp] theorem Run.set_trace (s : Run σ) (f : Field) (v : Int) :
    (s.set f v).trace = s.trace := rfl

/-- The retries of `rx_cal_loop`: started with `r_range < 2 ^ n`, the loop runs
the search at most `n + 1` times and adjusts the resistor trim at most `n`
times, and it returns `0` or `-1`. -/
theorem rx_cal_loop.for_ever_bound (E : Ext σ) (channel : LMS7002M_chan_t) (reg_ptr : RegPtr)
    (reg_addr : Nat) (reg_max : Int) (reg_name : Field) (desired : Int) :
    ∀ (n r_range : Nat) (s : Run σ), r_range < 2 ^ n →
      ∃ l, (rx_cal_loop.for_ever E channel reg_ptr reg_addr reg_max reg_name desired s
          r_range).2.trace = s.trace ++ l ∧
        logged LogMsg.reg_value l ≤ n + 1 ∧ logged LogMsg.r_value l ≤ n ∧
        ((rx_cal_loop.for_ever E channel reg_ptr reg_addr reg_max reg_name desired s
            r_range).1 = 0 ∨
          (rx_cal_loop.for_ever E channel reg_ptr reg_addr reg_max reg_name desired s
            r_range).1 = -1) := by
  intro n
  induction n with
  | zero =>
    intro r_range s hr
    have h0 : r_range = 0 := by simpa using hr
    obtain ⟨l, hl, h1, h2⟩ :=
      rx_cal_loop_inner.log_count E s channel reg_ptr reg_addr reg_max reg_name desired
    rw [rx_cal_loop.for_ever]
    split
    · exact ⟨l, hl, by omega, by omega, Or.inl rfl⟩
    · rw [dif_pos (Or.inr h0)]
      exact ⟨l, hl, by omega, by omega, Or.inr rfl⟩
    · rw [dif_pos (Or.inr h0)]
      exact ⟨l, hl, by omega, by omega, Or.inr rfl⟩
  | succ n ih =>
    intro r_range s hr
    have hhalf : r_range / 2 < 2 ^ n := by
      rw [pow_succ] at hr
      omega
    obtain ⟨l, hl, h1, h2⟩ :=
      rx_cal_loop_inner.log_count E s channel reg_ptr reg_addr reg_max reg_name desired
    rw [rx_cal_loop.for_ever]
    split
    · exact ⟨l, hl, by omega, by omega, Or.inl rfl⟩
    · split_ifs with hc
      · exact ⟨l, hl, by omega, by omega, Or.inr rfl⟩
      · obtain ⟨lc, hlc, c1, c2⟩ := rx_cal_loop.commit_trace E
          ((rx_cal_loop_inner E s channel reg_ptr reg_addr reg_max reg_name desired).2.set
            Field.reg_0x0116_r_ctl_lpf_rbb
            ((rx_cal_loop_inner E s channel reg_ptr reg_addr reg_max reg_name desired).2.get
              Field.reg_0x0116_r_ctl_lpf_rbb - r_range))
        obtain ⟨l', hl', r1, r2, r3⟩ := ih (r_range / 2) _ hhalf
        rw [hlc, Run.set_trace, hl, List.append_assoc, List.append_assoc] at hl'
        refine ⟨_, hl', ?_, ?_, r3⟩
        · rw [logged_append, logged_append]
          omega
        · rw [logged_append, logged_append]
          omega
    · split_ifs with hc
      · exact ⟨l, hl, by omega, by omega, Or.inr rfl⟩
      · obtain ⟨lc, hlc, c1, c2⟩ := rx_cal_loop.commit_trace E
          ((rx_cal_loop_inner E s channel reg_ptr reg_addr reg_max reg_name desired).2.set
            Field.reg_0x0116_r_ctl_lpf_rbb
            ((rx_cal_loop_inner E s channel reg_ptr reg_addr reg_max reg_name desired).2.get
              Field.reg_0x0116_r_ctl_lpf_rbb + r_range))
        obtain ⟨l', hl', r1, r2, r3⟩ := ih (r_range / 2) _ hhalf
        rw [hlc, Run.set_trace, hl, List.append_assoc, List.append_assoc] at hl'
        refine ⟨_, hl', ?_, ?_, r3⟩
        · rw [logged_append, logged_append]
          omega
        · rw [logged_append, logged_append]
          omega

/-- The calls of `setup_rx_cal_tone`: it takes no sample, writes no register
and logs neither of the two messages counted in the outer loop. -/
theorem setup_rx_cal_tone_trace (E : Ext σ) (s : Run σ) (channel : LMS7002M_chan_t)
    (bw off : ℚ) :
    ∃ l, (setup_rx_cal_tone E s channel bw off).2.trace = s.trace ++ l ∧
      logged LogMsg.reg_value l = 0 ∧ logged LogMsg.r_value l = 0 ∧
      samples l = [] ∧ writes l = [] := by
  simp only [setup_rx_cal_tone]
  split_ifs <;>
    exact ⟨_, by
      simp [LMS7002M_sxx_enable, LMS7002M_sxt_to_sxr, LMS7002M_set_mac_ch,
        LMS7002M_set_lo_freq, LMS7002M_rxtsp_set_freq]
      rfl, by simp [logged], by simp [logged], by simp [samples, Event.sample],
      by simp [writes, Event.written]⟩

/-- The outer loop runs the search at most 5 times, adjusts the resistor trim
at most 4 times and returns `0` or `-1`. -/
theorem rx_cal_loop.bound (E : Ext σ) (s : Run σ) (channel : LMS7002M_chan_t) (bw : ℚ)
    (reg_ptr : RegPtr) (reg_addr : Nat) (reg_max : Int) (reg_name : Field) (desired : Int) :
    logged LogMsg.reg_value
        ((rx_cal_loop E s channel bw reg_ptr reg_addr reg_max reg_name desired).2.calls s)
      ≤ 5 ∧
    logged LogMsg.r_value
        ((rx_cal_loop E s channel bw reg_ptr reg_addr reg_max reg_name desired).2.calls s)
      ≤ 4 ∧
    ((rx_cal_loop E s channel bw reg_ptr reg_addr reg_max reg_name desired).1 = 0 ∨
      (rx_cal_loop E s channel bw reg_ptr reg_addr reg_max reg_name desired).1 = -1) := by
  obtain ⟨lt, hlt, t1, t2, -, -⟩ :=
    setup_rx_cal_tone_trace E (LMS7002M_set_mac_ch E s channel) channel bw 50000
  have hlt' : (setup_rx_cal_tone E (LMS7002M_set_mac_ch E s channel) channel bw 50000).2.trace
      = s.trace ++ ([Event.set_mac_ch channel] ++ lt) := by
    rw [hlt]
    simp [LMS7002M_set_mac_ch]
  simp only [rx_cal_loop]
  split_ifs with hs
  · rw [Run.calls_of_eq hlt', logged_append, logged_append, t1, t2]
    exact ⟨by simp [logged], by simp [logged], Or.inr rfl⟩
  · obtain ⟨l, hl, h1, h2, h3⟩ := rx_cal_loop.for_ever_bound E channel reg_ptr reg_addr
      reg_max reg_name desired 4 8
      (setup_rx_cal_tone E (LMS7002M_set_mac_ch E s channel) channel bw 50000).2 (by decide)
    rw [hlt', List.append_assoc] at hl
    rw [Run.calls_of_eq hl, logged_append, logged_append, logged_append, logged_append, t1, t2]
    refine ⟨?_, ?_, h3⟩
    · simp [logged] at h1 ⊢
      omega
    · simp [logged] at h2 ⊢
      omega

/-- C5: for every power reader, target, trim register and initial value of
`r_ctl_lpf_rbb`, `rx_cal_loop` terminates after at most 4 retries: it runs the
search at most 5 times (each run logs its final register value, `reg_value`,
once), adjusts `r_ctl_lpf_rbb` at most 4 times (each adjustment logs the new
value, `r_value`, once), and returns success (`0`) or failure (`-1`).  When the
tone set-up fails it returns failure without a single run. -/
theorem C5_outer_loop_terminates (E : Ext σ) (s : Run σ) (channel : LMS7002M_chan_t)
    (bw : ℚ) (reg_ptr : RegPtr) (reg_addr : Nat) (reg_max : Int) (reg_name : Field)
    (desired : Int) :
    logged LogMsg.reg_value
        ((rx_cal_loop E s channel bw reg_ptr reg_addr reg_max reg_name desired).2.calls s)
      ≤ 5 ∧
    logged LogMsg.r_value
        ((rx_cal_loop E s channel bw reg_ptr reg_addr reg_max reg_name desired).2.calls s)
      ≤ 4 ∧
    ((rx_cal_loop E s channel bw reg_ptr reg_addr reg_max reg_name desired).1 = 0 ∨
      (rx_cal_loop E s channel bw reg_ptr reg_addr reg_max reg_name desired).1 = -1) :=
  rx_cal_loop.bound E s channel bw reg_ptr reg_addr reg_max reg_name desired

/-! ## The dispatcher: proofs -/

theorem Run.set_regs_self (s : Run σ) (f : Field) (v : Int) :
    (s.set f v).self.regs = s.self.regs := rfl

theorem Run.set_map (s : Run σ) (f : Field) (v : Int) (i : Fin 2) (g : Field) :
    (s.set f v).self._regs i g
      = if i = s.self.regs ∧ g = f then v else s.self._regs i g := by
  simp only [Run.set, Run.store, Run.addr, LMS7002M_t.store, Function.update]
  by_cases hi : i = s.self.regs
  · subst hi
    by_cases hg : g = f
    · subst hg
      simp
    · simp [hg]
  · simp [hi]

theorem Run.get_eq (s : Run σ) (f : Field) : s.get f = s.self._regs s.self.regs f := rfl

/-- The cleanup of the dispatcher leaves a field that it does not write back
or set as the snapshot has it. -/
theorem LMS7002M_rbb_set_filter_bw.done_other (E : Ext σ) (s : Run σ)
    (channel : LMS7002M_chan_t) (saved_map : Fin 2 → LMS7002M_regs_t) (path : LMS7002M_path_t)
    (i : Fin 2) (f : Field) (hk : E.Keeps i f)
    (hf : f ∉ trimFields ++ companionFields) :
    (LMS7002M_rbb_set_filter_bw.done E s channel saved_map path).self._regs i f
      = saved_map i f := by
  obtain ⟨k1, k2, k3, k4⟩ := hk
  simp only [trimFields, companionFields, List.cons_append, List.nil_append, List.mem_cons,
    List.mem_singleton, not_or, List.mem_nil_iff, not_false_eq_true, and_true] at hf
  obtain ⟨f1, f2, f3, f4, f5, f6, f7, f8, f9, f10, f11, f12, f13⟩ := hf
  simp only [LMS7002M_rbb_set_filter_bw.done, LMS7002M_rbb_set_path, LMS7002M_regs_spi_write,
    LMS7002M_set_mac_ch, LMS7002M_regs_to_rfic, k1, k2, k3, k4, Run.set_map, f1, f2, f3, f4, f5,
    f6, f7, f8, f9, f10, f11, f12, f13, and_false, if_false]

/-- The cleanup of the dispatcher sets the five companion fields of the
selected copy to their fixed values. -/
theorem LMS7002M_rbb_set_filter_bw.done_companion (E : Ext σ) (s : Run σ)
    (channel : LMS7002M_chan_t) (saved_map : Fin 2 → LMS7002M_regs_t) (path : LMS7002M_path_t)
    (j : Fin 2) (hs : E.Selects channel j) (f : Field) (hk : E.Keeps j f) :
    (f = Field.reg_0x010f_ict_tiamain_rfe →
      (LMS7002M_rbb_set_filter_bw.done E s channel saved_map path).self._regs j f = 2) ∧
    (f = Field.reg_0x010f_ict_tiaout_rfe →
      (LMS7002M_rbb_set_filter_bw.done E s channel saved_map path).self._regs j f = 2) ∧
    (f = Field.reg_0x0114_rfb_tia_rfe →
      (LMS7002M_rbb_set_filter_bw.done E s channel saved_map path).self._regs j f = 16) ∧
    (f = Field.reg_0x0119_ict_pga_out_rbb →
      (LMS7002M_rbb_set_filter_bw.done E s channel saved_map path).self._regs j f = 20) ∧
    (f = Field.reg_0x0119_ict_pga_in_rbb →
      (LMS7002M_rbb_set_filter_bw.done E s channel saved_map path).self._regs j f = 20) := by
  obtain ⟨k1, k2, k3, k4⟩ := hk
  obtain ⟨s1, s2, s3⟩ := hs
  refine ⟨?_, ?_, ?_, ?_, ?_⟩ <;> intro hf <;> subst hf <;>
    simp [LMS7002M_rbb_set_filter_bw.done, LMS7002M_rbb_set_path, LMS7002M_regs_spi_write,
      LMS7002M_set_mac_ch, LMS7002M_regs_to_rfic, k1, k2, k3, k4, s1, s2, s3, Run.set_map,
      Run.set_regs_self]

/-- The cleanup of the dispatcher carries the trim fields of the selected copy
over the restore. -/
theorem LMS7002M_rbb_set_filter_bw.done_trim (E : Ext σ) (s : Run σ)
    (channel : LMS7002M_chan_t) (saved_map : Fin 2 → LMS7002M_regs_t) (path : LMS7002M_path_t)
    (j : Fin 2) (hs : E.Selects channel j) (f : Field) (hk : E.Keeps j f)
    (hf : f ∈ trimFields) :
    (LMS7002M_rbb_set_filter_bw.done E s channel saved_map path).self._regs j f
      = s.self._regs j f := by
  obtain ⟨k1, k2, k3, k4⟩ := hk
  obtain ⟨s1, s2, s3⟩ := hs
  simp only [trimFields, List.mem_cons, List.mem_singleton, List.mem_nil_iff, or_false] at hf
  rcases hf with h | h | h | h | h | h | h | h <;> subst h <;>
    simp [LMS7002M_rbb_set_filter_bw.done, LMS7002M_rbb_set_path, LMS7002M_regs_spi_write,
      LMS7002M_set_mac_ch, LMS7002M_regs_to_rfic, k1, k2, k3, k4, s1, s2, s3, Run.set_map,
      Run.set_regs_self, Run.get_eq]

/-- The calls of the cleanup of the dispatcher: no power sample, no run of the
search, and the bus writes that apply the trims. -/
theorem LMS7002M_rbb_set_filter_bw.done_trace (E : Ext σ) (s : Run σ)
    (channel : LMS7002M_chan_t) (saved_map : Fin 2 → LMS7002M_regs_t)
    (path : LMS7002M_path_t) :
    ∃ l, (LMS7002M_rbb_set_filter_bw.done E s channel saved_map path).trace = s.trace ++ l ∧
      samples l = [] ∧ logged LogMsg.reg_value l = 0 ∧ (writes l).length = 6 := by
  refine ⟨(LMS7002M_rbb_set_filter_bw.done E s channel saved_map path).calls s, ?_, ?_⟩ <;>
    simp [Run.calls, LMS7002M_rbb_set_filter_bw.done, LMS7002M_rbb_set_path,
      LMS7002M_regs_spi_write, LMS7002M_set_mac_ch, LMS7002M_regs_to_rfic, samples,
      Event.sample, logged, writes, Event.written]

/-- Past the check of the reference clocks, the dispatcher is the stages
followed by the cleanup, and it stores the effective bandwidth through a
`bwactual` that is not `NULL`. -/
theorem LMS7002M_rbb_set_filter_bw.past_check (E : Ext σ) (s : Run σ)
    (channel : LMS7002M_chan_t) (rfbw : ℚ) (bwactual : Option ℚ)
    (h1 : (E.set_mac_ch s.self channel).cgen_fref ≠ 0)
    (h2 : (E.set_mac_ch s.self channel).sxr_fref ≠ 0)
    (h3 : (E.set_mac_ch s.self channel).sxt_fref ≠ 0) :
    LMS7002M_rbb_set_filter_bw E s channel rfbw bwactual
      = ((LMS7002M_rbb_set_filter_bw.stages E (LMS7002M_set_mac_ch E s channel) channel
            (LMS7002M_rbb_set_filter_bw.bw rfbw)
            (if LMS7002M_rbb_set_filter_bw.bw rfbw < 20000000 then
              LMS7002M_path_t.LMS7002M_RBB_LBF else LMS7002M_path_t.LMS7002M_RBB_HBF)).1,
         LMS7002M_rbb_set_filter_bw.done E
           (LMS7002M_rbb_set_filter_bw.stages E (LMS7002M_set_mac_ch E s channel) channel
            (LMS7002M_rbb_set_filter_bw.bw rfbw)
            (if LMS7002M_rbb_set_filter_bw.bw rfbw < 20000000 then
              LMS7002M_path_t.LMS7002M_RBB_LBF else LMS7002M_path_t.LMS7002M_RBB_HBF)).2
           channel (E.set_mac_ch s.self channel)._regs
           (if LMS7002M_rbb_set_filter_bw.bw rfbw < 20000000 then
              LMS7002M_path_t.LMS7002M_RBB_LBF else LMS7002M_path_t.LMS7002M_RBB_HBF),
         if bwactual.isSome then some (LMS7002M_rbb_set_filter_bw.bw rfbw) else bwactual) := by
  have e1 : (LMS7002M_set_mac_ch E s channel).self = E.set_mac_ch s.self channel := rfl
  simp only [LMS7002M_rbb_set_filter_bw, e1, h1, h2, h3, if_false]

theorem simExt_keeps (reading : Int → Int) (p : RegPtr) (baseline : Int) (i : Fin 2)
    (f : Field) : (simExt reading p baseline).Keeps i f :=
  ⟨fun _ _ => rfl, fun _ _ => rfl, fun _ => rfl, fun _ _ _ => rfl⟩

theorem simExt_selects (reading : Int → Int) (p : RegPtr) (baseline : Int)
    (channel : LMS7002M_chan_t) : (simExt reading p baseline).Selects channel (simSel channel) :=
  ⟨fun _ => rfl, fun _ _ => rfl, fun _ => rfl⟩

theorem simExt_keepsClocks (reading : Int → Int) (p : RegPtr) (baseline : Int) :
    (simExt reading p baseline).KeepsClocks :=
  fun _ _ => ⟨rfl, rfl, rfl⟩

/-- With a reference clock missing, the dispatcher selects the channel, logs
the error and returns `-1`. -/
theorem LMS7002M_rbb_set_filter_bw.clock_missing (E : Ext σ) (s : Run σ)
    (channel : LMS7002M_chan_t) (rfbw : ℚ) (bwactual : Option ℚ)
    (h0 : (E.set_mac_ch s.self channel).cgen_fref = 0 ∨
      (E.set_mac_ch s.self channel).sxr_fref = 0 ∨
      (E.set_mac_ch s.self channel).sxt_fref = 0) :
    ∃ msg, LMS7002M_rbb_set_filter_bw E s channel rfbw bwactual
      = (-1, LMS7_log (LMS7002M_set_mac_ch E s channel) LMS7_log_level_t.LMS7_ERROR msg,
         bwactual) := by
  have e1 : (LMS7002M_set_mac_ch E s channel).self = E.set_mac_ch s.self channel := rfl
  by_cases a : (E.set_mac_ch s.self channel).cgen_fref = 0
  · exact ⟨LogMsg.cgen_fref_missing, by
      simp only [LMS7002M_rbb_set_filter_bw, e1, a, if_true]⟩
  · by_cases b : (E.set_mac_ch s.self channel).sxr_fref = 0
    · exact ⟨LogMsg.sxr_fref_missing, by
        simp only [LMS7002M_rbb_set_filter_bw, e1, a, b, if_true, if_false]⟩
    · by_cases c : (E.set_mac_ch s.self channel).sxt_fref = 0
      · exact ⟨LogMsg.sxt_fref_missing, by
          simp only [LMS7002M_rbb_set_filter_bw, e1, a, b, c, if_true, if_false]⟩
      · rcases h0 with h | h | h
        · exact absurd h a
        · exact absurd h b
        · exact absurd h c

/-- A search whose readings are all below the target does not return
`CAL_OK`. -/
theorem rx_cal_loop_inner.not_ok_of_low (E : Ext σ) (s : Run σ) (channel : LMS7002M_chan_t)
    (reg_ptr : RegPtr) (reg_addr : Nat) (reg_max : Int) (reg_name : Field) (desired : Int)
    (hlow : ∀ d ch, (E.cal_read_rssi d ch).1 < desired) :
    (rx_cal_loop_inner E s channel reg_ptr reg_addr reg_max reg_name desired).1
      ≠ cal_result_t.CAL_OK := by
  obtain ⟨v, hv, -, -, hres⟩ :=
    rx_cal_loop_inner.unfold E s channel reg_ptr reg_addr reg_max reg_name desired
  have hhi : v.best_hi = -1 := by
    rw [hv]
    have step : ∀ w : SearchVars σ, w.best_hi = -1 →
        (rx_cal_loop_inner.body E channel reg_ptr reg_addr reg_max desired w).best_hi = -1 := by
      intro w hw
      simp [rx_cal_loop_inner.body, cal_read_rssi, hlow, hw]
    exact rx_cal_loop_inner.do_while_rule E channel reg_ptr reg_addr reg_max desired
      (fun w => w.best_hi = -1) (fun w => w.best_hi = -1)
      (fun w hw _ => step w hw) (fun w hw _ => step w hw) _ rfl
  rw [hres]
  by_cases hlo : v.best_lo = -1
  · simp [hlo]
  · simp [hlo, hhi]

/-- When no search returns `CAL_OK`, the retries of `rx_cal_loop` end in
`-1`. -/
theorem rx_cal_loop.for_ever_fails (E : Ext σ) (channel : LMS7002M_chan_t) (reg_ptr : RegPtr)
    (reg_addr : Nat) (reg_max : Int) (reg_name : Field) (desired : Int)
    (hlow : ∀ d ch, (E.cal_read_rssi d ch).1 < desired) :
    ∀ (n r_range : Nat) (s : Run σ), r_range < 2 ^ n →
      (rx_cal_loop.for_ever E channel reg_ptr reg_addr reg_max reg_name desired s
        r_range).1 = -1 := by
  intro n
  induction n with
  | zero =>
    intro r_range s hr
    have h0 : r_range = 0 := by simpa using hr
    have hne := rx_cal_loop_inner.not_ok_of_low E s channel reg_ptr reg_addr reg_max reg_name
      desired hlow
    rw [rx_cal_loop.for_ever]
    split
    · rename_i heq
      exact absurd heq hne
    · rw [dif_pos (Or.inr h0)]
    · rw [dif_pos (Or.inr h0)]
  | succ n ih =>
    intro r_range s hr
    have hhalf : r_range / 2 < 2 ^ n := by
      rw [pow_succ] at hr
      omega
    have hne := rx_cal_loop_inner.not_ok_of_low E s channel reg_ptr reg_addr reg_max reg_name
      desired hlow
    rw [rx_cal_loop.for_ever]
    split
    · rename_i heq
      exact absurd heq hne
    · split_ifs with hc
      · rfl
      · exact ih (r_range / 2) _ hhalf
    · split_ifs with hc
      · rfl
      · exact ih (r_range / 2) _ hhalf

/-- With every reading below the target, `rx_cal_loop` returns `-1`. -/
theorem rx_cal_loop.loop_fails_of_low (E : Ext σ) (s : Run σ) (channel : LMS7002M_chan_t) (bw : ℚ)
    (reg_ptr : RegPtr) (reg_addr : Nat) (reg_max : Int) (reg_name : Field) (desired : Int)
    (hlow : ∀ d ch, (E.cal_read_rssi d ch).1 < desired) :
    (rx_cal_loop E s channel bw reg_ptr reg_addr reg_max reg_name desired).1 = -1 := by
  simp only [rx_cal_loop]
  split_ifs
  · rfl
  · exact rx_cal_loop.for_ever_fails E channel reg_ptr reg_addr reg_max reg_name desired hlow
      4 8 _ (by decide)

/-- The high-band calibrator rejects a bandwidth outside `[20, 130] MHz`: it
selects the channel, logs the error and returns `-1`. -/
theorem rx_cal_rbb_lpfh.reject (E : Ext σ) (s : Run σ) (channel : LMS7002M_chan_t) (bw : ℚ)
    (rssi_value_50k : Int) (h : bw < 20000000 ∨ bw > 130000000) :
    rx_cal_rbb_lpfh E s channel bw rssi_value_50k
      = (-1, LMS7_logf (LMS7002M_set_mac_ch E s channel) LMS7_log_level_t.LMS7_ERROR
          LogMsg.lpfh_not_in_range []) := by
  simp only [rx_cal_rbb_lpfh, h, if_true]

/-- With every reading below every band-stage target, the low-band stage
fails above 0.5 MHz. -/
theorem rx_cal_rbb_lpfl.lpfl_fails_of_low (E : Ext σ) (s : Run σ) (channel : LMS7002M_chan_t)
    (bw : ℚ) (rssi_value_50k : Int) (hbw : 500000 < bw)
    (hlow : ∀ d ch, (E.cal_read_rssi d ch).1
      < ftoi (toDouble (rssi_value_50k * toDouble (7071 / 10000)))) :
    (rx_cal_rbb_lpfl E s channel bw rssi_value_50k).1 = -1 := by
  simp only [rx_cal_rbb_lpfl, not_le.mpr hbw, if_false]
  exact rx_cal_loop.loop_fails_of_low E _ channel bw _ _ _ _ _ hlow

theorem fst_ite_ne_zero {α : Type} {c : Prop} [Decidable c] {a b : Int × α}
    (ha : c → a.1 ≠ 0) (hb : ¬ c → b.1 ≠ 0) : (if c then a else b).1 ≠ 0 := by
  split_ifs with h
  · exact ha h
  · exact hb h

/-- With every reading below every band-stage target, the high-band stage
fails. -/
theorem rx_cal_rbb_lpfh.lpfh_fails_of_low (E : Ext σ) (s : Run σ) (channel : LMS7002M_chan_t)
    (bw : ℚ) (rssi_value_50k : Int)
    (hlow : ∀ d ch d' ch' lvl, (E.cal_read_rssi d ch).1
      < ftoi (toDouble (((E.cal_gain_selection d' ch' lvl).1 : ℚ) * toDouble (7071 / 10000)))) :
    (rx_cal_rbb_lpfh E s channel bw rssi_value_50k).1 ≠ 0 := by
  simp only [rx_cal_rbb_lpfh]
  refine fst_ite_ne_zero (fun _ => ?_) (fun _ => ?_)
  · show (-1 : Int) ≠ 0
    decide
  · refine fst_ite_ne_zero (fun h => h) (fun _ => ?_)
    rw [rx_cal_loop.loop_fails_of_low]
    · decide
    · intro d ch
      exact hlow d ch _ _ _

/-- The stages of the dispatcher fail when the effective bandwidth is above
0.5 MHz and every reading is below every band-stage target. -/
theorem LMS7002M_rbb_set_filter_bw.stages_fail_of_low (E : Ext σ) (s : Run σ)
    (channel : LMS7002M_chan_t) (bw : ℚ) (path : LMS7002M_path_t) (hbw : 500000 < bw)
    (hlow : ∀ d ch d' ch' lvl, (E.cal_read_rssi d ch).1
      < ftoi (toDouble (((E.cal_gain_selection d' ch' lvl).1 : ℚ) * toDouble (7071 / 10000)))) :
    (LMS7002M_rbb_set_filter_bw.stages E s channel bw path).1 ≠ 0 := by
  have hb : bw > 500000 := hbw
  simp only [LMS7002M_rbb_set_filter_bw.stages, hb, if_true]
  refine fst_ite_ne_zero (fun h => h) (fun _ => ?_)
  refine fst_ite_ne_zero (fun h => h) (fun _ => ?_)
  refine fst_ite_ne_zero (fun h => h) (fun _ => ?_)
  refine fst_ite_ne_zero (fun h => h) (fun h => ?_)
  exfalso
  apply h
  cases path
  · simp only [if_true, if_false, reduceCtorEq]
    rw [rx_cal_rbb_lpfl.lpfl_fails_of_low]
    · decide
    · exact hbw
    · intro d ch
      exact hlow d ch _ _ _
  · simp only [if_true, if_false, reduceCtorEq]
    exact rx_cal_rbb_lpfh.lpfh_fails_of_low E _ channel bw _ hlow

/-- The stages of the dispatcher fail when the effective bandwidth is above
130 MHz. -/
theorem LMS7002M_rbb_set_filter_bw.stages_fail_of_high (E : Ext σ) (s : Run σ)
    (channel : LMS7002M_chan_t) (bw : ℚ) (hbw : 130000000 < bw) :
    (LMS7002M_rbb_set_filter_bw.stages E s channel bw
      LMS7002M_path_t.LMS7002M_RBB_HBF).1 ≠ 0 := by
  have hb : bw > 500000 := by
    have : (500000 : ℚ) < 130000000 := by norm_num
    exact lt_trans this hbw
  simp only [LMS7002M_rbb_set_filter_bw.stages, hb, if_true]
  refine fst_ite_ne_zero (fun h => h) (fun _ => ?_)
  refine fst_ite_ne_zero (fun h => h) (fun _ => ?_)
  refine fst_ite_ne_zero (fun h => h) (fun _ => ?_)
  refine fst_ite_ne_zero (fun h => h) (fun h => ?_)
  exfalso
  apply h
  simp only [if_true, if_false, reduceCtorEq]
  rw [rx_cal_rbb_lpfh.reject E _ channel bw _ (Or.inr hbw)]
  show (-1 : Int) ≠ 0
  decide

theorem ftoi_of_nonneg (q : ℚ) (h : 0 ≤ q) : ftoi q = ⌊q⌋ := by
  rw [ftoi, Int.tdiv_eq_ediv (Rat.num_nonneg.mpr h) (by positivity)]
  exact (Rat.floor_def' q).symm

theorem ftoi_pos (q : ℚ) (h : 1 ≤ q) : 0 < ftoi q := by
  rw [ftoi_of_nonneg q (by linarith)]
  exact Int.floor_pos.mpr h

/-- The `double` literal `0.7071` lies between `741448 / 2 ^ 20` and
`741449 / 2 ^ 20`. -/
theorem toDouble_7071 :
    (741448 : ℚ) / 2 ^ 20 ≤ toDouble (7071 / 10000) ∧
    toDouble (7071 / 10000) ≤ 741449 / 2 ^ 20 := by
  have hx : |(7071 / 10000 : ℚ)| < 2 ^ (52 - 20) := by
    rw [abs_of_nonneg (by norm_num)]
    norm_num
  exact ⟨by simpa using toDouble_ge _ 741448 20 (by decide) hx (by norm_num),
    by simpa using toDouble_le _ 741449 20 (by decide) hx (by norm_num)⟩

/-- The `double` literal `1.26` lies between `1321205 / 2 ^ 20` and
`1321206 / 2 ^ 20`. -/
theorem toDouble_126 :
    (1321205 : ℚ) / 2 ^ 20 ≤ toDouble (126 / 100) ∧
    toDouble (126 / 100) ≤ 1321206 / 2 ^ 20 := by
  have hx : |(126 / 100 : ℚ)| < 2 ^ (52 - 20) := by
    rw [abs_of_nonneg (by norm_num)]
    norm_num
  exact ⟨by simpa using toDouble_ge _ 1321205 20 (by decide) hx (by norm_num),
    by simpa using toDouble_le _ 1321206 20 (by decide) hx (by norm_num)⟩

/-- The cast of the `double` nearest to a value between the integer `n ≥ 0`
and `n + 1 - 2 ^ (-j)`. -/
theorem ftoi_toDouble (x : ℚ) (n : Int) (j : Nat) (hj : j ≤ 52) (h0 : 0 ≤ n)
    (hx : x < 2 ^ (52 - j)) (h1 : (n : ℚ) ≤ x) (h2 : x ≤ n + 1 - 1 / 2 ^ j) :
    ftoi (toDouble x) = n := by
  have hn : (0 : ℚ) ≤ n := by exact_mod_cast h0
  have hx0 : 0 ≤ x := le_trans hn h1
  have hax : |x| < 2 ^ (52 - j) := by rwa [abs_of_nonneg hx0]
  have hp : (0 : ℚ) < 2 ^ j := by positivity
  have hk : x ≤ (((n + 1) * 2 ^ j - 1 : Int) : ℚ) / 2 ^ j := by
    rw [le_div_iff₀ hp]
    push_cast
    have : x * 2 ^ j ≤ (n + 1 - 1 / 2 ^ j) * 2 ^ j := mul_le_mul_of_nonneg_right h2 hp.le
    rw [sub_mul, one_div, inv_mul_cancel₀ hp.ne'] at this
    exact this
  have u := toDouble_le x _ j hj hax hk
  have l := toDouble_ge x (n * 2 ^ j) j hj hax (by
    push_cast
    rw [mul_div_assoc, div_self hp.ne', mul_one]
    exact h1)
  push_cast at u l
  rw [mul_div_assoc, div_self hp.ne', mul_one] at l
  have u2 : toDouble x < n + 1 := by
    have : (((n : ℚ) + 1) * 2 ^ j - 1) / 2 ^ j < n + 1 := by
      rw [div_lt_iff₀ hp]
      linarith
    linarith
  rw [ftoi_of_nonneg _ (le_trans hn l), Int.floor_eq_iff]
  exact ⟨l, u2⟩

/-- The cast of the `double` nearest to a value that is at least `1`. -/
theorem ftoi_toDouble_pos (x : ℚ) (hx : x < 2 ^ 52) (h : 1 ≤ x) : 0 < ftoi (toDouble x) := by
  have hax : |x| < 2 ^ 52 := by rwa [abs_of_nonneg (by linarith)]
  have := toDouble_ge_int x 1 hax (by simpa using h)
  exact ftoi_pos _ (by simpa using this)

/-- The search target `(int)(20480*0.7071)`. -/
theorem target_20480 : ftoi (toDouble (((20480 : Int) : ℚ) * toDouble (7071 / 10000))) = 14481 := by
  obtain ⟨l, u⟩ := toDouble_7071
  exact ftoi_toDouble _ 14481 1 (by decide) (by decide) (by norm_num; linarith)
    (by norm_num; linarith) (by norm_num; linarith)

/-- The target `20480 * 1.26` of the TIA stage, converted to `int`. -/
theorem tia_target_20480 :
    ftoi (toDouble (((20480 : Int) : ℚ) * toDouble (126 / 100))) = 25804 := by
  obtain ⟨l, u⟩ := toDouble_126
  exact ftoi_toDouble _ 25804 3 (by decide) (by decide) (by norm_num; linarith)
    (by norm_num; linarith) (by norm_num; linarith)

theorem roundEven_of_lt_half (x : ℚ) (n : Int) (h1 : (n : ℚ) ≤ x) (h2 : x < n + 1 / 2) :
    roundEven x = n := by
  have hf : ⌊x⌋ = n := by
    rw [Int.floor_eq_iff]
    exact ⟨h1, by linarith⟩
  simp only [roundEven, hf]
  rw [if_pos (by linarith)]

theorem roundEven_of_gt_half (x : ℚ) (n : Int) (h1 : (n : ℚ) + 1 / 2 < x) (h2 : x < n + 1) :
    roundEven x = n + 1 := by
  have hf : ⌊x⌋ = n := by
    rw [Int.floor_eq_iff]
    exact ⟨by linarith, h2⟩
  simp only [roundEven, hf]
  rw [if_neg (by linarith), if_pos (by linarith)]

/-- The `double` literal `0.7071`, exactly. -/
theorem toDouble_7071_eq : toDouble (7071 / 10000) = 6368990593027355 / 2 ^ 53 := by
  rw [toDouble_of_exp (7071 / 10000) (-1) (by rw [abs_of_nonneg] <;> norm_num)
    (by rw [abs_of_nonneg] <;> norm_num),
    roundEven_of_lt_half _ 6368990593027355 (by norm_num) (by norm_num)]
  norm_num

/-- The search target `(int)(10000*0.7071)` is `7070`: the `double` product is
below `7071`. -/
theorem target_10000 :
    ftoi (toDouble (((10000 : Int) : ℚ) * toDouble (7071 / 10000))) = 7070 := by
  rw [toDouble_7071_eq,
    toDouble_of_exp _ 12 (by rw [abs_of_nonneg] <;> norm_num)
      (by rw [abs_of_nonneg] <;> norm_num),
    roundEven_of_lt_half _ 7774646720004095 (by norm_num) (by norm_num),
    ftoi_of_nonneg _ (by norm_num), Int.floor_eq_iff]
  norm_num

/-- The dispatcher fails when the effective bandwidth is above 130 MHz. -/
theorem LMS7002M_rbb_set_filter_bw.fails_of_high (E : Ext σ) (s : Run σ)
    (channel : LMS7002M_chan_t) (rfbw : ℚ) (bwactual : Option ℚ)
    (hbw : 130000000 < LMS7002M_rbb_set_filter_bw.bw rfbw) :
    (LMS7002M_rbb_set_filter_bw E s channel rfbw bwactual).1 ≠ 0 := by
  by_cases h0 : (E.set_mac_ch s.self channel).cgen_fref = 0 ∨
      (E.set_mac_ch s.self channel).sxr_fref = 0 ∨
      (E.set_mac_ch s.self channel).sxt_fref = 0
  · obtain ⟨msg, h⟩ := LMS7002M_rbb_set_filter_bw.clock_missing E s channel rfbw bwactual h0
    rw [h]
    show (-1 : Int) ≠ 0
    decide
  · simp only [not_or] at h0
    rw [LMS7002M_rbb_set_filter_bw.past_check E s channel rfbw bwactual h0.1 h0.2.1 h0.2.2]
    have hp : ¬ LMS7002M_rbb_set_filter_bw.bw rfbw < 20000000 := by
      have : (20000000 : ℚ) < 130000000 := by norm_num
      exact not_lt.mpr (le_of_lt (lt_trans this hbw))
    simp only [hp, if_false]
    exact LMS7002M_rbb_set_filter_bw.stages_fail_of_high E _ channel _ hbw

theorem simRun_clocks (reading : Int → Int) (p : RegPtr) (baseline : Int) (v : Int)
    (channel : LMS7002M_chan_t) :
    ((simExt reading p baseline).set_mac_ch (simRun v).self channel).cgen_fref ≠ 0 ∧
    ((simExt reading p baseline).set_mac_ch (simRun v).self channel).sxr_fref ≠ 0 ∧
    ((simExt reading p baseline).set_mac_ch (simRun v).self channel).sxt_fref ≠ 0 := by
  simp [simExt, simRun, simDev]

theorem bw_of_ge_one (rfbw : ℚ) (h : 1 ≤ rfbw) :
    LMS7002M_rbb_set_filter_bw.bw rfbw = rfbw / 2 := by
  simp only [LMS7002M_rbb_set_filter_bw.bw]
  rw [if_neg]
  linarith

/-- Past the reference-clock check, a call of the dispatcher leaves every
field that it neither carries over the restore nor sets afterwards, and that
the bus-level functions leave alone, as it was before the call. -/
theorem LMS7002M_rbb_set_filter_bw.frame (E : Ext σ) (s : Run σ)
    (channel : LMS7002M_chan_t) (rfbw : ℚ) (bwactual : Option ℚ)
    (h1 : (E.set_mac_ch s.self channel).cgen_fref ≠ 0)
    (h2 : (E.set_mac_ch s.self channel).sxr_fref ≠ 0)
    (h3 : (E.set_mac_ch s.self channel).sxt_fref ≠ 0)
    (i : Fin 2) (f : Field) (hk : E.Keeps i f) (hf : f ∉ trimFields ++ companionFields) :
    (LMS7002M_rbb_set_filter_bw E s channel rfbw bwactual).2.1.self._regs i f
      = s.self._regs i f := by
  rw [LMS7002M_rbb_set_filter_bw.past_check E s channel rfbw bwactual h1 h2 h3]
  show (LMS7002M_rbb_set_filter_bw.done _ _ _ _ _).self._regs i f = _
  rw [LMS7002M_rbb_set_filter_bw.done_other E _ channel _ _ i f hk hf]
  exact hk.1 s.self channel

/-- Past the reference-clock check, with an effective bandwidth above 0.5 MHz
and every reading below every band-stage target, the dispatcher fails. -/
theorem LMS7002M_rbb_set_filter_bw.fails_of_low (E : Ext σ) (s : Run σ)
    (channel : LMS7002M_chan_t) (rfbw : ℚ) (bwactual : Option ℚ)
    (h1 : (E.set_mac_ch s.self channel).cgen_fref ≠ 0)
    (h2 : (E.set_mac_ch s.self channel).sxr_fref ≠ 0)
    (h3 : (E.set_mac_ch s.self channel).sxt_fref ≠ 0)
    (hbw : 500000 < LMS7002M_rbb_set_filter_bw.bw rfbw)
    (hlow : ∀ d ch d' ch' lvl, (E.cal_read_rssi d ch).1
      < ftoi (toDouble (((E.cal_gain_selection d' ch' lvl).1 : ℚ) * toDouble (7071 / 10000)))) :
    (LMS7002M_rbb_set_filter_bw E s channel rfbw bwactual).1 ≠ 0 := by
  rw [LMS7002M_rbb_set_filter_bw.past_check E s channel rfbw bwactual h1 h2 h3]
  exact LMS7002M_rbb_set_filter_bw.stages_fail_of_low E _ channel _ _ hbw hlow

theorem clocks_after_select {E : Ext σ} (hE : E.KeepsClocks) (s : Run σ)
    (channel : LMS7002M_chan_t) (h1 : s.self.cgen_fref ≠ 0) (h2 : s.self.sxr_fref ≠ 0)
    (h3 : s.self.sxt_fref ≠ 0) :
    (E.set_mac_ch s.self channel).cgen_fref ≠ 0 ∧
    (E.set_mac_ch s.self channel).sxr_fref ≠ 0 ∧
    (E.set_mac_ch s.self channel).sxt_fref ≠ 0 := by
  obtain ⟨c1, c2, c3⟩ := hE s.self channel
  rw [c1, c2, c3]
  exact ⟨h1, h2, h3⟩

theorem simExt_low (p : RegPtr) :
    ∀ (d : LMS7002M_t Unit) (ch : LMS7002M_chan_t) (d' : LMS7002M_t Unit)
      (ch' : LMS7002M_chan_t) (lvl : Int),
      ((simExt (fun _ => 0) p 20480).cal_read_rssi d ch).1
        < ftoi (toDouble ((((simExt (fun _ => 0) p 20480).cal_gain_selection d' ch' lvl).1 : ℚ)
            * toDouble (7071 / 10000))) := by
  intro d ch d' ch' lvl
  show (0 : Int) < ftoi (toDouble (((20480 : Int) : ℚ) * toDouble (7071 / 10000)))
  rw [target_20480]
  decide

/-- At or below 0.5 MHz the stages of the dispatcher succeed and leave the
fixed trims in the selected copy of the register map. -/
theorem LMS7002M_rbb_set_filter_bw.stages_low (E : Ext σ) (s : Run σ)
    (channel : LMS7002M_chan_t) (bw : ℚ) (hbw : bw ≤ 500000) (j : Fin 2)
    (hs : E.Selects channel j)
    (hk : ∀ f ∈ [Field.reg_0x0113_g_tia_rfe, Field.reg_0x0112_cfb_tia_rfe,
      Field.reg_0x0117_c_ctl_lpfl_rbb, Field.reg_0x0116_r_ctl_lpf_rbb,
      Field.reg_0x0117_rcc_ctl_lpfl_rbb], E.Keeps j f) :
    (LMS7002M_rbb_set_filter_bw.stages E (LMS7002M_set_mac_ch E s channel) channel bw
      LMS7002M_path_t.LMS7002M_RBB_LBF).2.self._regs j Field.reg_0x0112_cfb_tia_rfe = 4095 ∧
    (LMS7002M_rbb_set_filter_bw.stages E (LMS7002M_set_mac_ch E s channel) channel bw
      LMS7002M_path_t.LMS7002M_RBB_LBF).2.self._regs j Field.reg_0x0117_c_ctl_lpfl_rbb
      = 2047 ∧
    (LMS7002M_rbb_set_filter_bw.stages E (LMS7002M_set_mac_ch E s channel) channel bw
      LMS7002M_path_t.LMS7002M_RBB_LBF).2.self._regs j Field.reg_0x0116_r_ctl_lpf_rbb = 0 ∧
    (LMS7002M_rbb_set_filter_bw.stages E (LMS7002M_set_mac_ch E s channel) channel bw
      LMS7002M_path_t.LMS7002M_RBB_LBF).2.self._regs j Field.reg_0x0117_rcc_ctl_lpfl_rbb
      = 0 := by
  obtain ⟨a1, a2, a3, a4⟩ := hk Field.reg_0x0113_g_tia_rfe (by simp)
  obtain ⟨b1, b2, b3, b4⟩ := hk Field.reg_0x0112_cfb_tia_rfe (by simp)
  obtain ⟨c1, c2, c3, c4⟩ := hk Field.reg_0x0117_c_ctl_lpfl_rbb (by simp)
  obtain ⟨d1, d2, d3, d4⟩ := hk Field.reg_0x0116_r_ctl_lpf_rbb (by simp)
  obtain ⟨e1, e2, e3, e4⟩ := hk Field.reg_0x0117_rcc_ctl_lpfl_rbb (by simp)
  obtain ⟨s1, s2, s3⟩ := hs
  have n1 : ¬ bw > 500000 := not_lt.mpr hbw
  have n2 : ¬ bw > 15000000 := by intro h; linarith
  have n3 : ¬ bw > 10000000 := by intro h; linarith
  have n4 : ¬ bw > 5000000 := by intro h; linarith
  have n5 : ¬ bw > 3000000 := by intro h; linarith
  have n6 : ¬ bw > 1400000 := by intro h; linarith
  simp [LMS7002M_rbb_set_filter_bw.stages, LMS7002M_rbb_set_filter_bw.bypass, rx_cal_tia_rfe,
    rx_cal_tia_rfe.tune,
    rx_cal_rbb_lpfl, LMS7002M_regs_spi_write, LMS7002M_set_mac_ch, LMS7_log, n1, n2, n3, n4,
    n5, n6, hbw, a1, a2, b1, b2, c1, c2, d1, d2, e1, e2, s1, s2, Run.set_map,
    Run.set_regs_self, Run.get_eq]

theorem Quiet.refl (s : Run σ) : Quiet s s :=
  ⟨[], by simp, by simp [samples], by simp [logged]⟩

theorem Quiet.trans {a b c : Run σ} (h1 : Quiet a b) (h2 : Quiet b c) : Quiet a c := by
  obtain ⟨l1, e1, s1, g1⟩ := h1
  obtain ⟨l2, e2, s2, g2⟩ := h2
  exact ⟨l1 ++ l2, by rw [e2, e1, List.append_assoc], by rw [samples_append, s1, s2]; rfl,
    by rw [logged_append, g1, g2]⟩

theorem Quiet.of_trace_eq {a b : Run σ} (h : b.trace = a.trace) : Quiet a b :=
  ⟨[], by simp [h], by simp [samples], by simp [logged]⟩

theorem Quiet.set (s : Run σ) (f : Field) (v : Int) : Quiet s (s.set f v) :=
  Quiet.of_trace_eq rfl

theorem Quiet.spi_write (E : Ext σ) (s : Run σ) (a : Nat) :
    Quiet s (LMS7002M_regs_spi_write E s a) :=
  ⟨_, rfl, by simp [samples, Event.sample], by simp [logged]⟩

theorem Quiet.set_mac_ch (E : Ext σ) (s : Run σ) (ch : LMS7002M_chan_t) :
    Quiet s (LMS7002M_set_mac_ch E s ch) :=
  ⟨_, rfl, by simp [samples, Event.sample], by simp [logged]⟩

theorem Quiet.log (s : Run σ) (lv : LMS7_log_level_t) (m : LogMsg) (hm : m ≠ LogMsg.reg_value) :
    Quiet s (LMS7_log s lv m) :=
  ⟨_, rfl, by simp [samples, Event.sample], by simp [logged, hm]⟩

theorem Quiet.calls_eq {s s' : Run σ} (h : Quiet s s') :
    samples (s'.calls s) = [] ∧ logged LogMsg.reg_value (s'.calls s) = 0 := by
  obtain ⟨l, e, h1, h2⟩ := h
  rw [Run.calls_of_eq e]
  exact ⟨h1, h2⟩

/-- At or below 0.5 MHz the low-band calibrator applies the fixed trims
without a search and succeeds. -/
theorem rx_cal_rbb_lpfl.lpfl_low (E : Ext σ) (s : Run σ) (channel : LMS7002M_chan_t) (bw : ℚ)
    (rssi_value_50k : Int) (hbw : bw ≤ 500000) :
    (rx_cal_rbb_lpfl E s channel bw rssi_value_50k).1 = 0 ∧
    Quiet s (rx_cal_rbb_lpfl E s channel bw rssi_value_50k).2 := by
  refine ⟨by simp only [rx_cal_rbb_lpfl, hbw, if_true],
    (rx_cal_rbb_lpfl E s channel bw rssi_value_50k).2.calls s, ?_, ?_⟩ <;>
    simp [Run.calls, rx_cal_rbb_lpfl, hbw, LMS7002M_regs_spi_write, LMS7002M_set_mac_ch,
      samples, Event.sample, logged]

/-- At or below 0.5 MHz the TIA calibrator makes no search. -/
theorem rx_cal_tia_rfe.tia_low (E : Ext σ) (s : Run σ) (channel : LMS7002M_chan_t) (bw : ℚ)
    (rssi_value_50k : Int) (hbw : bw ≤ 500000) :
    Quiet s (rx_cal_tia_rfe E s channel bw rssi_value_50k).2 := by
  refine ⟨(rx_cal_tia_rfe E s channel bw rssi_value_50k).2.calls s, ?_, ?_⟩ <;>
    simp only [rx_cal_tia_rfe, rx_cal_tia_rfe.tune, hbw, if_true] <;>
    split_ifs <;>
    simp [Run.calls, LMS7002M_regs_spi_write, LMS7002M_set_mac_ch, samples, Event.sample,
      logged]

theorem LMS7002M_rbb_set_filter_bw.bypass_quiet (E : Ext σ) (s : Run σ) :
    Quiet s (LMS7002M_rbb_set_filter_bw.bypass E s) :=
  (((((((((Quiet.set s _ _).trans (Quiet.set _ _ _)).trans (Quiet.set _ _ _)).trans
    (Quiet.set _ _ _)).trans (Quiet.set _ _ _)).trans (Quiet.spi_write E _ _)).trans
    (Quiet.spi_write E _ _)).trans (Quiet.spi_write E _ _)).trans (Quiet.spi_write E _ _))

/-- At or below 0.5 MHz the stages of the dispatcher are the bypass
configuration, the TIA calibrator and the low-band calibrator, and they
succeed. -/
theorem LMS7002M_rbb_set_filter_bw.stages_low_eq (E : Ext σ) (s : Run σ)
    (channel : LMS7002M_chan_t) (bw : ℚ) (hbw : bw ≤ 500000) :
    LMS7002M_rbb_set_filter_bw.stages E s channel bw LMS7002M_path_t.LMS7002M_RBB_LBF
      = (0, (rx_cal_rbb_lpfl E
          (if (rx_cal_tia_rfe E (LMS7002M_rbb_set_filter_bw.bypass E s) channel bw
              (ftoi (toDouble (((0x05000 : Int) : ℚ) * toDouble (126 / 100))))).1 ≠ 0 then
            LMS7_log (rx_cal_tia_rfe E (LMS7002M_rbb_set_filter_bw.bypass E s) channel bw
              (ftoi (toDouble (((0x05000 : Int) : ℚ) * toDouble (126 / 100))))).2 LMS7_log_level_t.LMS7_ERROR
              LogMsg.rx_cal_tia_rfe_failed
          else (rx_cal_tia_rfe E (LMS7002M_rbb_set_filter_bw.bypass E s) channel bw
              (ftoi (toDouble (((0x05000 : Int) : ℚ) * toDouble (126 / 100))))).2) channel bw 0x05000).2) := by
  have n1 : ¬ bw > 500000 := not_lt.mpr hbw
  simp only [LMS7002M_rbb_set_filter_bw.stages, n1, if_false, if_true, reduceCtorEq,
    ne_eq, not_true_eq_false]
  rw [if_neg (not_not.mpr (rx_cal_rbb_lpfl.lpfl_low E _ channel bw _ hbw).1)]
  exact Prod.ext (rx_cal_rbb_lpfl.lpfl_low E _ channel bw _ hbw).1 rfl

/-- At or below 0.5 MHz the stages of the dispatcher succeed without a power
sample and without a run of the search. -/
theorem LMS7002M_rbb_set_filter_bw.stages_low_trace (E : Ext σ) (s : Run σ)
    (channel : LMS7002M_chan_t) (bw : ℚ) (hbw : bw ≤ 500000) :
    (LMS7002M_rbb_set_filter_bw.stages E s channel bw LMS7002M_path_t.LMS7002M_RBB_LBF).1
      = 0 ∧
    Quiet s (LMS7002M_rbb_set_filter_bw.stages E s channel bw
      LMS7002M_path_t.LMS7002M_RBB_LBF).2 := by
  rw [LMS7002M_rbb_set_filter_bw.stages_low_eq E s channel bw hbw]
  refine ⟨rfl, ?_⟩
  have qA : Quiet s (rx_cal_tia_rfe E (LMS7002M_rbb_set_filter_bw.bypass E s) channel bw
      (ftoi (toDouble (((0x05000 : Int) : ℚ) * toDouble (126 / 100))))).2 :=
    (LMS7002M_rbb_set_filter_bw.bypass_quiet E s).trans (rx_cal_tia_rfe.tia_low E _ channel bw _ hbw)
  refine Quiet.trans ?_ (rx_cal_rbb_lpfl.lpfl_low E _ channel bw _ hbw).2
  split_ifs
  · exact qA.trans (Quiet.log _ _ _ (by decide))
  · exact qA

theorem bw_low (rfbw : ℚ) (h : rfbw ≤ 1000000) :
    LMS7002M_rbb_set_filter_bw.bw rfbw ≤ 500000 := by
  simp only [LMS7002M_rbb_set_filter_bw.bw]
  split_ifs
  · norm_num
  · linarith

/-- A request of at most 1 MHz that passes the reference-clock check succeeds
without a power sample and without a run of the search, and leaves the fixed
trims in the copy of the register map that the channel selects. -/
theorem LMS7002M_rbb_set_filter_bw.low (E : Ext σ) (s : Run σ) (channel : LMS7002M_chan_t)
    (rfbw : ℚ) (bwactual : Option ℚ) (j : Fin 2) (hbw : rfbw ≤ 1000000)
    (hE : E.KeepsClocks)
    (h1 : s.self.cgen_fref ≠ 0) (h2 : s.self.sxr_fref ≠ 0) (h3 : s.self.sxt_fref ≠ 0)
    (hs : E.Selects channel j)
    (hk : ∀ f ∈ [Field.reg_0x0113_g_tia_rfe, Field.reg_0x0112_cfb_tia_rfe,
      Field.reg_0x0117_c_ctl_lpfl_rbb, Field.reg_0x0116_r_ctl_lpf_rbb,
      Field.reg_0x0117_rcc_ctl_lpfl_rbb], E.Keeps j f) :
    (LMS7002M_rbb_set_filter_bw E s channel rfbw bwactual).1 = 0 ∧
    samples ((LMS7002M_rbb_set_filter_bw E s channel rfbw bwactual).2.1.calls s) = [] ∧
    logged LogMsg.reg_value
      ((LMS7002M_rbb_set_filter_bw E s channel rfbw bwactual).2.1.calls s) = 0 ∧
    (LMS7002M_rbb_set_filter_bw E s channel rfbw bwactual).2.1.self._regs j
      Field.reg_0x0112_cfb_tia_rfe = 4095 ∧
    (LMS7002M_rbb_set_filter_bw E s channel rfbw bwactual).2.1.self._regs j
      Field.reg_0x0117_c_ctl_lpfl_rbb = 2047 ∧
    (LMS7002M_rbb_set_filter_bw E s channel rfbw bwactual).2.1.self._regs j
      Field.reg_0x0116_r_ctl_lpf_rbb = 0 ∧
    (LMS7002M_rbb_set_filter_bw E s channel rfbw bwactual).2.1.self._regs j
      Field.reg_0x0117_rcc_ctl_lpfl_rbb = 0 := by
  obtain ⟨c1, c2, c3⟩ := clocks_after_select hE s channel h1 h2 h3
  have hb := bw_low rfbw hbw
  have hp : LMS7002M_rbb_set_filter_bw.bw rfbw < 20000000 := by linarith
  obtain ⟨v1, v2, v3, v4⟩ := LMS7002M_rbb_set_filter_bw.stages_low E s channel _ hb j hs hk
  obtain ⟨st, q⟩ := LMS7002M_rbb_set_filter_bw.stages_low_trace E
    (LMS7002M_set_mac_ch E s channel) channel _ hb
  obtain ⟨l, hl, sl, gl, -⟩ := LMS7002M_rbb_set_filter_bw.done_trace E
    (LMS7002M_rbb_set_filter_bw.stages E (LMS7002M_set_mac_ch E s channel) channel
      (LMS7002M_rbb_set_filter_bw.bw rfbw) LMS7002M_path_t.LMS7002M_RBB_LBF).2 channel
    (E.set_mac_ch s.self channel)._regs LMS7002M_path_t.LMS7002M_RBB_LBF
  have qd := (((Quiet.set_mac_ch E s channel).trans q).trans ⟨l, hl, sl, gl⟩).calls_eq
  rw [LMS7002M_rbb_set_filter_bw.past_check E s channel rfbw bwactual c1 c2 c3]
  simp only [hp, if_true]
  refine ⟨st, qd.1, qd.2, ?_, ?_, ?_, ?_⟩
  · rw [LMS7002M_rbb_set_filter_bw.done_trim E _ channel _ _ j hs _
      (hk _ (by simp)) (by simp [trimFields])]
    exact v1
  · rw [LMS7002M_rbb_set_filter_bw.done_trim E _ channel _ _ j hs _
      (hk _ (by simp)) (by simp [trimFields])]
    exact v2
  · rw [LMS7002M_rbb_set_filter_bw.done_trim E _ channel _ _ j hs _
      (hk _ (by simp)) (by simp [trimFields])]
    exact v3
  · rw [LMS7002M_rbb_set_filter_bw.done_trim E _ channel _ _ j hs _
      (hk _ (by simp)) (by simp [trimFields])]
    exact v4

/-- Past the reference-clock check, a call of the dispatcher leaves the five
companion fields of the selected copy at their fixed values. -/
theorem LMS7002M_rbb_set_filter_bw.companion_values (E : Ext σ) (s : Run σ)
    (channel : LMS7002M_chan_t) (rfbw : ℚ) (bwactual : Option ℚ)
    (h1 : (E.set_mac_ch s.self channel).cgen_fref ≠ 0)
    (h2 : (E.set_mac_ch s.self channel).sxr_fref ≠ 0)
    (h3 : (E.set_mac_ch s.self channel).sxt_fref ≠ 0)
    (j : Fin 2) (hs : E.Selects channel j) (hk : ∀ f ∈ companionFields, E.Keeps j f) :
    (LMS7002M_rbb_set_filter_bw E s channel rfbw bwactual).2.1.self._regs j
      Field.reg_0x010f_ict_tiamain_rfe = 2 ∧
    (LMS7002M_rbb_set_filter_bw E s channel rfbw bwactual).2.1.self._regs j
      Field.reg_0x010f_ict_tiaout_rfe = 2 ∧
    (LMS7002M_rbb_set_filter_bw E s channel rfbw bwactual).2.1.self._regs j
      Field.reg_0x0114_rfb_tia_rfe = 16 ∧
    (LMS7002M_rbb_set_filter_bw E s channel rfbw bwactual).2.1.self._regs j
      Field.reg_0x0119_ict_pga_out_rbb = 20 ∧
    (LMS7002M_rbb_set_filter_bw E s channel rfbw bwactual).2.1.self._regs j
      Field.reg_0x0119_ict_pga_in_rbb = 20 := by
  rw [LMS7002M_rbb_set_filter_bw.past_check E s channel rfbw bwactual h1 h2 h3]
  exact ⟨(LMS7002M_rbb_set_filter_bw.done_companion E _ channel _ _ j hs _
      (hk _ (by simp [companionFields]))).1 rfl,
    (LMS7002M_rbb_set_filter_bw.done_companion E _ channel _ _ j hs _
      (hk _ (by simp [companionFields]))).2.1 rfl,
    (LMS7002M_rbb_set_filter_bw.done_companion E _ channel _ _ j hs _
      (hk _ (by simp [companionFields]))).2.2.1 rfl,
    (LMS7002M_rbb_set_filter_bw.done_companion E _ channel _ _ j hs _
      (hk _ (by simp [companionFields]))).2.2.2.1 rfl,
    (LMS7002M_rbb_set_filter_bw.done_companion E _ channel _ _ j hs _
      (hk _ (by simp [companionFields]))).2.2.2.2 rfl⟩

/-! ## The dispatcher: the claims -/

/-- C6 at the requested bandwidth 400 kHz: the code takes `200000` as the
effective bandwidth and reports it through `bwactual`, where the floor of
0.5 MHz gives `500000`. -/
theorem C6_effective_bandwidth_400kHz :
    LMS7002M_rbb_set_filter_bw.bw 400000 = 200000 ∧
    (LMS7002M_rbb_set_filter_bw (simExt (fun c => c) simPtr 20480) (simRun 0)
        LMS7002M_chan_t.LMS_CHA 400000 (some 0)).2.2 = some 200000 ∧
    max ((400000 : ℚ) / 2) 500000 = 500000 := by
  have hb : LMS7002M_rbb_set_filter_bw.bw 400000 = 200000 := by
    simp only [LMS7002M_rbb_set_filter_bw.bw]
    norm_num
  refine ⟨hb, ?_, by norm_num⟩
  rw [LMS7002M_rbb_set_filter_bw.past_check _ _ _ _ _
    (by simp [simExt, simRun, simDev]) (by simp [simExt, simRun, simDev])
    (by simp [simExt, simRun, simDev]), hb]
  rfl

/-- C7: for every requested bandwidth of at most 1 MHz with the three reference
clocks initialised, `LMS7002M_rbb_set_filter_bw` takes no power sample and runs
no search (no run logs its final value), returns success, and is
deterministic: two calls under any two hardware behaviours `E₁`, `E₂`, from
any two states, leave the same trim values in the copy `j` of the register map
that the channel selects, namely `cfb_tia_rfe = 4095`, `c_ctl_lpfl_rbb = 2047`,
`r_ctl_lpf_rbb = 0` and `rcc_ctl_lpfl_rbb = 0`.  The channel selection is taken
to leave the clocks alone and to select the copy `j`, and the bus-level
functions to leave these trim fields and `g_tia_rfe` of that copy alone. -/
theorem C7_low_bandwidth_is_fixed (E₁ E₂ : Ext σ) (s₁ s₂ : Run σ)
    (channel : LMS7002M_chan_t) (rfbw : ℚ) (bwactual₁ bwactual₂ : Option ℚ) (j : Fin 2)
    (hbw : rfbw ≤ 1000000)
    (hE₁ : E₁.KeepsClocks) (hE₂ : E₂.KeepsClocks)
    (hc₁ : s₁.self.cgen_fref ≠ 0 ∧ s₁.self.sxr_fref ≠ 0 ∧ s₁.self.sxt_fref ≠ 0)
    (hc₂ : s₂.self.cgen_fref ≠ 0 ∧ s₂.self.sxr_fref ≠ 0 ∧ s₂.self.sxt_fref ≠ 0)
    (hs₁ : E₁.Selects channel j) (hs₂ : E₂.Selects channel j)
    (hk₁ : ∀ f ∈ [Field.reg_0x0113_g_tia_rfe, Field.reg_0x0112_cfb_tia_rfe,
      Field.reg_0x0117_c_ctl_lpfl_rbb, Field.reg_0x0116_r_ctl_lpf_rbb,
      Field.reg_0x0117_rcc_ctl_lpfl_rbb], E₁.Keeps j f)
    (hk₂ : ∀ f ∈ [Field.reg_0x0113_g_tia_rfe, Field.reg_0x0112_cfb_tia_rfe,
      Field.reg_0x0117_c_ctl_lpfl_rbb, Field.reg_0x0116_r_ctl_lpf_rbb,
      Field.reg_0x0117_rcc_ctl_lpfl_rbb], E₂.Keeps j f) :
    (LMS7002M_rbb_set_filter_bw E₁ s₁ channel rfbw bwactual₁).1 = 0 ∧
    (LMS7002M_rbb_set_filter_bw E₂ s₂ channel rfbw bwactual₂).1 = 0 ∧
    samples ((LMS7002M_rbb_set_filter_bw E₁ s₁ channel rfbw bwactual₁).2.1.calls s₁) = [] ∧
    samples ((LMS7002M_rbb_set_filter_bw E₂ s₂ channel rfbw bwactual₂).2.1.calls s₂) = [] ∧
    logged LogMsg.reg_value
      ((LMS7002M_rbb_set_filter_bw E₁ s₁ channel rfbw bwactual₁).2.1.calls s₁) = 0 ∧
    logged LogMsg.reg_value
      ((LMS7002M_rbb_set_filter_bw E₂ s₂ channel rfbw bwactual₂).2.1.calls s₂) = 0 ∧
    (∀ f ∈ [Field.reg_0x0112_cfb_tia_rfe, Field.reg_0x0117_c_ctl_lpfl_rbb,
        Field.reg_0x0116_r_ctl_lpf_rbb, Field.reg_0x0117_rcc_ctl_lpfl_rbb],
      (LMS7002M_rbb_set_filter_bw E₁ s₁ channel rfbw bwactual₁).2.1.self._regs j f
        = (LMS7002M_rbb_set_filter_bw E₂ s₂ channel rfbw bwactual₂).2.1.self._regs j f) ∧
    (LMS7002M_rbb_set_filter_bw E₁ s₁ channel rfbw bwactual₁).2.1.self._regs j
      Field.reg_0x0112_cfb_tia_rfe = 4095 ∧
    (LMS7002M_rbb_set_filter_bw E₁ s₁ channel rfbw bwactual₁).2.1.self._regs j
      Field.reg_0x0117_c_ctl_lpfl_rbb = 2047 ∧
    (LMS7002M_rbb_set_filter_bw E₁ s₁ channel rfbw bwactual₁).2.1.self._regs j
      Field.reg_0x0116_r_ctl_lpf_rbb = 0 ∧
    (LMS7002M_rbb_set_filter_bw E₁ s₁ channel rfbw bwactual₁).2.1.self._regs j
      Field.reg_0x0117_rcc_ctl_lpfl_rbb = 0 := by
  obtain ⟨a0, a1, a2, a3, a4, a5, a6⟩ := LMS7002M_rbb_set_filter_bw.low E₁ s₁ channel rfbw
    bwactual₁ j hbw hE₁ hc₁.1 hc₁.2.1 hc₁.2.2 hs₁ hk₁
  obtain ⟨b0, b1, b2, b3, b4, b5, b6⟩ := LMS7002M_rbb_set_filter_bw.low E₂ s₂ channel rfbw
    bwactual₂ j hbw hE₂ hc₂.1 hc₂.2.1 hc₂.2.2 hs₂ hk₂
  refine ⟨a0, b0, a1, b1, a2, b2, ?_, a3, a4, a5, a6⟩
  intro f hf
  simp only [List.mem_cons, List.mem_singleton, List.mem_nil_iff, or_false] at hf
  rcases hf with h | h | h | h <;> subst h
  · rw [a3, b3]
  · rw [a4, b4]
  · rw [a5, b5]
  · rw [a6, b6]

/-- C7 on two simulated chips with different power readers, gain scans and
initial register maps, for a request of 800 kHz on channel B. -/
theorem C7_low_bandwidth_is_fixed_witness :
    (LMS7002M_rbb_set_filter_bw (simExt (fun c => c) simPtr 20480) (simRun 5)
      LMS7002M_chan_t.LMS_CHB 800000 none).1 = 0 ∧
    (LMS7002M_rbb_set_filter_bw (simExt (fun _ => 0) simPtr 7) (simRun 9)
      LMS7002M_chan_t.LMS_CHB 800000 (some 1)).1 = 0 ∧
    samples ((LMS7002M_rbb_set_filter_bw (simExt (fun c => c) simPtr 20480) (simRun 5)
      LMS7002M_chan_t.LMS_CHB 800000 none).2.1.calls (simRun 5)) = [] ∧
    samples ((LMS7002M_rbb_set_filter_bw (simExt (fun _ => 0) simPtr 7) (simRun 9)
      LMS7002M_chan_t.LMS_CHB 800000 (some 1)).2.1.calls (simRun 9)) = [] ∧
    logged LogMsg.reg_value
      ((LMS7002M_rbb_set_filter_bw (simExt (fun c => c) simPtr 20480) (simRun 5)
        LMS7002M_chan_t.LMS_CHB 800000 none).2.1.calls (simRun 5)) = 0 ∧
    logged LogMsg.reg_value
      ((LMS7002M_rbb_set_filter_bw (simExt (fun _ => 0) simPtr 7) (simRun 9)
        LMS7002M_chan_t.LMS_CHB 800000 (some 1)).2.1.calls (simRun 9)) = 0 ∧
    (∀ f ∈ [Field.reg_0x0112_cfb_tia_rfe, Field.reg_0x0117_c_ctl_lpfl_rbb,
        Field.reg_0x0116_r_ctl_lpf_rbb, Field.reg_0x0117_rcc_ctl_lpfl_rbb],
      (LMS7002M_rbb_set_filter_bw (simExt (fun c => c) simPtr 20480) (simRun 5)
        LMS7002M_chan_t.LMS_CHB 800000 none).2.1.self._regs 1 f
        = (LMS7002M_rbb_set_filter_bw (simExt (fun _ => 0) simPtr 7) (simRun 9)
        LMS7002M_chan_t.LMS_CHB 800000 (some 1)).2.1.self._regs 1 f) ∧
    (LMS7002M_rbb_set_filter_bw (simExt (fun c => c) simPtr 20480) (simRun 5)
      LMS7002M_chan_t.LMS_CHB 800000 none).2.1.self._regs 1
      Field.reg_0x0112_cfb_tia_rfe = 4095 ∧
    (LMS7002M_rbb_set_filter_bw (simExt (fun c => c) simPtr 20480) (simRun 5)
      LMS7002M_chan_t.LMS_CHB 800000 none).2.1.self._regs 1
      Field.reg_0x0117_c_ctl_lpfl_rbb = 2047 ∧
    (LMS7002M_rbb_set_filter_bw (simExt (fun c => c) simPtr 20480) (simRun 5)
      LMS7002M_chan_t.LMS_CHB 800000 none).2.1.self._regs 1
      Field.reg_0x0116_r_ctl_lpf_rbb = 0 ∧
    (LMS7002M_rbb_set_filter_bw (simExt (fun c => c) simPtr 20480) (simRun 5)
      LMS7002M_chan_t.LMS_CHB 800000 none).2.1.self._regs 1
      Field.reg_0x0117_rcc_ctl_lpfl_rbb = 0 :=
  C7_low_bandwidth_is_fixed (simExt (fun c => c) simPtr 20480) (simExt (fun _ => 0) simPtr 7)
    (simRun 5) (simRun 9) LMS7002M_chan_t.LMS_CHB 800000 none (some 1) 1 (by norm_num)
    (simExt_keepsClocks _ _ _) (simExt_keepsClocks _ _ _)
    (by simp [simRun, simDev]) (by simp [simRun, simDev])
    (simExt_selects _ _ _ LMS7002M_chan_t.LMS_CHB) (simExt_selects _ _ _ LMS7002M_chan_t.LMS_CHB)
    (fun _ _ => simExt_keeps _ _ _ _ _) (fun _ _ => simExt_keeps _ _ _ _ _)

/-- C8, as the code has it: for every call of `LMS7002M_rbb_set_filter_bw`
that passes the reference-clock check with an effective bandwidth above
0.5 MHz and in which the power reading never reaches a band-stage target
(every reading is below `(int)(rssi*0.7071)`, the product being that of
`double`s, for every baseline `rssi` the gain scan can return), the returned
status is a failure, and every register field outside the
filter-trim set and outside the five companion fields has the same value in
the register map after the call as before it, provided the channel selection,
the bus writes and the filter-path selection leave that field alone.  The
five companion fields of the copy `j` that the channel selects are set after
the restore: `ict_tiamain_rfe = 2`, `ict_tiaout_rfe = 2`, `rfb_tia_rfe = 16`,
`ict_pga_out_rbb = 20`, `ict_pga_in_rbb = 20`. -/
theorem C8_frame_of_failed_calibration (E : Ext σ) (s : Run σ) (channel : LMS7002M_chan_t)
    (rfbw : ℚ) (bwactual : Option ℚ) (hE : E.KeepsClocks)
    (h1 : s.self.cgen_fref ≠ 0) (h2 : s.self.sxr_fref ≠ 0) (h3 : s.self.sxt_fref ≠ 0)
    (hbw : 500000 < LMS7002M_rbb_set_filter_bw.bw rfbw)
    (hlow : ∀ d ch d' ch' lvl, (E.cal_read_rssi d ch).1
      < ftoi (toDouble (((E.cal_gain_selection d' ch' lvl).1 : ℚ) * toDouble (7071 / 10000)))) :
    (LMS7002M_rbb_set_filter_bw E s channel rfbw bwactual).1 ≠ 0 ∧
    (∀ (i : Fin 2) (f : Field), E.Keeps i f → f ∉ trimFields ++ companionFields →
      (LMS7002M_rbb_set_filter_bw E s channel rfbw bwactual).2.1.self._regs i f
        = s.self._regs i f) ∧
    (∀ j : Fin 2, E.Selects channel j → (∀ f ∈ companionFields, E.Keeps j f) →
      (LMS7002M_rbb_set_filter_bw E s channel rfbw bwactual).2.1.self._regs j
        Field.reg_0x010f_ict_tiamain_rfe = 2 ∧
      (LMS7002M_rbb_set_filter_bw E s channel rfbw bwactual).2.1.self._regs j
        Field.reg_0x010f_ict_tiaout_rfe = 2 ∧
      (LMS7002M_rbb_set_filter_bw E s channel rfbw bwactual).2.1.self._regs j
        Field.reg_0x0114_rfb_tia_rfe = 16 ∧
      (LMS7002M_rbb_set_filter_bw E s channel rfbw bwactual).2.1.self._regs j
        Field.reg_0x0119_ict_pga_out_rbb = 20 ∧
      (LMS7002M_rbb_set_filter_bw E s channel rfbw bwactual).2.1.self._regs j
        Field.reg_0x0119_ict_pga_in_rbb = 20) := by
  obtain ⟨c1, c2, c3⟩ := clocks_after_select hE s channel h1 h2 h3
  exact ⟨LMS7002M_rbb_set_filter_bw.fails_of_low E s channel rfbw bwactual c1 c2 c3 hbw hlow,
    fun i f hk hf =>
      LMS7002M_rbb_set_filter_bw.frame E s channel rfbw bwactual c1 c2 c3 i f hk hf,
    fun j hs hk =>
      LMS7002M_rbb_set_filter_bw.companion_values E s channel rfbw bwactual c1 c2 c3 j hs hk⟩

/-- C8 on the simulated chip whose power reader always returns `0`, for a
request of 10 MHz on channel A. -/
theorem C8_frame_of_failed_calibration_witness :
    (LMS7002M_rbb_set_filter_bw (simExt (fun _ => 0) simPtr 20480) (simRun 5)
        LMS7002M_chan_t.LMS_CHA 10000000 none).1 ≠ 0 ∧
    (∀ (i : Fin 2) (f : Field), (simExt (fun _ => 0) simPtr 20480).Keeps i f →
      f ∉ trimFields ++ companionFields →
      (LMS7002M_rbb_set_filter_bw (simExt (fun _ => 0) simPtr 20480) (simRun 5)
        LMS7002M_chan_t.LMS_CHA 10000000 none).2.1.self._regs i f
        = (simRun 5).self._regs i f) ∧
    (∀ j : Fin 2, (simExt (fun _ => 0) simPtr 20480).Selects LMS7002M_chan_t.LMS_CHA j →
      (∀ f ∈ companionFields, (simExt (fun _ => 0) simPtr 20480).Keeps j f) →
      (LMS7002M_rbb_set_filter_bw (simExt (fun _ => 0) simPtr 20480) (simRun 5)
        LMS7002M_chan_t.LMS_CHA 10000000 none).2.1.self._regs j
        Field.reg_0x010f_ict_tiamain_rfe = 2 ∧
      (LMS7002M_rbb_set_filter_bw (simExt (fun _ => 0) simPtr 20480) (simRun 5)
        LMS7002M_chan_t.LMS_CHA 10000000 none).2.1.self._regs j
        Field.reg_0x010f_ict_tiaout_rfe = 2 ∧
      (LMS7002M_rbb_set_filter_bw (simExt (fun _ => 0) simPtr 20480) (simRun 5)
        LMS7002M_chan_t.LMS_CHA 10000000 none).2.1.self._regs j
        Field.reg_0x0114_rfb_tia_rfe = 16 ∧
      (LMS7002M_rbb_set_filter_bw (simExt (fun _ => 0) simPtr 20480) (simRun 5)
        LMS7002M_chan_t.LMS_CHA 10000000 none).2.1.self._regs j
        Field.reg_0x0119_ict_pga_out_rbb = 20 ∧
      (LMS7002M_rbb_set_filter_bw (simExt (fun _ => 0) simPtr 20480) (simRun 5)
        LMS7002M_chan_t.LMS_CHA 10000000 none).2.1.self._regs j
        Field.reg_0x0119_ict_pga_in_rbb = 20) :=
  C8_frame_of_failed_calibration (simExt (fun _ => 0) simPtr 20480) (simRun 5)
    LMS7002M_chan_t.LMS_CHA 10000000 none (simExt_keepsClocks _ _ _)
    (by simp [simRun, simDev]) (by simp [simRun, simDev]) (by simp [simRun, simDev])
    (by rw [bw_of_ge_one _ (by norm_num)]; norm_num) (simExt_low simPtr)

/-- C8 as stated fails: on the simulated chip whose power reader always
returns `0`, below the targets of both searches, a request of 10 MHz passes
the clock check and fails, and the field `ict_tiamain_rfe`, which is neither
a filter-trim field nor touched by the filter-path selection, holds `5`
before the call and `2` after it. -/
theorem C8_companion_field_counterexample :
    (∀ d ch, ((simExt (fun _ => 0) simPtr 20480).cal_read_rssi d ch).1 = 0) ∧
    0 < ftoi (toDouble (((20480 : Int) : ℚ) * toDouble (7071 / 10000))) ∧
    0 < ftoi (toDouble
      (((ftoi (toDouble (((20480 : Int) : ℚ) * toDouble (126 / 100))) : Int) : ℚ)
        * toDouble (7071 / 10000))) ∧
    (LMS7002M_rbb_set_filter_bw (simExt (fun _ => 0) simPtr 20480) (simRun 5)
        LMS7002M_chan_t.LMS_CHA 10000000 none).1 ≠ 0 ∧
    Field.reg_0x010f_ict_tiamain_rfe ∉ trimFields ∧
    (∀ d ch p, ((simExt (fun _ => 0) simPtr 20480).rbb_set_path d ch p)._regs = d._regs) ∧
    (simRun 5).self._regs 0 Field.reg_0x010f_ict_tiamain_rfe = 5 ∧
    (LMS7002M_rbb_set_filter_bw (simExt (fun _ => 0) simPtr 20480) (simRun 5)
        LMS7002M_chan_t.LMS_CHA 10000000 none).2.1.self._regs 0
        Field.reg_0x010f_ict_tiamain_rfe = 2 := by
  obtain ⟨c1, c2, c3⟩ := simRun_clocks (fun _ => 0) simPtr 20480 5 LMS7002M_chan_t.LMS_CHA
  obtain ⟨l, u⟩ := toDouble_7071
  refine ⟨fun _ _ => rfl, by rw [target_20480]; decide, ?_, ?_,
    by decide, fun _ _ _ => rfl, rfl, ?_⟩
  · rw [tia_target_20480]
    exact ftoi_toDouble_pos _ (by norm_num; linarith) (by norm_num; linarith)
  · exact LMS7002M_rbb_set_filter_bw.fails_of_low _ _ _ _ _ c1 c2 c3
      (by rw [bw_of_ge_one _ (by norm_num)]; norm_num) (simExt_low simPtr)
  · rw [LMS7002M_rbb_set_filter_bw.past_check _ _ _ _ _ c1 c2 c3]
    exact (LMS7002M_rbb_set_filter_bw.done_companion _ _ LMS7002M_chan_t.LMS_CHA _ _ 0
      (simExt_selects _ _ _ LMS7002M_chan_t.LMS_CHA) _ (simExt_keeps _ _ _ _ _)).1 rfl

/-- C9, as the code has it: for every request routed to the high-band path
whose effective bandwidth lies outside `[20, 130] MHz`,
`LMS7002M_rbb_set_filter_bw` returns a failure status, and the high-band
calibrator `rx_cal_rbb_lpfh`, called in any state with that bandwidth, rejects
it before any register write and any change of the register map: it selects
the channel, logs the error and returns `-1`. -/
theorem C9_high_band_out_of_range (E : Ext σ) (s : Run σ) (channel : LMS7002M_chan_t)
    (rfbw : ℚ) (bwactual : Option ℚ)
    (hpath : ¬ LMS7002M_rbb_set_filter_bw.bw rfbw < 20000000)
    (hout : LMS7002M_rbb_set_filter_bw.bw rfbw < 20000000 ∨
      LMS7002M_rbb_set_filter_bw.bw rfbw > 130000000) :
    (LMS7002M_rbb_set_filter_bw E s channel rfbw bwactual).1 ≠ 0 ∧
    (∀ (s' : Run σ) (rssi_value_50k : Int),
      rx_cal_rbb_lpfh E s' channel (LMS7002M_rbb_set_filter_bw.bw rfbw) rssi_value_50k
        = (-1, LMS7_logf (LMS7002M_set_mac_ch E s' channel) LMS7_log_level_t.LMS7_ERROR
            LogMsg.lpfh_not_in_range [])) := by
  have hbw : 130000000 < LMS7002M_rbb_set_filter_bw.bw rfbw := by
    rcases hout with h | h
    · exact absurd h hpath
    · exact h
  exact ⟨LMS7002M_rbb_set_filter_bw.fails_of_high E s channel rfbw bwactual hbw,
    fun s' r => rx_cal_rbb_lpfh.reject E s' channel _ r hout⟩

/-- C9 on the simulated chip, for the requested bandwidth 300 MHz. -/
theorem C9_high_band_out_of_range_witness :
    (LMS7002M_rbb_set_filter_bw (simExt (fun c => c) simPtr 20480) (simRun 5)
        LMS7002M_chan_t.LMS_CHA 300000000 none).1 ≠ 0 ∧
    (∀ (s' : Run Unit) (rssi_value_50k : Int),
      rx_cal_rbb_lpfh (simExt (fun c => c) simPtr 20480) s' LMS7002M_chan_t.LMS_CHA
          (LMS7002M_rbb_set_filter_bw.bw 300000000) rssi_value_50k
        = (-1, LMS7_logf (LMS7002M_set_mac_ch (simExt (fun c => c) simPtr 20480) s'
            LMS7002M_chan_t.LMS_CHA) LMS7_log_level_t.LMS7_ERROR
            LogMsg.lpfh_not_in_range [])) :=
  C9_high_band_out_of_range (simExt (fun c => c) simPtr 20480) (simRun 5)
    LMS7002M_chan_t.LMS_CHA 300000000 none
    (by rw [bw_of_ge_one _ (by norm_num)]; norm_num)
    (Or.inr (by rw [bw_of_ge_one _ (by norm_num)]; norm_num))

/-- C9 as stated fails: on the simulated chip, a request of 300 MHz (effective
bandwidth 150 MHz, routed to the high-band path and outside `[20, 130] MHz`)
starts with an empty trace and the field `ict_tiamain_rfe` at `5`, and ends
with registers written over the bus and `ict_tiamain_rfe` at `2`. -/
theorem C9_register_writes_counterexample :
    ¬ LMS7002M_rbb_set_filter_bw.bw 300000000 < 20000000 ∧
    LMS7002M_rbb_set_filter_bw.bw 300000000 > 130000000 ∧
    (simRun 5).trace = [] ∧
    (simRun 5).self._regs 0 Field.reg_0x010f_ict_tiamain_rfe = 5 ∧
    (LMS7002M_rbb_set_filter_bw (simExt (fun c => c) simPtr 20480) (simRun 5)
        LMS7002M_chan_t.LMS_CHA 300000000 none).2.1.self._regs 0
        Field.reg_0x010f_ict_tiamain_rfe = 2 ∧
    writes (LMS7002M_rbb_set_filter_bw (simExt (fun c => c) simPtr 20480) (simRun 5)
        LMS7002M_chan_t.LMS_CHA 300000000 none).2.1.trace ≠ [] := by
  obtain ⟨c1, c2, c3⟩ := simRun_clocks (fun c => c) simPtr 20480 5 LMS7002M_chan_t.LMS_CHA
  refine ⟨by rw [bw_of_ge_one _ (by norm_num)]; norm_num,
    by rw [bw_of_ge_one _ (by norm_num)]; norm_num, rfl, rfl, ?_, ?_⟩
  · rw [LMS7002M_rbb_set_filter_bw.past_check _ _ _ _ _ c1 c2 c3]
    exact (LMS7002M_rbb_set_filter_bw.done_companion _ _ LMS7002M_chan_t.LMS_CHA _ _ 0
      (simExt_selects _ _ _ LMS7002M_chan_t.LMS_CHA) _ (simExt_keeps _ _ _ _ _)).1 rfl
  · rw [LMS7002M_rbb_set_filter_bw.past_check _ _ _ _ _ c1 c2 c3]
    obtain ⟨l, hl, -, -, hw⟩ := LMS7002M_rbb_set_filter_bw.done_trace
      (simExt (fun c => c) simPtr 20480)
      (LMS7002M_rbb_set_filter_bw.stages (simExt (fun c => c) simPtr 20480)
        (LMS7002M_set_mac_ch (simExt (fun c => c) simPtr 20480) (simRun 5)
          LMS7002M_chan_t.LMS_CHA) LMS7002M_chan_t.LMS_CHA
        (LMS7002M_rbb_set_filter_bw.bw 300000000)
        (if LMS7002M_rbb_set_filter_bw.bw 300000000 < 20000000 then
          LMS7002M_path_t.LMS7002M_RBB_LBF else LMS7002M_path_t.LMS7002M_RBB_HBF)).2
      LMS7002M_chan_t.LMS_CHA
      ((simExt (fun c => c) simPtr 20480).set_mac_ch (simRun 5).self
        LMS7002M_chan_t.LMS_CHA)._regs
      (if LMS7002M_rbb_set_filter_bw.bw 300000000 < 20000000 then
          LMS7002M_path_t.LMS7002M_RBB_LBF else LMS7002M_path_t.LMS7002M_RBB_HBF)
    show writes (LMS7002M_rbb_set_filter_bw.done _ _ _ _ _).trace ≠ []
    rw [hl, writes_append]
    intro h
    have := congrArg List.length h
    simp [hw] at this

/-- C10: for every device state in which at least one of the three reference
clocks (`cgen_fref`, `sxr_fref`, `sxt_fref`) is uninitialised (`0`),
`LMS7002M_rbb_set_filter_bw` returns the failure status `-1` at once: its only
calls are the channel selection and the log of the error (so no snapshot is
taken and no initialiser or calibrator stage runs), the device structure is
what the channel selection alone leaves (so no register field that the channel
selection leaves alone is modified), and `bwactual` is not written.  The
channel selection is taken to leave the clock fields as they are. -/
theorem C10_missing_clock_fails_at_once (E : Ext σ) (s : Run σ) (channel : LMS7002M_chan_t)
    (rfbw : ℚ) (bwactual : Option ℚ) (hE : E.KeepsClocks)
    (h0 : s.self.cgen_fref = 0 ∨ s.self.sxr_fref = 0 ∨ s.self.sxt_fref = 0) :
    (LMS7002M_rbb_set_filter_bw E s channel rfbw bwactual).1 = -1 ∧
    (LMS7002M_rbb_set_filter_bw E s channel rfbw bwactual).2.2 = bwactual ∧
    (LMS7002M_rbb_set_filter_bw E s channel rfbw bwactual).2.1.self
      = E.set_mac_ch s.self channel ∧
    (∃ msg, (LMS7002M_rbb_set_filter_bw E s channel rfbw bwactual).2.1.calls s
      = [Event.set_mac_ch channel, Event.logf LMS7_log_level_t.LMS7_ERROR msg []]) ∧
    (∀ i f, E.Keeps i f →
      (LMS7002M_rbb_set_filter_bw E s channel rfbw bwactual).2.1.self._regs i f
        = s.self._regs i f) := by
  obtain ⟨msg, h⟩ := LMS7002M_rbb_set_filter_bw.clock_missing E s channel rfbw bwactual
    (by
      obtain ⟨c1, c2, c3⟩ := hE s.self channel
      rw [c1, c2, c3]
      exact h0)
  rw [h]
  refine ⟨rfl, rfl, rfl, ⟨msg, ?_⟩, ?_⟩
  · simp [Run.calls, LMS7_log, LMS7002M_set_mac_ch]
  · intro i f hk
    exact hk.1 s.self channel

/-- C10 on the simulated chip with `cgen_fref` left at `0`. -/
theorem C10_missing_clock_fails_at_once_witness :
    (LMS7002M_rbb_set_filter_bw (simExt (fun c => c) simPtr 20480)
        { self := simDev 7 0, trace := [] } LMS7002M_chan_t.LMS_CHB 10000000 (some 3)).1
      = -1 ∧
    (LMS7002M_rbb_set_filter_bw (simExt (fun c => c) simPtr 20480)
        { self := simDev 7 0, trace := [] } LMS7002M_chan_t.LMS_CHB 10000000 (some 3)).2.2
      = some 3 ∧
    (LMS7002M_rbb_set_filter_bw (simExt (fun c => c) simPtr 20480)
        { self := simDev 7 0, trace := [] } LMS7002M_chan_t.LMS_CHB 10000000
        (some 3)).2.1.self
      = (simExt (fun c => c) simPtr 20480).set_mac_ch (simDev 7 0) LMS7002M_chan_t.LMS_CHB ∧
    (∃ msg, (LMS7002M_rbb_set_filter_bw (simExt (fun c => c) simPtr 20480)
        { self := simDev 7 0, trace := [] } LMS7002M_chan_t.LMS_CHB 10000000
        (some 3)).2.1.calls { self := simDev 7 0, trace := [] }
      = [Event.set_mac_ch LMS7002M_chan_t.LMS_CHB,
         Event.logf LMS7_log_level_t.LMS7_ERROR msg []]) ∧
    (∀ i f, (simExt (fun c => c) simPtr 20480).Keeps i f →
      (LMS7002M_rbb_set_filter_bw (simExt (fun c => c) simPtr 20480)
        { self := simDev 7 0, trace := [] } LMS7002M_chan_t.LMS_CHB 10000000
        (some 3)).2.1.self._regs i f = (simDev 7 0)._regs i f) :=
  C10_missing_clock_fails_at_once (simExt (fun c => c) simPtr 20480)
    { self := simDev 7 0, trace := [] } LMS7002M_chan_t.LMS_CHB 10000000 (some 3)
    (simExt_keepsClocks _ _ _) (Or.inl rfl)

/-! ## The search engine: where a one-sided run ends -/

/-- With `reg_max = 2 ^ k - 1`, a search that saw no reading below the target
leaves the trim register at `reg_max`, and a search that saw no reading at or
above the target leaves it at `1`. -/
theorem rx_cal_loop_inner.ends_at (E : Ext σ) (s : Run σ) (channel : LMS7002M_chan_t)
    (reg_ptr : RegPtr) (reg_addr : Nat) (reg_name : Field) (desired : Int) (k : Nat)
    (hk : 1 ≤ k) (hE : E.KeepsCell reg_ptr) :
    ((rx_cal_loop_inner E s channel reg_ptr reg_addr (2 ^ k - 1) reg_name desired).1
        = cal_result_t.CAL_LOW →
      (rx_cal_loop_inner E s channel reg_ptr reg_addr (2 ^ k - 1) reg_name desired).2.load
        reg_ptr = 2 ^ k - 1) ∧
    ((rx_cal_loop_inner E s channel reg_ptr reg_addr (2 ^ k - 1) reg_name desired).1
        = cal_result_t.CAL_HIGH →
      (rx_cal_loop_inner E s channel reg_ptr reg_addr (2 ^ k - 1) reg_name desired).2.load
        reg_ptr = 1) := by
  obtain ⟨v, hv, hself, -, hres⟩ :=
    rx_cal_loop_inner.unfold E s channel reg_ptr reg_addr (2 ^ k - 1) reg_name desired
  have hload : (rx_cal_loop_inner E s channel reg_ptr reg_addr (2 ^ k - 1) reg_name
      desired).2.load reg_ptr = v.s.load reg_ptr := by
    show LMS7002M_t.load _ reg_ptr = LMS7002M_t.load _ reg_ptr
    rw [hself]
  obtain ⟨k', rfl⟩ : ∃ k', k = k' + 1 := ⟨k - 1, by omega⟩
  have hstart : Int.tdiv ((2 : Int) ^ (k' + 1) - 1 + 1) 2 = 2 ^ k' := by
    rw [sub_add_cancel]
    exact tdiv_two_pow_succ k'
  have key : (v.best_lo = -1 → v.s.load reg_ptr = 2 ^ (k' + 1) - 1) ∧
      (v.best_hi = -1 → v.s.load reg_ptr = 1) := by
    rw [hv, hstart]
    refine rx_cal_loop_inner.do_while_rule E channel reg_ptr reg_addr (2 ^ (k' + 1) - 1)
      desired
      (fun w => ∃ m, m < k' + 1 ∧ w.range = 2 ^ m ∧ 0 ≤ w.s.load reg_ptr ∧
        (w.best_lo = -1 → w.s.load reg_ptr + w.range = 2 ^ (k' + 1)) ∧
        (w.best_hi = -1 → w.s.load reg_ptr = w.range))
      (fun w => (w.best_lo = -1 → w.s.load reg_ptr = 2 ^ (k' + 1) - 1) ∧
        (w.best_hi = -1 → w.s.load reg_ptr = 1)) ?_ ?_ _ ?_
    · rintro w ⟨m, hm, hr, h0, hlo, hhi⟩ h2
      obtain ⟨m', rfl⟩ : ∃ m', m = m' + 1 := by
        cases m with
        | zero =>
          rw [hr] at h2
          exact absurd (by decide) h2
        | succ m' => exact ⟨m', rfl⟩
      have ht : Int.tdiv w.range 2 = 2 ^ m' := by rw [hr]; exact tdiv_two_pow_succ m'
      have hpm : (0 : Int) < 2 ^ m' := two_pow_pos_int m'
      have hpk : (2 : Int) ^ (m' + 1) ≤ 2 ^ k' :=
        pow_le_pow_right₀ (by norm_num) (by omega)
      have e1 : (2 : Int) ^ (m' + 1) = 2 * 2 ^ m' := by ring
      have e2 : (2 : Int) ^ (k' + 1) = 2 * 2 ^ k' := by ring
      refine ⟨m', by omega, ht, ?_, ?_, ?_⟩
      · exact (rx_cal_loop_inner.body_load_range E channel reg_ptr reg_addr _ desired w
          (by omega)).1
      · rw [rx_cal_loop_inner.body_best_lo E channel reg_ptr reg_addr _ desired w hE,
          rx_cal_loop_inner.body_load E channel reg_ptr reg_addr _ desired w hE,
          rx_cal_loop_inner.body_range, ht]
        rw [hr] at hlo hhi
        split_ifs <;> intro h <;> simp only [] <;> split_ifs <;> omega
      · rw [rx_cal_loop_inner.body_best_hi E channel reg_ptr reg_addr _ desired w hE,
          rx_cal_loop_inner.body_load E channel reg_ptr reg_addr _ desired w hE,
          rx_cal_loop_inner.body_range, ht]
        rw [hr] at hlo hhi
        split_ifs <;> intro h <;> simp only [] <;> split_ifs <;> omega
    · rintro w ⟨m, hm, hr, h0, hlo, hhi⟩ h2
      obtain rfl : m = 0 := by
        cases m with
        | zero => rfl
        | succ m' =>
          rw [hr, tdiv_two_pow_succ] at h2
          exact absurd h2 (two_pow_pos_int m').ne'
      have hpk : (1 : Int) ≤ 2 ^ k' := two_pow_pos_int k'
      have e2 : (2 : Int) ^ (k' + 1) = 2 * 2 ^ k' := by ring
      rw [pow_zero] at hr
      rw [hr] at hlo hhi
      refine ⟨?_, ?_⟩
      · rw [rx_cal_loop_inner.body_best_lo E channel reg_ptr reg_addr _ desired w hE,
          rx_cal_loop_inner.body_load E channel reg_ptr reg_addr _ desired w hE, h2]
        split_ifs <;> intro h <;> simp only [] <;> split_ifs <;> omega
      · rw [rx_cal_loop_inner.body_best_hi E channel reg_ptr reg_addr _ desired w hE,
          rx_cal_loop_inner.body_load E channel reg_ptr reg_addr _ desired w hE, h2]
        split_ifs <;> intro h <;> simp only [] <;> split_ifs <;> omega
    · refine ⟨k', by omega, rfl, ?_, ?_, ?_⟩
      · simp only [Run.load_store]
        exact (two_pow_pos_int k').le
      · intro _
        simp only [Run.load_store]
        ring
      · intro _
        simp only [Run.load_store]
  rw [hload, hres]
  constructor
  · intro h
    by_cases hlo : v.best_lo = -1
    · exact key.1 hlo
    · by_cases hhi : v.best_hi = -1 <;> simp [hlo, hhi] at h
  · intro h
    by_cases hlo : v.best_lo = -1
    · simp [hlo] at h
    · by_cases hhi : v.best_hi = -1
      · exact key.2 hhi
      · simp [hlo, hhi] at h

/-- A search whose readings are all below the target returns `CAL_HIGH`. -/
theorem rx_cal_loop_inner.high_of_low (E : Ext σ) (s : Run σ) (channel : LMS7002M_chan_t)
    (reg_ptr : RegPtr) (reg_addr : Nat) (reg_max : Int) (reg_name : Field) (desired : Int)
    (hmax : 0 ≤ reg_max) (hE : E.KeepsCell reg_ptr)
    (hlow : ∀ d ch, (E.cal_read_rssi d ch).1 < desired) :
    (rx_cal_loop_inner E s channel reg_ptr reg_addr reg_max reg_name desired).1
      = cal_result_t.CAL_HIGH := by
  obtain ⟨v, hv, -, -, hres⟩ :=
    rx_cal_loop_inner.unfold E s channel reg_ptr reg_addr reg_max reg_name desired
  have key : v.best_hi = -1 ∧ v.best_lo ≠ -1 := by
    rw [hv]
    refine rx_cal_loop_inner.do_while_rule E channel reg_ptr reg_addr reg_max desired
      (fun w => w.best_hi = -1 ∧ 0 ≤ w.s.load reg_ptr)
      (fun w => w.best_hi = -1 ∧ w.best_lo ≠ -1) ?_ ?_ _ ?_
    · rintro w ⟨hw, -⟩ -
      refine ⟨?_, (rx_cal_loop_inner.body_load_range E channel reg_ptr reg_addr reg_max
        desired w hmax).1⟩
      rw [rx_cal_loop_inner.body_best_hi E channel reg_ptr reg_addr reg_max desired w hE,
        if_pos (hlow _ _)]
      exact hw
    · rintro w ⟨hw, h0⟩ -
      rw [rx_cal_loop_inner.body_best_hi E channel reg_ptr reg_addr reg_max desired w hE,
        rx_cal_loop_inner.body_best_lo E channel reg_ptr reg_addr reg_max desired w hE,
        if_pos (hlow _ _), if_pos (hlow _ _)]
      exact ⟨hw, by omega⟩
    · refine ⟨rfl, ?_⟩
      simp only [Run.load_store]
      exact (rx_cal_loop_inner.start_range reg_max hmax).1
  rw [hres, if_neg key.2, if_pos key.1]

/-- A search whose readings are all at or above the target returns
`CAL_LOW`. -/
theorem rx_cal_loop_inner.low_of_high (E : Ext σ) (s : Run σ) (channel : LMS7002M_chan_t)
    (reg_ptr : RegPtr) (reg_addr : Nat) (reg_max : Int) (reg_name : Field) (desired : Int)
    (hhigh : ∀ d ch, ¬ (E.cal_read_rssi d ch).1 < desired) :
    (rx_cal_loop_inner E s channel reg_ptr reg_addr reg_max reg_name desired).1
      = cal_result_t.CAL_LOW := by
  obtain ⟨v, hv, -, -, hres⟩ :=
    rx_cal_loop_inner.unfold E s channel reg_ptr reg_addr reg_max reg_name desired
  have key : v.best_lo = -1 := by
    rw [hv]
    have step : ∀ w : SearchVars σ, w.best_lo = -1 →
        (rx_cal_loop_inner.body E channel reg_ptr reg_addr reg_max desired w).best_lo = -1 := by
      intro w hw
      simp [rx_cal_loop_inner.body, cal_read_rssi, hhigh, hw]
    exact rx_cal_loop_inner.do_while_rule E channel reg_ptr reg_addr reg_max desired
      (fun w => w.best_lo = -1) (fun w => w.best_lo = -1)
      (fun w hw _ => step w hw) (fun w hw _ => step w hw) _ rfl
  rw [hres, if_pos key]

/-! ## The search engine: the claims, continued -/

/-- C18, as the code has it: for every trim register with `reg_max = 2 ^ k - 1`,
`k ≥ 1` (31, 255, 2047 and 4095 are `k = 5, 8, 11, 12`), every target and every
power reader, when `rx_cal_loop_inner` returns `CAL_LOW` (no reading was below
the target) the trim register is left at its maximum `reg_max`, and when it
returns `CAL_HIGH` (no reading was at or above the target) the trim register is
left at `1`.  The bus write and the power reader are taken to leave the trim
register's field of the register map as it is. -/
theorem C18_one_sided_result (E : Ext σ) (s : Run σ) (channel : LMS7002M_chan_t)
    (reg_ptr : RegPtr) (reg_addr : Nat) (reg_name : Field) (desired : Int) (k : Nat)
    (hk : 1 ≤ k) (hE : E.KeepsCell reg_ptr) :
    ((rx_cal_loop_inner E s channel reg_ptr reg_addr (2 ^ k - 1) reg_name desired).1
        = cal_result_t.CAL_LOW →
      (rx_cal_loop_inner E s channel reg_ptr reg_addr (2 ^ k - 1) reg_name desired).2.load
        reg_ptr = 2 ^ k - 1) ∧
    ((rx_cal_loop_inner E s channel reg_ptr reg_addr (2 ^ k - 1) reg_name desired).1
        = cal_result_t.CAL_HIGH →
      (rx_cal_loop_inner E s channel reg_ptr reg_addr (2 ^ k - 1) reg_name desired).2.load
        reg_ptr = 1) :=
  rx_cal_loop_inner.ends_at E s channel reg_ptr reg_addr reg_name desired k hk hE

/-- C18 on the simulated chip, for the 5-bit register, the target `10` and
readings that are all `100`. -/
theorem C18_one_sided_result_witness :
    ((rx_cal_loop_inner (simExt (fun _ => 100) simPtr 0) (simRun 0) LMS7002M_chan_t.LMS_CHA
        simPtr 0x0116 (2 ^ 5 - 1) Field.reg_0x0116_r_ctl_lpf_rbb 10).1 = cal_result_t.CAL_LOW →
      (rx_cal_loop_inner (simExt (fun _ => 100) simPtr 0) (simRun 0) LMS7002M_chan_t.LMS_CHA
        simPtr 0x0116 (2 ^ 5 - 1) Field.reg_0x0116_r_ctl_lpf_rbb 10).2.load simPtr
        = 2 ^ 5 - 1) ∧
    ((rx_cal_loop_inner (simExt (fun _ => 100) simPtr 0) (simRun 0) LMS7002M_chan_t.LMS_CHA
        simPtr 0x0116 (2 ^ 5 - 1) Field.reg_0x0116_r_ctl_lpf_rbb 10).1 = cal_result_t.CAL_HIGH →
      (rx_cal_loop_inner (simExt (fun _ => 100) simPtr 0) (simRun 0) LMS7002M_chan_t.LMS_CHA
        simPtr 0x0116 (2 ^ 5 - 1) Field.reg_0x0116_r_ctl_lpf_rbb 10).2.load simPtr = 1) :=
  C18_one_sided_result (simExt (fun _ => 100) simPtr 0) (simRun 0) LMS7002M_chan_t.LMS_CHA
    simPtr 0x0116 Field.reg_0x0116_r_ctl_lpf_rbb 10 5 (by decide)
    ⟨fun _ _ => rfl, fun _ _ => rfl⟩

/-- C18 as stated fails, for the 5-bit register and the target `10` on the
simulated chip: with every reading `0` the search returns `CAL_HIGH` and leaves
the register at `1`, not at the maximum `31`; with every reading `100` it
returns `CAL_LOW` and leaves the register at `31`, not at `0`. -/
theorem C18_saturation_counterexample :
    (rx_cal_loop_inner (simExt (fun _ => 0) simPtr 0) (simRun 0) LMS7002M_chan_t.LMS_CHA
        simPtr 0x0116 31 Field.reg_0x0116_r_ctl_lpf_rbb 10).1 = cal_result_t.CAL_HIGH ∧
    (rx_cal_loop_inner (simExt (fun _ => 0) simPtr 0) (simRun 0) LMS7002M_chan_t.LMS_CHA
        simPtr 0x0116 31 Field.reg_0x0116_r_ctl_lpf_rbb 10).2.load simPtr = 1 ∧
    (1 : Int) ≠ 31 ∧
    (rx_cal_loop_inner (simExt (fun _ => 100) simPtr 0) (simRun 0) LMS7002M_chan_t.LMS_CHA
        simPtr 0x0116 31 Field.reg_0x0116_r_ctl_lpf_rbb 10).1 = cal_result_t.CAL_LOW ∧
    (rx_cal_loop_inner (simExt (fun _ => 100) simPtr 0) (simRun 0) LMS7002M_chan_t.LMS_CHA
        simPtr 0x0116 31 Field.reg_0x0116_r_ctl_lpf_rbb 10).2.load simPtr = 31 ∧
    (31 : Int) ≠ 0 := by
  have hE0 : (simExt (fun _ => 0) simPtr 0).KeepsCell simPtr := ⟨fun _ _ => rfl, fun _ _ => rfl⟩
  have hE1 : (simExt (fun _ => 100) simPtr 0).KeepsCell simPtr :=
    ⟨fun _ _ => rfl, fun _ _ => rfl⟩
  have h0 := rx_cal_loop_inner.high_of_low (simExt (fun _ => 0) simPtr 0) (simRun 0)
    LMS7002M_chan_t.LMS_CHA simPtr 0x0116 31 Field.reg_0x0116_r_ctl_lpf_rbb 10 (by decide) hE0
    (fun _ _ => by show (0 : Int) < 10; decide)
  have h1 := rx_cal_loop_inner.low_of_high (simExt (fun _ => 100) simPtr 0) (simRun 0)
    LMS7002M_chan_t.LMS_CHA simPtr 0x0116 31 Field.reg_0x0116_r_ctl_lpf_rbb 10
    (fun _ _ => by show ¬ (100 : Int) < 10; decide)
  have e0 := rx_cal_loop_inner.ends_at (simExt (fun _ => 0) simPtr 0) (simRun 0)
    LMS7002M_chan_t.LMS_CHA simPtr 0x0116 Field.reg_0x0116_r_ctl_lpf_rbb 10 5 (by decide) hE0
  have e1 := rx_cal_loop_inner.ends_at (simExt (fun _ => 100) simPtr 0) (simRun 0)
    LMS7002M_chan_t.LMS_CHA simPtr 0x0116 Field.reg_0x0116_r_ctl_lpf_rbb 10 5 (by decide) hE1
  norm_num at e0 e1
  exact ⟨h0, e0.2 h0, by decide, h1, e1.1 h1, by decide⟩

theorem Run.store_store (s : Run σ) (p : RegPtr) (v w : Int) :
    (s.store p v).store p w = s.store p w := by
  simp [Run.store, LMS7002M_t.store]

/-- The calls of the `do ... while` come after the calls made before it. -/
theorem rx_cal_loop_inner.do_while_trace (E : Ext σ) (channel : LMS7002M_chan_t)
    (reg_ptr : RegPtr) (reg_addr : Nat) (reg_max desired : Int) (v : SearchVars σ) :
    ∃ l, (rx_cal_loop_inner.do_while E channel reg_ptr reg_addr reg_max desired v).s.trace
      = v.s.trace ++ l := by
  have step : ∀ w : SearchVars σ, (∃ l, w.s.trace = v.s.trace ++ l) →
      ∃ l, (rx_cal_loop_inner.body E channel reg_ptr reg_addr reg_max desired w).s.trace
        = v.s.trace ++ l := by
    rintro w ⟨l, hl⟩
    rw [rx_cal_loop_inner.body_trace, hl, List.append_assoc]
    exact ⟨_, rfl⟩
  exact rx_cal_loop_inner.do_while_rule E channel reg_ptr reg_addr reg_max desired
    (fun w => ∃ l, w.s.trace = v.s.trace ++ l) (fun w => ∃ l, w.s.trace = v.s.trace ++ l)
    (fun w hw _ => step w hw) (fun w hw _ => step w hw) v ⟨[], by simp⟩

/-- C20: the result of `rx_cal_loop_inner` does not depend on the value the
trim register holds at entry.  For every `reg_max`, every target and every
behaviour `E` of the chip (the power reader is a function of the device it is
handed), the run from the state `s` and the run from `s` with any other value
`initial` in the trim register return the same outcome, leave the same device
(so the same final code), hand the same devices to the bus write (so write the
same candidates, in the same order) and take the same readings. -/
theorem C20_search_forgets_initial_value (E : Ext σ) (s : Run σ)
    (channel : LMS7002M_chan_t) (reg_ptr : RegPtr) (reg_addr : Nat) (reg_max : Int)
    (reg_name : Field) (desired : Int) (initial : Int) :
    (rx_cal_loop_inner E (s.store reg_ptr initial) channel reg_ptr reg_addr reg_max
        reg_name desired).1
      = (rx_cal_loop_inner E s channel reg_ptr reg_addr reg_max reg_name desired).1 ∧
    (rx_cal_loop_inner E (s.store reg_ptr initial) channel reg_ptr reg_addr reg_max
        reg_name desired).2.self
      = (rx_cal_loop_inner E s channel reg_ptr reg_addr reg_max reg_name desired).2.self ∧
    writes ((rx_cal_loop_inner E (s.store reg_ptr initial) channel reg_ptr reg_addr reg_max
        reg_name desired).2.calls (s.store reg_ptr initial))
      = writes ((rx_cal_loop_inner E s channel reg_ptr reg_addr reg_max reg_name
        desired).2.calls s) ∧
    samples ((rx_cal_loop_inner E (s.store reg_ptr initial) channel reg_ptr reg_addr reg_max
        reg_name desired).2.calls (s.store reg_ptr initial))
      = samples ((rx_cal_loop_inner E s channel reg_ptr reg_addr reg_max reg_name
        desired).2.calls s) := by
  obtain ⟨v, hv, hself, htrace, hres⟩ :=
    rx_cal_loop_inner.unfold E s channel reg_ptr reg_addr reg_max reg_name desired
  obtain ⟨v', hv', hself', htrace', hres'⟩ :=
    rx_cal_loop_inner.unfold E (s.store reg_ptr initial) channel reg_ptr reg_addr reg_max
      reg_name desired
  rw [Run.store_store] at hv'
  obtain rfl : v' = v := by rw [hv, hv']
  obtain ⟨l, hl⟩ := rx_cal_loop_inner.do_while_trace E channel reg_ptr reg_addr reg_max
    desired ⟨s.store reg_ptr (Int.tdiv (reg_max + 1) 2), 0, -1, -1, Int.tdiv (reg_max + 1) 2⟩
  rw [← hv] at hl
  rw [hl, Run.store_trace, List.append_assoc] at htrace htrace'
  refine ⟨by rw [hres, hres'], by rw [hself, hself'], ?_, ?_⟩
  · rw [Run.calls_of_eq htrace]
    rw [← Run.store_trace s reg_ptr initial] at htrace'
    rw [Run.calls_of_eq htrace', writes_append, writes_append]
    simp [writes, Event.written]
  · rw [Run.calls_of_eq htrace]
    rw [← Run.store_trace s reg_ptr initial] at htrace'
    rw [Run.calls_of_eq htrace', samples_append, samples_append]
    simp [samples, Event.sample]

/-! ## The seeds of the stage calibrators: arithmetic -/

theorem ftoi_neg (q : ℚ) : ftoi (-q) = -ftoi q := by
  simp only [ftoi, Rat.neg_num, Rat.neg_den, Int.neg_tdiv]

/-- The cast of a negative value is the ceiling. -/
theorem ftoi_of_nonpos (q : ℚ) (h : q ≤ 0) : ftoi q = ⌈q⌉ := by
  have h1 : ftoi q = -ftoi (-q) := by rw [ftoi_neg, neg_neg]
  rw [h1, ftoi_of_nonneg (-q) (by linarith), Int.floor_neg, neg_neg]

/-- The cast, clamped from below at 0, is the floor clamped from below at 0. -/
theorem ftoi_clamp (q : ℚ) : (if ftoi q < 0 then 0 else ftoi q) = max 0 ⌊q⌋ := by
  rcases le_or_lt 0 q with h | h
  · rw [ftoi_of_nonneg q h]
    have : 0 ≤ ⌊q⌋ := Int.floor_nonneg.mpr h
    rw [if_neg (by omega), max_eq_right this]
  · rw [ftoi_of_nonpos q h.le]
    have h1 : ⌈q⌉ ≤ 0 := Int.ceil_le.mpr (by exact_mod_cast h.le)
    have h2 : ⌊q⌋ < 0 := Int.floor_lt.mpr (by exact_mod_cast h)
    rw [max_eq_left h2.le]
    split_ifs <;> omega

/-- The cast of a value at or above `-10` is at or above `-10`. -/
theorem ftoi_ge (q : ℚ) (h : -10 ≤ q) : -10 ≤ ftoi q := by
  rcases le_or_lt 0 q with h0 | h0
  · rw [ftoi_of_nonneg q h0]
    have : 0 ≤ ⌊q⌋ := Int.floor_nonneg.mpr h0
    omega
  · rw [ftoi_of_nonpos q h0.le]
    have : ((-10 : Int) : ℚ) ≤ q := by exact_mod_cast h
    exact le_trans (Int.le_floor.mpr this) (Int.floor_le_ceil q)

/-- The cast of `x - n` for `x` at or above the natural number `n`. -/
theorem ftoi_sub_nat (x : ℚ) (n : Nat) (h : (n : ℚ) ≤ x) : ftoi (x - n) = ⌊x⌋ - n := by
  rw [ftoi_of_nonneg _ (by linarith)]
  exact Int.floor_sub_nat x n

/-- C division by 100 of a value above `-100` is not negative. -/
theorem tdiv_hundred_nonneg (c : Int) (h : -100 < c) : 0 ≤ Int.tdiv c 100 := by
  rcases le_or_lt 0 c with h0 | h0
  · exact Int.tdiv_nonneg h0 (by decide)
  · have e : Int.tdiv c 100 = -Int.tdiv (-c) 100 := by rw [Int.neg_tdiv, neg_neg]
    rw [e, Int.tdiv_eq_ediv (by omega) (by decide)]
    omega

theorem roundEven_nonneg (x : ℚ) (h : 0 ≤ x) : 0 ≤ roundEven x :=
  roundEven_ge x 0 (by simpa using h)

/-- Rounding to `double` keeps the sign of a non-negative value. -/
theorem toDouble_nonneg (x : ℚ) (h : 0 ≤ x) : 0 ≤ toDouble x := by
  simp only [toDouble]
  split_ifs
  · exact le_refl _
  · have h1 : (0 : ℚ) < 2 ^ (Int.log 2 |x| - 52) := by positivity
    have h2 : (0 : ℚ) ≤ roundEven (x / 2 ^ (Int.log 2 |x| - 52)) := by
      exact_mod_cast roundEven_nonneg _ (div_nonneg h h1.le)
    exact mul_nonneg h2 h1.le

/-- The seed `(int)(q - 10)` of a quotient `q ≥ 0` is at least `-10`. -/
theorem ftoi_seed_ge (q : ℚ) (h : 0 ≤ q) : -10 ≤ ftoi (toDouble (toDouble q - 10)) := by
  apply ftoi_ge
  have h1 := toDouble_nonneg q h
  rcases le_or_lt 0 (toDouble q - 10) with h2 | h2
  · have := toDouble_nonneg _ h2
    linarith
  · have hax : |toDouble q - 10| < 2 ^ 52 := by
      rw [abs_of_neg h2]
      norm_num
      linarith
    have := toDouble_ge_int (toDouble q - 10) (-10) hax (by push_cast; linarith)
    exact_mod_cast this

/-- The cast `(int)(q - c)` of a `double` quotient: for `c ≤ q < 2 ^ 22` it is
`⌊q⌋ - c` or `⌊q⌋ - c + 1`, and it is `⌊q⌋ - c` unless `q` lies within
`2 ^ (-30)` below the next integer, where the quotient may be rounded up to
that integer. -/
theorem ftoi_quot_sub (q : ℚ) (c : Nat) (hc : (c : ℚ) ≤ q) (hq : q < 2 ^ 22) :
    ⌊q⌋ - c ≤ ftoi (toDouble (toDouble q - c)) ∧
    ftoi (toDouble (toDouble q - c)) ≤ ⌊q⌋ - c + 1 ∧
    (q ≤ ⌊q⌋ + 1 - 1 / 2 ^ 30 → ftoi (toDouble (toDouble q - c)) = ⌊q⌋ - c) := by
  have hc0 : (0 : ℚ) ≤ c := Nat.cast_nonneg c
  have hq0 : 0 ≤ q := le_trans hc0 hc
  have hn : (c : Int) ≤ ⌊q⌋ := Int.le_floor.mpr (by exact_mod_cast hc)
  have hnq : ((⌊q⌋ : Int) : ℚ) ≤ q := Int.floor_le q
  have hqn : q < ⌊q⌋ + 1 := Int.lt_floor_add_one q
  have hcn : (c : ℚ) ≤ ⌊q⌋ := by exact_mod_cast hn
  have haq : |q| < 2 ^ 52 := by
    rw [abs_of_nonneg hq0]
    exact lt_trans hq (by norm_num)
  have l1 : ((⌊q⌋ : Int) : ℚ) ≤ toDouble q := toDouble_ge_int q _ haq hnq
  have u1 : toDouble q ≤ ((⌊q⌋ + 1 : Int) : ℚ) :=
    toDouble_le_int q _ haq (by push_cast; exact hqn.le)
  push_cast at u1
  have hr0 : 0 ≤ toDouble q - c := by linarith
  have har : |toDouble q - c| < 2 ^ 52 := by
    rw [abs_of_nonneg hr0]
    have : (2 : ℚ) ^ 22 + 1 < 2 ^ 52 := by norm_num
    linarith
  have l2 : ((⌊q⌋ - c : Int) : ℚ) ≤ toDouble (toDouble q - c) :=
    toDouble_ge_int _ _ har (by push_cast; linarith)
  have u2 : toDouble (toDouble q - c) ≤ ((⌊q⌋ - c + 1 : Int) : ℚ) :=
    toDouble_le_int _ _ har (by push_cast; linarith)
  have hd0 : 0 ≤ toDouble (toDouble q - c) := toDouble_nonneg _ hr0
  rw [ftoi_of_nonneg _ hd0]
  refine ⟨Int.le_floor.mpr l2, ?_, ?_⟩
  · have := Int.floor_le_floor u2
    rwa [Int.floor_intCast] at this
  · intro hm
    have hp : (0 : ℚ) < 2 ^ 30 := by positivity
    have haq2 : |q| < 2 ^ (52 - 30) := by
      rw [abs_of_nonneg hq0]
      exact hq
    have k1 : q ≤ (((⌊q⌋ + 1) * 2 ^ 30 - 1 : Int) : ℚ) / 2 ^ 30 := by
      rw [le_div_iff₀ hp]
      push_cast
      have := mul_le_mul_of_nonneg_right hm hp.le
      rw [sub_mul, one_div, inv_mul_cancel₀ hp.ne'] at this
      exact this
    have u3 := toDouble_le q _ 30 (by decide) haq2 k1
    replace u3 : toDouble q ≤ ⌊q⌋ + 1 - 1 / 2 ^ 30 := by
      refine le_trans u3 (le_of_eq ?_)
      push_cast
      field_simp
      exact Or.inl (by norm_num)
    have har2 : |toDouble q - c| < 2 ^ (52 - 30) := by
      rw [abs_of_nonneg hr0]
      have : (0 : ℚ) < 1 / 2 ^ 30 := by positivity
      have h22 : ((⌊q⌋ : Int) : ℚ) < 2 ^ 22 := lt_of_le_of_lt hnq hq
      have h22i : ⌊q⌋ < 2 ^ 22 := by exact_mod_cast h22
      have h22q : ((⌊q⌋ : Int) : ℚ) + 1 ≤ 2 ^ 22 := by exact_mod_cast h22i
      norm_num at h22q ⊢
      linarith
    have k2 : toDouble q - c ≤ (((⌊q⌋ - c + 1) * 2 ^ 30 - 1 : Int) : ℚ) / 2 ^ 30 := by
      rw [le_div_iff₀ hp]
      push_cast
      have := mul_le_mul_of_nonneg_right u3 hp.le
      rw [sub_mul, one_div, inv_mul_cancel₀ hp.ne'] at this
      nlinarith
    have u4 := toDouble_le _ _ 30 (by decide) har2 k2
    replace u4 : toDouble (toDouble q - c) ≤ ⌊q⌋ - c + 1 - 1 / 2 ^ 30 := by
      refine le_trans u4 (le_of_eq ?_)
      push_cast
      field_simp
      exact Or.inl (by norm_num)
    rw [Int.floor_eq_iff]
    refine ⟨l2, ?_⟩
    have : (0 : ℚ) < 1 / 2 ^ 30 := by positivity
    push_cast
    linarith

/-- The cast `(int)(q - c)` of a `double` quotient `q` between the integer `n`
and `n + 1 - 2 ^ (-30)`. -/
theorem ftoi_quot_sub_eq (q : ℚ) (c : Nat) (n : Int) (hc : (c : ℚ) ≤ q) (hq : q < 2 ^ 22)
    (h1 : (n : ℚ) ≤ q) (h2 : q ≤ n + 1 - 1 / 2 ^ 30) :
    ftoi (toDouble (toDouble q - c)) = n - c := by
  have hf : ⌊q⌋ = n := by
    rw [Int.floor_eq_iff]
    refine ⟨h1, ?_⟩
    have : (0 : ℚ) < 1 / 2 ^ 30 := by positivity
    linarith
  have h := (ftoi_quot_sub q c hc hq).2.2 (by rw [hf]; exact h2)
  rw [hf] at h
  exact h

/-! ## The seeds of the stage calibrators: proofs -/

/-- The low-band calibrator is its seed block followed by the fixed trims or
by the outer loop, which starts in the state the seed block leaves. -/
theorem rx_cal_rbb_lpfl.lpfl_eq_seed (E : Ext σ) (s : Run σ) (channel : LMS7002M_chan_t)
    (bw : ℚ) (rssi_value_50k : Int) :
    rx_cal_rbb_lpfl E s channel bw rssi_value_50k
      = if bw ≤ 500000 then
          (0, LMS7002M_regs_spi_write E (LMS7002M_regs_spi_write E
            (((rx_cal_rbb_lpfl.seed E s channel bw).set Field.reg_0x0116_r_ctl_lpf_rbb 0).set
              Field.reg_0x0117_c_ctl_lpfl_rbb 2047) 0x0116) 0x0117)
        else
          rx_cal_loop E (rx_cal_rbb_lpfl.seed E s channel bw) channel bw
            ((rx_cal_rbb_lpfl.seed E s channel bw).addr Field.reg_0x0117_c_ctl_lpfl_rbb)
            0x0117 2047 Field.reg_0x0117_c_ctl_lpfl_rbb
            (ftoi (toDouble (rssi_value_50k * toDouble (7071 / 10000)))) := rfl

/-- The high-band calibrator, for a bandwidth within its bounds, is its seed
block followed by the tone set-up, the gain scan and the outer loop. -/
theorem rx_cal_rbb_lpfh.lpfh_eq_seed (E : Ext σ) (s : Run σ) (channel : LMS7002M_chan_t)
    (bw : ℚ) (rssi_value_50k : Int) (h : ¬ (bw < 20000000 ∨ bw > 130000000)) :
    rx_cal_rbb_lpfh E s channel bw rssi_value_50k
      = (let s := rx_cal_rbb_lpfh.seed E (LMS7002M_set_mac_ch E s channel) bw
         let r := setup_rx_cal_tone E s channel 400000 100000
         if r.1 ≠ 0 then (r.1, r.2)
         else
           let g := cal_gain_selection E r.2 channel 0x05000
           let s := LMS7_logf g.2 LMS7_log_level_t.LMS7_ERROR LogMsg.lpfh_ini
             [g.1, g.2.get Field.reg_0x0116_c_ctl_lpfh_rbb]
           rx_cal_loop E s channel bw (s.addr Field.reg_0x0116_c_ctl_lpfh_rbb)
             0x0116 255 Field.reg_0x0117_c_ctl_lpfl_rbb
               (ftoi (toDouble (g.1 * toDouble (7071 / 10000))))) := by
  simp only [rx_cal_rbb_lpfh, if_neg h]
  rfl

/-- The TIA calibrator computes the seeds for the gain tier it reads after
selecting the channel, and goes on with them or rejects the tier. -/
theorem rx_cal_tia_rfe.tia_eq_caps (E : Ext σ) (s : Run σ) (channel : LMS7002M_chan_t)
    (bw : ℚ) (rssi_value_50k : Int) :
    rx_cal_tia_rfe E s channel bw rssi_value_50k
      = match rx_cal_tia_rfe.caps
          ((LMS7002M_set_mac_ch E s channel).get Field.reg_0x0113_g_tia_rfe) bw with
        | some c =>
          rx_cal_tia_rfe.tune E (LMS7002M_set_mac_ch E s channel) channel bw rssi_value_50k
            c.1 c.2
        | none =>
          (-1, LMS7_logf (LMS7002M_set_mac_ch E s channel) LMS7_log_level_t.LMS7_ERROR
            LogMsg.g_tia_rfe_invalid
            [(LMS7002M_set_mac_ch E s channel).get Field.reg_0x0113_g_tia_rfe]) := by
  simp only [rx_cal_tia_rfe, rx_cal_tia_rfe.caps]
  split_ifs <;> rfl

/-- The TIA calibrator, once it has the seeds, is its seed block followed by
the fixed trims or by the tone set-up and the search. -/
theorem rx_cal_tia_rfe.tune_eq_seed (E : Ext σ) (s : Run σ) (channel : LMS7002M_chan_t)
    (bw : ℚ) (rssi_value_50k : Int) (cfb_tia_rfe ccomp_tia_rfe : Int) :
    rx_cal_tia_rfe.tune E s channel bw rssi_value_50k cfb_tia_rfe ccomp_tia_rfe
      = (let s := rx_cal_tia_rfe.seed E s cfb_tia_rfe ccomp_tia_rfe
         if bw ≤ 500000 then
           (0, LMS7002M_regs_spi_write E (s.set Field.reg_0x0112_cfb_tia_rfe 4095) 0x0112)
         else if bw > 54000000 then
           (0, LMS7002M_regs_spi_write E ((s.set Field.reg_0x0112_ccomp_tia_rfe 0).set
             Field.reg_0x0112_cfb_tia_rfe 0) 0x0112)
         else
           let r := setup_rx_cal_tone E s channel bw 50000
           if r.1 ≠ 0 then (-1, r.2)
           else
             (r.1, (rx_cal_loop_inner E r.2 channel (r.2.addr Field.reg_0x0112_cfb_tia_rfe)
               0x0112 4095 Field.reg_0x0112_cfb_tia_rfe
               (ftoi (toDouble (rssi_value_50k * toDouble (7071 / 10000))))).2)) := rfl

/-- What the seed block of the low-band calibrator leaves in the copy `j` of
the register map that the channel selects. -/
theorem rx_cal_rbb_lpfl.lpfl_seed_values (E : Ext σ) (s : Run σ)
    (channel : LMS7002M_chan_t) (bw : ℚ) (j : Fin 2) (hs : E.Selects channel j) :
    (rx_cal_rbb_lpfl.seed E s channel bw).self.regs = j ∧
    (E.Keeps j Field.reg_0x0117_c_ctl_lpfl_rbb →
      (rx_cal_rbb_lpfl.seed E s channel bw).self._regs j Field.reg_0x0117_c_ctl_lpfl_rbb
        = ftoi (toDouble (toDouble (2160000000 / bw) - 103))) ∧
    (E.Keeps j Field.reg_0x0117_rcc_ctl_lpfl_rbb →
      (rx_cal_rbb_lpfl.seed E s channel bw).self._regs j Field.reg_0x0117_rcc_ctl_lpfl_rbb
        = if bw > 15000000 then 5 else if bw > 10000000 then 4 else if bw > 5000000 then 3
          else if bw > 3000000 then 2 else if bw > 1400000 then 1 else 0) ∧
    (E.Keeps j Field.reg_0x0116_r_ctl_lpf_rbb →
      (rx_cal_rbb_lpfl.seed E s channel bw).self._regs j Field.reg_0x0116_r_ctl_lpf_rbb
        = 16) := by
  obtain ⟨s1, s2, s3⟩ := hs
  refine ⟨?_, ?_, ?_, ?_⟩
  · simp [rx_cal_rbb_lpfl.seed, LMS7002M_regs_spi_write, LMS7002M_set_mac_ch, s1, s2,
      Run.set_regs_self]
  all_goals
    rintro ⟨k1, k2, k3, k4⟩
    simp [rx_cal_rbb_lpfl.seed, LMS7002M_regs_spi_write, LMS7002M_set_mac_ch, k1, k2, s1, s2,
      Run.set_map, Run.set_regs_self]

/-- What the seed block of the high-band calibrator leaves in the selected
copy `j` of the register map. -/
theorem rx_cal_rbb_lpfh.lpfh_seed_values (E : Ext σ) (s : Run σ) (bw : ℚ) (j : Fin 2)
    (channel : LMS7002M_chan_t) (hs : E.Selects channel j) (hj : s.self.regs = j) :
    (rx_cal_rbb_lpfh.seed E s bw).self.regs = j ∧
    (E.Keeps j Field.reg_0x0116_c_ctl_lpfh_rbb →
      (rx_cal_rbb_lpfh.seed E s bw).self._regs j Field.reg_0x0116_c_ctl_lpfh_rbb
        = ftoi (toDouble (toDouble (6000000000 / bw) - 50))) ∧
    (E.Keeps j Field.reg_0x0116_rcc_ctl_lpfh_rbb →
      (rx_cal_rbb_lpfh.seed E s bw).self._regs j Field.reg_0x0116_rcc_ctl_lpfh_rbb
        = if ftoi (bw / 10000000 - 3) < 0 then 0 else ftoi (bw / 10000000 - 3)) ∧
    (E.Keeps j Field.reg_0x0116_r_ctl_lpf_rbb →
      (rx_cal_rbb_lpfh.seed E s bw).self._regs j Field.reg_0x0116_r_ctl_lpf_rbb = 16) := by
  obtain ⟨-, s2, s3⟩ := hs
  refine ⟨?_, ?_, ?_, ?_⟩
  · simp [rx_cal_rbb_lpfh.seed, LMS7002M_regs_spi_write, s2, Run.set_regs_self, hj]
  all_goals
    rintro ⟨k1, k2, k3, k4⟩
    simp [rx_cal_rbb_lpfh.seed, LMS7002M_regs_spi_write, k2, s2, Run.set_map,
      Run.set_regs_self, hj]

/-- What the seed block of the TIA calibrator leaves in the selected copy `j`
of the register map. -/
theorem rx_cal_tia_rfe.tia_seed_values (E : Ext σ) (s : Run σ) (cfb ccomp : Int) (j : Fin 2)
    (channel : LMS7002M_chan_t) (hs : E.Selects channel j) (hj : s.self.regs = j) :
    (rx_cal_tia_rfe.seed E s cfb ccomp).self.regs = j ∧
    (E.Keeps j Field.reg_0x0112_cfb_tia_rfe →
      (rx_cal_tia_rfe.seed E s cfb ccomp).self._regs j Field.reg_0x0112_cfb_tia_rfe = cfb) ∧
    (E.Keeps j Field.reg_0x0112_ccomp_tia_rfe →
      (rx_cal_tia_rfe.seed E s cfb ccomp).self._regs j Field.reg_0x0112_ccomp_tia_rfe
        = if ccomp > 15 then 15 else ccomp) ∧
    (E.Keeps j Field.reg_0x0114_rcomp_tia_rfe →
      (rx_cal_tia_rfe.seed E s cfb ccomp).self._regs j Field.reg_0x0114_rcomp_tia_rfe
        = if 15 - Int.tdiv (2 * cfb) 100 < 0 then 0 else 15 - Int.tdiv (2 * cfb) 100) := by
  obtain ⟨-, s2, s3⟩ := hs
  refine ⟨?_, ?_, ?_, ?_⟩
  · simp [rx_cal_tia_rfe.seed, LMS7002M_regs_spi_write, s2, Run.set_regs_self, hj]
  all_goals
    rintro ⟨k1, k2, k3, k4⟩
    simp [rx_cal_tia_rfe.seed, LMS7002M_regs_spi_write, k2, s2, Run.set_map,
      Run.set_regs_self, hj]

/-! ## The seeds of the stage calibrators: the claims -/

/-- C13, as the code has it: for every effective bandwidth `bw` in
`(0.5 MHz, 20 MHz)`, `rx_cal_rbb_lpfl` runs the outer loop from the state its
seed block leaves, in which the field `c_ctl_lpfl_rbb` of the copy `j` that
the channel selects holds `(int)(2160e6/bw - 103)`, the quotient and the
difference being those of `double`s.  The cast truncates, it does not round:
the seed is `floor(2160e6 / bw) - 103`, except that it can be one more,
`floor(2160e6 / bw) - 102`, where the exact quotient lies within `2 ^ (-30)`
below an integer and the `double` quotient is rounded up to that integer.
The bus write and the channel selection are taken to leave the field
alone. -/
theorem C13_lpfl_capacitance_seed (E : Ext σ) (s : Run σ) (channel : LMS7002M_chan_t)
    (bw : ℚ) (rssi_value_50k : Int) (j : Fin 2) (hs : E.Selects channel j)
    (hk : E.Keeps j Field.reg_0x0117_c_ctl_lpfl_rbb)
    (h1 : 500000 < bw) (h2 : bw < 20000000) :
    rx_cal_rbb_lpfl E s channel bw rssi_value_50k
      = rx_cal_loop E (rx_cal_rbb_lpfl.seed E s channel bw) channel bw
          ((rx_cal_rbb_lpfl.seed E s channel bw).addr Field.reg_0x0117_c_ctl_lpfl_rbb)
          0x0117 2047 Field.reg_0x0117_c_ctl_lpfl_rbb
          (ftoi (toDouble (rssi_value_50k * toDouble (7071 / 10000)))) ∧
    ⌊2160000000 / bw⌋ - 103
      ≤ (rx_cal_rbb_lpfl.seed E s channel bw).self._regs j Field.reg_0x0117_c_ctl_lpfl_rbb ∧
    (rx_cal_rbb_lpfl.seed E s channel bw).self._regs j Field.reg_0x0117_c_ctl_lpfl_rbb
      ≤ ⌊2160000000 / bw⌋ - 102 ∧
    (2160000000 / bw ≤ ⌊2160000000 / bw⌋ + 1 - 1 / 2 ^ 30 →
      (rx_cal_rbb_lpfl.seed E s channel bw).self._regs j Field.reg_0x0117_c_ctl_lpfl_rbb
        = ⌊2160000000 / bw⌋ - 103) := by
  have hpos : (0 : ℚ) < bw := by linarith
  have hc : ((103 : Nat) : ℚ) ≤ 2160000000 / bw := by
    rw [le_div_iff₀ hpos]
    push_cast
    linarith
  have hq : 2160000000 / bw < 2 ^ 22 := by
    rw [div_lt_iff₀ hpos]
    norm_num
    linarith
  obtain ⟨q1, q2, q3⟩ := ftoi_quot_sub (2160000000 / bw) 103 hc hq
  simp only [Nat.cast_ofNat] at q1 q2 q3
  rw [(rx_cal_rbb_lpfl.lpfl_seed_values E s channel bw j hs).2.1 hk]
  refine ⟨?_, q1, by omega, q3⟩
  rw [rx_cal_rbb_lpfl.lpfl_eq_seed, if_neg (not_le.mpr h1)]

/-- C13 on the simulated chip at 5 MHz: the seed is `329`. -/
theorem C13_lpfl_capacitance_seed_witness :
    rx_cal_rbb_lpfl (simExt (fun c => c) simPtr 20480) (simRun 0) LMS7002M_chan_t.LMS_CHA
        5000000 20480
      = rx_cal_loop (simExt (fun c => c) simPtr 20480)
          (rx_cal_rbb_lpfl.seed (simExt (fun c => c) simPtr 20480) (simRun 0)
            LMS7002M_chan_t.LMS_CHA 5000000) LMS7002M_chan_t.LMS_CHA 5000000
          ((rx_cal_rbb_lpfl.seed (simExt (fun c => c) simPtr 20480) (simRun 0)
            LMS7002M_chan_t.LMS_CHA 5000000).addr Field.reg_0x0117_c_ctl_lpfl_rbb)
          0x0117 2047 Field.reg_0x0117_c_ctl_lpfl_rbb
          (ftoi (toDouble (((20480 : Int) : ℚ) * toDouble (7071 / 10000)))) ∧
    (rx_cal_rbb_lpfl.seed (simExt (fun c => c) simPtr 20480) (simRun 0)
      LMS7002M_chan_t.LMS_CHA 5000000).self._regs 0 Field.reg_0x0117_c_ctl_lpfl_rbb
      = 329 := by
  have hf : ⌊(2160000000 : ℚ) / 5000000⌋ = 432 := by
    rw [Int.floor_eq_iff]
    norm_num
  obtain ⟨w1, -, -, w4⟩ := C13_lpfl_capacitance_seed (simExt (fun c => c) simPtr 20480)
    (simRun 0) LMS7002M_chan_t.LMS_CHA 5000000 20480 0
    (simExt_selects _ _ _ LMS7002M_chan_t.LMS_CHA) (simExt_keeps _ _ _ _ _) (by norm_num)
    (by norm_num)
  refine ⟨w1, ?_⟩
  rw [w4 (by rw [hf]; norm_num), hf]
  norm_num

/-- C13 as stated fails: at the effective bandwidth 7 MHz, within
`(0.5 MHz, 20 MHz)`, the seed block of `rx_cal_rbb_lpfl` on the simulated chip
leaves `205` in `c_ctl_lpfl_rbb`, where `round(2160e6 / bw) - 103` is `206`. -/
theorem C13_rounded_seed_counterexample :
    (500000 : ℚ) < 7000000 ∧ (7000000 : ℚ) < 20000000 ∧
    (rx_cal_rbb_lpfl.seed (simExt (fun c => c) simPtr 20480) (simRun 0)
      LMS7002M_chan_t.LMS_CHA 7000000).self._regs 0 Field.reg_0x0117_c_ctl_lpfl_rbb = 205 ∧
    round ((2160000000 : ℚ) / 7000000) - 103 = 206 := by
  refine ⟨by norm_num, by norm_num, ?_, ?_⟩
  · rw [(rx_cal_rbb_lpfl.lpfl_seed_values _ (simRun 0) LMS7002M_chan_t.LMS_CHA 7000000 0
      (simExt_selects _ _ _ LMS7002M_chan_t.LMS_CHA)).2.1 (simExt_keeps _ _ _ _ _)]
    have h := ftoi_quot_sub_eq ((2160000000 : ℚ) / 7000000) 103 308 (by norm_num)
      (by norm_num) (by norm_num) (by norm_num)
    simp only [Nat.cast_ofNat] at h
    rw [h]
    norm_num
  · have : round ((2160000000 : ℚ) / 7000000) = 309 := by
      rw [round_eq, Int.floor_eq_iff]
      norm_num
    rw [this]
    norm_num


/-- The exception of C13 is met: `19636363.636363637` is a `double` (the
rational `5271096226909091 / 2 ^ 28`) within `(0.5 MHz, 20 MHz)`; at this
bandwidth the `double` quotient `2160e6 / bw` is rounded up to `110`, and the
seed block of `rx_cal_rbb_lpfl` on the simulated chip leaves `7` in
`c_ctl_lpfl_rbb`, one more than `floor(2160e6 / bw) - 103 = 6`. -/
theorem rx_cal_rbb_lpfl.seed_rounded_up :
    toDouble (5271096226909091 / 268435456) = 5271096226909091 / 268435456 ∧
    ⌊(2160000000 : ℚ) / (5271096226909091 / 268435456)⌋ - 103 = 6 ∧
    (rx_cal_rbb_lpfl.seed (simExt (fun c => c) simPtr 20480) (simRun 0)
      LMS7002M_chan_t.LMS_CHA (5271096226909091 / 268435456)).self._regs 0
      Field.reg_0x0117_c_ctl_lpfl_rbb = 7 := by
  refine ⟨?_, ?_, ?_⟩
  · rw [toDouble_of_exp _ 24 (by rw [abs_of_nonneg] <;> norm_num)
      (by rw [abs_of_nonneg] <;> norm_num), roundEven_of_lt_half _ 5271096226909091
      (by norm_num) (by norm_num)]
    norm_num
  · have : ⌊(2160000000 : ℚ) / (5271096226909091 / 268435456)⌋ = 109 := by
      rw [Int.floor_eq_iff]
      norm_num
    rw [this]
    norm_num
  · rw [(rx_cal_rbb_lpfl.lpfl_seed_values _ (simRun 0) LMS7002M_chan_t.LMS_CHA _ 0
      (simExt_selects _ _ _ LMS7002M_chan_t.LMS_CHA)).2.1 (simExt_keeps _ _ _ _ _)]
    rw [toDouble_of_exp (2160000000 / (5271096226909091 / 268435456)) 6
      (by rw [abs_of_nonneg] <;> norm_num) (by rw [abs_of_nonneg] <;> norm_num),
      roundEven_of_gt_half _ 7740561859543039 (by norm_num) (by norm_num)]
    have e : (((7740561859543039 + 1 : Int) : ℚ)) * 2 ^ ((6 : Int) - 52) - 103
        = ((7 : Int) : ℚ) := by
      norm_num
    rw [e, toDouble_intCast 7 (by norm_num), ftoi_of_nonneg _ (by norm_num)]
    exact Int.floor_intCast 7


/-- With the baseline `10000` the low-band calibrator searches for the target
`7070`: the `double` product `10000*0.7071` is below `7071`. -/
theorem rx_cal_rbb_lpfl.target_at_10000 (E : Ext σ) (s : Run σ) (channel : LMS7002M_chan_t)
    (bw : ℚ) (h : 500000 < bw) :
    rx_cal_rbb_lpfl E s channel bw 10000
      = rx_cal_loop E (rx_cal_rbb_lpfl.seed E s channel bw) channel bw
          ((rx_cal_rbb_lpfl.seed E s channel bw).addr Field.reg_0x0117_c_ctl_lpfl_rbb)
          0x0117 2047 Field.reg_0x0117_c_ctl_lpfl_rbb 7070 := by
  rw [rx_cal_rbb_lpfl.lpfl_eq_seed, if_neg (not_le.mpr h), target_10000]


/-- At the `double` bandwidth `115384615.38461539` (the rational
`3871665230769231 / 2 ^ 25`), within `[20 MHz, 130 MHz]`, the `double`
quotient `6000e6 / bw` is rounded up to `52`, and the seed block of
`rx_cal_rbb_lpfh` on the simulated chip leaves `2` in `c_ctl_lpfh_rbb`, one
more than `floor(6000e6 / bw) - 50 = 1`. -/
theorem rx_cal_rbb_lpfh.lpfh_seed_rounded_up :
    toDouble (3871665230769231 / 33554432) = 3871665230769231 / 33554432 ∧
    ⌊(6000000000 : ℚ) / (3871665230769231 / 33554432)⌋ - 50 = 1 ∧
    (rx_cal_rbb_lpfh.seed (simExt (fun c => c) simPtr 20480)
      (LMS7002M_set_mac_ch (simExt (fun c => c) simPtr 20480) (simRun 0)
        LMS7002M_chan_t.LMS_CHA) (3871665230769231 / 33554432)).self._regs 0
      Field.reg_0x0116_c_ctl_lpfh_rbb = 2 := by
  refine ⟨?_, ?_, ?_⟩
  · rw [toDouble_of_exp _ 26 (by rw [abs_of_nonneg] <;> norm_num)
      (by rw [abs_of_nonneg] <;> norm_num), roundEven_of_lt_half _ 7743330461538462
      (by norm_num) (by norm_num)]
    norm_num
  · have : ⌊(6000000000 : ℚ) / (3871665230769231 / 33554432)⌋ = 51 := by
      rw [Int.floor_eq_iff]
      norm_num
    rw [this]
    norm_num
  · rw [(rx_cal_rbb_lpfh.lpfh_seed_values _ _ _ 0 LMS7002M_chan_t.LMS_CHA
      (simExt_selects _ _ _ LMS7002M_chan_t.LMS_CHA) rfl).2.1 (simExt_keeps _ _ _ _ _)]
    rw [toDouble_of_exp (6000000000 / (3871665230769231 / 33554432)) 5
      (by rw [abs_of_nonneg] <;> norm_num) (by rw [abs_of_nonneg] <;> norm_num),
      roundEven_of_gt_half _ 7318349394477055 (by norm_num) (by norm_num)]
    have e : (((7318349394477055 + 1 : Int) : ℚ)) * 2 ^ ((5 : Int) - 52) - 50
        = ((2 : Int) : ℚ) := by
      norm_num
    rw [e, toDouble_intCast 2 (by norm_num), ftoi_of_nonneg _ (by norm_num)]
    exact Int.floor_intCast 2
/-- C15, as the code has it: for every effective bandwidth `bw` in
`[20 MHz, 130 MHz]`, `rx_cal_rbb_lpfh` runs its seed block, which leaves
`max(0, floor(bw / 10e6) - 3)` in the field `rcc_ctl_lpfh_rbb` of the copy `j`
that the channel selects (the cast truncates).  The quotient `bw / 10e6` is
taken exactly; the bus write and the channel selection are taken to leave the
field alone. -/
theorem C15_lpfh_range_code (E : Ext σ) (s : Run σ) (channel : LMS7002M_chan_t)
    (bw : ℚ) (rssi_value_50k : Int) (j : Fin 2) (hs : E.Selects channel j)
    (hk : E.Keeps j Field.reg_0x0116_rcc_ctl_lpfh_rbb)
    (h1 : 20000000 ≤ bw) (h2 : bw ≤ 130000000) :
    rx_cal_rbb_lpfh E s channel bw rssi_value_50k
      = (let s := rx_cal_rbb_lpfh.seed E (LMS7002M_set_mac_ch E s channel) bw
         let r := setup_rx_cal_tone E s channel 400000 100000
         if r.1 ≠ 0 then (r.1, r.2)
         else
           let g := cal_gain_selection E r.2 channel 0x05000
           let s := LMS7_logf g.2 LMS7_log_level_t.LMS7_ERROR LogMsg.lpfh_ini
             [g.1, g.2.get Field.reg_0x0116_c_ctl_lpfh_rbb]
           rx_cal_loop E s channel bw (s.addr Field.reg_0x0116_c_ctl_lpfh_rbb)
             0x0116 255 Field.reg_0x0117_c_ctl_lpfl_rbb
               (ftoi (toDouble (g.1 * toDouble (7071 / 10000))))) ∧
    (rx_cal_rbb_lpfh.seed E (LMS7002M_set_mac_ch E s channel) bw).self._regs j
        Field.reg_0x0116_rcc_ctl_lpfh_rbb
      = max 0 (⌊bw / 10000000⌋ - 3) := by
  refine ⟨rx_cal_rbb_lpfh.lpfh_eq_seed E s channel bw rssi_value_50k ?_, ?_⟩
  · rw [not_or, not_lt, not_lt]
    exact ⟨h1, h2⟩
  · rw [(rx_cal_rbb_lpfh.lpfh_seed_values E _ bw j channel hs (hs.1 _)).2.2.1 hk, ftoi_clamp]
    have h := Int.floor_sub_nat (bw / 10000000) 3
    push_cast at h
    rw [h]

/-- C15 on the simulated chip at 50 MHz: the range code is `2`. -/
theorem C15_lpfh_range_code_witness :
    (rx_cal_rbb_lpfh (simExt (fun c => c) simPtr 20480) (simRun 0) LMS7002M_chan_t.LMS_CHA
        50000000 20480
      = (let s := rx_cal_rbb_lpfh.seed (simExt (fun c => c) simPtr 20480)
           (LMS7002M_set_mac_ch (simExt (fun c => c) simPtr 20480) (simRun 0)
             LMS7002M_chan_t.LMS_CHA) 50000000
         let r := setup_rx_cal_tone (simExt (fun c => c) simPtr 20480) s
           LMS7002M_chan_t.LMS_CHA 400000 100000
         if r.1 ≠ 0 then (r.1, r.2)
         else
           let g := cal_gain_selection (simExt (fun c => c) simPtr 20480) r.2
             LMS7002M_chan_t.LMS_CHA 0x05000
           let s := LMS7_logf g.2 LMS7_log_level_t.LMS7_ERROR LogMsg.lpfh_ini
             [g.1, g.2.get Field.reg_0x0116_c_ctl_lpfh_rbb]
           rx_cal_loop (simExt (fun c => c) simPtr 20480) s LMS7002M_chan_t.LMS_CHA 50000000
             (s.addr Field.reg_0x0116_c_ctl_lpfh_rbb) 0x0116 255
             Field.reg_0x0117_c_ctl_lpfl_rbb (ftoi (toDouble (g.1 * toDouble (7071 / 10000))))) ∧
      (rx_cal_rbb_lpfh.seed (simExt (fun c => c) simPtr 20480)
        (LMS7002M_set_mac_ch (simExt (fun c => c) simPtr 20480) (simRun 0)
          LMS7002M_chan_t.LMS_CHA) 50000000).self._regs 0 Field.reg_0x0116_rcc_ctl_lpfh_rbb
        = max 0 (⌊(50000000 : ℚ) / 10000000⌋ - 3)) ∧
    max 0 (⌊(50000000 : ℚ) / 10000000⌋ - 3) = 2 :=
  ⟨C15_lpfh_range_code (simExt (fun c => c) simPtr 20480) (simRun 0)
    LMS7002M_chan_t.LMS_CHA 50000000 20480 0 (simExt_selects _ _ _ LMS7002M_chan_t.LMS_CHA)
    (simExt_keeps _ _ _ _ _) (by norm_num) (by norm_num),
   by
    have : ⌊(50000000 : ℚ) / 10000000⌋ = 5 := by
      rw [Int.floor_eq_iff]
      norm_num
    rw [this]
    decide⟩

/-- C15 as stated fails: at the effective bandwidth 36 MHz, within
`[20 MHz, 130 MHz]`, the seed block of `rx_cal_rbb_lpfh` on the simulated chip
leaves `0` in `rcc_ctl_lpfh_rbb`, where `max(0, round(bw / 10e6) - 3)` is
`1`. -/
theorem C15_rounded_range_code_counterexample :
    (20000000 : ℚ) ≤ 36000000 ∧ (36000000 : ℚ) ≤ 130000000 ∧
    (rx_cal_rbb_lpfh.seed (simExt (fun c => c) simPtr 20480)
      (LMS7002M_set_mac_ch (simExt (fun c => c) simPtr 20480) (simRun 0)
        LMS7002M_chan_t.LMS_CHA) 36000000).self._regs 0 Field.reg_0x0116_rcc_ctl_lpfh_rbb
      = 0 ∧
    max 0 (round ((36000000 : ℚ) / 10000000) - 3) = 1 := by
  refine ⟨by norm_num, by norm_num, ?_, ?_⟩
  · rw [(rx_cal_rbb_lpfh.lpfh_seed_values _ _ 36000000 0 LMS7002M_chan_t.LMS_CHA
      (simExt_selects _ _ _ LMS7002M_chan_t.LMS_CHA) rfl).2.2.1 (simExt_keeps _ _ _ _ _),
      ftoi_clamp]
    have : ⌊(36000000 : ℚ) / 10000000 - 3⌋ = 0 := by
      rw [Int.floor_eq_iff]
      norm_num
    rw [this]
    decide
  · have : round ((36000000 : ℚ) / 10000000) = 4 := by
      rw [round_eq, Int.floor_eq_iff]
      norm_num
    rw [this]
    decide

/-- C16 at the effective bandwidth 0.6 MHz (a request of 1.2 MHz) and at
130 MHz, on the simulated chip: the seed block of `rx_cal_rbb_lpfl` leaves
`3497`, above the maximum `2047`, in `c_ctl_lpfl_rbb` and hands it to each of
its four bus writes; for the gain tier 1 the TIA seed is `8990`, above the
maximum `4095`, and the seed block of `rx_cal_tia_rfe` leaves it in
`cfb_tia_rfe`; at 130 MHz the seed block of `rx_cal_rbb_lpfh` leaves `-3`,
below `0`, in `c_ctl_lpfh_rbb`.  The compensation seeds next to them are
clamped (`ccomp_tia_rfe` at 15, `rcomp_tia_rfe` and `rcc_ctl_lpfh_rbb` at 0). -/
theorem C16_seed_out_of_range :
    (500000 : ℚ) < 600000 ∧ (600000 : ℚ) < 20000000 ∧
    (rx_cal_rbb_lpfl.seed (simExt (fun c => c) simPtr 20480) (simRun 0)
      LMS7002M_chan_t.LMS_CHA 600000).self._regs 0 Field.reg_0x0117_c_ctl_lpfl_rbb = 3497 ∧
    (writes (rx_cal_rbb_lpfl.seed (simExt (fun c => c) simPtr 20480) (simRun 0)
      LMS7002M_chan_t.LMS_CHA 600000).trace).map
        (fun d => d._regs 0 Field.reg_0x0117_c_ctl_lpfl_rbb) = [3497, 3497, 3497, 3497] ∧
    (2047 : Int) < 3497 ∧
    rx_cal_tia_rfe.caps 1 600000 = some (8990, 90) ∧
    (rx_cal_tia_rfe.seed (simExt (fun c => c) simPtr 20480) (simRun 1) 8990 90).self._regs 0
      Field.reg_0x0112_cfb_tia_rfe = 8990 ∧
    (4095 : Int) < 8990 ∧
    (20000000 : ℚ) ≤ 130000000 ∧
    (rx_cal_rbb_lpfh.seed (simExt (fun c => c) simPtr 20480)
      (LMS7002M_set_mac_ch (simExt (fun c => c) simPtr 20480) (simRun 0)
        LMS7002M_chan_t.LMS_CHA) 130000000).self._regs 0 Field.reg_0x0116_c_ctl_lpfh_rbb
      = -3 := by
  have e1 : ftoi (toDouble (toDouble ((2160000000 : ℚ) / 600000) - 103)) = 3497 := by
    have h := ftoi_quot_sub_eq ((2160000000 : ℚ) / 600000) 103 3600 (by norm_num)
      (by norm_num) (by norm_num) (by norm_num)
    simp only [Nat.cast_ofNat] at h
    rw [h]
    norm_num
  have e2 : ftoi (toDouble (toDouble ((5400000000 : ℚ) / 600000) - 10)) = 8990 := by
    have h := ftoi_quot_sub_eq ((5400000000 : ℚ) / 600000) 10 9000 (by norm_num)
      (by norm_num) (by norm_num) (by norm_num)
    simp only [Nat.cast_ofNat] at h
    rw [h]
    norm_num
  have e3 : ftoi (toDouble (toDouble ((6000000000 : ℚ) / 130000000) - 50)) = -3 := by
    have hx : |(6000000000 : ℚ) / 130000000| < 2 ^ (52 - 3) := by
      rw [abs_of_nonneg (by norm_num)]
      norm_num
    have l := toDouble_ge _ 369 3 (by decide) hx (by norm_num)
    have u := toDouble_le _ 370 3 (by decide) hx (by norm_num)
    have hr : |toDouble ((6000000000 : ℚ) / 130000000) - 50| < 2 ^ (52 - 3) := by
      rw [abs_of_nonpos (by norm_num at u ⊢; linarith)]
      norm_num at l ⊢
      linarith
    have l2 := toDouble_ge _ (-31) 3 (by decide) hr (by norm_num at l ⊢; linarith)
    have u2 := toDouble_le _ (-30) 3 (by decide) hr (by norm_num at u ⊢; linarith)
    rw [ftoi_of_nonpos _ (by norm_num at u2 ⊢; linarith), Int.ceil_eq_iff]
    constructor
    · norm_num at l2 ⊢
      linarith
    · norm_num at u2 ⊢
      linarith
  refine ⟨by norm_num, by norm_num, ?_, ?_, by decide, ?_, ?_, by decide, by norm_num, ?_⟩
  · rw [(rx_cal_rbb_lpfl.lpfl_seed_values _ (simRun 0) LMS7002M_chan_t.LMS_CHA 600000 0
      (simExt_selects _ _ _ LMS7002M_chan_t.LMS_CHA)).2.1 (simExt_keeps _ _ _ _ _), e1]
  · simp [rx_cal_rbb_lpfl.seed, LMS7002M_regs_spi_write, LMS7002M_set_mac_ch, writes,
      Event.written, simExt, simRun, simDev, simSel, Run.set_map, Run.set_regs_self, e1]
  · simp only [rx_cal_tia_rfe.caps, e2]
    decide
  · exact (rx_cal_tia_rfe.tia_seed_values _ (simRun 1) 8990 90 0 LMS7002M_chan_t.LMS_CHA
      (simExt_selects _ _ _ LMS7002M_chan_t.LMS_CHA) rfl).2.1 (simExt_keeps _ _ _ _ _)
  · rw [(rx_cal_rbb_lpfh.lpfh_seed_values _ _ 130000000 0 LMS7002M_chan_t.LMS_CHA
      (simExt_selects _ _ _ LMS7002M_chan_t.LMS_CHA) rfl).2.1 (simExt_keeps _ _ _ _ _), e3]

/-! ## The outer loop: the coupled resistor trim -/

theorem rValues_append (l₁ l₂ : List (Event σ)) :
    rValues (l₁ ++ l₂) = rValues l₁ ++ rValues l₂ := by
  simp [rValues, List.filterMap_append]

theorem outcomes_append (l₁ l₂ : List (Event σ)) :
    outcomes (l₁ ++ l₂) = outcomes l₁ ++ outcomes l₂ := by
  simp [outcomes, List.filterMap_append]

theorem LMS7002M_t.store_regs (d : LMS7002M_t σ) (p : RegPtr) (v : Int) :
    (d.store p v).regs = d.regs := rfl

theorem LMS7002M_t.store_other (d : LMS7002M_t σ) (p : RegPtr) (v : Int) (j : Fin 2)
    (f : Field) (h : p ≠ ⟨j, f⟩) : (d.store p v)._regs j f = d._regs j f := by
  obtain ⟨c, g⟩ := p
  simp only [LMS7002M_t.store, Function.update]
  by_cases hc : j = c
  · subst hc
    by_cases hg : f = g
    · subst hg
      exact absurd rfl h
    · simp [hg]
  · simp [hc]

/-- The tone set-up leaves the copy `j` that the channel selects designated,
leaves a field that its functions leave alone as it is, and neither ends a
run of the search nor a retry. -/
theorem setup_rx_cal_tone_keeps (E : Ext σ) (s : Run σ) (channel : LMS7002M_chan_t)
    (bw off : ℚ) (j : Fin 2) (f : Field) (hs : E.Selects channel j) (hk : E.Keeps j f)
    (hm : E.MeasureKeeps j f) :
    (setup_rx_cal_tone E s channel bw off).2.self.regs = j ∧
    (setup_rx_cal_tone E s channel bw off).2.self._regs j f = s.self._regs j f ∧
    ∃ l, (setup_rx_cal_tone E s channel bw off).2.trace = s.trace ++ l ∧
      rValues l = [] ∧ outcomes l = [] := by
  obtain ⟨s1, s2, s3⟩ := hs
  obtain ⟨k1, k2, k3, k4⟩ := hk
  obtain ⟨m1, m2, m3, m4, m5⟩ := hm
  refine ⟨?_, ?_, (setup_rx_cal_tone E s channel bw off).2.calls s, ?_, ?_, ?_⟩
  · simp only [setup_rx_cal_tone]
    split_ifs <;>
      simp [LMS7002M_set_mac_ch, LMS7002M_rxtsp_set_freq, s1, (m2 _ _ _).1]
  · simp only [setup_rx_cal_tone]
    split_ifs <;>
      simp [LMS7002M_set_mac_ch, LMS7002M_rxtsp_set_freq, LMS7002M_set_lo_freq,
        LMS7002M_sxt_to_sxr, LMS7002M_sxx_enable, k1, (m2 _ _ _).2, m3, m4, m5]
  all_goals
    simp only [setup_rx_cal_tone]
    split_ifs <;>
      simp [Run.calls, LMS7002M_set_mac_ch, LMS7002M_rxtsp_set_freq, LMS7002M_set_lo_freq,
        LMS7002M_sxt_to_sxr, LMS7002M_sxx_enable, rValues, Event.rValue, outcomes,
        Event.outcome]

/-- One pass of the search leaves the designated copy and a field other than
the trim register as they are, and neither ends a run nor a retry. -/
theorem rx_cal_loop_inner.body_keeps (E : Ext σ) (channel : LMS7002M_chan_t)
    (reg_ptr : RegPtr) (reg_addr : Nat) (reg_max desired : Int) (v : SearchVars σ)
    (j : Fin 2) (f : Field) (hs : E.Selects channel j) (hk : E.Keeps j f)
    (hm : E.MeasureKeeps j f) (hp : reg_ptr ≠ ⟨j, f⟩) :
    (rx_cal_loop_inner.body E channel reg_ptr reg_addr reg_max desired v).s.self.regs
      = v.s.self.regs ∧
    (rx_cal_loop_inner.body E channel reg_ptr reg_addr reg_max desired v).s.self._regs j f
      = v.s.self._regs j f := by
  obtain ⟨s1, s2, s3⟩ := hs
  obtain ⟨k1, k2, k3, k4⟩ := hk
  obtain ⟨m1, m2, m3, m4, m5⟩ := hm
  constructor
  · simp only [rx_cal_loop_inner.body]
    split_ifs <;>
      simp [Run.store, LMS7002M_t.store_regs, cal_read_rssi, LMS7002M_regs_spi_write,
        LMS7_logf, (m1 _ _).1, s2]
  · simp only [rx_cal_loop_inner.body]
    split_ifs <;>
      simp [Run.store, LMS7002M_t.store_other _ _ _ _ _ hp, cal_read_rssi,
        LMS7002M_regs_spi_write, LMS7_logf, (m1 _ _).2, k2]
/-- A run of the search leaves the designated copy and a field other than the
trim register as they are; it ends no retry, and the one result it logs is the
result it returns. -/
theorem rx_cal_loop_inner.inner_keeps (E : Ext σ) (s : Run σ) (channel : LMS7002M_chan_t)
    (reg_ptr : RegPtr) (reg_addr : Nat) (reg_max : Int) (reg_name : Field) (desired : Int)
    (j : Fin 2) (f : Field) (hs : E.Selects channel j) (hk : E.Keeps j f)
    (hm : E.MeasureKeeps j f) (hp : reg_ptr ≠ ⟨j, f⟩) :
    (rx_cal_loop_inner E s channel reg_ptr reg_addr reg_max reg_name desired).2.self.regs
      = s.self.regs ∧
    (rx_cal_loop_inner E s channel reg_ptr reg_addr reg_max reg_name desired).2.self._regs j f
      = s.self._regs j f ∧
    ∃ l, (rx_cal_loop_inner E s channel reg_ptr reg_addr reg_max reg_name desired).2.trace
        = s.trace ++ l ∧ rValues l = [] ∧
      outcomes l = [(rx_cal_loop_inner E s channel reg_ptr reg_addr reg_max reg_name
        desired).1] := by
  obtain ⟨v, hv, hself, htrace, hres⟩ :=
    rx_cal_loop_inner.unfold E s channel reg_ptr reg_addr reg_max reg_name desired
  have key : v.s.self.regs = s.self.regs ∧ v.s.self._regs j f = s.self._regs j f ∧
      ∃ l, v.s.trace = s.trace ++ l ∧ rValues l = [] ∧ outcomes l = [] := by
    rw [hv]
    have step : ∀ w : SearchVars σ,
        (w.s.self.regs = s.self.regs ∧ w.s.self._regs j f = s.self._regs j f ∧
          ∃ l, w.s.trace = s.trace ++ l ∧ rValues l = [] ∧ outcomes l = []) →
        ((rx_cal_loop_inner.body E channel reg_ptr reg_addr reg_max desired w).s.self.regs
            = s.self.regs ∧
          (rx_cal_loop_inner.body E channel reg_ptr reg_addr reg_max desired w).s.self._regs
            j f = s.self._regs j f ∧
          ∃ l, (rx_cal_loop_inner.body E channel reg_ptr reg_addr reg_max desired w).s.trace
            = s.trace ++ l ∧ rValues l = [] ∧ outcomes l = []) := by
      rintro w ⟨h1, h2, l, hl, r1, r2⟩
      obtain ⟨b1, b2⟩ := rx_cal_loop_inner.body_keeps E channel reg_ptr reg_addr reg_max
        desired w j f hs hk hm hp
      refine ⟨b1.trans h1, b2.trans h2, ?_⟩
      rw [rx_cal_loop_inner.body_trace, hl, List.append_assoc]
      refine ⟨_, rfl, ?_, ?_⟩
      · rw [rValues_append, r1]
        simp [rValues, Event.rValue]
      · rw [outcomes_append, r2]
        simp [outcomes, Event.outcome]
    refine rx_cal_loop_inner.do_while_rule E channel reg_ptr reg_addr reg_max desired
      (fun w => w.s.self.regs = s.self.regs ∧ w.s.self._regs j f = s.self._regs j f ∧
        ∃ l, w.s.trace = s.trace ++ l ∧ rValues l = [] ∧ outcomes l = [])
      (fun w => w.s.self.regs = s.self.regs ∧ w.s.self._regs j f = s.self._regs j f ∧
        ∃ l, w.s.trace = s.trace ++ l ∧ rValues l = [] ∧ outcomes l = [])
      (fun w hw _ => step w hw) (fun w hw _ => step w hw) _ ⟨rfl, ?_, [], ?_, rfl, rfl⟩
    · exact LMS7002M_t.store_other _ _ _ _ _ hp
    · simp
  obtain ⟨k1, k2, l, hl, r1, r2⟩ := key
  refine ⟨by rw [hself]; exact k1, by rw [hself]; exact k2, ?_⟩
  rw [hl, List.append_assoc] at htrace
  refine ⟨_, htrace, ?_, ?_⟩
  · rw [rValues_append, r1]
    simp [rValues, Event.rValue]
  · rw [outcomes_append, r2, hres]
    simp [outcomes, Event.outcome]

/-- A retry of the outer loop: the coupled resistor trim is moved by `d`,
clamped to `[0, 31]`, written and logged. -/
theorem rx_cal_loop.retry_keeps (E : Ext σ) (s : Run σ) (channel : LMS7002M_chan_t)
    (j : Fin 2) (d : Int) (hs : E.Selects channel j)
    (hk : E.Keeps j Field.reg_0x0116_r_ctl_lpf_rbb) (hj : s.self.regs = j) :
    (rx_cal_loop.commit E (s.set Field.reg_0x0116_r_ctl_lpf_rbb
      (s.get Field.reg_0x0116_r_ctl_lpf_rbb + d))).self.regs = j ∧
    (rx_cal_loop.commit E (s.set Field.reg_0x0116_r_ctl_lpf_rbb
      (s.get Field.reg_0x0116_r_ctl_lpf_rbb + d))).self._regs j Field.reg_0x0116_r_ctl_lpf_rbb
      = max 0 (min 31 (s.self._regs j Field.reg_0x0116_r_ctl_lpf_rbb + d)) ∧
    ∃ l, (rx_cal_loop.commit E (s.set Field.reg_0x0116_r_ctl_lpf_rbb
        (s.get Field.reg_0x0116_r_ctl_lpf_rbb + d))).trace = s.trace ++ l ∧
      rValues l = [max 0 (min 31 (s.self._regs j Field.reg_0x0116_r_ctl_lpf_rbb + d))] ∧
      outcomes l = [] := by
  obtain ⟨s1, s2, s3⟩ := hs
  obtain ⟨k1, k2, k3, k4⟩ := hk
  subst hj
  refine ⟨?_, ?_, (rx_cal_loop.commit E (s.set Field.reg_0x0116_r_ctl_lpf_rbb
      (s.get Field.reg_0x0116_r_ctl_lpf_rbb + d))).calls s, ?_, ?_, ?_⟩
  · simp only [rx_cal_loop.commit]
    split_ifs <;> simp [LMS7002M_regs_spi_write, s2, Run.set_regs_self]
  · simp only [rx_cal_loop.commit, Run.get_eq, Run.set_map, Run.set_regs_self]
    split_ifs <;>
      simp_all [LMS7002M_regs_spi_write, Run.set_map, Run.set_regs_self] <;> omega
  · simp only [rx_cal_loop.commit]
    split_ifs <;> simp [Run.calls, LMS7002M_regs_spi_write]
  · simp only [rx_cal_loop.commit, Run.get_eq, Run.set_map, Run.set_regs_self]
    split_ifs <;>
      simp_all [Run.calls, LMS7002M_regs_spi_write, Run.set_map, Run.set_regs_self, rValues,
        Event.rValue, Run.get_eq] <;> omega
  · simp only [rx_cal_loop.commit]
    split_ifs <;> simp [Run.calls, LMS7002M_regs_spi_write, outcomes, Event.outcome]
theorem getLast_cons_getD (x r : Int) (xs : List Int) :
    ((x :: xs).getLast?).getD r = (xs.getLast?).getD x := by
  cases xs with
  | nil => rfl
  | cons y ys =>
    rw [List.getLast?_cons_cons, List.getLast?_eq_getLast _ (List.cons_ne_nil y ys)]
    rfl

/-- The retries of `rx_cal_loop`, as the trace records them: the results of the
runs of the search and the values of the coupled resistor trim after the
retries form a chain of retries, every such value is within `[0, 31]`, and the
trim is left at the last of them (at its value at entry when there was no
retry). -/
theorem rx_cal_loop.for_ever_chain (E : Ext σ) (channel : LMS7002M_chan_t) (reg_ptr : RegPtr)
    (reg_addr : Nat) (reg_max : Int) (reg_name : Field) (desired : Int) (j : Fin 2)
    (hs : E.Selects channel j) (hk : E.Keeps j Field.reg_0x0116_r_ctl_lpf_rbb)
    (hm : E.MeasureKeeps j Field.reg_0x0116_r_ctl_lpf_rbb)
    (hp : reg_ptr ≠ ⟨j, Field.reg_0x0116_r_ctl_lpf_rbb⟩) :
    ∀ (n r_range : Nat) (s : Run σ), r_range < 2 ^ n → s.self.regs = j →
      0 ≤ s.self._regs j Field.reg_0x0116_r_ctl_lpf_rbb →
      s.self._regs j Field.reg_0x0116_r_ctl_lpf_rbb ≤ 31 →
      ∃ l, (rx_cal_loop.for_ever E channel reg_ptr reg_addr reg_max reg_name desired s
          r_range).2.trace = s.trace ++ l ∧
        retryChain (s.self._regs j Field.reg_0x0116_r_ctl_lpf_rbb) r_range (outcomes l)
          (rValues l) ∧
        (∀ x ∈ rValues l, 0 ≤ x ∧ x ≤ 31) ∧
        (rx_cal_loop.for_ever E channel reg_ptr reg_addr reg_max reg_name desired s
          r_range).2.self._regs j Field.reg_0x0116_r_ctl_lpf_rbb
          = ((rValues l).getLast?).getD (s.self._regs j Field.reg_0x0116_r_ctl_lpf_rbb) := by
  intro n
  induction n with
  | zero =>
    intro r_range s hr hj h0 h31
    have hz : r_range = 0 := by simpa using hr
    obtain ⟨i1, i2, l, hl, r1, r2⟩ := rx_cal_loop_inner.inner_keeps E s channel reg_ptr
      reg_addr reg_max reg_name desired j _ hs hk hm hp
    have fin : ∃ l, (rx_cal_loop_inner E s channel reg_ptr reg_addr reg_max reg_name
          desired).2.trace = s.trace ++ l ∧
        retryChain (s.self._regs j Field.reg_0x0116_r_ctl_lpf_rbb) r_range (outcomes l)
          (rValues l) ∧
        (∀ x ∈ rValues l, 0 ≤ x ∧ x ≤ 31) ∧
        (rx_cal_loop_inner E s channel reg_ptr reg_addr reg_max reg_name
          desired).2.self._regs j Field.reg_0x0116_r_ctl_lpf_rbb
          = ((rValues l).getLast?).getD (s.self._regs j Field.reg_0x0116_r_ctl_lpf_rbb) :=
      ⟨l, hl, by rw [r1]; simp [retryChain], by rw [r1]; simp, by rw [r1]; exact i2⟩
    rw [rx_cal_loop.for_ever]
    split
    · exact fin
    · rw [dif_pos (Or.inr hz)]
      exact fin
    · rw [dif_pos (Or.inr hz)]
      exact fin
  | succ n ih =>
    intro r_range s hr hj h0 h31
    have hhalf : r_range / 2 < 2 ^ n := by
      rw [pow_succ] at hr
      omega
    obtain ⟨i1, i2, l, hl, r1, r2⟩ := rx_cal_loop_inner.inner_keeps E s channel reg_ptr
      reg_addr reg_max reg_name desired j _ hs hk hm hp
    have fin : ∃ l, (rx_cal_loop_inner E s channel reg_ptr reg_addr reg_max reg_name
          desired).2.trace = s.trace ++ l ∧
        retryChain (s.self._regs j Field.reg_0x0116_r_ctl_lpf_rbb) r_range (outcomes l)
          (rValues l) ∧
        (∀ x ∈ rValues l, 0 ≤ x ∧ x ≤ 31) ∧
        (rx_cal_loop_inner E s channel reg_ptr reg_addr reg_max reg_name
          desired).2.self._regs j Field.reg_0x0116_r_ctl_lpf_rbb
          = ((rValues l).getLast?).getD (s.self._regs j Field.reg_0x0116_r_ctl_lpf_rbb) :=
      ⟨l, hl, by rw [r1]; simp [retryChain], by rw [r1]; simp, by rw [r1]; exact i2⟩
    rw [rx_cal_loop.for_ever]
    split
    · exact fin
    · rename_i heq
      split_ifs with hc
      · exact fin
      · obtain ⟨c1, c2, lc, hlc, c3, c4⟩ := rx_cal_loop.retry_keeps E
          (rx_cal_loop_inner E s channel reg_ptr reg_addr reg_max reg_name desired).2
          channel j (-(r_range : Int)) hs hk (i1.trans hj)
        simp only [← sub_eq_add_neg] at c1 c2 c3 hlc
        rw [i2] at c2 c3
        have hx : max 0 (min 31 (s.self._regs j Field.reg_0x0116_r_ctl_lpf_rbb - r_range))
            = max 0 (s.self._regs j Field.reg_0x0116_r_ctl_lpf_rbb - r_range) := by
          rw [min_eq_right (by omega)]
        rw [hx] at c2 c3
        obtain ⟨l', hl', q1, q2, q3⟩ := ih (r_range / 2) _ hhalf c1
          (by rw [c2]; exact le_max_left _ _) (by rw [c2]; omega)
        rw [hlc, hl, List.append_assoc, List.append_assoc] at hl'
        rw [c2] at q1 q3
        refine ⟨_, hl', ?_, ?_, ?_⟩
        · rw [outcomes_append, outcomes_append, rValues_append, rValues_append, r1, r2, c3, c4,
            heq]
          have hr0 : 0 < r_range := Nat.pos_of_ne_zero (fun h => hc (Or.inr h))
          simpa [retryChain, hr0] using q1
        · rw [rValues_append, rValues_append, r1, c3]
          intro x hx'
          simp only [List.nil_append, List.singleton_append, List.mem_cons] at hx'
          rcases hx' with rfl | hx'
          · exact ⟨le_max_left _ _, by omega⟩
          · exact q2 x hx'
        · rw [rValues_append, rValues_append, r1, c3, q3]
          simp only [List.nil_append, List.singleton_append]
          rw [getLast_cons_getD]
    · rename_i heq
      split_ifs with hc
      · exact fin
      · obtain ⟨c1, c2, lc, hlc, c3, c4⟩ := rx_cal_loop.retry_keeps E
          (rx_cal_loop_inner E s channel reg_ptr reg_addr reg_max reg_name desired).2
          channel j (r_range : Int) hs hk (i1.trans hj)
        rw [i2] at c2 c3
        have hx : max 0 (min 31 (s.self._regs j Field.reg_0x0116_r_ctl_lpf_rbb + r_range))
            = min 31 (s.self._regs j Field.reg_0x0116_r_ctl_lpf_rbb + r_range) := by
          rw [max_eq_right (by omega)]
        rw [hx] at c2 c3
        obtain ⟨l', hl', q1, q2, q3⟩ := ih (r_range / 2) _ hhalf c1
          (by rw [c2]; omega) (by rw [c2]; exact min_le_left _ _)
        rw [hlc, hl, List.append_assoc, List.append_assoc] at hl'
        rw [c2] at q1 q3
        refine ⟨_, hl', ?_, ?_, ?_⟩
        · rw [outcomes_append, outcomes_append, rValues_append, rValues_append, r1, r2, c3, c4,
            heq]
          have hr0 : 0 < r_range := Nat.pos_of_ne_zero (fun h => hc (Or.inr h))
          simpa [retryChain, hr0] using q1
        · rw [rValues_append, rValues_append, r1, c3]
          intro x hx'
          simp only [List.nil_append, List.singleton_append, List.mem_cons] at hx'
          rcases hx' with rfl | hx'
          · exact ⟨by omega, min_le_left _ _⟩
          · exact q2 x hx'
        · rw [rValues_append, rValues_append, r1, c3, q3]
          simp only [List.nil_append, List.singleton_append]
          rw [getLast_cons_getD]

theorem simExt_measureKeeps (reading : Int → Int) (p : RegPtr) (baseline : Int) (i : Fin 2)
    (f : Field) : (simExt reading p baseline).MeasureKeeps i f :=
  ⟨fun _ _ => ⟨rfl, rfl⟩, fun _ _ _ => ⟨rfl, rfl⟩, fun _ _ _ => rfl, fun _ _ => rfl,
    fun _ _ _ _ => rfl⟩

/-- The retries of `rx_cal_loop`, from its entry: see `for_ever_chain`. -/
theorem rx_cal_loop.loop_chain (E : Ext σ) (s : Run σ) (channel : LMS7002M_chan_t) (bw : ℚ)
    (reg_ptr : RegPtr) (reg_addr : Nat) (reg_max : Int) (reg_name : Field) (desired : Int)
    (j : Fin 2) (hs : E.Selects channel j) (hk : E.Keeps j Field.reg_0x0116_r_ctl_lpf_rbb)
    (hm : E.MeasureKeeps j Field.reg_0x0116_r_ctl_lpf_rbb)
    (hp : reg_ptr ≠ ⟨j, Field.reg_0x0116_r_ctl_lpf_rbb⟩)
    (h0 : 0 ≤ s.self._regs j Field.reg_0x0116_r_ctl_lpf_rbb)
    (h31 : s.self._regs j Field.reg_0x0116_r_ctl_lpf_rbb ≤ 31) :
    ∃ l, (rx_cal_loop E s channel bw reg_ptr reg_addr reg_max reg_name desired).2.trace
        = s.trace ++ l ∧
      retryChain (s.self._regs j Field.reg_0x0116_r_ctl_lpf_rbb) 8 (outcomes l) (rValues l) ∧
      (∀ x ∈ rValues l, 0 ≤ x ∧ x ≤ 31) ∧
      (rx_cal_loop E s channel bw reg_ptr reg_addr reg_max reg_name desired).2.self._regs j
          Field.reg_0x0116_r_ctl_lpf_rbb
        = ((rValues l).getLast?).getD (s.self._regs j Field.reg_0x0116_r_ctl_lpf_rbb) := by
  obtain ⟨t1, t2, lt, hlt, t3, t4⟩ := setup_rx_cal_tone_keeps E
    (LMS7002M_set_mac_ch E s channel) channel bw 50000 j _ hs hk hm
  have e0 : (LMS7002M_set_mac_ch E s channel).self._regs j Field.reg_0x0116_r_ctl_lpf_rbb
      = s.self._regs j Field.reg_0x0116_r_ctl_lpf_rbb := hk.1 _ _
  have et : (LMS7002M_set_mac_ch E s channel).trace = s.trace ++ [Event.set_mac_ch channel] :=
    rfl
  rw [e0] at t2
  rw [et, List.append_assoc] at hlt
  simp only [rx_cal_loop]
  split_ifs with hc
  · refine ⟨_, hlt, ?_, ?_, ?_⟩
    · rw [rValues_append, t3]
      simp [rValues, Event.rValue, retryChain]
    · rw [rValues_append, t3]
      simp [rValues, Event.rValue]
    · rw [rValues_append, t3]
      simpa [rValues, Event.rValue] using t2
  · obtain ⟨l, hl, q1, q2, q3⟩ := rx_cal_loop.for_ever_chain E channel reg_ptr reg_addr
      reg_max reg_name desired j hs hk hm hp 4 8 _ (by decide) t1 (by rw [t2]; exact h0)
      (by rw [t2]; exact h31)
    rw [hlt, List.append_assoc] at hl
    rw [t2] at q1 q3
    have r0 : rValues ([Event.set_mac_ch channel] ++ lt ++ l) = rValues l := by
      rw [rValues_append, rValues_append, t3]
      simp [rValues, Event.rValue]
    have o0 : outcomes ([Event.set_mac_ch channel] ++ lt ++ l) = outcomes l := by
      rw [outcomes_append, outcomes_append, t4]
      simp [outcomes, Event.outcome]
    refine ⟨_, hl, ?_, ?_, ?_⟩
    · rw [r0, o0]
      exact q1
    · rw [r0]
      exact q2
    · rw [r0]
      exact q3

/-- C17: for every behaviour of the chip and every target, if the field
`r_ctl_lpf_rbb` of the copy `j` that the channel selects is in `[0, 31]` when
`rx_cal_loop` starts, then it is in `[0, 31]` after every retry (the value
each retry logs) and when `rx_cal_loop` returns.  The retries form a chain:
each follows a run of the search that returned `CAL_LOW` or `CAL_HIGH`, a
`CAL_LOW` replaces `r` by `max(0, r - r_range)` and a `CAL_HIGH` by
`min(31, r + r_range)`, the step `r_range` starts at `8`, is halved after
every retry and is never `0` in a retry (so it is 8, 4, 2, 1), and the trim is
left at the value of the last retry.  The trim register searched is taken to
be another field than `r_ctl_lpf_rbb`, and the functions of the chip that the
loop calls to leave `r_ctl_lpf_rbb` and the selection of the copy alone. -/
theorem C17_resistor_trim_in_range (E : Ext σ) (s : Run σ) (channel : LMS7002M_chan_t)
    (bw : ℚ) (reg_ptr : RegPtr) (reg_addr : Nat) (reg_max : Int) (reg_name : Field)
    (desired : Int) (j : Fin 2) (hs : E.Selects channel j)
    (hk : E.Keeps j Field.reg_0x0116_r_ctl_lpf_rbb)
    (hm : E.MeasureKeeps j Field.reg_0x0116_r_ctl_lpf_rbb)
    (hp : reg_ptr ≠ ⟨j, Field.reg_0x0116_r_ctl_lpf_rbb⟩)
    (h0 : 0 ≤ s.self._regs j Field.reg_0x0116_r_ctl_lpf_rbb)
    (h31 : s.self._regs j Field.reg_0x0116_r_ctl_lpf_rbb ≤ 31) :
    (0 ≤ (rx_cal_loop E s channel bw reg_ptr reg_addr reg_max reg_name desired).2.self._regs j
        Field.reg_0x0116_r_ctl_lpf_rbb ∧
      (rx_cal_loop E s channel bw reg_ptr reg_addr reg_max reg_name desired).2.self._regs j
        Field.reg_0x0116_r_ctl_lpf_rbb ≤ 31) ∧
    (∀ x ∈ rValues ((rx_cal_loop E s channel bw reg_ptr reg_addr reg_max reg_name
        desired).2.calls s), 0 ≤ x ∧ x ≤ 31) ∧
    retryChain (s.self._regs j Field.reg_0x0116_r_ctl_lpf_rbb) 8
      (outcomes ((rx_cal_loop E s channel bw reg_ptr reg_addr reg_max reg_name
        desired).2.calls s))
      (rValues ((rx_cal_loop E s channel bw reg_ptr reg_addr reg_max reg_name
        desired).2.calls s)) ∧
    (rx_cal_loop E s channel bw reg_ptr reg_addr reg_max reg_name desired).2.self._regs j
        Field.reg_0x0116_r_ctl_lpf_rbb
      = ((rValues ((rx_cal_loop E s channel bw reg_ptr reg_addr reg_max reg_name
          desired).2.calls s)).getLast?).getD
          (s.self._regs j Field.reg_0x0116_r_ctl_lpf_rbb) := by
  obtain ⟨l, hl, q1, q2, q3⟩ := rx_cal_loop.loop_chain E s channel bw reg_ptr reg_addr reg_max
    reg_name desired j hs hk hm hp h0 h31
  rw [Run.calls_of_eq hl]
  refine ⟨?_, q2, q1, q3⟩
  rw [q3]
  cases hlast : (rValues l).getLast? with
  | none => exact ⟨h0, h31⟩
  | some x => exact q2 x (List.mem_of_getLast?_eq_some hlast)

/-- C17 on the simulated chip: the low-band search on `c_ctl_lpfl_rbb` of
channel A with every reading `0`, started with `r_ctl_lpf_rbb` at `16`. -/
theorem C17_resistor_trim_in_range_witness :
    (0 ≤ (rx_cal_loop (simExt (fun _ => 0) simPtr 0) (simRun 16) LMS7002M_chan_t.LMS_CHA
        5000000 ⟨0, Field.reg_0x0117_c_ctl_lpfl_rbb⟩ 0x0117 2047
        Field.reg_0x0117_c_ctl_lpfl_rbb 10).2.self._regs 0 Field.reg_0x0116_r_ctl_lpf_rbb ∧
      (rx_cal_loop (simExt (fun _ => 0) simPtr 0) (simRun 16) LMS7002M_chan_t.LMS_CHA
        5000000 ⟨0, Field.reg_0x0117_c_ctl_lpfl_rbb⟩ 0x0117 2047
        Field.reg_0x0117_c_ctl_lpfl_rbb 10).2.self._regs 0 Field.reg_0x0116_r_ctl_lpf_rbb
        ≤ 31) ∧
    (∀ x ∈ rValues ((rx_cal_loop (simExt (fun _ => 0) simPtr 0) (simRun 16)
        LMS7002M_chan_t.LMS_CHA 5000000 ⟨0, Field.reg_0x0117_c_ctl_lpfl_rbb⟩ 0x0117 2047
        Field.reg_0x0117_c_ctl_lpfl_rbb 10).2.calls (simRun 16)), 0 ≤ x ∧ x ≤ 31) ∧
    retryChain ((simRun 16).self._regs 0 Field.reg_0x0116_r_ctl_lpf_rbb) 8
      (outcomes ((rx_cal_loop (simExt (fun _ => 0) simPtr 0) (simRun 16)
        LMS7002M_chan_t.LMS_CHA 5000000 ⟨0, Field.reg_0x0117_c_ctl_lpfl_rbb⟩ 0x0117 2047
        Field.reg_0x0117_c_ctl_lpfl_rbb 10).2.calls (simRun 16)))
      (rValues ((rx_cal_loop (simExt (fun _ => 0) simPtr 0) (simRun 16)
        LMS7002M_chan_t.LMS_CHA 5000000 ⟨0, Field.reg_0x0117_c_ctl_lpfl_rbb⟩ 0x0117 2047
        Field.reg_0x0117_c_ctl_lpfl_rbb 10).2.calls (simRun 16))) ∧
    (rx_cal_loop (simExt (fun _ => 0) simPtr 0) (simRun 16) LMS7002M_chan_t.LMS_CHA
        5000000 ⟨0, Field.reg_0x0117_c_ctl_lpfl_rbb⟩ 0x0117 2047
        Field.reg_0x0117_c_ctl_lpfl_rbb 10).2.self._regs 0 Field.reg_0x0116_r_ctl_lpf_rbb
      = ((rValues ((rx_cal_loop (simExt (fun _ => 0) simPtr 0) (simRun 16)
          LMS7002M_chan_t.LMS_CHA 5000000 ⟨0, Field.reg_0x0117_c_ctl_lpfl_rbb⟩ 0x0117 2047
          Field.reg_0x0117_c_ctl_lpfl_rbb 10).2.calls (simRun 16))).getLast?).getD
          ((simRun 16).self._regs 0 Field.reg_0x0116_r_ctl_lpf_rbb) :=
  C17_resistor_trim_in_range (simExt (fun _ => 0) simPtr 0) (simRun 16)
    LMS7002M_chan_t.LMS_CHA 5000000 ⟨0, Field.reg_0x0117_c_ctl_lpfl_rbb⟩ 0x0117 2047
    Field.reg_0x0117_c_ctl_lpfl_rbb 10 0 (simExt_selects _ _ _ LMS7002M_chan_t.LMS_CHA)
    (simExt_keeps _ _ _ _ _) (simExt_measureKeeps _ _ _ _ _) (by decide) (by decide)
    (by decide)

/-- A retry of the outer loop leaves the designated copy and a field other
than the coupled resistor trim as they are. -/
theorem rx_cal_loop.commit_keeps (E : Ext σ) (s : Run σ) (channel : LMS7002M_chan_t)
    (j : Fin 2) (f : Field) (v : Int) (hs : E.Selects channel j) (hk : E.Keeps j f)
    (hf : f ≠ Field.reg_0x0116_r_ctl_lpf_rbb) :
    (rx_cal_loop.commit E (s.set Field.reg_0x0116_r_ctl_lpf_rbb v)).self.regs = s.self.regs ∧
    (rx_cal_loop.commit E (s.set Field.reg_0x0116_r_ctl_lpf_rbb v)).self._regs j f
      = s.self._regs j f := by
  obtain ⟨s1, s2, s3⟩ := hs
  obtain ⟨k1, k2, k3, k4⟩ := hk
  constructor
  · simp only [rx_cal_loop.commit]
    split_ifs <;> simp [LMS7002M_regs_spi_write, s2, Run.set_regs_self]
  · simp only [rx_cal_loop.commit]
    split_ifs <;> simp [LMS7002M_regs_spi_write, k2, Run.set_map, hf]

/-- The retries of `rx_cal_loop` leave a field other than the trim register
searched and the coupled resistor trim as it is. -/
theorem rx_cal_loop.for_ever_keeps (E : Ext σ) (channel : LMS7002M_chan_t) (reg_ptr : RegPtr)
    (reg_addr : Nat) (reg_max : Int) (reg_name : Field) (desired : Int) (j : Fin 2)
    (f : Field) (hs : E.Selects channel j) (hk : E.Keeps j f) (hm : E.MeasureKeeps j f)
    (hp : reg_ptr ≠ ⟨j, f⟩) (hf : f ≠ Field.reg_0x0116_r_ctl_lpf_rbb) :
    ∀ (n r_range : Nat) (s : Run σ), r_range < 2 ^ n →
      (rx_cal_loop.for_ever E channel reg_ptr reg_addr reg_max reg_name desired s
        r_range).2.self._regs j f = s.self._regs j f := by
  intro n
  induction n with
  | zero =>
    intro r_range s hr
    have hz : r_range = 0 := by simpa using hr
    obtain ⟨-, i2, -⟩ := rx_cal_loop_inner.inner_keeps E s channel reg_ptr
      reg_addr reg_max reg_name desired j f hs hk hm hp
    rw [rx_cal_loop.for_ever]
    split
    · exact i2
    · rw [dif_pos (Or.inr hz)]
      exact i2
    · rw [dif_pos (Or.inr hz)]
      exact i2
  | succ n ih =>
    intro r_range s hr
    have hhalf : r_range / 2 < 2 ^ n := by
      rw [pow_succ] at hr
      omega
    obtain ⟨-, i2, -⟩ := rx_cal_loop_inner.inner_keeps E s channel reg_ptr
      reg_addr reg_max reg_name desired j f hs hk hm hp
    rw [rx_cal_loop.for_ever]
    split
    · exact i2
    · split_ifs with hc
      · exact i2
      · rw [ih (r_range / 2) _ hhalf, (rx_cal_loop.commit_keeps E _ channel j f _ hs hk hf).2]
        exact i2
    · split_ifs with hc
      · exact i2
      · rw [ih (r_range / 2) _ hhalf, (rx_cal_loop.commit_keeps E _ channel j f _ hs hk hf).2]
        exact i2

/-- The outer loop leaves a field other than the trim register searched and
the coupled resistor trim as it is. -/
theorem rx_cal_loop.loop_keeps (E : Ext σ) (s : Run σ) (channel : LMS7002M_chan_t) (bw : ℚ)
    (reg_ptr : RegPtr) (reg_addr : Nat) (reg_max : Int) (reg_name : Field) (desired : Int)
    (j : Fin 2) (f : Field) (hs : E.Selects channel j) (hk : E.Keeps j f)
    (hm : E.MeasureKeeps j f) (hp : reg_ptr ≠ ⟨j, f⟩)
    (hf : f ≠ Field.reg_0x0116_r_ctl_lpf_rbb) :
    (rx_cal_loop E s channel bw reg_ptr reg_addr reg_max reg_name desired).2.self._regs j f
      = s.self._regs j f := by
  obtain ⟨-, t2, -⟩ := setup_rx_cal_tone_keeps E
    (LMS7002M_set_mac_ch E s channel) channel bw 50000 j f hs hk hm
  have e0 : (LMS7002M_set_mac_ch E s channel).self._regs j f = s.self._regs j f := hk.1 _ _
  rw [e0] at t2
  simp only [rx_cal_loop]
  split_ifs with hc
  · exact t2
  · rw [rx_cal_loop.for_ever_keeps E channel reg_ptr reg_addr reg_max reg_name desired j f hs
      hk hm hp hf 4 8 _ (by decide)]
    exact t2

/-- C14: for every effective bandwidth `bw`, when `rx_cal_rbb_lpfl` returns,
the field `rcc_ctl_lpfl_rbb` of the copy `j` that the channel selects holds the
range code of the specification for `bw` taken in MHz (5 above 15 MHz, else 4
above 10 MHz, else 3 above 5 MHz, else 2 above 3 MHz, else 1 above 1.4 MHz,
else 0); the breakpoints are strict, so 5 MHz gives `2`; and the code stored
is monotonically non-decreasing in `bw`.  The functions of the chip that the
calibrator calls are taken to leave the field and the selection of the copy
alone. -/
theorem C14_lpfl_range_code (E : Ext σ) (channel : LMS7002M_chan_t) (j : Fin 2)
    (hs : E.Selects channel j) (hk : E.Keeps j Field.reg_0x0117_rcc_ctl_lpfl_rbb)
    (hm : E.MeasureKeeps j Field.reg_0x0117_rcc_ctl_lpfl_rbb) :
    (∀ (s : Run σ) (bw : ℚ) (rssi_value_50k : Int),
      (rx_cal_rbb_lpfl E s channel bw rssi_value_50k).2.self._regs j
          Field.reg_0x0117_rcc_ctl_lpfl_rbb = specRangeCode (bw / 1000000)) ∧
    (∀ (s : Run σ) (rssi_value_50k : Int),
      (rx_cal_rbb_lpfl E s channel 5000000 rssi_value_50k).2.self._regs j
          Field.reg_0x0117_rcc_ctl_lpfl_rbb = 2) ∧
    (∀ (s s' : Run σ) (bw bw' : ℚ) (r r' : Int), bw ≤ bw' →
      (rx_cal_rbb_lpfl E s channel bw r).2.self._regs j Field.reg_0x0117_rcc_ctl_lpfl_rbb
        ≤ (rx_cal_rbb_lpfl E s' channel bw' r').2.self._regs j
          Field.reg_0x0117_rcc_ctl_lpfl_rbb) := by
  have main : ∀ (s : Run σ) (bw : ℚ) (rssi_value_50k : Int),
      (rx_cal_rbb_lpfl E s channel bw rssi_value_50k).2.self._regs j
          Field.reg_0x0117_rcc_ctl_lpfl_rbb = specRangeCode (bw / 1000000) := by
    intro s bw r
    obtain ⟨v1, -, v3, -⟩ := rx_cal_rbb_lpfl.lpfl_seed_values E s channel bw j hs
    have hseed := v3 hk
    have hcode : (if bw > 15000000 then (5 : Int) else if bw > 10000000 then 4
        else if bw > 5000000 then 3 else if bw > 3000000 then 2
        else if bw > 1400000 then 1 else 0) = specRangeCode (bw / 1000000) := by
      simp only [specRangeCode, gt_iff_lt, lt_div_iff₀ (by norm_num : (0 : ℚ) < 1000000)]
      norm_num
    rw [hcode] at hseed
    rw [rx_cal_rbb_lpfl.lpfl_eq_seed]
    split_ifs with hb
    · show (E.regs_spi_write (E.regs_spi_write _ _) _)._regs j _ = _
      rw [hk.2.1, hk.2.1, Run.set_map, Run.set_map]
      simpa using hseed
    · rw [rx_cal_loop.loop_keeps E _ channel bw _ _ _ _ _ j _ hs hk hm
        (by
          show (⟨_, _⟩ : RegPtr) ≠ ⟨_, _⟩
          rw [v1]
          intro h
          have h2 : Field.reg_0x0117_c_ctl_lpfl_rbb = Field.reg_0x0117_rcc_ctl_lpfl_rbb :=
            congrArg RegPtr.field h
          exact absurd h2 (by decide))
        (by decide)]
      exact hseed
  refine ⟨main, ?_, ?_⟩
  · intro s r
    rw [main]
    simp only [specRangeCode]
    norm_num
  · intro s s' bw bw' r r' hle
    rw [main, main]
    have hd : bw / 1000000 ≤ bw' / 1000000 := by
      apply div_le_div_of_nonneg_right hle
      norm_num
    simp only [specRangeCode]
    split_ifs <;> first | decide | (exfalso; linarith)

/-- C14 on the simulated chip at 5 MHz and at 12 MHz: the range codes are `2`
and `4`. -/
theorem C14_lpfl_range_code_witness :
    (rx_cal_rbb_lpfl (simExt (fun c => c) simPtr 20480) (simRun 0) LMS7002M_chan_t.LMS_CHA
      5000000 20480).2.self._regs 0 Field.reg_0x0117_rcc_ctl_lpfl_rbb = 2 ∧
    (rx_cal_rbb_lpfl (simExt (fun c => c) simPtr 20480) (simRun 0) LMS7002M_chan_t.LMS_CHA
      12000000 20480).2.self._regs 0 Field.reg_0x0117_rcc_ctl_lpfl_rbb
      = specRangeCode (12000000 / 1000000) ∧
    specRangeCode (12000000 / 1000000) = 4 :=
  ⟨(C14_lpfl_range_code (simExt (fun c => c) simPtr 20480) LMS7002M_chan_t.LMS_CHA 0
      (simExt_selects _ _ _ LMS7002M_chan_t.LMS_CHA) (simExt_keeps _ _ _ _ _)
      (simExt_measureKeeps _ _ _ _ _)).2.1 (simRun 0) 20480,
   (C14_lpfl_range_code (simExt (fun c => c) simPtr 20480) LMS7002M_chan_t.LMS_CHA 0
      (simExt_selects _ _ _ LMS7002M_chan_t.LMS_CHA) (simExt_keeps _ _ _ _ _)
      (simExt_measureKeeps _ _ _ _ _)).1 (simRun 0) 12000000 20480,
   by
    simp only [specRangeCode]
    norm_num⟩

/-- The cast of a value at or below the integer `n ≥ 0` is at or below `n`. -/
theorem ftoi_le (q : ℚ) (n : Int) (hn : 0 ≤ n) (h : q ≤ n) : ftoi q ≤ n := by
  rcases le_or_lt 0 q with h0 | h0
  · rw [ftoi_of_nonneg q h0]
    have := Int.floor_le_floor h
    rwa [Int.floor_intCast] at this
  · rw [ftoi_of_nonpos q h0.le]
    have : ⌈q⌉ ≤ 0 := Int.ceil_le.mpr (by exact_mod_cast h0.le)
    omega

/-- The seed `(int)(q - 10)` of a quotient `0 ≤ q ≤ 900000000` is at most
`900000000 - 10`. -/
theorem ftoi_seed_le (q : ℚ) (h0 : 0 ≤ q) (h : q ≤ 900000000) :
    ftoi (toDouble (toDouble q - 10)) ≤ 899999990 := by
  have haq : |q| < 2 ^ 52 := by
    rw [abs_of_nonneg h0]
    norm_num
    linarith
  have u1 := toDouble_le_int q 900000000 haq (by push_cast; exact h)
  have l1 := toDouble_nonneg q h0
  push_cast at u1
  have har : |toDouble q - 10| < 2 ^ 52 := by
    rw [abs_lt]
    constructor <;> norm_num <;> linarith
  have u2 := toDouble_le_int (toDouble q - 10) 899999990 har (by push_cast; linarith)
  exact ftoi_le _ _ (by decide) u2

/-- For a supported gain tier and a bandwidth of at least 6 Hz, the TIA seeds
exist; the feedback seed is at least `-10` and its double fits the `int`, so
that neither the cast of lines 290 and 295 nor the product `2*cfb_tia_rfe` of
line 311 overflows, and the compensation seed is not negative. -/
theorem rx_cal_tia_rfe.caps_of_tier (g : Int) (bw : ℚ) (hg : g = 1 ∨ g = 2 ∨ g = 3)
    (hbw : 6 ≤ bw) :
    ∃ c, rx_cal_tia_rfe.caps g bw = some c ∧ -10 ≤ c.1 ∧ 2 * c.1 ≤ 2 ^ 31 - 1 ∧
      0 ≤ c.2 := by
  have hpos : (0 : ℚ) < bw := by linarith
  have q1 : (1680000000 : ℚ) / bw ≤ 900000000 := by
    rw [div_le_iff₀ hpos]
    linarith
  have q2 : (5400000000 : ℚ) / bw ≤ 900000000 := by
    rw [div_le_iff₀ hpos]
    linarith
  have b1 : -10 ≤ ftoi (toDouble (toDouble (1680000000 / bw) - 10)) :=
    ftoi_seed_ge _ (by positivity)
  have b2 : -10 ≤ ftoi (toDouble (toDouble (5400000000 / bw) - 10)) :=
    ftoi_seed_ge _ (by positivity)
  have u1 := ftoi_seed_le (1680000000 / bw) (by positivity) q1
  have u2 := ftoi_seed_le (5400000000 / bw) (by positivity) q2
  rcases hg with h | h | h <;> subst h
  · refine ⟨(ftoi (toDouble (toDouble (5400000000 / bw) - 10)),
        Int.tdiv (ftoi (toDouble (toDouble (5400000000 / bw) - 10))) 100 + 1),
      by simp [rx_cal_tia_rfe.caps], b2, ?_, ?_⟩
    · show 2 * ftoi (toDouble (toDouble (5400000000 / bw) - 10)) ≤ 2 ^ 31 - 1
      omega
    · have := tdiv_hundred_nonneg _
        (by omega : -100 < ftoi (toDouble (toDouble (5400000000 / bw) - 10)))
      show 0 ≤ Int.tdiv (ftoi (toDouble (toDouble (5400000000 / bw) - 10))) 100 + 1
      omega
  · refine ⟨(ftoi (toDouble (toDouble (1680000000 / bw) - 10)),
        Int.tdiv (ftoi (toDouble (toDouble (1680000000 / bw) - 10))) 100),
      by simp [rx_cal_tia_rfe.caps], b1, ?_, tdiv_hundred_nonneg _ (by omega)⟩
    show 2 * ftoi (toDouble (toDouble (1680000000 / bw) - 10)) ≤ 2 ^ 31 - 1
    omega
  · refine ⟨(ftoi (toDouble (toDouble (1680000000 / bw) - 10)),
        Int.tdiv (ftoi (toDouble (toDouble (1680000000 / bw) - 10))) 100),
      by simp [rx_cal_tia_rfe.caps], b1, ?_, tdiv_hundred_nonneg _ (by omega)⟩
    show 2 * ftoi (toDouble (toDouble (1680000000 / bw) - 10)) ≤ 2 ^ 31 - 1
    omega

/-- With a feedback seed of at least `-10` and a compensation seed that is not
negative, the TIA calibrator returns with the two compensation fields within
`[0, 15]`. -/
theorem rx_cal_tia_rfe.tune_comp (E : Ext σ) (s : Run σ) (channel : LMS7002M_chan_t)
    (bw : ℚ) (rssi_value_50k : Int) (cfb ccomp : Int) (j : Fin 2)
    (hs : E.Selects channel j) (hj : s.self.regs = j)
    (hkc : E.Keeps j Field.reg_0x0112_ccomp_tia_rfe)
    (hkr : E.Keeps j Field.reg_0x0114_rcomp_tia_rfe)
    (hmc : E.MeasureKeeps j Field.reg_0x0112_ccomp_tia_rfe)
    (hmr : E.MeasureKeeps j Field.reg_0x0114_rcomp_tia_rfe)
    (h1 : -10 ≤ cfb) (h2 : 0 ≤ ccomp) :
    (0 ≤ (rx_cal_tia_rfe.tune E s channel bw rssi_value_50k cfb ccomp).2.self._regs j
        Field.reg_0x0112_ccomp_tia_rfe ∧
      (rx_cal_tia_rfe.tune E s channel bw rssi_value_50k cfb ccomp).2.self._regs j
        Field.reg_0x0112_ccomp_tia_rfe ≤ 15) ∧
    (0 ≤ (rx_cal_tia_rfe.tune E s channel bw rssi_value_50k cfb ccomp).2.self._regs j
        Field.reg_0x0114_rcomp_tia_rfe ∧
      (rx_cal_tia_rfe.tune E s channel bw rssi_value_50k cfb ccomp).2.self._regs j
        Field.reg_0x0114_rcomp_tia_rfe ≤ 15) := by
  obtain ⟨v1, -, v3, v4⟩ := rx_cal_tia_rfe.tia_seed_values E s cfb ccomp j channel hs hj
  have c0 := v3 hkc
  have r0 := v4 hkr
  have ht := tdiv_hundred_nonneg (2 * cfb) (by omega)
  have cb : 0 ≤ (rx_cal_tia_rfe.seed E s cfb ccomp).self._regs j
      Field.reg_0x0112_ccomp_tia_rfe ∧
      (rx_cal_tia_rfe.seed E s cfb ccomp).self._regs j Field.reg_0x0112_ccomp_tia_rfe ≤ 15 := by
    rw [c0]
    split_ifs <;> omega
  have rb : 0 ≤ (rx_cal_tia_rfe.seed E s cfb ccomp).self._regs j
      Field.reg_0x0114_rcomp_tia_rfe ∧
      (rx_cal_tia_rfe.seed E s cfb ccomp).self._regs j Field.reg_0x0114_rcomp_tia_rfe ≤ 15 := by
    rw [r0]
    split_ifs <;> omega
  rw [rx_cal_tia_rfe.tune_eq_seed]
  generalize rx_cal_tia_rfe.seed E s cfb ccomp = sd at v1 cb rb ⊢
  clear c0 r0
  by_cases hb1 : bw ≤ 500000
  · simp only [if_pos hb1]
    have e1 : ∀ f, E.Keeps j f → f ≠ Field.reg_0x0112_cfb_tia_rfe →
        (LMS7002M_regs_spi_write E (sd.set Field.reg_0x0112_cfb_tia_rfe 4095) 0x0112).self._regs
          j f = sd.self._regs j f := by
      intro f hk hf
      show (E.regs_spi_write _ _)._regs j f = _
      rw [hk.2.1, Run.set_map]
      simp [hf]
    rw [e1 _ hkc (by decide), e1 _ hkr (by decide)]
    exact ⟨cb, rb⟩
  · by_cases hb2 : bw > 54000000
    · simp only [if_neg hb1, if_pos hb2]
      have e1 : (LMS7002M_regs_spi_write E ((sd.set Field.reg_0x0112_ccomp_tia_rfe 0).set
            Field.reg_0x0112_cfb_tia_rfe 0) 0x0112).self._regs j
            Field.reg_0x0112_ccomp_tia_rfe = 0 := by
        show (E.regs_spi_write _ _)._regs j _ = _
        rw [hkc.2.1, Run.set_map, Run.set_map]
        simp [Run.set_regs_self, v1]
      have e2 : (LMS7002M_regs_spi_write E ((sd.set Field.reg_0x0112_ccomp_tia_rfe 0).set
            Field.reg_0x0112_cfb_tia_rfe 0) 0x0112).self._regs j
            Field.reg_0x0114_rcomp_tia_rfe = sd.self._regs j
              Field.reg_0x0114_rcomp_tia_rfe := by
        show (E.regs_spi_write _ _)._regs j _ = _
        rw [hkr.2.1, Run.set_map, Run.set_map]
        simp
      rw [e1, e2]
      exact ⟨⟨le_refl _, by decide⟩, rb⟩
    · simp only [if_neg hb1, if_neg hb2]
      obtain ⟨t1, t2, -⟩ := setup_rx_cal_tone_keeps E sd channel bw 50000 j _ hs hkc hmc
      obtain ⟨-, t3, -⟩ := setup_rx_cal_tone_keeps E sd channel bw 50000 j _ hs hkr hmr
      generalize setup_rx_cal_tone E sd channel bw 50000 = tn at t1 t2 t3 ⊢
      by_cases hb3 : tn.1 ≠ 0
      · simp only [if_pos hb3]
        rw [t2, t3]
        exact ⟨cb, rb⟩
      · rw [if_neg hb3]
        have p1 : tn.2.addr Field.reg_0x0112_cfb_tia_rfe
            ≠ ⟨j, Field.reg_0x0112_ccomp_tia_rfe⟩ := by
          intro h
          have h2 : Field.reg_0x0112_cfb_tia_rfe = Field.reg_0x0112_ccomp_tia_rfe :=
            congrArg RegPtr.field h
          exact absurd h2 (by decide)
        have p2 : tn.2.addr Field.reg_0x0112_cfb_tia_rfe
            ≠ ⟨j, Field.reg_0x0114_rcomp_tia_rfe⟩ := by
          intro h
          have h2 : Field.reg_0x0112_cfb_tia_rfe = Field.reg_0x0114_rcomp_tia_rfe :=
            congrArg RegPtr.field h
          exact absurd h2 (by decide)
        have i1 := (rx_cal_loop_inner.inner_keeps E tn.2 channel
          (tn.2.addr Field.reg_0x0112_cfb_tia_rfe) 0x0112 4095 Field.reg_0x0112_cfb_tia_rfe
          (ftoi (toDouble (rssi_value_50k * toDouble (7071 / 10000)))) j _ hs hkc hmc p1).2.1
        have i2 := (rx_cal_loop_inner.inner_keeps E tn.2 channel
          (tn.2.addr Field.reg_0x0112_cfb_tia_rfe) 0x0112 4095 Field.reg_0x0112_cfb_tia_rfe
          (ftoi (toDouble (rssi_value_50k * toDouble (7071 / 10000)))) j _ hs hkr hmr p2).2.1
        rw [show ∀ (a : Int) (b : Run σ), (a, b).2 = b from fun _ _ => rfl, i1, i2, t2, t3]
        exact ⟨cb, rb⟩

/-- Where the casts fit the `int` (`bw ≥ 6`), for every supported gain tier
(the field `g_tia_rfe` holds 1, 2 or 3 when `rx_cal_tia_rfe` reads it),
`rx_cal_tia_rfe` returns with the compensation fields in range:
`ccomp_tia_rfe` of the copy `j` that the channel selects holds a value in
`[0, 15]`, and so does `rcomp_tia_rfe`.  The functions of the chip that the
calibrator calls are taken to leave the two fields and the selection of the
copy alone. -/
theorem rx_cal_tia_rfe.comp_in_range (E : Ext σ) (s : Run σ) (channel : LMS7002M_chan_t)
    (bw : ℚ) (rssi_value_50k : Int) (j : Fin 2) (hs : E.Selects channel j)
    (hkc : E.Keeps j Field.reg_0x0112_ccomp_tia_rfe)
    (hkr : E.Keeps j Field.reg_0x0114_rcomp_tia_rfe)
    (hmc : E.MeasureKeeps j Field.reg_0x0112_ccomp_tia_rfe)
    (hmr : E.MeasureKeeps j Field.reg_0x0114_rcomp_tia_rfe)
    (hbw : 6 ≤ bw)
    (hg : (LMS7002M_set_mac_ch E s channel).get Field.reg_0x0113_g_tia_rfe = 1 ∨
      (LMS7002M_set_mac_ch E s channel).get Field.reg_0x0113_g_tia_rfe = 2 ∨
      (LMS7002M_set_mac_ch E s channel).get Field.reg_0x0113_g_tia_rfe = 3) :
    (0 ≤ (rx_cal_tia_rfe E s channel bw rssi_value_50k).2.self._regs j
        Field.reg_0x0112_ccomp_tia_rfe ∧
      (rx_cal_tia_rfe E s channel bw rssi_value_50k).2.self._regs j
        Field.reg_0x0112_ccomp_tia_rfe ≤ 15) ∧
    (0 ≤ (rx_cal_tia_rfe E s channel bw rssi_value_50k).2.self._regs j
        Field.reg_0x0114_rcomp_tia_rfe ∧
      (rx_cal_tia_rfe E s channel bw rssi_value_50k).2.self._regs j
        Field.reg_0x0114_rcomp_tia_rfe ≤ 15) := by
  obtain ⟨c, hc, c1, -, c2⟩ := rx_cal_tia_rfe.caps_of_tier _ bw hg hbw
  rw [rx_cal_tia_rfe.tia_eq_caps, hc]
  exact rx_cal_tia_rfe.tune_comp E _ channel bw rssi_value_50k c.1 c.2 j hs (hs.1 _) hkc hkr
    hmc hmr c1 c2

/-- C19 fails in the code for a request of 1 Hz, whose effective bandwidth
is 0.5 Hz after the floor of line 466 and whose gain tier is 1 as the
dispatcher forces it.  The `double` that line 295 casts to the feedback seed
is `5400e6/bw - 10 = 10799999990`, above `INT_MAX = 2 ^ 31 - 1`: the cast
`(int)` is out of range, undefined in C, and the conversion of an x86
processor yields `INT_MIN = -2 ^ 31`.  With that feedback seed and the
compensation seed `cfb_tia_rfe/100 + 1 = -21474835` of line 296, the block of
`rx_cal_tia_rfe` that stores the seeds leaves `ccomp_tia_rfe = -21474835` and
`rcomp_tia_rfe = 42949687` on the simulated chip, both outside `[0, 15]`: the
clamps of lines 305 and 312 test `ccomp_tia_rfe > 15` and `rcomp_tia_rfe < 0`
only. -/
theorem C19_cast_out_of_range :
    LMS7002M_rbb_set_filter_bw.bw 1 = 1 / 2 ∧
    rx_cal_tia_rfe.caps 1 (1 / 2) = some (10799999990, 108000000) ∧
    (2 ^ 31 - 1 : Int) < 10799999990 ∧
    Int.tdiv (-2 ^ 31) 100 + 1 = -21474835 ∧
    (rx_cal_tia_rfe.seed (simExt (fun c => c) simPtr 20480) (simRun 1) (-2 ^ 31)
      (-21474835)).self._regs 0 Field.reg_0x0112_ccomp_tia_rfe = -21474835 ∧
    (rx_cal_tia_rfe.seed (simExt (fun c => c) simPtr 20480) (simRun 1) (-2 ^ 31)
      (-21474835)).self._regs 0 Field.reg_0x0114_rcomp_tia_rfe = 42949687 ∧
    ¬ (0 : Int) ≤ -21474835 ∧ ¬ (42949687 : Int) ≤ 15 := by
  have e1 : ftoi (toDouble (toDouble ((5400000000 : ℚ) / (1 / 2)) - 10)) = 10799999990 := by
    have a1 : (5400000000 : ℚ) / (1 / 2) = ((10800000000 : Int) : ℚ) := by norm_num
    have a2 : ((10800000000 : Int) : ℚ) - 10 = ((10799999990 : Int) : ℚ) := by norm_num
    rw [a1, toDouble_intCast _ (by norm_num), a2, toDouble_intCast _ (by norm_num),
      ftoi_of_nonneg _ (by norm_num)]
    exact Int.floor_intCast _
  obtain ⟨-, -, v3, v4⟩ := rx_cal_tia_rfe.tia_seed_values (simExt (fun c => c) simPtr 20480)
    (simRun 1) (-2 ^ 31) (-21474835) 0 LMS7002M_chan_t.LMS_CHA
    (simExt_selects _ _ _ LMS7002M_chan_t.LMS_CHA) rfl
  refine ⟨?_, ?_, by decide, by decide, ?_, ?_, by decide, by decide⟩
  · simp only [LMS7002M_rbb_set_filter_bw.bw]
    norm_num
  · simp only [rx_cal_tia_rfe.caps, e1]
    decide
  · rw [v3 (simExt_keeps _ _ _ _ _)]
    decide
  · rw [v4 (simExt_keeps _ _ _ _ _)]
    decide

/-! ## A session that succeeds -/

/-- With `reg_max = 2 ^ (k + 2) - 1` and a reader whose readings are below the
target exactly above a code `X` that lies between the first candidate and the
second, the search returns `CAL_OK`. -/
theorem rx_cal_loop_inner.ok_of_crossing (E : Ext σ) (s : Run σ) (channel : LMS7002M_chan_t)
    (reg_ptr : RegPtr) (reg_addr : Nat) (reg_name : Field) (desired : Int) (k : Nat) (X : Int)
    (hE : E.KeepsCell reg_ptr) (hX1 : 2 ^ (k + 1) ≤ X) (hX2 : X < 2 ^ (k + 1) + 2 ^ k)
    (hread : ∀ d ch, (E.cal_read_rssi d ch).1 < desired ↔ X < d.load reg_ptr) :
    (rx_cal_loop_inner E s channel reg_ptr reg_addr (2 ^ (k + 2) - 1) reg_name desired).1
      = cal_result_t.CAL_OK := by
  obtain ⟨v, hv, -, -, hres⟩ :=
    rx_cal_loop_inner.unfold E s channel reg_ptr reg_addr (2 ^ (k + 2) - 1) reg_name desired
  have hstart : Int.tdiv ((2 : Int) ^ (k + 2) - 1 + 1) 2 = 2 ^ (k + 1) := by
    rw [sub_add_cancel]
    exact tdiv_two_pow_succ (k + 1)
  have hpk : (0 : Int) < 2 ^ k := two_pow_pos_int k
  have e1 : (2 : Int) ^ (k + 1) = 2 * 2 ^ k := by ring
  have e2 : (2 : Int) ^ (k + 2) = 4 * 2 ^ k := by ring
  have rd : ∀ w : SearchVars σ,
      ((E.cal_read_rssi (E.regs_spi_write w.s.self reg_addr) channel).1 < desired
        ↔ X < w.s.load reg_ptr) := by
    intro w
    rw [hread]
    show X < (E.regs_spi_write w.s.self reg_addr).load reg_ptr ↔ X < w.s.self.load reg_ptr
    rw [hE.1]
  have key : v.best_lo ≠ -1 ∧ v.best_hi ≠ -1 := by
    rw [hv, hstart, rx_cal_loop_inner.do_while_next _ _ _ _ _ _ _ (by
      show Int.tdiv ((2 : Int) ^ (k + 1)) 2 ≠ 0
      rw [tdiv_two_pow_succ]
      exact hpk.ne')]
    refine rx_cal_loop_inner.do_while_rule E channel reg_ptr reg_addr (2 ^ (k + 2) - 1) desired
      (fun w => w.best_hi ≠ -1 ∧ 0 ≤ w.s.load reg_ptr ∧ (w.best_lo = -1 → X < w.s.load reg_ptr))
      (fun w => w.best_lo ≠ -1 ∧ w.best_hi ≠ -1) ?_ ?_ _ ?_
    · rintro w ⟨h1, h2, h3⟩ -
      have hl := (rx_cal_loop_inner.body_load_range E channel reg_ptr reg_addr
        (2 ^ (k + 2) - 1) desired w (by omega)).1
      refine ⟨?_, hl, ?_⟩
      · rw [rx_cal_loop_inner.body_best_hi E channel reg_ptr reg_addr _ desired w hE]
        split_ifs
        · exact h1
        · omega
      · rw [rx_cal_loop_inner.body_best_lo E channel reg_ptr reg_addr _ desired w hE]
        split_ifs with hc
        · intro h
          omega
        · intro h
          exact absurd (h3 h) (fun hx => hc ((rd w).mpr hx))
    · rintro w ⟨h1, h2, h3⟩ -
      refine ⟨?_, ?_⟩
      · rw [rx_cal_loop_inner.body_best_lo E channel reg_ptr reg_addr _ desired w hE]
        split_ifs with hc
        · omega
        · intro h
          exact absurd (h3 h) (fun hx => hc ((rd w).mpr hx))
      · rw [rx_cal_loop_inner.body_best_hi E channel reg_ptr reg_addr _ desired w hE]
        split_ifs
        · exact h1
        · omega
    · have hhigh : ¬ (E.cal_read_rssi (E.regs_spi_write (s.store reg_ptr (2 ^ (k + 1))).self
          reg_addr) channel).1 < desired := by
        have := rd ⟨s.store reg_ptr (2 ^ (k + 1)), 0, -1, -1, 2 ^ (k + 1)⟩
        simp only [Run.load_store] at this
        rw [this]
        omega
      refine ⟨?_, (rx_cal_loop_inner.body_load_range E channel reg_ptr reg_addr
        (2 ^ (k + 2) - 1) desired _ (by omega)).1, ?_⟩
      · rw [rx_cal_loop_inner.body_best_hi E channel reg_ptr reg_addr _ desired _ hE,
          if_neg hhigh]
        simp only [Run.load_store]
        omega
      · intro _
        rw [rx_cal_loop_inner.body_load E channel reg_ptr reg_addr _ desired _ hE]
        simp only [if_neg hhigh, Run.load_store, tdiv_two_pow_succ]
        split_ifs <;> omega
  rw [hres, if_neg key.1, if_neg key.2]

/-- When the first run of the search returns `CAL_OK`, the retries of
`rx_cal_loop` end at once with `0`. -/
theorem rx_cal_loop.for_ever_ok (E : Ext σ) (channel : LMS7002M_chan_t) (reg_ptr : RegPtr)
    (reg_addr : Nat) (reg_max : Int) (reg_name : Field) (desired : Int) (s : Run σ)
    (r_range : Nat)
    (h : (rx_cal_loop_inner E s channel reg_ptr reg_addr reg_max reg_name desired).1
      = cal_result_t.CAL_OK) :
    (rx_cal_loop.for_ever E channel reg_ptr reg_addr reg_max reg_name desired s r_range).1
      = 0 := by
  rw [rx_cal_loop.for_ever]
  split
  · rfl
  · rename_i heq
    rw [h] at heq
    exact absurd heq (by decide)
  · rename_i heq
    rw [h] at heq
    exact absurd heq (by decide)

/-- The tone set-up returns the status of the oscillator tuning. -/
theorem setup_rx_cal_tone_status (E : Ext σ) (s : Run σ) (channel : LMS7002M_chan_t)
    (bw off : ℚ) (hl : ∀ d dir f1 f2, (E.set_lo_freq d dir f1 f2).1 = 0) :
    (setup_rx_cal_tone E s channel bw off).1 = 0 := by
  simp only [setup_rx_cal_tone]
  split_ifs <;> exact hl _ _ _ _

/-- With an oscillator tuning that succeeds and a search that returns `CAL_OK`
from every state, the outer loop returns `0`. -/
theorem rx_cal_loop.loop_ok (E : Ext σ) (s : Run σ) (channel : LMS7002M_chan_t) (bw : ℚ)
    (reg_ptr : RegPtr) (reg_addr : Nat) (reg_max : Int) (reg_name : Field) (desired : Int)
    (hl : ∀ d dir f1 f2, (E.set_lo_freq d dir f1 f2).1 = 0)
    (hok : ∀ s', (rx_cal_loop_inner E s' channel reg_ptr reg_addr reg_max reg_name desired).1
      = cal_result_t.CAL_OK) :
    (rx_cal_loop E s channel bw reg_ptr reg_addr reg_max reg_name desired).1 = 0 := by
  simp only [rx_cal_loop]
  rw [if_neg (not_not.mpr (setup_rx_cal_tone_status E _ channel bw 50000 hl))]
  exact rx_cal_loop.for_ever_ok E channel reg_ptr reg_addr reg_max reg_name desired _ 8 (hok _)

theorem fst_ite_of_not {α : Type} {c : Prop} [Decidable c] {a b : Int × α}
    (hc : ¬ c) (hb : b.1 = 0) : (if c then a else b).1 = 0 := by
  rw [if_neg hc]
  exact hb

/-- The stage initialiser returns the status of the oscillator relock. -/
theorem rx_cal_init_status (E : Ext σ) (s : Run σ) (channel : LMS7002M_chan_t)
    (hl : ∀ d dir f1 f2, (E.set_lo_freq d dir f1 f2).1 = 0) :
    (rx_cal_init E s channel).1 = 0 := by
  simp only [rx_cal_init]
  split_ifs <;> exact hl _ _ _ _

/-- On the low-band path above 0.5 MHz, with a clock set-up and an oscillator
tuning that succeed and a low-band calibrator that succeeds, the stages of the
dispatcher succeed, whatever the TIA calibrator returned. -/
theorem LMS7002M_rbb_set_filter_bw.stages_lbf_ok (E : Ext σ) (s : Run σ)
    (channel : LMS7002M_chan_t) (bw : ℚ) (hbw : 500000 < bw)
    (hc : ∀ d b, (E.cal_setup_cgen d b).1 = 0)
    (hl : ∀ d dir f1 f2, (E.set_lo_freq d dir f1 f2).1 = 0)
    (hok : ∀ s' d lvl,
      (rx_cal_rbb_lpfl E s' channel bw (E.cal_gain_selection d channel lvl).1).1 = 0) :
    (LMS7002M_rbb_set_filter_bw.stages E s channel bw LMS7002M_path_t.LMS7002M_RBB_LBF).1
      = 0 := by
  have h1 : bw > 500000 := hbw
  simp only [LMS7002M_rbb_set_filter_bw.stages, h1, if_true, reduceCtorEq, if_false]
  refine fst_ite_of_not (not_not.mpr (hc _ _)) ?_
  refine fst_ite_of_not (not_not.mpr (rx_cal_init_status E _ channel hl)) ?_
  refine fst_ite_of_not (not_not.mpr (setup_rx_cal_tone_status E _ channel _ _ hl)) ?_
  refine fst_ite_of_not (not_not.mpr (hok _ _ _)) (hok _ _ _)

/-- On the simulated chip whose readings depend on `c_ctl_lpfl_rbb` of channel
A and cross the target between the codes 1500 and 1501, the low-band
calibrator succeeds at 5 MHz from every state. -/
theorem rx_cal_rbb_lpfl.lpfl_ok_sim (s : Run Unit) :
    (rx_cal_rbb_lpfl
      (simExt (fun c => if c ≤ 1500 then 20000 else 0) ⟨0, Field.reg_0x0117_c_ctl_lpfl_rbb⟩
        20480) s LMS7002M_chan_t.LMS_CHA 5000000 20480).1 = 0 := by
  have hd : ftoi (toDouble (((20480 : Int) : ℚ) * toDouble (7071 / 10000))) = 14481 :=
    target_20480
  obtain ⟨v1, -⟩ := rx_cal_rbb_lpfl.lpfl_seed_values
    (simExt (fun c => if c ≤ 1500 then 20000 else 0) ⟨0, Field.reg_0x0117_c_ctl_lpfl_rbb⟩ 20480)
    s LMS7002M_chan_t.LMS_CHA 5000000 0 (simExt_selects _ _ _ LMS7002M_chan_t.LMS_CHA)
  have hp : (rx_cal_rbb_lpfl.seed
      (simExt (fun c => if c ≤ 1500 then 20000 else 0) ⟨0, Field.reg_0x0117_c_ctl_lpfl_rbb⟩
        20480) s LMS7002M_chan_t.LMS_CHA 5000000).addr Field.reg_0x0117_c_ctl_lpfl_rbb
      = ⟨0, Field.reg_0x0117_c_ctl_lpfl_rbb⟩ := by
    show RegPtr.mk _ _ = _
    rw [v1]
  rw [rx_cal_rbb_lpfl.lpfl_eq_seed, if_neg (by norm_num), hp, hd]
  refine rx_cal_loop.loop_ok _ _ _ _ _ _ _ _ _ (fun _ _ _ _ => rfl) ?_
  intro s'
  have h := rx_cal_loop_inner.ok_of_crossing
    (simExt (fun c => if c ≤ 1500 then 20000 else 0) ⟨0, Field.reg_0x0117_c_ctl_lpfl_rbb⟩ 20480)
    s' LMS7002M_chan_t.LMS_CHA ⟨0, Field.reg_0x0117_c_ctl_lpfl_rbb⟩ 0x0117
    Field.reg_0x0117_c_ctl_lpfl_rbb 14481 9 1500 ⟨fun _ _ => rfl, fun _ _ => rfl⟩
    (by norm_num) (by norm_num)
    (by
      intro d ch
      show (if d.load ⟨0, Field.reg_0x0117_c_ctl_lpfl_rbb⟩ ≤ 1500 then (20000 : Int) else 0)
        < 14481 ↔ 1500 < d.load ⟨0, Field.reg_0x0117_c_ctl_lpfl_rbb⟩
      split_ifs <;> omega)
  norm_num at h
  exact h

/-- The bypass configuration of the dispatcher leaves the gain tier `1` in the
selected copy of the register map. -/
theorem LMS7002M_rbb_set_filter_bw.bypass_tier (E : Ext σ) (s : Run σ)
    (channel : LMS7002M_chan_t) (j : Fin 2) (hs : E.Selects channel j)
    (hk : E.Keeps j Field.reg_0x0113_g_tia_rfe) (hj : s.self.regs = j) :
    (LMS7002M_rbb_set_filter_bw.bypass E s).self.regs = j ∧
    (LMS7002M_rbb_set_filter_bw.bypass E s).self._regs j Field.reg_0x0113_g_tia_rfe = 1 := by
  obtain ⟨-, s2, -⟩ := hs
  obtain ⟨-, k2, -, -⟩ := hk
  constructor
  · simp [LMS7002M_rbb_set_filter_bw.bypass, LMS7002M_regs_spi_write, s2, Run.set_regs_self, hj]
  · simp [LMS7002M_rbb_set_filter_bw.bypass, LMS7002M_regs_spi_write, k2, s2, Run.set_map,
      Run.set_regs_self, hj]

/-- The TIA calibrator rejects a gain tier that is none of 1, 2, 3: it logs
the error, writes no register and returns `-1`. -/
theorem rx_cal_tia_rfe.tia_reject (E : Ext σ) (s : Run σ) (channel : LMS7002M_chan_t)
    (bw : ℚ) (rssi_value_50k : Int)
    (hg : ¬ ((LMS7002M_set_mac_ch E s channel).get Field.reg_0x0113_g_tia_rfe = 1 ∨
      (LMS7002M_set_mac_ch E s channel).get Field.reg_0x0113_g_tia_rfe = 2 ∨
      (LMS7002M_set_mac_ch E s channel).get Field.reg_0x0113_g_tia_rfe = 3)) :
    rx_cal_tia_rfe E s channel bw rssi_value_50k
      = (-1, LMS7_logf (LMS7002M_set_mac_ch E s channel) LMS7_log_level_t.LMS7_ERROR
          LogMsg.g_tia_rfe_invalid
          [(LMS7002M_set_mac_ch E s channel).get Field.reg_0x0113_g_tia_rfe]) := by
  rw [not_or, not_or] at hg
  simp only [rx_cal_tia_rfe]
  rw [if_neg (by
    rintro (h | h)
    · exact hg.2.2 h
    · exact hg.2.1 h), if_neg hg.1]

/-- The TIA calibrator, reading the gain tier `1`, goes on with the seeds of
that tier. -/
theorem rx_cal_tia_rfe.tia_tier_one (E : Ext σ) (s : Run σ) (channel : LMS7002M_chan_t)
    (bw : ℚ) (rssi_value_50k : Int)
    (hg : (LMS7002M_set_mac_ch E s channel).get Field.reg_0x0113_g_tia_rfe = 1) :
    rx_cal_tia_rfe E s channel bw rssi_value_50k
      = rx_cal_tia_rfe.tune E (LMS7002M_set_mac_ch E s channel) channel bw rssi_value_50k
          (ftoi (toDouble (toDouble (5400000000 / bw) - 10))) (Int.tdiv
            (ftoi (toDouble (toDouble (5400000000 / bw) - 10))) 100 + 1) := by
  simp only [rx_cal_tia_rfe]
  rw [hg, if_neg (by decide), if_pos rfl]

/-- Why the check of the gain tier is dead in a session.  The check is made
by `rx_cal_tia_rfe` on the value it reads from `g_tia_rfe`: for a value that
is none of 1, 2, 3 it logs the error, writes no register and returns `-1`.
In a session, `LMS7002M_rbb_set_filter_bw` forces `g_tia_rfe = 1` (line 521 of
its bypass configuration) before the tone set-up, the gain scan and the TIA
calibrator, so in the state in which the dispatcher calls it the TIA
calibrator reads the tier 1 and goes on with the seeds of that tier, whatever
the user's selection was; and past the reference-clock check the user's
selection is back in the register map after the call.  The copy `j` is the one the channel selects; the
functions of the chip are taken to leave `g_tia_rfe` and the selection of the
copy alone. -/
theorem LMS7002M_rbb_set_filter_bw.tier_forced (E : Ext σ) (s : Run σ)
    (channel : LMS7002M_chan_t) (rfbw : ℚ)
    (bwactual : Option ℚ) (j : Fin 2) (hs : E.Selects channel j)
    (hk : E.Keeps j Field.reg_0x0113_g_tia_rfe)
    (hm : E.MeasureKeeps j Field.reg_0x0113_g_tia_rfe)
    (hgain : ∀ d ch lvl, (E.cal_gain_selection d ch lvl).2._regs j Field.reg_0x0113_g_tia_rfe
      = d._regs j Field.reg_0x0113_g_tia_rfe)
    (h1 : (E.set_mac_ch s.self channel).cgen_fref ≠ 0)
    (h2 : (E.set_mac_ch s.self channel).sxr_fref ≠ 0)
    (h3 : (E.set_mac_ch s.self channel).sxt_fref ≠ 0) :
    (∀ (s' : Run σ) (bw : ℚ) (r : Int),
      ¬ ((LMS7002M_set_mac_ch E s' channel).get Field.reg_0x0113_g_tia_rfe = 1 ∨
        (LMS7002M_set_mac_ch E s' channel).get Field.reg_0x0113_g_tia_rfe = 2 ∨
        (LMS7002M_set_mac_ch E s' channel).get Field.reg_0x0113_g_tia_rfe = 3) →
      (rx_cal_tia_rfe E s' channel bw r).1 = -1 ∧
      logged LogMsg.g_tia_rfe_invalid ((rx_cal_tia_rfe E s' channel bw r).2.calls s') = 1 ∧
      writes ((rx_cal_tia_rfe E s' channel bw r).2.calls s') = []) ∧
    (∀ (s₀ : Run σ) (bw : ℚ) (r : Int), s₀.self.regs = j →
      rx_cal_tia_rfe E
          (cal_gain_selection E
            (setup_rx_cal_tone E (LMS7002M_rbb_set_filter_bw.bypass E s₀) channel 400000
              100000).2 channel 0x05000).2 channel bw r
        = rx_cal_tia_rfe.tune E
            (LMS7002M_set_mac_ch E
              (cal_gain_selection E
                (setup_rx_cal_tone E (LMS7002M_rbb_set_filter_bw.bypass E s₀) channel 400000
                  100000).2 channel 0x05000).2 channel) channel bw r
            (ftoi (toDouble (toDouble (5400000000 / bw) - 10)))
            (Int.tdiv (ftoi (toDouble (toDouble (5400000000 / bw) - 10))) 100 + 1)) ∧
    (LMS7002M_rbb_set_filter_bw E s channel rfbw bwactual).2.1.self._regs j
        Field.reg_0x0113_g_tia_rfe
      = s.self._regs j Field.reg_0x0113_g_tia_rfe := by
  refine ⟨?_, ?_, ?_⟩
  · intro s' bw r hg
    rw [rx_cal_tia_rfe.tia_reject E s' channel bw r hg]
    refine ⟨rfl, ?_, ?_⟩
    · simp [Run.calls, LMS7002M_set_mac_ch, logged]
    · simp [Run.calls, LMS7002M_set_mac_ch, writes, Event.written]
  · intro s₀ bw r hj
    apply rx_cal_tia_rfe.tia_tier_one
    obtain ⟨b1, b2⟩ := LMS7002M_rbb_set_filter_bw.bypass_tier E s₀ channel j hs hk hj
    obtain ⟨-, t2, -⟩ := setup_rx_cal_tone_keeps E (LMS7002M_rbb_set_filter_bw.bypass E s₀)
      channel 400000 100000 j _ hs hk hm
    rw [Run.get_eq]
    show (E.set_mac_ch _ channel)._regs (E.set_mac_ch _ channel).regs _ = 1
    rw [hs.1, hk.1]
    show (E.cal_gain_selection _ channel _).2._regs j _ = 1
    rw [hgain, t2, b2]
  · exact LMS7002M_rbb_set_filter_bw.frame E s channel rfbw bwactual h1 h2 h3 j _ hk
      (by decide)

/-- The dead check on the simulated chip, for a request of 10 MHz made while
every field, `g_tia_rfe` included, holds `7`. -/
theorem LMS7002M_rbb_set_filter_bw.tier_forced_sim :
    (∀ (s' : Run Unit) (bw : ℚ) (r : Int),
      ¬ ((LMS7002M_set_mac_ch (simExt (fun c => c) simPtr 20480) s'
          LMS7002M_chan_t.LMS_CHA).get Field.reg_0x0113_g_tia_rfe = 1 ∨
        (LMS7002M_set_mac_ch (simExt (fun c => c) simPtr 20480) s'
          LMS7002M_chan_t.LMS_CHA).get Field.reg_0x0113_g_tia_rfe = 2 ∨
        (LMS7002M_set_mac_ch (simExt (fun c => c) simPtr 20480) s'
          LMS7002M_chan_t.LMS_CHA).get Field.reg_0x0113_g_tia_rfe = 3) →
      (rx_cal_tia_rfe (simExt (fun c => c) simPtr 20480) s' LMS7002M_chan_t.LMS_CHA bw r).1
        = -1 ∧
      logged LogMsg.g_tia_rfe_invalid ((rx_cal_tia_rfe (simExt (fun c => c) simPtr 20480) s'
        LMS7002M_chan_t.LMS_CHA bw r).2.calls s') = 1 ∧
      writes ((rx_cal_tia_rfe (simExt (fun c => c) simPtr 20480) s'
        LMS7002M_chan_t.LMS_CHA bw r).2.calls s') = []) ∧
    (∀ (s₀ : Run Unit) (bw : ℚ) (r : Int), s₀.self.regs = 0 →
      rx_cal_tia_rfe (simExt (fun c => c) simPtr 20480)
          (cal_gain_selection (simExt (fun c => c) simPtr 20480)
            (setup_rx_cal_tone (simExt (fun c => c) simPtr 20480)
              (LMS7002M_rbb_set_filter_bw.bypass (simExt (fun c => c) simPtr 20480) s₀)
              LMS7002M_chan_t.LMS_CHA 400000 100000).2 LMS7002M_chan_t.LMS_CHA 0x05000).2
          LMS7002M_chan_t.LMS_CHA bw r
        = rx_cal_tia_rfe.tune (simExt (fun c => c) simPtr 20480)
            (LMS7002M_set_mac_ch (simExt (fun c => c) simPtr 20480)
              (cal_gain_selection (simExt (fun c => c) simPtr 20480)
                (setup_rx_cal_tone (simExt (fun c => c) simPtr 20480)
                  (LMS7002M_rbb_set_filter_bw.bypass (simExt (fun c => c) simPtr 20480) s₀)
                  LMS7002M_chan_t.LMS_CHA 400000 100000).2 LMS7002M_chan_t.LMS_CHA
                0x05000).2 LMS7002M_chan_t.LMS_CHA) LMS7002M_chan_t.LMS_CHA bw r
            (ftoi (toDouble (toDouble (5400000000 / bw) - 10)))
            (Int.tdiv (ftoi (toDouble (toDouble (5400000000 / bw) - 10))) 100 + 1)) ∧
    (LMS7002M_rbb_set_filter_bw (simExt (fun c => c) simPtr 20480) (simRun 7)
        LMS7002M_chan_t.LMS_CHA 10000000 none).2.1.self._regs 0 Field.reg_0x0113_g_tia_rfe
      = (simRun 7).self._regs 0 Field.reg_0x0113_g_tia_rfe :=
  LMS7002M_rbb_set_filter_bw.tier_forced (simExt (fun c => c) simPtr 20480) (simRun 7)
    LMS7002M_chan_t.LMS_CHA
    10000000 none 0 (simExt_selects _ _ _ LMS7002M_chan_t.LMS_CHA) (simExt_keeps _ _ _ _ _)
    (simExt_measureKeeps _ _ _ _ _) (fun _ _ _ => rfl)
    (simRun_clocks (fun c => c) simPtr 20480 7 LMS7002M_chan_t.LMS_CHA).1
    (simRun_clocks (fun c => c) simPtr 20480 7 LMS7002M_chan_t.LMS_CHA).2.1
    (simRun_clocks (fun c => c) simPtr 20480 7 LMS7002M_chan_t.LMS_CHA).2.2

/-- C12 fails in the code: on the simulated chip whose readings cross the
low-band target, a request of 10 MHz (effective bandwidth 5 MHz, above
0.5 MHz) made while `g_tia_rfe` holds `7`, which is none of 1, 2, 3, returns
the status `0`.  Called in the state of the request, `rx_cal_tia_rfe` itself
rejects the tier and returns `-1`: the check exists, and the session never
reaches it with the user's tier, because line 521 has overwritten the field
with `1`. -/
theorem C12_unsupported_tier_accepted :
    LMS7002M_regs (simRun 7).self Field.reg_0x0113_g_tia_rfe = 7 ∧
    (500000 : ℚ) < LMS7002M_rbb_set_filter_bw.bw 10000000 ∧
    (rx_cal_tia_rfe
      (simExt (fun c => if c ≤ 1500 then 20000 else 0) ⟨0, Field.reg_0x0117_c_ctl_lpfl_rbb⟩
        20480) (simRun 7) LMS7002M_chan_t.LMS_CHA
      (LMS7002M_rbb_set_filter_bw.bw 10000000) 25804).1 = -1 ∧
    (LMS7002M_rbb_set_filter_bw
      (simExt (fun c => if c ≤ 1500 then 20000 else 0) ⟨0, Field.reg_0x0117_c_ctl_lpfl_rbb⟩
        20480) (simRun 7) LMS7002M_chan_t.LMS_CHA 10000000 none).1 = 0 := by
  obtain ⟨c1, c2, c3⟩ := simRun_clocks (fun c => if c ≤ 1500 then 20000 else 0)
    ⟨0, Field.reg_0x0117_c_ctl_lpfl_rbb⟩ 20480 7 LMS7002M_chan_t.LMS_CHA
  have hb : LMS7002M_rbb_set_filter_bw.bw 10000000 = 5000000 := by
    rw [bw_of_ge_one _ (by norm_num)]
    norm_num
  refine ⟨rfl, by rw [hb]; norm_num, ?_, ?_⟩
  · rw [rx_cal_tia_rfe.tia_reject _ _ _ _ _ (by
      show ¬ ((7 : Int) = 1 ∨ (7 : Int) = 2 ∨ (7 : Int) = 3)
      decide)]
  · rw [LMS7002M_rbb_set_filter_bw.past_check _ _ _ _ _ c1 c2 c3,
      show ∀ (a : Int) (b : Run Unit × Option ℚ), (a, b).1 = a from fun _ _ => rfl, hb,
      if_pos (by norm_num : (5000000 : ℚ) < 20000000)]
    exact LMS7002M_rbb_set_filter_bw.stages_lbf_ok _ _ LMS7002M_chan_t.LMS_CHA 5000000
      (by norm_num) (fun _ _ => rfl) (fun _ _ _ _ => rfl)
      (fun s' _ _ => rx_cal_rbb_lpfl.lpfl_ok_sim s')

/-! ## The dispatcher: a relock that fails -/

/-- When the transmit oscillator does not lock, the stage initialiser
fails. -/
theorem rx_cal_init_fails (E : Ext σ) (s : Run σ) (channel : LMS7002M_chan_t)
    (hfail : ∀ d f1 f2, (E.set_lo_freq d LMS7002M_dir_t.LMS_TX f1 f2).1 ≠ 0) :
    (rx_cal_init E s channel).1 ≠ 0 := by
  simp only [rx_cal_init]
  split_ifs <;> exact hfail _ _ _

/-- The stage initialiser takes no power sample and runs no search. -/
theorem rx_cal_init_quiet (E : Ext σ) (s : Run σ) (channel : LMS7002M_chan_t) :
    Quiet s (rx_cal_init E s channel).2 := by
  refine ⟨(rx_cal_init E s channel).2.calls s, ?_, ?_, ?_⟩ <;>
    simp only [rx_cal_init] <;>
    split_ifs <;>
    simp [Run.calls, LMS7002M_regs_spi_write, LMS7002M_set_mac_ch, set_addrs_to_default,
      LMS7002M_afe_enable, LMS7002M_set_lo_freq, LMS7002M_txtsp_tsg_const, samples,
      Event.sample, logged]

/-- The stage initialiser leaves a field that it does not assign as it is,
when the functions it calls do. -/
theorem rx_cal_init_keeps (E : Ext σ) (s : Run σ) (channel : LMS7002M_chan_t) (j : Fin 2)
    (f : Field) (hf : ∀ g ∈ initFields, f ≠ g) (hk : E.Keeps j f) (hi : E.InitKeeps j f) :
    (rx_cal_init E s channel).2.self._regs j f = s.self._regs j f := by
  obtain ⟨k1, k2, k3, k4⟩ := hk
  obtain ⟨i1, i2, i3, i4, i5⟩ := hi
  have hne : ∀ g, g ∈ initFields → (f = g) = False := fun g hg => eq_false (hf g hg)
  simp only [rx_cal_init]
  split_ifs <;>
    simp [LMS7002M_regs_spi_write, LMS7002M_set_mac_ch, set_addrs_to_default,
      LMS7002M_afe_enable, LMS7002M_set_lo_freq, LMS7002M_txtsp_tsg_const, k1, k2, i2, i3, i4,
      i5, Run.set_map, hne, initFields]

/-- Above 0.5 MHz, with a clock set-up that succeeds and a transmit oscillator
that does not lock, the stages of the dispatcher end with the failure of the
stage initialiser. -/
theorem LMS7002M_rbb_set_filter_bw.stages_init_fails (E : Ext σ) (s : Run σ)
    (channel : LMS7002M_chan_t) (bw : ℚ) (path : LMS7002M_path_t) (hbw : 500000 < bw)
    (hc : (E.cal_setup_cgen s.self bw).1 = 0)
    (hfail : ∀ d f1 f2, (E.set_lo_freq d LMS7002M_dir_t.LMS_TX f1 f2).1 ≠ 0) :
    LMS7002M_rbb_set_filter_bw.stages E s channel bw path
      = ((rx_cal_init E (cal_setup_cgen E s bw).2 channel).1,
         LMS7_log (rx_cal_init E (cal_setup_cgen E s bw).2 channel).2
           LMS7_log_level_t.LMS7_ERROR LogMsg.rx_cal_init_failed) := by
  have h1 : bw > 500000 := hbw
  have hc' : (cal_setup_cgen E s bw).1 = 0 := hc
  simp only [LMS7002M_rbb_set_filter_bw.stages, h1, if_true]
  rw [if_neg (not_not.mpr hc'),
    if_pos (rx_cal_init_fails E (cal_setup_cgen E s bw).2 channel hfail)]

theorem Quiet.setup_cgen (E : Ext σ) (s : Run σ) (bw : ℚ) :
    Quiet s (cal_setup_cgen E s bw).2 :=
  ⟨_, rfl, by simp [samples, Event.sample], by simp [logged]⟩

theorem trim_not_init : ∀ f ∈ trimFields, ∀ g ∈ initFields, f ≠ g := by decide

/-- A session in which the relock of the stage initialiser fails: the
stages end with that failure and the cleanup follows. -/
theorem LMS7002M_rbb_set_filter_bw.relock_fails (E : Ext σ) (s : Run σ)
    (channel : LMS7002M_chan_t) (rfbw : ℚ) (bwactual : Option ℚ) (j : Fin 2)
    (hs : E.Selects channel j) (hk : ∀ f ∈ trimFields, E.Keeps j f)
    (h1 : (E.set_mac_ch s.self channel).cgen_fref ≠ 0)
    (h2 : (E.set_mac_ch s.self channel).sxr_fref ≠ 0)
    (h3 : (E.set_mac_ch s.self channel).sxt_fref ≠ 0)
    (hbw : 500000 < LMS7002M_rbb_set_filter_bw.bw rfbw)
    (hc : (E.cal_setup_cgen (E.set_mac_ch s.self channel)
      (LMS7002M_rbb_set_filter_bw.bw rfbw)).1 = 0)
    (hfail : ∀ d f1 f2, (E.set_lo_freq d LMS7002M_dir_t.LMS_TX f1 f2).1 ≠ 0) :
    (LMS7002M_rbb_set_filter_bw E s channel rfbw bwactual).1 ≠ 0 ∧
    Quiet s (LMS7002M_rbb_set_filter_bw E s channel rfbw bwactual).2.1 ∧
    ∀ f ∈ trimFields,
      (LMS7002M_rbb_set_filter_bw E s channel rfbw bwactual).2.1.self._regs j f
        = (rx_cal_init E (cal_setup_cgen E (LMS7002M_set_mac_ch E s channel)
            (LMS7002M_rbb_set_filter_bw.bw rfbw)).2 channel).2.self._regs j f := by
  have hst := LMS7002M_rbb_set_filter_bw.stages_init_fails E (LMS7002M_set_mac_ch E s channel)
    channel (LMS7002M_rbb_set_filter_bw.bw rfbw)
    (if LMS7002M_rbb_set_filter_bw.bw rfbw < 20000000 then LMS7002M_path_t.LMS7002M_RBB_LBF
      else LMS7002M_path_t.LMS7002M_RBB_HBF) hbw hc hfail
  rw [LMS7002M_rbb_set_filter_bw.past_check E s channel rfbw bwactual h1 h2 h3, hst]
  rw [show ∀ (a : Int) (b : Run σ × Option ℚ), (a, b).1 = a from fun _ _ => rfl,
    show ∀ (a : Int) (b : Run σ × Option ℚ), (a, b).2 = b from fun _ _ => rfl,
    show ∀ (a : Run σ) (b : Option ℚ), (a, b).1 = a from fun _ _ => rfl,
    show ∀ (a : Int) (b : Run σ), (a, b).2 = b from fun _ _ => rfl]
  refine ⟨rx_cal_init_fails E _ channel hfail, ?_, ?_⟩
  · obtain ⟨l, hl, d1, d2, -⟩ := LMS7002M_rbb_set_filter_bw.done_trace E
      (LMS7_log (rx_cal_init E (cal_setup_cgen E (LMS7002M_set_mac_ch E s channel)
        (LMS7002M_rbb_set_filter_bw.bw rfbw)).2 channel).2 LMS7_log_level_t.LMS7_ERROR
        LogMsg.rx_cal_init_failed) channel (E.set_mac_ch s.self channel)._regs
      (if LMS7002M_rbb_set_filter_bw.bw rfbw < 20000000 then LMS7002M_path_t.LMS7002M_RBB_LBF
        else LMS7002M_path_t.LMS7002M_RBB_HBF)
    exact ((((Quiet.set_mac_ch E s channel).trans (Quiet.setup_cgen E _ _)).trans
      (rx_cal_init_quiet E _ channel)).trans (Quiet.log _ _ _ (by decide))).trans
      ⟨l, hl, d1, d2⟩
  · intro f hf
    exact LMS7002M_rbb_set_filter_bw.done_trim E _ channel _ _ j hs f (hk f hf) hf

/-- C11, as the code has it: when the transmit-oscillator relock inside
`rx_cal_init` fails (the reference clocks being set, the effective bandwidth
above 0.5 MHz and the clock set-up having succeeded),
`LMS7002M_rbb_set_filter_bw` returns a failure status, takes no power sample
and runs no search, and goes through its cleanup: every trim field of the copy
`j` that the channel selects has after the call the value it held when
`rx_cal_init` returned.  That is its pre-session value for a field that the
functions called by the clock set-up and the stage initialiser (among them the
reset of the register ranges to their defaults) leave alone.  The bus-level
functions are taken to leave the trim fields and the selection of the copy
alone. -/
theorem C11_relock_failure (E : Ext σ) (s : Run σ) (channel : LMS7002M_chan_t) (rfbw : ℚ)
    (bwactual : Option ℚ) (j : Fin 2)
    (hs : E.Selects channel j) (hk : ∀ f ∈ trimFields, E.Keeps j f)
    (h1 : (E.set_mac_ch s.self channel).cgen_fref ≠ 0)
    (h2 : (E.set_mac_ch s.self channel).sxr_fref ≠ 0)
    (h3 : (E.set_mac_ch s.self channel).sxt_fref ≠ 0)
    (hbw : 500000 < LMS7002M_rbb_set_filter_bw.bw rfbw)
    (hc : (E.cal_setup_cgen (E.set_mac_ch s.self channel)
      (LMS7002M_rbb_set_filter_bw.bw rfbw)).1 = 0)
    (hfail : ∀ d f1 f2, (E.set_lo_freq d LMS7002M_dir_t.LMS_TX f1 f2).1 ≠ 0) :
    (LMS7002M_rbb_set_filter_bw E s channel rfbw bwactual).1 ≠ 0 ∧
    samples ((LMS7002M_rbb_set_filter_bw E s channel rfbw bwactual).2.1.calls s) = [] ∧
    logged LogMsg.reg_value
      ((LMS7002M_rbb_set_filter_bw E s channel rfbw bwactual).2.1.calls s) = 0 ∧
    (∀ f ∈ trimFields,
      (LMS7002M_rbb_set_filter_bw E s channel rfbw bwactual).2.1.self._regs j f
        = (rx_cal_init E (cal_setup_cgen E (LMS7002M_set_mac_ch E s channel)
            (LMS7002M_rbb_set_filter_bw.bw rfbw)).2 channel).2.self._regs j f) ∧
    (∀ f ∈ trimFields, E.InitKeeps j f →
      (LMS7002M_rbb_set_filter_bw E s channel rfbw bwactual).2.1.self._regs j f
        = s.self._regs j f) := by
  obtain ⟨r1, r2, r3⟩ := LMS7002M_rbb_set_filter_bw.relock_fails E s channel rfbw bwactual j
    hs hk h1 h2 h3 hbw hc hfail
  refine ⟨r1, (Quiet.calls_eq r2).1, (Quiet.calls_eq r2).2, r3, ?_⟩
  intro f hf hi
  rw [r3 f hf, rx_cal_init_keeps E _ channel j f (trim_not_init f hf) (hk f hf) hi]
  show (E.cal_setup_cgen (E.set_mac_ch s.self channel) _).2._regs j f = _
  rw [hi.1, (hk f hf).1]
theorem simResetExt_selects (dflt : Int) (channel : LMS7002M_chan_t) :
    (simResetExt dflt).Selects channel (simSel channel) :=
  ⟨fun _ => rfl, fun _ _ => rfl, fun _ => rfl⟩

theorem simResetExt_keeps (dflt : Int) (i : Fin 2) (f : Field) :
    (simResetExt dflt).Keeps i f :=
  ⟨fun _ _ => rfl, fun _ _ => rfl, fun _ => rfl, fun _ _ _ => rfl⟩

theorem simResetExt_fails (dflt : Int) (d : LMS7002M_t Unit) (f1 f2 : ℚ) :
    ((simResetExt dflt).set_lo_freq d LMS7002M_dir_t.LMS_TX f1 f2).1 = -1 := rfl

/-- When `set_addrs_to_default` puts `dflt` in the field `cfb_tia_rfe` for the
address ranges that hold its register `0x0112` and leaves it alone for the
others, the stage initialiser leaves `dflt` in the field. -/
theorem rx_cal_init_resets (E : Ext σ) (s : Run σ) (channel : LMS7002M_chan_t) (j : Fin 2)
    (dflt : Int) (hk : E.Keeps j Field.reg_0x0112_cfb_tia_rfe)
    (h3 : ∀ d dir ch en, (E.afe_enable d dir ch en)._regs j Field.reg_0x0112_cfb_tia_rfe
      = d._regs j Field.reg_0x0112_cfb_tia_rfe)
    (h4 : ∀ d dir f1 f2, (E.set_lo_freq d dir f1 f2).2._regs j Field.reg_0x0112_cfb_tia_rfe
      = d._regs j Field.reg_0x0112_cfb_tia_rfe)
    (h5 : ∀ d ch a b, (E.txtsp_tsg_const d ch a b)._regs j Field.reg_0x0112_cfb_tia_rfe
      = d._regs j Field.reg_0x0112_cfb_tia_rfe)
    (hres : ∀ d a b, (E.set_addrs_to_default d channel a b)._regs j
        Field.reg_0x0112_cfb_tia_rfe
      = if a ≤ 0x0112 ∧ 0x0112 ≤ b then dflt else d._regs j Field.reg_0x0112_cfb_tia_rfe) :
    (rx_cal_init E s channel).2.self._regs j Field.reg_0x0112_cfb_tia_rfe = dflt := by
  obtain ⟨k1, k2, k3, k4⟩ := hk
  simp only [rx_cal_init]
  split_ifs <;>
    simp [LMS7002M_regs_spi_write, LMS7002M_set_mac_ch, set_addrs_to_default,
      LMS7002M_afe_enable, LMS7002M_set_lo_freq, LMS7002M_txtsp_tsg_const, k1, k2, h3, h4, h5,
      hres, Run.set_map]

theorem simResetExt_resets (dflt : Int) (d : LMS7002M_t Unit) (a b : Nat) :
    ((simResetExt dflt).set_addrs_to_default d LMS7002M_chan_t.LMS_CHA a b)._regs 0
        Field.reg_0x0112_cfb_tia_rfe
      = if a ≤ 0x0112 ∧ 0x0112 ≤ b then dflt else d._regs 0 Field.reg_0x0112_cfb_tia_rfe := by
  simp [simResetExt, simSel, Field.addr]

theorem simResetExt_clocks (dflt v : Int) (channel : LMS7002M_chan_t) :
    ((simResetExt dflt).set_mac_ch (simRun v).self channel).cgen_fref ≠ 0 ∧
    ((simResetExt dflt).set_mac_ch (simRun v).self channel).sxr_fref ≠ 0 ∧
    ((simResetExt dflt).set_mac_ch (simRun v).self channel).sxt_fref ≠ 0 := by
  simp [simResetExt, simRun, simDev]
/-- C11 on the simulated chip with the register resets, for a request of
10 MHz on channel A. -/
theorem C11_relock_failure_witness :
    (LMS7002M_rbb_set_filter_bw (simResetExt 0) (simRun 5) LMS7002M_chan_t.LMS_CHA 10000000
      none).1 ≠ 0 ∧
    samples ((LMS7002M_rbb_set_filter_bw (simResetExt 0) (simRun 5) LMS7002M_chan_t.LMS_CHA
      10000000 none).2.1.calls (simRun 5)) = [] ∧
    logged LogMsg.reg_value ((LMS7002M_rbb_set_filter_bw (simResetExt 0) (simRun 5)
      LMS7002M_chan_t.LMS_CHA 10000000 none).2.1.calls (simRun 5)) = 0 ∧
    (∀ f ∈ trimFields,
      (LMS7002M_rbb_set_filter_bw (simResetExt 0) (simRun 5) LMS7002M_chan_t.LMS_CHA 10000000
        none).2.1.self._regs 0 f
        = (rx_cal_init (simResetExt 0)
            (cal_setup_cgen (simResetExt 0)
              (LMS7002M_set_mac_ch (simResetExt 0) (simRun 5) LMS7002M_chan_t.LMS_CHA)
              (LMS7002M_rbb_set_filter_bw.bw 10000000)).2
            LMS7002M_chan_t.LMS_CHA).2.self._regs 0 f) ∧
    (∀ f ∈ trimFields, (simResetExt 0).InitKeeps 0 f →
      (LMS7002M_rbb_set_filter_bw (simResetExt 0) (simRun 5) LMS7002M_chan_t.LMS_CHA 10000000
        none).2.1.self._regs 0 f = (simRun 5).self._regs 0 f) :=
  C11_relock_failure (simResetExt 0) (simRun 5) LMS7002M_chan_t.LMS_CHA 10000000 none 0
    (simResetExt_selects 0 LMS7002M_chan_t.LMS_CHA) (fun f _ => simResetExt_keeps 0 0 f)
    (simResetExt_clocks 0 5 LMS7002M_chan_t.LMS_CHA).1
    (simResetExt_clocks 0 5 LMS7002M_chan_t.LMS_CHA).2.1
    (simResetExt_clocks 0 5 LMS7002M_chan_t.LMS_CHA).2.2
    (by rw [bw_of_ge_one _ (by norm_num)]; norm_num) rfl
    (fun d f1 f2 => by rw [simResetExt_fails]; decide)

/-- C11 as stated fails: on the simulated chip on which the transmit
oscillator does not lock and `set_addrs_to_default` resets the registers it is
given to the default `0`, a request of 10 MHz on channel A fails, and the trim
field `cfb_tia_rfe`, which held `5` before the call, holds `0` after it. -/
theorem C11_trim_reset_counterexample :
    (∀ d f1 f2, ((simResetExt 0).set_lo_freq d LMS7002M_dir_t.LMS_TX f1 f2).1 = -1) ∧
    (LMS7002M_rbb_set_filter_bw (simResetExt 0) (simRun 5) LMS7002M_chan_t.LMS_CHA 10000000
      none).1 ≠ 0 ∧
    Field.reg_0x0112_cfb_tia_rfe ∈ trimFields ∧
    LMS7002M_regs (simRun 5).self Field.reg_0x0112_cfb_tia_rfe = 5 ∧
    LMS7002M_regs (LMS7002M_rbb_set_filter_bw (simResetExt 0) (simRun 5)
      LMS7002M_chan_t.LMS_CHA 10000000 none).2.1.self Field.reg_0x0112_cfb_tia_rfe = 0 := by
  obtain ⟨r1, -, r3⟩ := LMS7002M_rbb_set_filter_bw.relock_fails (simResetExt 0) (simRun 5)
    LMS7002M_chan_t.LMS_CHA 10000000 none 0
    (simResetExt_selects 0 LMS7002M_chan_t.LMS_CHA) (fun f _ => simResetExt_keeps 0 0 f)
    (simResetExt_clocks 0 5 LMS7002M_chan_t.LMS_CHA).1
    (simResetExt_clocks 0 5 LMS7002M_chan_t.LMS_CHA).2.1
    (simResetExt_clocks 0 5 LMS7002M_chan_t.LMS_CHA).2.2
    (by rw [bw_of_ge_one _ (by norm_num)]; norm_num) rfl
    (fun d f1 f2 => by rw [simResetExt_fails]; decide)
  refine ⟨fun d f1 f2 => simResetExt_fails 0 d f1 f2, r1, by decide, rfl, ?_⟩
  have hregs : (LMS7002M_rbb_set_filter_bw (simResetExt 0) (simRun 5) LMS7002M_chan_t.LMS_CHA
      10000000 none).2.1.self.regs = 0 := by
    rw [LMS7002M_rbb_set_filter_bw.past_check _ _ _ _ _
      (simResetExt_clocks 0 5 LMS7002M_chan_t.LMS_CHA).1
      (simResetExt_clocks 0 5 LMS7002M_chan_t.LMS_CHA).2.1
      (simResetExt_clocks 0 5 LMS7002M_chan_t.LMS_CHA).2.2]
    rfl
  rw [LMS7002M_regs, hregs, r3 _ (by decide)]
  exact rx_cal_init_resets (simResetExt 0) _ LMS7002M_chan_t.LMS_CHA 0 0
    (simResetExt_keeps 0 0 _) (fun _ _ _ _ => rfl) (fun _ _ _ _ => rfl) (fun _ _ _ _ => rfl)
    (fun d a b => simResetExt_resets 0 d a b)

/-! ## The search engine: the clamp on power-of-two ranges -/

/-- The pass of the source is the pass without the clamp, followed by the
clamp (lines 85 to 89). -/
theorem rx_cal_loop_inner.body_clamp (E : Ext σ) (channel : LMS7002M_chan_t)
    (reg_ptr : RegPtr) (reg_addr : Nat) (reg_max desired : Int) (v : SearchVars σ) :
    rx_cal_loop_inner.body E channel reg_ptr reg_addr reg_max desired v
      = { rx_cal_loop_inner.adjust E channel reg_ptr reg_addr desired v with
          s := if (rx_cal_loop_inner.adjust E channel reg_ptr reg_addr desired v).s.load
                reg_ptr < 0 then
              (rx_cal_loop_inner.adjust E channel reg_ptr reg_addr desired v).s.store reg_ptr 0
            else if (rx_cal_loop_inner.adjust E channel reg_ptr reg_addr desired v).s.load
                reg_ptr > reg_max then
              (rx_cal_loop_inner.adjust E channel reg_ptr reg_addr desired v).s.store
                reg_ptr reg_max
            else (rx_cal_loop_inner.adjust E channel reg_ptr reg_addr desired v).s } := rfl

/-- A pass whose adjusted code lies within `[0, reg_max]` takes neither branch
of the clamp. -/
theorem rx_cal_loop_inner.body_eq_adjust (E : Ext σ) (channel : LMS7002M_chan_t)
    (reg_ptr : RegPtr) (reg_addr : Nat) (reg_max desired : Int) (v : SearchVars σ)
    (h0 : 0 ≤ (rx_cal_loop_inner.adjust E channel reg_ptr reg_addr desired v).s.load reg_ptr)
    (h1 : (rx_cal_loop_inner.adjust E channel reg_ptr reg_addr desired v).s.load reg_ptr
      ≤ reg_max) :
    rx_cal_loop_inner.body E channel reg_ptr reg_addr reg_max desired v
      = rx_cal_loop_inner.adjust E channel reg_ptr reg_addr desired v := by
  rw [rx_cal_loop_inner.body_clamp, if_neg (not_lt.mpr h0), if_neg (not_lt.mpr h1)]

/-- The code a pass computes before the clamp. -/
theorem rx_cal_loop_inner.adjust_load (E : Ext σ) (channel : LMS7002M_chan_t)
    (reg_ptr : RegPtr) (reg_addr : Nat) (desired : Int) (v : SearchVars σ)
    (hE : E.KeepsCell reg_ptr) :
    (rx_cal_loop_inner.adjust E channel reg_ptr reg_addr desired v).s.load reg_ptr
      = if (E.cal_read_rssi (E.regs_spi_write v.s.self reg_addr) channel).1 < desired
        then v.s.load reg_ptr - Int.tdiv v.range 2 else v.s.load reg_ptr + Int.tdiv v.range 2 := by
  simp only [rx_cal_loop_inner.adjust, LMS7_logf_load, pass_load hE, cal_read_rssi_fst]
  split_ifs <;> simp

/-- The last pass of a run is one of its passes. -/
theorem rx_cal_loop_inner.do_while_pass (E : Ext σ) (channel : LMS7002M_chan_t)
    (reg_ptr : RegPtr) (reg_addr : Nat) (reg_max desired : Int) (v₀ : SearchVars σ) :
    ∃ v, rx_cal_loop_inner.Pass E channel reg_ptr reg_addr reg_max desired v₀ v ∧
      Int.tdiv v.range 2 = 0 ∧
      rx_cal_loop_inner.do_while E channel reg_ptr reg_addr reg_max desired v₀
        = rx_cal_loop_inner.body E channel reg_ptr reg_addr reg_max desired v :=
  rx_cal_loop_inner.do_while_rule E channel reg_ptr reg_addr reg_max desired
    (fun w => rx_cal_loop_inner.Pass E channel reg_ptr reg_addr reg_max desired v₀ w)
    (fun w => ∃ v, rx_cal_loop_inner.Pass E channel reg_ptr reg_addr reg_max desired v₀ v ∧
      Int.tdiv v.range 2 = 0 ∧
      w = rx_cal_loop_inner.body E channel reg_ptr reg_addr reg_max desired v)
    (fun w hw h => rx_cal_loop_inner.Pass.next w hw h)
    (fun w hw h => ⟨w, hw, h, rfl⟩) v₀ rx_cal_loop_inner.Pass.first

/-- On a range `2 ^ m` below `2 ^ k`, a code that is an odd multiple of the
range within `[2 ^ m, 2 ^ k - 2 ^ m]` is adjusted to a code within
`[0, 2 ^ k - 1]`, which is odd when the range was `1` and an odd multiple of
the halved range otherwise. -/
theorem rx_cal_loop_inner.adjust_odd (E : Ext σ) (channel : LMS7002M_chan_t)
    (reg_ptr : RegPtr) (reg_addr : Nat) (desired : Int) (k : Nat) (v : SearchVars σ)
    (hE : E.KeepsCell reg_ptr) (m : Nat) (q : Int) (hm : m < k) (hr : v.range = 2 ^ m)
    (hq : v.s.load reg_ptr = 2 ^ m * (2 * q + 1)) (hlo : 2 ^ m ≤ v.s.load reg_ptr)
    (hhi : v.s.load reg_ptr ≤ 2 ^ k - 2 ^ m) :
    0 ≤ (rx_cal_loop_inner.adjust E channel reg_ptr reg_addr desired v).s.load reg_ptr ∧
    (rx_cal_loop_inner.adjust E channel reg_ptr reg_addr desired v).s.load reg_ptr
      ≤ 2 ^ k - 1 ∧
    (m = 0 →
      (rx_cal_loop_inner.adjust E channel reg_ptr reg_addr desired v).s.load reg_ptr % 2 = 1 ∧
      1 ≤ (rx_cal_loop_inner.adjust E channel reg_ptr reg_addr desired v).s.load reg_ptr) ∧
    (∀ m', m = m' + 1 → ∃ q',
      (rx_cal_loop_inner.adjust E channel reg_ptr reg_addr desired v).s.load reg_ptr
        = 2 ^ m' * (2 * q' + 1) ∧
      2 ^ m' ≤ (rx_cal_loop_inner.adjust E channel reg_ptr reg_addr desired v).s.load
        reg_ptr ∧
      (rx_cal_loop_inner.adjust E channel reg_ptr reg_addr desired v).s.load reg_ptr
        ≤ 2 ^ k - 2 ^ m') := by
  rw [rx_cal_loop_inner.adjust_load E channel reg_ptr reg_addr desired v hE, hr]
  have hpm : (0 : Int) < 2 ^ m := two_pow_pos_int m
  have hpk : (2 : Int) ^ m ≤ 2 ^ k := pow_le_pow_right₀ (by norm_num) (by omega)
  cases m with
  | zero =>
    simp only [pow_zero] at hq hlo hhi hpk ⊢
    have ht : Int.tdiv 1 2 = 0 := by decide
    rw [ht]
    refine ⟨by split_ifs <;> omega, by split_ifs <;> omega,
      fun _ => ⟨by split_ifs <;> omega, by split_ifs <;> omega⟩, ?_⟩
    intro m' h
    omega
  | succ n =>
    rw [tdiv_two_pow_succ]
    have e1 : (2 : Int) ^ (n + 1) = 2 * 2 ^ n := by ring
    have hpn : (0 : Int) < 2 ^ n := two_pow_pos_int n
    rw [e1] at hlo hhi hpk
    refine ⟨by split_ifs <;> omega, by split_ifs <;> omega, fun h => by omega, ?_⟩
    intro m' h
    obtain rfl : n = m' := by omega
    split_ifs
    · exact ⟨2 * q, by rw [hq]; ring, by omega, by omega⟩
    · exact ⟨2 * q + 1, by rw [hq]; ring, by omega, by omega⟩
/-- Every pass of a search over `[0, 2 ^ k - 1]` begins with a range `2 ^ m`,
`m < k`, and a code that is an odd multiple of that range within
`[2 ^ m, 2 ^ k - 2 ^ m]`. -/
theorem rx_cal_loop_inner.pass_odd (E : Ext σ) (s : Run σ) (channel : LMS7002M_chan_t)
    (reg_ptr : RegPtr) (reg_addr : Nat) (desired : Int) (k : Nat) (hk : 1 ≤ k)
    (hE : E.KeepsCell reg_ptr) (v : SearchVars σ)
    (hv : rx_cal_loop_inner.Pass E channel reg_ptr reg_addr (2 ^ k - 1) desired
      { s := s.store reg_ptr (Int.tdiv (2 ^ k - 1 + 1) 2), rssi_value := 0, best_lo := -1,
        best_hi := -1, range := Int.tdiv (2 ^ k - 1 + 1) 2 } v) :
    ∃ m q, m < k ∧ v.range = 2 ^ m ∧ v.s.load reg_ptr = 2 ^ m * (2 * q + 1) ∧
      2 ^ m ≤ v.s.load reg_ptr ∧ v.s.load reg_ptr ≤ 2 ^ k - 2 ^ m := by
  induction hv with
  | first =>
    obtain ⟨k', rfl⟩ : ∃ k', k = k' + 1 := ⟨k - 1, by omega⟩
    have hstart : Int.tdiv ((2 : Int) ^ (k' + 1) - 1 + 1) 2 = 2 ^ k' := by
      rw [sub_add_cancel]
      exact tdiv_two_pow_succ k'
    rw [hstart]
    have e2 : (2 : Int) ^ (k' + 1) = 2 * 2 ^ k' := by ring
    refine ⟨k', 0, by omega, rfl, ?_, ?_, ?_⟩
    · simp only [Run.load_store]
      ring
    · simp only [Run.load_store]
      exact le_refl _
    · simp only [Run.load_store]
      omega
  | next w _ h2 ih =>
    obtain ⟨m, q, hm, hr, hq, hlo, hhi⟩ := ih
    obtain ⟨h0, h1, -, hnext⟩ := rx_cal_loop_inner.adjust_odd E channel reg_ptr reg_addr
      desired k w hE m q hm hr hq hlo hhi
    obtain ⟨m', rfl⟩ : ∃ m', m = m' + 1 := by
      cases m with
      | zero =>
        rw [hr] at h2
        exact absurd (by decide) h2
      | succ m' => exact ⟨m', rfl⟩
    obtain ⟨q', e1, e2, e3⟩ := hnext m' rfl
    rw [rx_cal_loop_inner.body_eq_adjust E channel reg_ptr reg_addr _ desired w h0 h1]
    refine ⟨m', q', by omega, ?_, e1, e2, e3⟩
    show Int.tdiv w.range 2 = 2 ^ m'
    rw [hr]
    exact tdiv_two_pow_succ m'

/-- C21: for every trim register with `reg_max = 2 ^ k - 1`, `k ≥ 1` (the
claim's `k ≥ 2` included), every target and every power reader, the clamp of
`rx_cal_loop_inner` never fires: in every pass of the search the adjusted code
is within `[0, reg_max]`, so that the pass is the pass without the clamp.  The
code the search leaves in the trim register is odd and within `[1, reg_max]`,
hence never `0` and never even; a search whose readings are all below the
target leaves `1`, and one whose readings are all at or above the target
leaves `reg_max`.  The bus write and the power reader are taken to leave the
trim register's field of the register map as it is. -/
theorem C21_clamp_never_fires (E : Ext σ) (s : Run σ) (channel : LMS7002M_chan_t)
    (reg_ptr : RegPtr) (reg_addr : Nat) (reg_name : Field) (desired : Int) (k : Nat)
    (hk : 1 ≤ k) (hE : E.KeepsCell reg_ptr) :
    (∀ v, rx_cal_loop_inner.Pass E channel reg_ptr reg_addr (2 ^ k - 1) desired
        { s := s.store reg_ptr (Int.tdiv (2 ^ k - 1 + 1) 2), rssi_value := 0, best_lo := -1,
          best_hi := -1, range := Int.tdiv (2 ^ k - 1 + 1) 2 } v →
      0 ≤ (rx_cal_loop_inner.adjust E channel reg_ptr reg_addr desired v).s.load reg_ptr ∧
      (rx_cal_loop_inner.adjust E channel reg_ptr reg_addr desired v).s.load reg_ptr
        ≤ 2 ^ k - 1 ∧
      rx_cal_loop_inner.body E channel reg_ptr reg_addr (2 ^ k - 1) desired v
        = rx_cal_loop_inner.adjust E channel reg_ptr reg_addr desired v) ∧
    ((rx_cal_loop_inner E s channel reg_ptr reg_addr (2 ^ k - 1) reg_name desired).2.load
        reg_ptr % 2 = 1 ∧
      1 ≤ (rx_cal_loop_inner E s channel reg_ptr reg_addr (2 ^ k - 1) reg_name desired).2.load
        reg_ptr ∧
      (rx_cal_loop_inner E s channel reg_ptr reg_addr (2 ^ k - 1) reg_name desired).2.load
        reg_ptr ≤ 2 ^ k - 1) ∧
    ((∀ d ch, (E.cal_read_rssi d ch).1 < desired) →
      (rx_cal_loop_inner E s channel reg_ptr reg_addr (2 ^ k - 1) reg_name desired).2.load
        reg_ptr = 1) ∧
    ((∀ d ch, ¬ (E.cal_read_rssi d ch).1 < desired) →
      (rx_cal_loop_inner E s channel reg_ptr reg_addr (2 ^ k - 1) reg_name desired).2.load
        reg_ptr = 2 ^ k - 1) := by
  have hmax : (0 : Int) ≤ 2 ^ k - 1 := by
    have := two_pow_pos_int k
    omega
  have hpass : ∀ v, rx_cal_loop_inner.Pass E channel reg_ptr reg_addr (2 ^ k - 1) desired
      { s := s.store reg_ptr (Int.tdiv (2 ^ k - 1 + 1) 2), rssi_value := 0, best_lo := -1,
        best_hi := -1, range := Int.tdiv (2 ^ k - 1 + 1) 2 } v →
      0 ≤ (rx_cal_loop_inner.adjust E channel reg_ptr reg_addr desired v).s.load reg_ptr ∧
      (rx_cal_loop_inner.adjust E channel reg_ptr reg_addr desired v).s.load reg_ptr
        ≤ 2 ^ k - 1 ∧
      rx_cal_loop_inner.body E channel reg_ptr reg_addr (2 ^ k - 1) desired v
        = rx_cal_loop_inner.adjust E channel reg_ptr reg_addr desired v := by
    intro v hv
    obtain ⟨m, q, hm, hr, hq, hlo, hhi⟩ :=
      rx_cal_loop_inner.pass_odd E s channel reg_ptr reg_addr desired k hk hE v hv
    obtain ⟨h0, h1, -, -⟩ := rx_cal_loop_inner.adjust_odd E channel reg_ptr reg_addr
      desired k v hE m q hm hr hq hlo hhi
    exact ⟨h0, h1,
      rx_cal_loop_inner.body_eq_adjust E channel reg_ptr reg_addr _ desired v h0 h1⟩
  refine ⟨hpass, ?_, ?_, ?_⟩
  · obtain ⟨v, hv, hself, -, -⟩ :=
      rx_cal_loop_inner.unfold E s channel reg_ptr reg_addr (2 ^ k - 1) reg_name desired
    have hload : (rx_cal_loop_inner E s channel reg_ptr reg_addr (2 ^ k - 1) reg_name
        desired).2.load reg_ptr = v.s.load reg_ptr := by
      show LMS7002M_t.load _ reg_ptr = LMS7002M_t.load _ reg_ptr
      rw [hself]
    obtain ⟨w, hw, h2, hlast⟩ := rx_cal_loop_inner.do_while_pass E channel reg_ptr reg_addr
      (2 ^ k - 1) desired
      { s := s.store reg_ptr (Int.tdiv (2 ^ k - 1 + 1) 2), rssi_value := 0, best_lo := -1,
        best_hi := -1, range := Int.tdiv (2 ^ k - 1 + 1) 2 }
    obtain ⟨m, q, hm, hr, hq, hlo, hhi⟩ :=
      rx_cal_loop_inner.pass_odd E s channel reg_ptr reg_addr desired k hk hE w hw
    obtain ⟨h0, h1, hodd, -⟩ := rx_cal_loop_inner.adjust_odd E channel reg_ptr reg_addr
      desired k w hE m q hm hr hq hlo hhi
    have hm0 : m = 0 := by
      cases m with
      | zero => rfl
      | succ m' =>
        rw [hr, tdiv_two_pow_succ] at h2
        exact absurd h2 (two_pow_pos_int m').ne'
    rw [hload, hv, hlast,
      rx_cal_loop_inner.body_eq_adjust E channel reg_ptr reg_addr _ desired w h0 h1]
    exact ⟨(hodd hm0).1, (hodd hm0).2, h1⟩
  · intro hlow
    exact (rx_cal_loop_inner.ends_at E s channel reg_ptr reg_addr reg_name desired k hk hE).2
      (rx_cal_loop_inner.high_of_low E s channel reg_ptr reg_addr (2 ^ k - 1) reg_name desired
        hmax hE hlow)
  · intro hhigh
    exact (rx_cal_loop_inner.ends_at E s channel reg_ptr reg_addr reg_name desired k hk hE).1
      (rx_cal_loop_inner.low_of_high E s channel reg_ptr reg_addr (2 ^ k - 1) reg_name desired
        hhigh)
theorem C21_clamp_never_fires_witness :
    (∀ v, rx_cal_loop_inner.Pass (simExt (fun c => if c ≤ 11 then 100 else 0) simPtr 0)
        LMS7002M_chan_t.LMS_CHA simPtr 0x0116 (2 ^ 5 - 1) 10
        { s := (simRun 0).store simPtr (Int.tdiv (2 ^ 5 - 1 + 1) 2), rssi_value := 0,
          best_lo := -1, best_hi := -1, range := Int.tdiv (2 ^ 5 - 1 + 1) 2 } v →
      0 ≤ (rx_cal_loop_inner.adjust (simExt (fun c => if c ≤ 11 then 100 else 0) simPtr 0)
        LMS7002M_chan_t.LMS_CHA simPtr 0x0116 10 v).s.load simPtr ∧
      (rx_cal_loop_inner.adjust (simExt (fun c => if c ≤ 11 then 100 else 0) simPtr 0)
        LMS7002M_chan_t.LMS_CHA simPtr 0x0116 10 v).s.load simPtr ≤ 2 ^ 5 - 1 ∧
      rx_cal_loop_inner.body (simExt (fun c => if c ≤ 11 then 100 else 0) simPtr 0)
          LMS7002M_chan_t.LMS_CHA simPtr 0x0116 (2 ^ 5 - 1) 10 v
        = rx_cal_loop_inner.adjust (simExt (fun c => if c ≤ 11 then 100 else 0) simPtr 0)
          LMS7002M_chan_t.LMS_CHA simPtr 0x0116 10 v) ∧
    ((rx_cal_loop_inner (simExt (fun c => if c ≤ 11 then 100 else 0) simPtr 0) (simRun 0)
        LMS7002M_chan_t.LMS_CHA simPtr 0x0116 (2 ^ 5 - 1) Field.reg_0x0116_r_ctl_lpf_rbb
        10).2.load simPtr % 2 = 1 ∧
      1 ≤ (rx_cal_loop_inner (simExt (fun c => if c ≤ 11 then 100 else 0) simPtr 0) (simRun 0)
        LMS7002M_chan_t.LMS_CHA simPtr 0x0116 (2 ^ 5 - 1) Field.reg_0x0116_r_ctl_lpf_rbb
        10).2.load simPtr ∧
      (rx_cal_loop_inner (simExt (fun c => if c ≤ 11 then 100 else 0) simPtr 0) (simRun 0)
        LMS7002M_chan_t.LMS_CHA simPtr 0x0116 (2 ^ 5 - 1) Field.reg_0x0116_r_ctl_lpf_rbb
        10).2.load simPtr ≤ 2 ^ 5 - 1) ∧
    ((∀ d ch, ((simExt (fun c => if c ≤ 11 then 100 else 0) simPtr 0).cal_read_rssi d ch).1
        < 10) →
      (rx_cal_loop_inner (simExt (fun c => if c ≤ 11 then 100 else 0) simPtr 0) (simRun 0)
        LMS7002M_chan_t.LMS_CHA simPtr 0x0116 (2 ^ 5 - 1) Field.reg_0x0116_r_ctl_lpf_rbb
        10).2.load simPtr = 1) ∧
    ((∀ d ch, ¬ ((simExt (fun c => if c ≤ 11 then 100 else 0) simPtr 0).cal_read_rssi d ch).1
        < 10) →
      (rx_cal_loop_inner (simExt (fun c => if c ≤ 11 then 100 else 0) simPtr 0) (simRun 0)
        LMS7002M_chan_t.LMS_CHA simPtr 0x0116 (2 ^ 5 - 1) Field.reg_0x0116_r_ctl_lpf_rbb
        10).2.load simPtr = 2 ^ 5 - 1) :=
  C21_clamp_never_fires (simExt (fun c => if c ≤ 11 then 100 else 0) simPtr 0) (simRun 0)
    LMS7002M_chan_t.LMS_CHA simPtr 0x0116 Field.reg_0x0116_r_ctl_lpf_rbb 10 5 (by decide)
    ⟨fun _ _ => rfl, fun _ _ => rfl⟩

/-! ## The outer loop from the reset value of the resistor trim -/

/-- The retries of `rx_cal_loop` when the coupled resistor trim is far enough
from both ends: with a step `r_range` between `2 ^ (n - 1)` and `2 ^ n - 1`
(`0` for `n = 0`) and the trim `r` within `[max 1 (2 r_range), 32 - max 1
(2 r_range)]`, every retry moves the trim by exactly the step, the values
reached are within `[1, 31]`, there are at most `n` retries, one run of the
search more than retries, and the loop fails only after `n` retries. -/
theorem rx_cal_loop.for_ever_exact (E : Ext σ) (channel : LMS7002M_chan_t) (reg_ptr : RegPtr)
    (reg_addr : Nat) (reg_max : Int) (reg_name : Field) (desired : Int) (j : Fin 2)
    (hs : E.Selects channel j) (hk : E.Keeps j Field.reg_0x0116_r_ctl_lpf_rbb)
    (hm : E.MeasureKeeps j Field.reg_0x0116_r_ctl_lpf_rbb)
    (hp : reg_ptr ≠ ⟨j, Field.reg_0x0116_r_ctl_lpf_rbb⟩) :
    ∀ (n r_range : Nat) (s : Run σ), r_range < 2 ^ n → 2 ^ n ≤ 2 * r_range + 1 →
      s.self.regs = j →
      1 ≤ s.self._regs j Field.reg_0x0116_r_ctl_lpf_rbb →
      2 * (r_range : Int) ≤ s.self._regs j Field.reg_0x0116_r_ctl_lpf_rbb →
      s.self._regs j Field.reg_0x0116_r_ctl_lpf_rbb ≤ 31 →
      s.self._regs j Field.reg_0x0116_r_ctl_lpf_rbb + 2 * (r_range : Int) ≤ 32 →
      ∃ l, (rx_cal_loop.for_ever E channel reg_ptr reg_addr reg_max reg_name desired s
          r_range).2.trace = s.trace ++ l ∧
        exactChain (s.self._regs j Field.reg_0x0116_r_ctl_lpf_rbb) r_range (outcomes l)
          (rValues l) ∧
        (∀ x ∈ rValues l, 1 ≤ x ∧ x ≤ 31) ∧
        (rx_cal_loop.for_ever E channel reg_ptr reg_addr reg_max reg_name desired s
          r_range).2.self._regs j Field.reg_0x0116_r_ctl_lpf_rbb
          = ((rValues l).getLast?).getD (s.self._regs j Field.reg_0x0116_r_ctl_lpf_rbb) ∧
        (outcomes l).length = (rValues l).length + 1 ∧
        (rValues l).length ≤ n ∧
        ((rx_cal_loop.for_ever E channel reg_ptr reg_addr reg_max reg_name desired s
          r_range).1 ≠ 0 → (rValues l).length = n) := by
  intro n
  induction n with
  | zero =>
    intro r_range s hr _ hj h1 _ h31 _
    have hz : r_range = 0 := by simpa using hr
    obtain ⟨i1, i2, l, hl, r1, r2⟩ := rx_cal_loop_inner.inner_keeps E s channel reg_ptr
      reg_addr reg_max reg_name desired j _ hs hk hm hp
    have fin : ∀ st : Int, ∃ l, (st, (rx_cal_loop_inner E s channel reg_ptr reg_addr reg_max
          reg_name desired).2).2.trace = s.trace ++ l ∧
        exactChain (s.self._regs j Field.reg_0x0116_r_ctl_lpf_rbb) r_range (outcomes l)
          (rValues l) ∧
        (∀ x ∈ rValues l, 1 ≤ x ∧ x ≤ 31) ∧
        (st, (rx_cal_loop_inner E s channel reg_ptr reg_addr reg_max reg_name
          desired).2).2.self._regs j Field.reg_0x0116_r_ctl_lpf_rbb
          = ((rValues l).getLast?).getD (s.self._regs j Field.reg_0x0116_r_ctl_lpf_rbb) ∧
        (outcomes l).length = (rValues l).length + 1 ∧
        (rValues l).length ≤ 0 ∧
        ((st, (rx_cal_loop_inner E s channel reg_ptr reg_addr reg_max reg_name
          desired).2).1 ≠ 0 → (rValues l).length = 0) :=
      fun st => ⟨l, hl, by rw [r1]; simp [exactChain], by rw [r1]; simp, by rw [r1]; exact i2,
        by rw [r1, r2]; rfl, by rw [r1]; exact le_refl _, fun _ => by rw [r1]; rfl⟩
    rw [rx_cal_loop.for_ever]
    split
    · exact fin 0
    · rw [dif_pos (Or.inr hz)]
      exact fin (-1)
    · rw [dif_pos (Or.inr hz)]
      exact fin (-1)
  | succ n ih =>
    intro r_range s hr hsz hj h1 h2 h31 h32
    have hpn : 0 < 2 ^ n := Nat.pos_pow_of_pos n (by decide)
    rw [pow_succ] at hr hsz
    have hhalf : r_range / 2 < 2 ^ n := by omega
    have hhalf2 : 2 ^ n ≤ 2 * (r_range / 2) + 1 := by omega
    have hr0 : 0 < r_range := by omega
    obtain ⟨i1, i2, l, hl, r1, r2⟩ := rx_cal_loop_inner.inner_keeps E s channel reg_ptr
      reg_addr reg_max reg_name desired j _ hs hk hm hp
    have hget : (rx_cal_loop_inner E s channel reg_ptr reg_addr reg_max reg_name
        desired).2.get Field.reg_0x0116_r_ctl_lpf_rbb
        = s.self._regs j Field.reg_0x0116_r_ctl_lpf_rbb := by
      rw [Run.get_eq, i1, hj, i2]
    rw [rx_cal_loop.for_ever]
    split
    · refine ⟨l, hl, by rw [r1]; simp [exactChain], by rw [r1]; simp, by rw [r1]; exact i2,
        by rw [r1, r2]; rfl, by rw [r1]; exact Nat.zero_le _, fun h => absurd rfl h⟩
    · rename_i heq
      have hc : ¬ ((rx_cal_loop_inner E s channel reg_ptr reg_addr reg_max reg_name
          desired).2.get Field.reg_0x0116_r_ctl_lpf_rbb = 0 ∨ r_range = 0) := by
        rw [hget]
        omega
      rw [dif_neg hc]
      obtain ⟨c1, c2, lc, hlc, c3, c4⟩ := rx_cal_loop.retry_keeps E
        (rx_cal_loop_inner E s channel reg_ptr reg_addr reg_max reg_name desired).2
        channel j (-(r_range : Int)) hs hk (i1.trans hj)
      simp only [← sub_eq_add_neg] at c1 c2 c3 hlc
      rw [i2] at c2 c3
      have hx : max 0 (min 31 (s.self._regs j Field.reg_0x0116_r_ctl_lpf_rbb - r_range))
          = s.self._regs j Field.reg_0x0116_r_ctl_lpf_rbb - r_range := by
        rw [min_eq_right (by omega), max_eq_right (by omega)]
      rw [hx] at c2 c3
      obtain ⟨l', hl', q1, q2, q3, q4, q5, q6⟩ := ih (r_range / 2) _ hhalf hhalf2 c1
        (by rw [c2]; omega) (by rw [c2]; omega) (by rw [c2]; omega) (by rw [c2]; omega)
      rw [hlc, hl, List.append_assoc, List.append_assoc] at hl'
      rw [c2] at q1 q3
      refine ⟨_, hl', ?_, ?_, ?_, ?_, ?_, ?_⟩
      · rw [outcomes_append, outcomes_append, rValues_append, rValues_append, r1, r2, c3, c4,
          heq]
        have b0 : 0 ≤ s.self._regs j Field.reg_0x0116_r_ctl_lpf_rbb - r_range := by omega
        have b1 : s.self._regs j Field.reg_0x0116_r_ctl_lpf_rbb - r_range ≤ 31 := by omega
        simpa [exactChain, hr0, b0, b1] using q1
      · rw [rValues_append, rValues_append, r1, c3]
        intro x hx'
        simp only [List.nil_append, List.singleton_append, List.mem_cons] at hx'
        rcases hx' with rfl | hx'
        · exact ⟨by omega, by omega⟩
        · exact q2 x hx'
      · rw [rValues_append, rValues_append, r1, c3, q3]
        simp only [List.nil_append, List.singleton_append]
        rw [getLast_cons_getD]
      · rw [outcomes_append, outcomes_append, rValues_append, rValues_append, r1, r2, c3, c4]
        simp only [List.nil_append, List.singleton_append, List.length_cons, q4]
      · rw [rValues_append, rValues_append, r1, c3]
        simp only [List.nil_append, List.singleton_append, List.length_cons]
        omega
      · intro hst
        rw [rValues_append, rValues_append, r1, c3]
        simp only [List.nil_append, List.singleton_append, List.length_cons]
        rw [q6 hst]
    · rename_i heq
      have hc : ¬ ((rx_cal_loop_inner E s channel reg_ptr reg_addr reg_max reg_name
          desired).2.get Field.reg_0x0116_r_ctl_lpf_rbb = 31 ∨ r_range = 0) := by
        rw [hget]
        omega
      rw [dif_neg hc]
      obtain ⟨c1, c2, lc, hlc, c3, c4⟩ := rx_cal_loop.retry_keeps E
        (rx_cal_loop_inner E s channel reg_ptr reg_addr reg_max reg_name desired).2
        channel j (r_range : Int) hs hk (i1.trans hj)
      rw [i2] at c2 c3
      have hx : max 0 (min 31 (s.self._regs j Field.reg_0x0116_r_ctl_lpf_rbb + r_range))
          = s.self._regs j Field.reg_0x0116_r_ctl_lpf_rbb + r_range := by
        rw [min_eq_right (by omega), max_eq_right (by omega)]
      rw [hx] at c2 c3
      obtain ⟨l', hl', q1, q2, q3, q4, q5, q6⟩ := ih (r_range / 2) _ hhalf hhalf2 c1
        (by rw [c2]; omega) (by rw [c2]; omega) (by rw [c2]; omega) (by rw [c2]; omega)
      rw [hlc, hl, List.append_assoc, List.append_assoc] at hl'
      rw [c2] at q1 q3
      refine ⟨_, hl', ?_, ?_, ?_, ?_, ?_, ?_⟩
      · rw [outcomes_append, outcomes_append, rValues_append, rValues_append, r1, r2, c3, c4,
          heq]
        have b0 : 0 ≤ s.self._regs j Field.reg_0x0116_r_ctl_lpf_rbb + r_range := by omega
        have b1 : s.self._regs j Field.reg_0x0116_r_ctl_lpf_rbb + r_range ≤ 31 := by omega
        simpa [exactChain, hr0, b0, b1] using q1
      · rw [rValues_append, rValues_append, r1, c3]
        intro x hx'
        simp only [List.nil_append, List.singleton_append, List.mem_cons] at hx'
        rcases hx' with rfl | hx'
        · exact ⟨by omega, by omega⟩
        · exact q2 x hx'
      · rw [rValues_append, rValues_append, r1, c3, q3]
        simp only [List.nil_append, List.singleton_append]
        rw [getLast_cons_getD]
      · rw [outcomes_append, outcomes_append, rValues_append, rValues_append, r1, r2, c3, c4]
        simp only [List.nil_append, List.singleton_append, List.length_cons, q4]
      · rw [rValues_append, rValues_append, r1, c3]
        simp only [List.nil_append, List.singleton_append, List.length_cons]
        omega
      · intro hst
        rw [rValues_append, rValues_append, r1, c3]
        simp only [List.nil_append, List.singleton_append, List.length_cons]
        rw [q6 hst]
/-- The retries of `rx_cal_loop` entered with the coupled resistor trim at
`16`: see `for_ever_exact`. -/
theorem rx_cal_loop.loop_exact (E : Ext σ) (s : Run σ) (channel : LMS7002M_chan_t) (bw : ℚ)
    (reg_ptr : RegPtr) (reg_addr : Nat) (reg_max : Int) (reg_name : Field) (desired : Int)
    (j : Fin 2) (hs : E.Selects channel j) (hk : E.Keeps j Field.reg_0x0116_r_ctl_lpf_rbb)
    (hm : E.MeasureKeeps j Field.reg_0x0116_r_ctl_lpf_rbb)
    (hp : reg_ptr ≠ ⟨j, Field.reg_0x0116_r_ctl_lpf_rbb⟩)
    (h16 : s.self._regs j Field.reg_0x0116_r_ctl_lpf_rbb = 16) :
    ∃ l, (rx_cal_loop E s channel bw reg_ptr reg_addr reg_max reg_name desired).2.trace
        = s.trace ++ l ∧
      exactChain 16 8 (outcomes l) (rValues l) ∧
      (∀ x ∈ rValues l, 1 ≤ x ∧ x ≤ 31) ∧
      (rx_cal_loop E s channel bw reg_ptr reg_addr reg_max reg_name desired).2.self._regs j
          Field.reg_0x0116_r_ctl_lpf_rbb = ((rValues l).getLast?).getD 16 ∧
      (rValues l).length ≤ 4 ∧
      ((setup_rx_cal_tone E (LMS7002M_set_mac_ch E s channel) channel bw 50000).1 ≠ 0 →
        outcomes l = [] ∧ rValues l = []) ∧
      ((setup_rx_cal_tone E (LMS7002M_set_mac_ch E s channel) channel bw 50000).1 = 0 →
        (outcomes l).length = (rValues l).length + 1 ∧
        ((rx_cal_loop E s channel bw reg_ptr reg_addr reg_max reg_name desired).1 ≠ 0 →
          (outcomes l).length = 5 ∧ (rValues l).length = 4)) := by
  obtain ⟨t1, t2, lt, hlt, t3, t4⟩ := setup_rx_cal_tone_keeps E
    (LMS7002M_set_mac_ch E s channel) channel bw 50000 j _ hs hk hm
  have e0 : (LMS7002M_set_mac_ch E s channel).self._regs j Field.reg_0x0116_r_ctl_lpf_rbb
      = s.self._regs j Field.reg_0x0116_r_ctl_lpf_rbb := hk.1 _ _
  have et : (LMS7002M_set_mac_ch E s channel).trace = s.trace ++ [Event.set_mac_ch channel] :=
    rfl
  rw [e0, h16] at t2
  rw [et, List.append_assoc] at hlt
  have r0 : ∀ l, rValues ([Event.set_mac_ch channel] ++ lt ++ l) = rValues l := by
    intro l
    rw [rValues_append, rValues_append, t3]
    simp [rValues, Event.rValue]
  have o0 : ∀ l, outcomes ([Event.set_mac_ch channel] ++ lt ++ l) = outcomes l := by
    intro l
    rw [outcomes_append, outcomes_append, t4]
    simp [outcomes, Event.outcome]
  simp only [rx_cal_loop]
  split_ifs with hc
  · have r1 := r0 []
    have o1 := o0 []
    rw [List.append_nil] at r1 o1
    refine ⟨_, hlt, ?_, ?_, ?_, ?_, ?_, ?_⟩
    · rw [r1]
      simp [rValues, exactChain]
    · rw [r1]
      simp [rValues]
    · rw [r1]
      simpa [rValues] using t2
    · rw [r1]
      simp [rValues]
    · intro _
      rw [r1, o1]
      exact ⟨rfl, rfl⟩
    · intro h
      exact absurd h hc
  · obtain ⟨l, hl, q1, q2, q3, q4, q5, q6⟩ := rx_cal_loop.for_ever_exact E channel reg_ptr
      reg_addr reg_max reg_name desired j hs hk hm hp 4 8 _ (by decide) (by decide) t1
      (by rw [t2]; decide) (by rw [t2]; decide) (by rw [t2]; decide) (by rw [t2]; decide)
    rw [hlt, List.append_assoc] at hl
    rw [t2] at q1 q3
    refine ⟨_, hl, ?_, ?_, ?_, ?_, ?_, ?_⟩
    · rw [r0, o0]
      exact q1
    · rw [r0]
      exact q2
    · rw [r0]
      exact q3
    · rw [r0]
      exact q5
    · intro h
      exact absurd h hc
    · intro _
      rw [r0, o0]
      refine ⟨q4, fun hst => ?_⟩
      rw [q4, q6 hst]
      exact ⟨rfl, rfl⟩

/-- C22: when `rx_cal_loop` starts with the field `r_ctl_lpf_rbb` of the copy
`j` that the channel selects at `16` (the value `rx_cal_rbb_lpfl` and
`rx_cal_rbb_lpfh` set before they call it), then for every behaviour of the
chip, every target and every trim register searched, the checks `== 0` and
`== 31` never end the loop while `r_range > 0`: once the calibration tone is
set up, every run of the search but the last is followed by a retry, and the
loop returns a failure only after exactly `5` runs of the search and `4`
retries (a failure of the tone set-up is returned before the loop, with no
run and no retry).  Every retry moves `r_ctl_lpf_rbb` by exactly the step, to
a value within `[0, 31]` before the clamp, so that the clamp changes nothing;
the values so reached, and the value `rx_cal_loop` leaves, are within
`[1, 31]`.  The trim register searched is taken to be another field than
`r_ctl_lpf_rbb`, and the functions of the chip that the loop calls to leave
`r_ctl_lpf_rbb` and the selection of the copy alone. -/
theorem C22_reset_trim_stays_inside (E : Ext σ) (s : Run σ) (channel : LMS7002M_chan_t)
    (bw : ℚ) (reg_ptr : RegPtr) (reg_addr : Nat) (reg_max : Int) (reg_name : Field)
    (desired : Int) (j : Fin 2) (hs : E.Selects channel j)
    (hk : E.Keeps j Field.reg_0x0116_r_ctl_lpf_rbb)
    (hm : E.MeasureKeeps j Field.reg_0x0116_r_ctl_lpf_rbb)
    (hp : reg_ptr ≠ ⟨j, Field.reg_0x0116_r_ctl_lpf_rbb⟩)
    (h16 : s.self._regs j Field.reg_0x0116_r_ctl_lpf_rbb = 16) :
    exactChain 16 8
      (outcomes ((rx_cal_loop E s channel bw reg_ptr reg_addr reg_max reg_name
        desired).2.calls s))
      (rValues ((rx_cal_loop E s channel bw reg_ptr reg_addr reg_max reg_name
        desired).2.calls s)) ∧
    (∀ x ∈ rValues ((rx_cal_loop E s channel bw reg_ptr reg_addr reg_max reg_name
        desired).2.calls s), 1 ≤ x ∧ x ≤ 31) ∧
    (1 ≤ (rx_cal_loop E s channel bw reg_ptr reg_addr reg_max reg_name desired).2.self._regs j
        Field.reg_0x0116_r_ctl_lpf_rbb ∧
      (rx_cal_loop E s channel bw reg_ptr reg_addr reg_max reg_name desired).2.self._regs j
        Field.reg_0x0116_r_ctl_lpf_rbb ≤ 31) ∧
    (rValues ((rx_cal_loop E s channel bw reg_ptr reg_addr reg_max reg_name
      desired).2.calls s)).length ≤ 4 ∧
    ((setup_rx_cal_tone E (LMS7002M_set_mac_ch E s channel) channel bw 50000).1 ≠ 0 →
      outcomes ((rx_cal_loop E s channel bw reg_ptr reg_addr reg_max reg_name
        desired).2.calls s) = [] ∧
      rValues ((rx_cal_loop E s channel bw reg_ptr reg_addr reg_max reg_name
        desired).2.calls s) = []) ∧
    ((setup_rx_cal_tone E (LMS7002M_set_mac_ch E s channel) channel bw 50000).1 = 0 →
      (outcomes ((rx_cal_loop E s channel bw reg_ptr reg_addr reg_max reg_name
        desired).2.calls s)).length
        = (rValues ((rx_cal_loop E s channel bw reg_ptr reg_addr reg_max reg_name
          desired).2.calls s)).length + 1 ∧
      ((rx_cal_loop E s channel bw reg_ptr reg_addr reg_max reg_name desired).1 ≠ 0 →
        (outcomes ((rx_cal_loop E s channel bw reg_ptr reg_addr reg_max reg_name
          desired).2.calls s)).length = 5 ∧
        (rValues ((rx_cal_loop E s channel bw reg_ptr reg_addr reg_max reg_name
          desired).2.calls s)).length = 4)) := by
  obtain ⟨l, hl, q1, q2, q3, q4, q5, q6⟩ := rx_cal_loop.loop_exact E s channel bw reg_ptr
    reg_addr reg_max reg_name desired j hs hk hm hp h16
  rw [Run.calls_of_eq hl]
  refine ⟨q1, q2, ?_, q4, q5, q6⟩
  rw [q3]
  cases hlast : (rValues l).getLast? with
  | none => exact ⟨by decide, by decide⟩
  | some x => exact q2 x (List.mem_of_getLast?_eq_some hlast)

/-- C22 on the simulated chip: the low-band search on `c_ctl_lpfl_rbb` of
channel A with every reading `0`, started with `r_ctl_lpf_rbb` at `16`. -/
theorem C22_reset_trim_stays_inside_witness :
    exactChain 16 8
      (outcomes ((rx_cal_loop (simExt (fun _ => 0) simPtr 0) (simRun 16) LMS7002M_chan_t.LMS_CHA
        5000000 ⟨0, Field.reg_0x0117_c_ctl_lpfl_rbb⟩ 0x0117 2047
        Field.reg_0x0117_c_ctl_lpfl_rbb 10).2.calls (simRun 16)))
      (rValues ((rx_cal_loop (simExt (fun _ => 0) simPtr 0) (simRun 16) LMS7002M_chan_t.LMS_CHA
        5000000 ⟨0, Field.reg_0x0117_c_ctl_lpfl_rbb⟩ 0x0117 2047
        Field.reg_0x0117_c_ctl_lpfl_rbb 10).2.calls (simRun 16))) ∧
    (∀ x ∈ rValues ((rx_cal_loop (simExt (fun _ => 0) simPtr 0) (simRun 16)
        LMS7002M_chan_t.LMS_CHA
        5000000 ⟨0, Field.reg_0x0117_c_ctl_lpfl_rbb⟩ 0x0117 2047
        Field.reg_0x0117_c_ctl_lpfl_rbb 10).2.calls (simRun 16)), 1 ≤ x ∧ x ≤ 31) ∧
    (1 ≤ (rx_cal_loop (simExt (fun _ => 0) simPtr 0) (simRun 16) LMS7002M_chan_t.LMS_CHA
        5000000 ⟨0, Field.reg_0x0117_c_ctl_lpfl_rbb⟩ 0x0117 2047
        Field.reg_0x0117_c_ctl_lpfl_rbb 10).2.self._regs 0
        Field.reg_0x0116_r_ctl_lpf_rbb ∧
      (rx_cal_loop (simExt (fun _ => 0) simPtr 0) (simRun 16) LMS7002M_chan_t.LMS_CHA
        5000000 ⟨0, Field.reg_0x0117_c_ctl_lpfl_rbb⟩ 0x0117 2047
        Field.reg_0x0117_c_ctl_lpfl_rbb 10).2.self._regs 0
        Field.reg_0x0116_r_ctl_lpf_rbb ≤ 31) ∧
    (rValues ((rx_cal_loop (simExt (fun _ => 0) simPtr 0) (simRun 16) LMS7002M_chan_t.LMS_CHA
        5000000 ⟨0, Field.reg_0x0117_c_ctl_lpfl_rbb⟩ 0x0117 2047
        Field.reg_0x0117_c_ctl_lpfl_rbb 10).2.calls (simRun 16))).length ≤ 4 ∧
    ((setup_rx_cal_tone (simExt (fun _ => 0) simPtr 0)
        (LMS7002M_set_mac_ch (simExt (fun _ => 0) simPtr 0) (simRun 16)
          LMS7002M_chan_t.LMS_CHA) LMS7002M_chan_t.LMS_CHA 5000000 50000).1 ≠ 0 →
      outcomes ((rx_cal_loop (simExt (fun _ => 0) simPtr 0) (simRun 16) LMS7002M_chan_t.LMS_CHA
        5000000 ⟨0, Field.reg_0x0117_c_ctl_lpfl_rbb⟩ 0x0117 2047
        Field.reg_0x0117_c_ctl_lpfl_rbb 10).2.calls (simRun 16)) = [] ∧
      rValues ((rx_cal_loop (simExt (fun _ => 0) simPtr 0) (simRun 16) LMS7002M_chan_t.LMS_CHA
        5000000 ⟨0, Field.reg_0x0117_c_ctl_lpfl_rbb⟩ 0x0117 2047
        Field.reg_0x0117_c_ctl_lpfl_rbb 10).2.calls (simRun 16)) = []) ∧
    ((setup_rx_cal_tone (simExt (fun _ => 0) simPtr 0)
        (LMS7002M_set_mac_ch (simExt (fun _ => 0) simPtr 0) (simRun 16)
          LMS7002M_chan_t.LMS_CHA) LMS7002M_chan_t.LMS_CHA 5000000 50000).1 = 0 →
      (outcomes ((rx_cal_loop (simExt (fun _ => 0) simPtr 0) (simRun 16) LMS7002M_chan_t.LMS_CHA
        5000000 ⟨0, Field.reg_0x0117_c_ctl_lpfl_rbb⟩ 0x0117 2047
        Field.reg_0x0117_c_ctl_lpfl_rbb 10).2.calls (simRun 16))).length
        = (rValues ((rx_cal_loop (simExt (fun _ => 0) simPtr 0) (simRun 16) LMS7002M_chan_t.LMS_CHA
        5000000 ⟨0, Field.reg_0x0117_c_ctl_lpfl_rbb⟩ 0x0117 2047
        Field.reg_0x0117_c_ctl_lpfl_rbb 10).2.calls (simRun 16))).length + 1 ∧
      ((rx_cal_loop (simExt (fun _ => 0) simPtr 0) (simRun 16) LMS7002M_chan_t.LMS_CHA
        5000000 ⟨0, Field.reg_0x0117_c_ctl_lpfl_rbb⟩ 0x0117 2047
        Field.reg_0x0117_c_ctl_lpfl_rbb 10).1 ≠ 0 →
        (outcomes ((rx_cal_loop (simExt (fun _ => 0) simPtr 0) (simRun 16) LMS7002M_chan_t.LMS_CHA
        5000000 ⟨0, Field.reg_0x0117_c_ctl_lpfl_rbb⟩ 0x0117 2047
        Field.reg_0x0117_c_ctl_lpfl_rbb 10).2.calls (simRun 16))).length = 5 ∧
        (rValues ((rx_cal_loop (simExt (fun _ => 0) simPtr 0) (simRun 16) LMS7002M_chan_t.LMS_CHA
        5000000 ⟨0, Field.reg_0x0117_c_ctl_lpfl_rbb⟩ 0x0117 2047
        Field.reg_0x0117_c_ctl_lpfl_rbb 10).2.calls (simRun 16))).length = 4)) :=
  C22_reset_trim_stays_inside (simExt (fun _ => 0) simPtr 0) (simRun 16)
    LMS7002M_chan_t.LMS_CHA 5000000 ⟨0, Field.reg_0x0117_c_ctl_lpfl_rbb⟩ 0x0117 2047
    Field.reg_0x0117_c_ctl_lpfl_rbb 10 0 (simExt_selects _ _ _ LMS7002M_chan_t.LMS_CHA)
    (simExt_keeps _ _ _ _ _) (simExt_measureKeeps _ _ _ _ _) (by decide) rfl

/-! ## The dispatcher: the status of a session that reaches the band stage -/

/-- The stages of the dispatcher are its preparation followed, unless the
preparation ends in a `goto done`, by the TIA stage and the band stage. -/
theorem LMS7002M_rbb_set_filter_bw.stages_eq_calibrate (E : Ext σ) (s : Run σ)
    (channel : LMS7002M_chan_t) (bw : ℚ) (path : LMS7002M_path_t) :
    LMS7002M_rbb_set_filter_bw.stages E s channel bw path
      = match LMS7002M_rbb_set_filter_bw.prepare E s channel bw with
        | Except.error r => r
        | Except.ok p => LMS7002M_rbb_set_filter_bw.calibrate E p.1 channel bw path p.2 := by
  by_cases hbw : bw > 500000
  · simp only [LMS7002M_rbb_set_filter_bw.stages, LMS7002M_rbb_set_filter_bw.prepare, hbw,
      if_true]
    by_cases h1 : (cal_setup_cgen E s bw).1 ≠ 0
    · rw [if_pos h1, if_pos h1]
    · rw [if_neg h1, if_neg h1]
      by_cases h2 : (rx_cal_init E (cal_setup_cgen E s bw).2 channel).1 ≠ 0
      · rw [if_pos h2, if_pos h2]
      · rw [if_neg h2, if_neg h2]
        by_cases h3 : (setup_rx_cal_tone E (LMS7002M_rbb_set_filter_bw.bypass E
            (rx_cal_init E (cal_setup_cgen E s bw).2 channel).2) channel 400000 100000).1 ≠ 0
        · rw [if_pos h3, if_pos h3]
        · rw [if_neg h3, if_neg h3]
          rfl
  · simp only [LMS7002M_rbb_set_filter_bw.stages, LMS7002M_rbb_set_filter_bw.prepare, hbw,
      if_false]
    rfl

/-- On the low-band path, the status of the TIA stage and the band stage is
the status of `rx_cal_rbb_lpfl`, called in the state the TIA stage left. -/
theorem LMS7002M_rbb_set_filter_bw.calibrate_lbf (E : Ext σ) (s : Run σ)
    (channel : LMS7002M_chan_t) (bw : ℚ) (rssi_value_50k : Int) :
    (LMS7002M_rbb_set_filter_bw.calibrate E s channel bw LMS7002M_path_t.LMS7002M_RBB_LBF
        rssi_value_50k).1
      = (rx_cal_rbb_lpfl E
          (if (rx_cal_tia_rfe E s channel bw
            (ftoi (toDouble (rssi_value_50k * toDouble (126 / 100))))).1 ≠ 0 then
            LMS7_log (rx_cal_tia_rfe E s channel bw
              (ftoi (toDouble (rssi_value_50k * toDouble (126 / 100))))).2
              LMS7_log_level_t.LMS7_ERROR LogMsg.rx_cal_tia_rfe_failed
          else (rx_cal_tia_rfe E s channel bw
            (ftoi (toDouble (rssi_value_50k * toDouble (126 / 100))))).2)
          channel bw rssi_value_50k).1 := by
  simp only [LMS7002M_rbb_set_filter_bw.calibrate, if_true, reduceCtorEq, if_false]
  split_ifs <;> rfl

/-- On the high-band path, the status of the TIA stage and the band stage is
the status of `rx_cal_rbb_lpfh`, called in the state the TIA stage left. -/
theorem LMS7002M_rbb_set_filter_bw.calibrate_hbf (E : Ext σ) (s : Run σ)
    (channel : LMS7002M_chan_t) (bw : ℚ) (rssi_value_50k : Int) :
    (LMS7002M_rbb_set_filter_bw.calibrate E s channel bw LMS7002M_path_t.LMS7002M_RBB_HBF
        rssi_value_50k).1
      = (rx_cal_rbb_lpfh E
          (if (rx_cal_tia_rfe E s channel bw
            (ftoi (toDouble (rssi_value_50k * toDouble (126 / 100))))).1 ≠ 0 then
            LMS7_log (rx_cal_tia_rfe E s channel bw
              (ftoi (toDouble (rssi_value_50k * toDouble (126 / 100))))).2
              LMS7_log_level_t.LMS7_ERROR LogMsg.rx_cal_tia_rfe_failed
          else (rx_cal_tia_rfe E s channel bw
            (ftoi (toDouble (rssi_value_50k * toDouble (126 / 100))))).2)
          channel bw rssi_value_50k).1 := by
  simp only [LMS7002M_rbb_set_filter_bw.calibrate, if_true, reduceCtorEq, if_false]
  split_ifs <;> rfl

/-- Above 0.5 MHz, with a clock set-up and an oscillator tuning that succeed,
the preparation of the dispatcher reaches the TIA stage, in the state the gain
scan left and with the baseline the gain scan returned. -/
theorem LMS7002M_rbb_set_filter_bw.prepare_ok (E : Ext σ) (s : Run σ)
    (channel : LMS7002M_chan_t) (bw : ℚ) (hbw : 500000 < bw)
    (hc : ∀ d b, (E.cal_setup_cgen d b).1 = 0)
    (hl : ∀ d dir f1 f2, (E.set_lo_freq d dir f1 f2).1 = 0) :
    LMS7002M_rbb_set_filter_bw.prepare E s channel bw
      = Except.ok
          ((cal_gain_selection E (setup_rx_cal_tone E (LMS7002M_rbb_set_filter_bw.bypass E
              (rx_cal_init E (cal_setup_cgen E s bw).2 channel).2) channel 400000 100000).2
              channel 0x05000).2,
           (cal_gain_selection E (setup_rx_cal_tone E (LMS7002M_rbb_set_filter_bw.bypass E
              (rx_cal_init E (cal_setup_cgen E s bw).2 channel).2) channel 400000 100000).2
              channel 0x05000).1) := by
  have h1 : bw > 500000 := hbw
  simp only [LMS7002M_rbb_set_filter_bw.prepare, h1, if_true]
  have h0 : (cal_setup_cgen E s bw).1 = 0 := hc _ _
  rw [if_neg (not_not.mpr h0),
    if_neg (not_not.mpr (rx_cal_init_status E _ channel hl)),
    if_neg (not_not.mpr (setup_rx_cal_tone_status E _ channel _ _ hl))]

theorem simTierExt_selects (channel : LMS7002M_chan_t) :
    simTierExt.Selects channel (simSel channel) :=
  ⟨fun _ => rfl, fun _ _ => rfl, fun _ => rfl⟩

/-- On the chip `simTierExt`, the TIA calibrator called after the gain scan
reads the gain tier `0`. -/
theorem simTierExt_tier (t : Run Unit) (channel : LMS7002M_chan_t) (level : Int) :
    (LMS7002M_set_mac_ch simTierExt (cal_gain_selection simTierExt t channel level).2
      channel).get Field.reg_0x0113_g_tia_rfe = 0 := by
  simp [LMS7002M_set_mac_ch, cal_gain_selection, simTierExt, Run.get, LMS7002M_regs,
    LMS7002M_t.store]

theorem simTierExt_clocks (channel : LMS7002M_chan_t) :
    (simTierExt.set_mac_ch (simRun 0).self channel).cgen_fref ≠ 0 ∧
    (simTierExt.set_mac_ch (simRun 0).self channel).sxr_fref ≠ 0 ∧
    (simTierExt.set_mac_ch (simRun 0).self channel).sxt_fref ≠ 0 := by
  simp [simTierExt, simRun, simDev]

/-- On the chip `simTierExt`, whose readings cross the target between the codes
1500 and 1501 of `c_ctl_lpfl_rbb`, the low-band calibrator succeeds at 5 MHz
from every state. -/
theorem rx_cal_rbb_lpfl.lpfl_ok_tier (s : Run Unit) :
    (rx_cal_rbb_lpfl simTierExt s LMS7002M_chan_t.LMS_CHA 5000000 20480).1 = 0 := by
  have hd : ftoi (toDouble (((20480 : Int) : ℚ) * toDouble (7071 / 10000))) = 14481 :=
    target_20480
  obtain ⟨v1, -⟩ := rx_cal_rbb_lpfl.lpfl_seed_values simTierExt
    s LMS7002M_chan_t.LMS_CHA 5000000 0 (simTierExt_selects LMS7002M_chan_t.LMS_CHA)
  have hp : (rx_cal_rbb_lpfl.seed simTierExt s LMS7002M_chan_t.LMS_CHA 5000000).addr
      Field.reg_0x0117_c_ctl_lpfl_rbb = ⟨0, Field.reg_0x0117_c_ctl_lpfl_rbb⟩ := by
    show RegPtr.mk _ _ = _
    rw [v1]
  rw [rx_cal_rbb_lpfl.lpfl_eq_seed, if_neg (by norm_num), hp, hd]
  refine rx_cal_loop.loop_ok _ _ _ _ _ _ _ _ _ (fun _ _ _ _ => rfl) ?_
  intro s'
  have h := rx_cal_loop_inner.ok_of_crossing simTierExt
    s' LMS7002M_chan_t.LMS_CHA ⟨0, Field.reg_0x0117_c_ctl_lpfl_rbb⟩ 0x0117
    Field.reg_0x0117_c_ctl_lpfl_rbb 14481 9 1500 ⟨fun _ _ => rfl, fun _ _ => rfl⟩
    (by norm_num) (by norm_num)
    (by
      intro d ch
      show (if d.load ⟨0, Field.reg_0x0117_c_ctl_lpfl_rbb⟩ ≤ 1500 then (20000 : Int) else 0)
        < 14481 ↔ 1500 < d.load ⟨0, Field.reg_0x0117_c_ctl_lpfl_rbb⟩
      split_ifs <;> omega)
  norm_num at h
  exact h

/-- C23: whenever `LMS7002M_rbb_set_filter_bw` reaches the band stage (the
three reference clocks are set and the preparation ends in no `goto done`,
leaving the state `s'` and the baseline `rssi_value_50k`), the status it
returns is the status of the band calibrator alone: of `rx_cal_rbb_lpfl` when
the effective bandwidth is below 20 MHz and of `rx_cal_rbb_lpfh` otherwise,
each called in the state the TIA stage left.  The status of the TIA
calibrator is logged when it is a failure and then overwritten: a session
whose TIA calibrator failed and whose band calibrator succeeded returns `0`. -/
theorem C23_band_status_returned (E : Ext σ) (s : Run σ) (channel : LMS7002M_chan_t)
    (rfbw : ℚ) (bwactual : Option ℚ) (s' : Run σ) (rssi_value_50k : Int)
    (h1 : (E.set_mac_ch s.self channel).cgen_fref ≠ 0)
    (h2 : (E.set_mac_ch s.self channel).sxr_fref ≠ 0)
    (h3 : (E.set_mac_ch s.self channel).sxt_fref ≠ 0)
    (hp : LMS7002M_rbb_set_filter_bw.prepare E (LMS7002M_set_mac_ch E s channel) channel
      (LMS7002M_rbb_set_filter_bw.bw rfbw) = Except.ok (s', rssi_value_50k)) :
    (LMS7002M_rbb_set_filter_bw.bw rfbw < 20000000 →
      (LMS7002M_rbb_set_filter_bw E s channel rfbw bwactual).1
        = (rx_cal_rbb_lpfl E
            (if (rx_cal_tia_rfe E s' channel (LMS7002M_rbb_set_filter_bw.bw rfbw)
                (ftoi (toDouble (rssi_value_50k * toDouble (126 / 100))))).1 ≠ 0 then
              LMS7_log (rx_cal_tia_rfe E s' channel (LMS7002M_rbb_set_filter_bw.bw rfbw)
                (ftoi (toDouble (rssi_value_50k * toDouble (126 / 100))))).2
                LMS7_log_level_t.LMS7_ERROR LogMsg.rx_cal_tia_rfe_failed
            else (rx_cal_tia_rfe E s' channel (LMS7002M_rbb_set_filter_bw.bw rfbw)
              (ftoi (toDouble (rssi_value_50k * toDouble (126 / 100))))).2)
            channel (LMS7002M_rbb_set_filter_bw.bw rfbw) rssi_value_50k).1) ∧
    (¬ LMS7002M_rbb_set_filter_bw.bw rfbw < 20000000 →
      (LMS7002M_rbb_set_filter_bw E s channel rfbw bwactual).1
        = (rx_cal_rbb_lpfh E
            (if (rx_cal_tia_rfe E s' channel (LMS7002M_rbb_set_filter_bw.bw rfbw)
                (ftoi (toDouble (rssi_value_50k * toDouble (126 / 100))))).1 ≠ 0 then
              LMS7_log (rx_cal_tia_rfe E s' channel (LMS7002M_rbb_set_filter_bw.bw rfbw)
                (ftoi (toDouble (rssi_value_50k * toDouble (126 / 100))))).2
                LMS7_log_level_t.LMS7_ERROR LogMsg.rx_cal_tia_rfe_failed
            else (rx_cal_tia_rfe E s' channel (LMS7002M_rbb_set_filter_bw.bw rfbw)
              (ftoi (toDouble (rssi_value_50k * toDouble (126 / 100))))).2)
            channel (LMS7002M_rbb_set_filter_bw.bw rfbw) rssi_value_50k).1) ∧
    ((rx_cal_tia_rfe E s' channel (LMS7002M_rbb_set_filter_bw.bw rfbw)
        (ftoi (toDouble (rssi_value_50k * toDouble (126 / 100))))).1 ≠ 0 →
      (LMS7002M_rbb_set_filter_bw.bw rfbw < 20000000 →
        (rx_cal_rbb_lpfl E
          (LMS7_log (rx_cal_tia_rfe E s' channel (LMS7002M_rbb_set_filter_bw.bw rfbw)
            (ftoi (toDouble (rssi_value_50k * toDouble (126 / 100))))).2
            LMS7_log_level_t.LMS7_ERROR LogMsg.rx_cal_tia_rfe_failed)
          channel (LMS7002M_rbb_set_filter_bw.bw rfbw) rssi_value_50k).1 = 0 →
        (LMS7002M_rbb_set_filter_bw E s channel rfbw bwactual).1 = 0) ∧
      (¬ LMS7002M_rbb_set_filter_bw.bw rfbw < 20000000 →
        (rx_cal_rbb_lpfh E
          (LMS7_log (rx_cal_tia_rfe E s' channel (LMS7002M_rbb_set_filter_bw.bw rfbw)
            (ftoi (toDouble (rssi_value_50k * toDouble (126 / 100))))).2
            LMS7_log_level_t.LMS7_ERROR LogMsg.rx_cal_tia_rfe_failed)
          channel (LMS7002M_rbb_set_filter_bw.bw rfbw) rssi_value_50k).1 = 0 →
        (LMS7002M_rbb_set_filter_bw E s channel rfbw bwactual).1 = 0)) := by
  have hst : ∀ path, (LMS7002M_rbb_set_filter_bw.stages E (LMS7002M_set_mac_ch E s channel)
      channel (LMS7002M_rbb_set_filter_bw.bw rfbw) path).1
      = (LMS7002M_rbb_set_filter_bw.calibrate E s' channel (LMS7002M_rbb_set_filter_bw.bw rfbw)
          path rssi_value_50k).1 := by
    intro path
    rw [LMS7002M_rbb_set_filter_bw.stages_eq_calibrate, hp]
  have hlo : LMS7002M_rbb_set_filter_bw.bw rfbw < 20000000 →
      (LMS7002M_rbb_set_filter_bw E s channel rfbw bwactual).1
        = (LMS7002M_rbb_set_filter_bw.calibrate E s' channel
            (LMS7002M_rbb_set_filter_bw.bw rfbw) LMS7002M_path_t.LMS7002M_RBB_LBF
            rssi_value_50k).1 := by
    intro hb
    rw [LMS7002M_rbb_set_filter_bw.past_check _ _ _ _ _ h1 h2 h3,
      show ∀ (a : Int) (b : Run σ × Option ℚ), (a, b).1 = a from fun _ _ => rfl, if_pos hb,
      hst]
  have hhi : ¬ LMS7002M_rbb_set_filter_bw.bw rfbw < 20000000 →
      (LMS7002M_rbb_set_filter_bw E s channel rfbw bwactual).1
        = (LMS7002M_rbb_set_filter_bw.calibrate E s' channel
            (LMS7002M_rbb_set_filter_bw.bw rfbw) LMS7002M_path_t.LMS7002M_RBB_HBF
            rssi_value_50k).1 := by
    intro hb
    rw [LMS7002M_rbb_set_filter_bw.past_check _ _ _ _ _ h1 h2 h3,
      show ∀ (a : Int) (b : Run σ × Option ℚ), (a, b).1 = a from fun _ _ => rfl, if_neg hb,
      hst]
  refine ⟨fun hb => ?_, fun hb => ?_, fun ha => ⟨fun hb hok => ?_, fun hb hok => ?_⟩⟩
  · rw [hlo hb, LMS7002M_rbb_set_filter_bw.calibrate_lbf]
  · rw [hhi hb, LMS7002M_rbb_set_filter_bw.calibrate_hbf]
  · rw [hlo hb, LMS7002M_rbb_set_filter_bw.calibrate_lbf, if_pos ha]
    exact hok
  · rw [hhi hb, LMS7002M_rbb_set_filter_bw.calibrate_hbf, if_pos ha]
    exact hok

/-- C23 on the chip `simTierExt`, for a request of 10 MHz on channel A: the
preparation reaches the band stage, the TIA calibrator fails (the gain scan
left the unsupported gain tier `0`), the low-band calibrator succeeds, and the
session returns `0`. -/
theorem C23_band_status_returned_witness :
    ∃ s' rssi_value_50k,
      LMS7002M_rbb_set_filter_bw.prepare simTierExt
        (LMS7002M_set_mac_ch simTierExt (simRun 0) LMS7002M_chan_t.LMS_CHA)
        LMS7002M_chan_t.LMS_CHA (LMS7002M_rbb_set_filter_bw.bw 10000000)
        = Except.ok (s', rssi_value_50k) ∧
      (rx_cal_tia_rfe simTierExt s' LMS7002M_chan_t.LMS_CHA
        (LMS7002M_rbb_set_filter_bw.bw 10000000)
          (ftoi (toDouble (rssi_value_50k * toDouble (126 / 100))))).1
        = -1 ∧
      (rx_cal_rbb_lpfl simTierExt
        (LMS7_log (rx_cal_tia_rfe simTierExt s' LMS7002M_chan_t.LMS_CHA
          (LMS7002M_rbb_set_filter_bw.bw 10000000)
            (ftoi (toDouble (rssi_value_50k * toDouble (126 / 100))))).2
          LMS7_log_level_t.LMS7_ERROR LogMsg.rx_cal_tia_rfe_failed)
        LMS7002M_chan_t.LMS_CHA (LMS7002M_rbb_set_filter_bw.bw 10000000) rssi_value_50k).1
        = 0 ∧
      (LMS7002M_rbb_set_filter_bw simTierExt (simRun 0) LMS7002M_chan_t.LMS_CHA 10000000
        none).1 = 0 := by
  obtain ⟨c1, c2, c3⟩ := simTierExt_clocks LMS7002M_chan_t.LMS_CHA
  have hb : LMS7002M_rbb_set_filter_bw.bw 10000000 = 5000000 := by
    rw [bw_of_ge_one _ (by norm_num)]
    norm_num
  have hlt : LMS7002M_rbb_set_filter_bw.bw 10000000 < 20000000 := by
    rw [hb]
    norm_num
  have hp := LMS7002M_rbb_set_filter_bw.prepare_ok simTierExt
    (LMS7002M_set_mac_ch simTierExt (simRun 0) LMS7002M_chan_t.LMS_CHA)
    LMS7002M_chan_t.LMS_CHA 5000000 (by norm_num) (fun _ _ => rfl) (fun _ _ _ _ => rfl)
  rw [← hb] at hp
  have hg : ∀ t : Run Unit,
      (cal_gain_selection simTierExt t LMS7002M_chan_t.LMS_CHA 0x05000).1 = 20480 :=
    fun _ => rfl
  rw [hg] at hp
  have ha := rx_cal_tia_rfe.tia_reject simTierExt _ LMS7002M_chan_t.LMS_CHA
    (LMS7002M_rbb_set_filter_bw.bw 10000000)
      (ftoi (toDouble (((20480 : Int) : ℚ) * toDouble (126 / 100))))
    (by rw [simTierExt_tier (setup_rx_cal_tone simTierExt
          (LMS7002M_rbb_set_filter_bw.bypass simTierExt (rx_cal_init simTierExt
            (cal_setup_cgen simTierExt (LMS7002M_set_mac_ch simTierExt (simRun 0)
              LMS7002M_chan_t.LMS_CHA) (LMS7002M_rbb_set_filter_bw.bw 10000000)).2
            LMS7002M_chan_t.LMS_CHA).2) LMS7002M_chan_t.LMS_CHA 400000 100000).2
          LMS7002M_chan_t.LMS_CHA 0x05000]
        decide)
  have ha1 := congrArg Prod.fst ha
  have hok : ∀ t : Run Unit, (rx_cal_rbb_lpfl simTierExt t LMS7002M_chan_t.LMS_CHA
      (LMS7002M_rbb_set_filter_bw.bw 10000000) 20480).1 = 0 := by
    intro t
    rw [hb]
    exact rx_cal_rbb_lpfl.lpfl_ok_tier t
  refine ⟨_, _, hp, ha1, hok _, ?_⟩
  exact ((C23_band_status_returned simTierExt (simRun 0) LMS7002M_chan_t.LMS_CHA 10000000
    none _ _ c1 c2 c3 hp).2.2 (by rw [ha1]; decide)).1 hlt (hok _)

/-! ## The search engine at `reg_max = INT_MAX` -/

/-- C2 as stated fails at `reg_max = 2 ^ 31 - 1`, the largest `int`, which is
`≥ 0`: the `int` sum `reg_max + 1` of line 64 wraps to `-2 ^ 31` and the
initial range is `-1073741824`; the `do ... while` entered with that range
(lines 67 to 94) hands the candidate `-1073741824`, which is not in
`[0, reg_max]`, to the bus write. -/
theorem C2_int_max_counterexample :
    (0 : Int) ≤ 2 ^ 31 - 1 ∧
    Int.tdiv (int32 (2 ^ 31 - 1 + 1)) 2 = -1073741824 ∧
    (∃ d ∈ writes ((rx_cal_loop_inner.do_while (simExt (fun c => c) simPtr 0)
        LMS7002M_chan_t.LMS_CHA simPtr 0x0112 (2 ^ 31 - 1) 3
        { s := (simRun 9).store simPtr (Int.tdiv (int32 (2 ^ 31 - 1 + 1)) 2), rssi_value := 0,
          best_lo := -1, best_hi := -1,
          range := Int.tdiv (int32 (2 ^ 31 - 1 + 1)) 2 }).s.calls (simRun 9)),
      d.load simPtr = -1073741824) ∧
    ¬ (0 : Int) ≤ -1073741824 := by
  have e0 : Int.tdiv (int32 (2 ^ 31 - 1 + 1)) 2 = -1073741824 := by decide
  refine ⟨by decide, e0, ?_, by decide⟩
  rw [e0, rx_cal_loop_inner.do_while_next _ _ _ _ _ _ _ (by decide)]
  obtain ⟨l, hl⟩ := rx_cal_loop_inner.do_while_trace (simExt (fun c => c) simPtr 0)
    LMS7002M_chan_t.LMS_CHA simPtr 0x0112 (2 ^ 31 - 1) 3
    (rx_cal_loop_inner.body (simExt (fun c => c) simPtr 0) LMS7002M_chan_t.LMS_CHA simPtr
      0x0112 (2 ^ 31 - 1) 3
      { s := (simRun 9).store simPtr (-1073741824), rssi_value := 0, best_lo := -1,
        best_hi := -1, range := -1073741824 })
  rw [rx_cal_loop_inner.body_trace, Run.store_trace, List.append_assoc] at hl
  rw [Run.calls_of_eq hl, writes_append]
  refine ⟨((simRun 9).store simPtr (-1073741824)).self, ?_, ?_⟩
  · apply List.mem_append_left
    simp [writes, Event.written]
  · exact Run.load_store (simRun 9) simPtr (-1073741824)


/-! ## A session whose readings reach the target exactly -/

/-- On the simulated chip whose gain scan returns `10000` and whose readings
are `7070` up to the code 1100 of `c_ctl_lpfl_rbb` of channel A and `0` above
it, the low-band calibrator succeeds at 5 MHz from every state: the reading
`7070` reaches the target `(int)(10000*0.7071) = 7070`. -/
theorem rx_cal_rbb_lpfl.lpfl_ok_at_target (s : Run Unit) :
    (rx_cal_rbb_lpfl
      (simExt (fun c => if c ≤ 1100 then 7070 else 0) ⟨0, Field.reg_0x0117_c_ctl_lpfl_rbb⟩
        10000) s LMS7002M_chan_t.LMS_CHA 5000000 10000).1 = 0 := by
  obtain ⟨v1, -⟩ := rx_cal_rbb_lpfl.lpfl_seed_values
    (simExt (fun c => if c ≤ 1100 then 7070 else 0) ⟨0, Field.reg_0x0117_c_ctl_lpfl_rbb⟩ 10000)
    s LMS7002M_chan_t.LMS_CHA 5000000 0 (simExt_selects _ _ _ LMS7002M_chan_t.LMS_CHA)
  have hp : (rx_cal_rbb_lpfl.seed
      (simExt (fun c => if c ≤ 1100 then 7070 else 0) ⟨0, Field.reg_0x0117_c_ctl_lpfl_rbb⟩
        10000) s LMS7002M_chan_t.LMS_CHA 5000000).addr Field.reg_0x0117_c_ctl_lpfl_rbb
      = ⟨0, Field.reg_0x0117_c_ctl_lpfl_rbb⟩ := by
    show RegPtr.mk _ _ = _
    rw [v1]
  rw [rx_cal_rbb_lpfl.target_at_10000 _ _ _ _ (by norm_num), hp]
  refine rx_cal_loop.loop_ok _ _ _ _ _ _ _ _ _ (fun _ _ _ _ => rfl) ?_
  intro s'
  have h := rx_cal_loop_inner.ok_of_crossing
    (simExt (fun c => if c ≤ 1100 then 7070 else 0) ⟨0, Field.reg_0x0117_c_ctl_lpfl_rbb⟩ 10000)
    s' LMS7002M_chan_t.LMS_CHA ⟨0, Field.reg_0x0117_c_ctl_lpfl_rbb⟩ 0x0117
    Field.reg_0x0117_c_ctl_lpfl_rbb 7070 9 1100 ⟨fun _ _ => rfl, fun _ _ => rfl⟩
    (by norm_num) (by norm_num)
    (by
      intro d ch
      show (if d.load ⟨0, Field.reg_0x0117_c_ctl_lpfl_rbb⟩ ≤ 1100 then (7070 : Int) else 0)
        < 7070 ↔ 1100 < d.load ⟨0, Field.reg_0x0117_c_ctl_lpfl_rbb⟩
      split_ifs <;> omega)
  norm_num at h
  exact h

/-- A session whose readings reach the target exactly succeeds: on the chip of
`lpfl_ok_at_target`, where no reading is above `7070` and the gain scan returns
`10000`, a request of 10 MHz returns the status `0`. -/
theorem LMS7002M_rbb_set_filter_bw.ok_at_target :
    (∀ d ch, ((simExt (fun c => if c ≤ 1100 then 7070 else 0)
      ⟨0, Field.reg_0x0117_c_ctl_lpfl_rbb⟩ 10000).cal_read_rssi d ch).1 ≤ 7070) ∧
    (LMS7002M_rbb_set_filter_bw
      (simExt (fun c => if c ≤ 1100 then 7070 else 0) ⟨0, Field.reg_0x0117_c_ctl_lpfl_rbb⟩
        10000) (simRun 0) LMS7002M_chan_t.LMS_CHA 10000000 none).1 = 0 := by
  obtain ⟨c1, c2, c3⟩ := simRun_clocks (fun c => if c ≤ 1100 then 7070 else 0)
    ⟨0, Field.reg_0x0117_c_ctl_lpfl_rbb⟩ 10000 0 LMS7002M_chan_t.LMS_CHA
  have hb : LMS7002M_rbb_set_filter_bw.bw 10000000 = 5000000 := by
    rw [bw_of_ge_one _ (by norm_num)]
    norm_num
  refine ⟨?_, ?_⟩
  · intro d ch
    show (if d.load ⟨0, Field.reg_0x0117_c_ctl_lpfl_rbb⟩ ≤ 1100 then (7070 : Int) else 0)
      ≤ 7070
    split_ifs <;> omega
  · rw [LMS7002M_rbb_set_filter_bw.past_check _ _ _ _ _ c1 c2 c3,
      show ∀ (a : Int) (b : Run Unit × Option ℚ), (a, b).1 = a from fun _ _ => rfl, hb,
      if_pos (by norm_num : (5000000 : ℚ) < 20000000)]
    exact LMS7002M_rbb_set_filter_bw.stages_lbf_ok _ _ LMS7002M_chan_t.LMS_CHA 5000000
      (by norm_num) (fun _ _ => rfl) (fun _ _ _ _ => rfl)
      (fun s' _ _ => rx_cal_rbb_lpfl.lpfl_ok_at_target s')

end LMS7002M
